import Mathlib

/-!
Rondo: a shallow embedding of the Game Boy core.

The definitions below follow `include/gb.h`, `src/gb.c`, `src/ldc.c` and
`src/cpu.c` function by function.  Conventions of the embedding:

* `u8`, `u16`, `u32` values are natural numbers, `s16`/`s8` values are
  integers; every C conversion that can wrap is written out (`u8`, `u16`,
  `s8`, `s16` below, or an explicit `%`).
* A memory region is a function from index to byte; a store through a pointer
  is `store`.
* `exit(1)` is the result `none`; every function that can reach an `exit`
  returns an `Option`.
-/

namespace Rondo

/-! ## Machine integers -/

/-- Conversion of a C `int` to `u8`. -/
def u8 (i : Int) : Nat := (i % 256).toNat

/-- Conversion of a C `int` to `u16`. -/
def u16 (i : Int) : Nat := (i % 65536).toNat

/-- The cast `(s8)e` of a `u8` value. -/
def s8 (e : Nat) : Int := if e < 128 then (e : Int) else (e : Int) - 256

/-- Conversion of a C `int` to `s16`. -/
def s16 (i : Int) : Int := (i + 32768) % 65536 - 32768

/-- The assignment `p[i] = v` on a memory region. -/
def store (m : Nat → Nat) (i v : Nat) : Nat → Nat :=
  fun j => if j = i then v else m j

/-! ## `gb.h`: the machine state -/

inductive GBType where
  | DMG
  | SGB
  | CGB
  deriving DecidableEq, Repr

def SCREEN_WIDTH : Nat := 160

def SCREEN_HEIGHT : Nat := 144

/-- The `GameBoy` struct.  Pointers are modelled by the region they point to;
`rom_lo` and `rom_hi` may be `NULL` (`none`), as `read` tests them.  `fbuf` is
the pixel block of the caller: the code never tests the pointer, `make_gb`
leaves it `NULL` and the caller assigns it before the first `run_frame` (see
`set_fbuf`), so the field stands for the block after that assignment.  `wram_lo`
is the whole `0x2000`-byte work-RAM allocation and `wram_hi` is the pointer
`wram_lo + 0x1000` into it (see `wram_hi`).  The register pairs `bc`, `de`,
`hl` of the `REG_DEF` unions are the accessors `GameBoy.bc` etc. below. -/
structure GameBoy where
  type : GBType
  fbuf : Nat → Nat
  end_frame : Bool
  rom_lo : Option (Nat → Nat)
  rom_hi : Option (Nat → Nat)
  vram : Nat → Nat
  cartram : Option (Nat → Nat)
  wram_lo : Nat → Nat
  oam : Nat → Nat
  hram : Nat → Nat
  a : Nat
  f_z : Bool
  f_n : Bool
  f_h : Bool
  f_c : Bool
  pc : Nat
  sp : Nat
  b : Nat
  c : Nat
  d : Nat
  e : Nat
  h : Nat
  l : Nat
  ime : Bool
  sb : Nat
  sc : Nat
  div : Nat
  tima : Nat
  tma : Nat
  tac_en : Bool
  tac_clk : Nat
  if_ : Nat
  lcd_en : Bool
  win_map : Bool
  win_en : Bool
  tile_sel : Bool
  bg_map : Bool
  obj_size : Bool
  obj_en : Bool
  bg_en : Bool
  stat : Nat
  scy : Nat
  scx : Nat
  ly : Nat
  lyc : Nat
  dma : Nat
  bgp : Nat → Nat
  obp0 : Nat → Nat
  obp1 : Nat → Nat
  wy : Nat
  wx : Nat
  ie : Nat
  cycles : Nat
  dots : Int

namespace GameBoy

/-- The `u16 bc` view of the `REG_DEF(b, c)` union. -/
def bc (gb : GameBoy) : Nat := gb.b * 256 + gb.c

/-- The `u16 de` view of the `REG_DEF(d, e)` union. -/
def de (gb : GameBoy) : Nat := gb.d * 256 + gb.e

/-- The `u16 hl` view of the `REG_DEF(h, l)` union. -/
def hl (gb : GameBoy) : Nat := gb.h * 256 + gb.l

/-- Assignment to the `u16 bc` view. -/
def set_bc (gb : GameBoy) (v : Nat) : GameBoy :=
  { gb with b := v / 256 % 256, c := v % 256 }

/-- Assignment to the `u16 de` view. -/
def set_de (gb : GameBoy) (v : Nat) : GameBoy :=
  { gb with d := v / 256 % 256, e := v % 256 }

/-- Assignment to the `u16 hl` view. -/
def set_hl (gb : GameBoy) (v : Nat) : GameBoy :=
  { gb with h := v / 256 % 256, l := v % 256 }

end GameBoy

/-- Offset of the pointer `wram_lo` inside the work-RAM allocation. -/
def wram_lo_off : Nat := 0

/-- Offset of the pointer `wram_hi = wram_lo + 0x1000` (set in `make_gb`). -/
def wram_hi_off : Nat := 0x1000

/-! ## `ldc.c`: the LCD -/

/-- Embeds `get_tile_pixel` of `ldc.c`. -/
def get_tile_pixel (gb : GameBoy) (tile_id x y : Nat) : Nat :=
  let lsb := gb.vram (16 * tile_id + 2 * y)
  let msb := gb.vram (16 * tile_id + 2 * y + 1)
  let lsb := (lsb >>> (7 - x)) &&& 1
  let msb := (msb >>> (7 - x)) &&& 1
  ((msb <<< 1) + lsb) % 256

/-- Embeds `get_bg_tile` of `ldc.c`; the tile map is `vram + 0x1C00` or
`vram + 0x1800`. -/
def get_bg_tile (gb : GameBoy) (x y : Nat) (is_win : Bool) : Nat :=
  let is_alt_map := if is_win then gb.win_map else gb.bg_map
  let tile_map := if is_alt_map then 0x1C00 else 0x1800
  gb.vram (tile_map + (y * 32 + x))

/-- Embeds `render_pixel` of `ldc.c`. -/
def render_pixel (gb : GameBoy) (x y : Nat) : GameBoy :=
  let tile_id := get_bg_tile gb (x / 8) (y / 8) false
  let tile_id :=
    if !gb.tile_sel && decide (tile_id < 0x80) then (tile_id + 0x100) % 65536 else tile_id
  let color := get_tile_pixel gb tile_id (x % 8) (y % 8)
  { gb with fbuf := store gb.fbuf (x + SCREEN_WIDTH * y) color }

/-- Embeds `lcd_cycle` of `ldc.c`: one dot. -/
def lcd_cycle (gb : GameBoy) : GameBoy :=
  let gb : GameBoy := { gb with dots := s16 (gb.dots + 1) }
  let gb : GameBoy :=
    if gb.dots ≥ 376 then
      let gb : GameBoy := { gb with dots := -80, ly := (gb.ly + 1) % 256 }
      let gb : GameBoy := if gb.ly ≥ 154 then { gb with ly := 0 } else gb
      if gb.ly = SCREEN_HEIGHT then
        { gb with if_ := gb.if_ ||| (1 <<< 0), end_frame := true }
      else gb
    else gb
  if gb.ly < SCREEN_HEIGHT ∧ gb.dots < (SCREEN_WIDTH : Int) ∧ gb.dots ≥ 0 then
    render_pixel gb gb.dots.toNat gb.ly
  else gb

/-! ## `gb.c`: the bus -/

/-- Embeds `io_read` of `gb.c`; the `default:` branch exits. -/
def io_read (gb : GameBoy) (addr : Nat) : Option Nat :=
  let addr := addr &&& 0x7F
  if 0x10 ≤ addr ∧ addr ≤ 0x3f then some 0x00
  else if addr = 0x00 then some 0xFF
  else if addr = 0x01 then some gb.sb
  else if addr = 0x02 then some gb.sc
  else if addr = 0x04 then some (gb.div >>> 8)
  else if addr = 0x05 then some gb.tima
  else if addr = 0x06 then some gb.tma
  else if addr = 0x07 then some ((gb.tac_en.toNat <<< 2) ||| gb.tac_clk ||| 0xF8)
  else if addr = 0x0F then some gb.if_
  else if addr = 0x40 then
    some ((gb.lcd_en.toNat <<< 7) ||| (gb.win_map.toNat <<< 6) ||| (gb.win_en.toNat <<< 5) |||
      (gb.tile_sel.toNat <<< 4) ||| (gb.bg_map.toNat <<< 3) ||| (gb.obj_size.toNat <<< 2) |||
      (gb.obj_en.toNat <<< 1) ||| (gb.bg_en.toNat <<< 0))
  else if addr = 0x41 then some gb.stat
  else if addr = 0x42 then some gb.scy
  else if addr = 0x43 then some gb.scx
  else if addr = 0x44 then some gb.ly
  else if addr = 0x45 then some gb.lyc
  else if addr = 0x46 then some gb.dma
  else if addr = 0x47 then
    some (((gb.bgp 0 <<< 0) ||| (gb.bgp 1 <<< 2) ||| (gb.bgp 2 <<< 4) |||
      (gb.bgp 3 <<< 6)) % 256)
  else if addr = 0x48 then
    some (((gb.obp0 0 <<< 0) ||| (gb.obp0 1 <<< 2) ||| (gb.obp0 2 <<< 4) |||
      (gb.obp0 3 <<< 6)) % 256)
  else if addr = 0x49 then
    some (((gb.obp1 0 <<< 0) ||| (gb.obp1 1 <<< 2) ||| (gb.obp1 2 <<< 4) |||
      (gb.obp1 3 <<< 6)) % 256)
  else if addr = 0x4A then some gb.wy
  else if addr = 0x4B then some gb.wx
  else none

/-- Embeds `read` of `gb.c`. -/
def read (gb : GameBoy) (addr : Nat) : Option Nat :=
  if addr < 0x8000 then
    let ptr := if addr &&& 0x4000 ≠ 0 then gb.rom_hi else gb.rom_lo
    match ptr with
    | some p => some (p (addr &&& 0x3FFF))
    | none => some 0xFF
  else if addr < 0xA000 then
    some (gb.vram (addr % 0x2000))
  else if addr < 0xC000 then
    some 0xFF
  else if addr < 0xFE00 then
    let ptr := if addr &&& 0x1000 ≠ 0 then wram_hi_off else wram_lo_off
    some (gb.wram_lo (ptr + (addr &&& 0x0FFF)))
  else if addr < 0xFEA0 then
    some (gb.oam (addr &&& 0xFF))
  else if addr < 0xFF00 then
    some 0xFF
  else if addr < 0xFF80 then
    io_read gb addr
  else if addr < 0xFFFF then
    some (gb.hram (addr &&& 0x7F))
  else
    some gb.ie

/-- Embeds `io_write` of `gb.c`; the `default:` branch exits. -/
def io_write (gb : GameBoy) (addr data : Nat) : Option GameBoy :=
  let addr := addr &&& 0x7F
  if 0x10 ≤ addr ∧ addr ≤ 0x3f then some gb
  else if addr = 0x00 then some gb
  else if addr = 0x01 then some { gb with sb := data }
  else if addr = 0x02 then some { gb with sc := data }
  else if addr = 0x04 then some { gb with div := 0 }
  else if addr = 0x05 then some { gb with tima := data }
  else if addr = 0x06 then some { gb with tma := data }
  else if addr = 0x07 then
    some { gb with tac_en := decide (data &&& (1 <<< 2) ≠ 0), tac_clk := data &&& 0x3 }
  else if addr = 0x0F then some { gb with if_ := data &&& 0x1F }
  else if addr = 0x40 then
    some { gb with
      lcd_en := decide (data &&& (1 <<< 7) ≠ 0),
      win_map := decide (data &&& (1 <<< 6) ≠ 0),
      win_en := decide (data &&& (1 <<< 5) ≠ 0),
      tile_sel := decide (data &&& (1 <<< 4) ≠ 0),
      bg_map := decide (data &&& (1 <<< 3) ≠ 0),
      obj_size := decide (data &&& (1 <<< 2) ≠ 0),
      obj_en := decide (data &&& (1 <<< 1) ≠ 0),
      bg_en := decide (data &&& (1 <<< 0) ≠ 0) }
  else if addr = 0x41 then some { gb with stat := data }
  else if addr = 0x42 then some { gb with scy := data }
  else if addr = 0x43 then some { gb with scx := data }
  else if addr = 0x44 then some gb
  else if addr = 0x45 then some { gb with lyc := data }
  else if addr = 0x46 then some { gb with dma := data }
  else if addr = 0x47 then
    some { gb with
      bgp := store (store (store (store gb.bgp 0 ((data >>> 0) &&& 0x3)) 1 ((data >>> 2) &&& 0x3))
          2 ((data >>> 4) &&& 0x3)) 3 ((data >>> 6) &&& 0x3) }
  else if addr = 0x48 then
    some { gb with
      obp0 := store (store (store (store gb.obp0 0 ((data >>> 0) &&& 0x3)) 1 ((data >>> 2) &&& 0x3))
          2 ((data >>> 4) &&& 0x3)) 3 ((data >>> 6) &&& 0x3) }
  else if addr = 0x49 then
    some { gb with
      obp1 := store (store (store (store gb.obp1 0 ((data >>> 0) &&& 0x3)) 1 ((data >>> 2) &&& 0x3))
          2 ((data >>> 4) &&& 0x3)) 3 ((data >>> 6) &&& 0x3) }
  else if addr = 0x4A then some { gb with wy := data }
  else if addr = 0x4B then some { gb with wx := data }
  else if addr = 0x7F then some gb
  else none

/-- Embeds `write` of `gb.c`. -/
def write (gb : GameBoy) (addr data : Nat) : Option GameBoy :=
  if addr < 0x8000 then
    some gb
  else if addr < 0xA000 then
    some { gb with vram := store gb.vram (addr % 0x2000) data }
  else if addr < 0xC000 then
    some gb
  else if addr < 0xFE00 then
    let ptr := if addr &&& 0x1000 ≠ 0 then wram_hi_off else wram_lo_off
    some { gb with wram_lo := store gb.wram_lo (ptr + (addr &&& 0x0FFF)) data }
  else if addr < 0xFEA0 then
    some { gb with oam := store gb.oam (addr &&& 0xFF) data }
  else if addr < 0xFF00 then
    some gb
  else if addr < 0xFF80 then
    io_write gb addr data
  else if addr < 0xFFFF then
    some { gb with hram := store gb.hram (addr &&& 0x7F) data }
  else
    some { gb with ie := data &&& 0x1F }

/-- Embeds `cycle` of `gb.c`: one tick, four dots when the LCD is on. -/
def cycle (gb : GameBoy) : GameBoy :=
  let gb : GameBoy := { gb with cycles := (gb.cycles + 2) % 4294967296 }
  if gb.lcd_en then lcd_cycle (lcd_cycle (lcd_cycle (lcd_cycle gb))) else gb

/-! ## `cpu.c`: bus accesses that tick -/

/-- Embeds `read_cycle` of `cpu.c`. -/
def read_cycle (gb : GameBoy) (addr : Nat) : Option (Nat × GameBoy) :=
  match read gb addr with
  | none => none
  | some data => some (data, cycle gb)

/-- Embeds `read_imm_cycle` of `cpu.c`: `read_cycle(gb, gb->pc++)`. -/
def read_imm_cycle (gb : GameBoy) : Option (Nat × GameBoy) :=
  read_cycle { gb with pc := (gb.pc + 1) % 65536 } gb.pc

/-- Embeds `read_cycle16` of `cpu.c`. -/
def read_cycle16 (gb : GameBoy) (addr : Nat) : Option (Nat × GameBoy) :=
  match read_cycle gb addr with
  | none => none
  | some (lo, gb) =>
    match read_cycle gb ((addr + 1) % 65536) with
    | none => none
    | some (hi, gb) => some (((hi <<< 8) + lo) % 65536, gb)

/-- Embeds `read_imm_cycle16` of `cpu.c`. -/
def read_imm_cycle16 (gb : GameBoy) : Option (Nat × GameBoy) :=
  match read_imm_cycle gb with
  | none => none
  | some (lo, gb) =>
    match read_imm_cycle gb with
    | none => none
    | some (hi, gb) => some (((hi <<< 8) + lo) % 65536, gb)

/-- Embeds `write_cycle` of `cpu.c`. -/
def write_cycle (gb : GameBoy) (addr data : Nat) : Option GameBoy :=
  match write gb addr data with
  | none => none
  | some gb => some (cycle gb)

/-- Embeds `write_cycle16` of `cpu.c`. -/
def write_cycle16 (gb : GameBoy) (addr data : Nat) : Option GameBoy :=
  match write_cycle gb addr (data &&& 0xFF) with
  | none => none
  | some gb => write_cycle gb ((addr + 1) % 65536) ((data >>> 8) % 256)

/-- Embeds `push_cycle16` of `cpu.c`: one tick, then the high byte at `--sp`,
then the low byte at `--sp`. -/
def push_cycle16 (gb : GameBoy) (data : Nat) : Option GameBoy :=
  let gb := cycle gb
  let gb : GameBoy := { gb with sp := u16 ((gb.sp : Int) - 1) }
  match write_cycle gb gb.sp ((data >>> 8) % 256) with
  | none => none
  | some gb =>
    let gb : GameBoy := { gb with sp := u16 ((gb.sp : Int) - 1) }
    write_cycle gb gb.sp (data &&& 0xFF)

/-- Embeds `pop_cycle16` of `cpu.c`: low byte at `sp++`, then high byte at `sp++`. -/
def pop_cycle16 (gb : GameBoy) : Option (Nat × GameBoy) :=
  match read_cycle { gb with sp := (gb.sp + 1) % 65536 } gb.sp with
  | none => none
  | some (lo, gb) =>
    match read_cycle { gb with sp := (gb.sp + 1) % 65536 } gb.sp with
    | none => none
    | some (hi, gb) => some (((hi <<< 8) + lo) % 65536, gb)

/-- Embeds `get_af` of `cpu.c`. -/
def get_af (gb : GameBoy) : Nat :=
  ((gb.a <<< 8) + (gb.f_z.toNat <<< 7) + (gb.f_n.toNat <<< 6) + (gb.f_h.toNat <<< 5) +
    (gb.f_c.toNat <<< 4)) % 65536

/-- Embeds `set_af` of `cpu.c`. -/
def set_af (gb : GameBoy) (af : Nat) : GameBoy :=
  { gb with
    a := (af >>> 8) % 256,
    f_z := decide (af &&& (1 <<< 7) ≠ 0),
    f_n := decide (af &&& (1 <<< 6) ≠ 0),
    f_h := decide (af &&& (1 <<< 5) ≠ 0),
    f_c := decide (af &&& (1 <<< 4) ≠ 0) }

/-! ## `cpu.c`: register and condition selectors of the opcode families -/

/-- The registers of `DEF_ALL_REG`. -/
inductive Reg8 where
  | a | b | c | d | e | h | l
  deriving DecidableEq, Repr

/-- The register pairs of `DEF_ALL_REG16`, and `sp`. -/
inductive Reg16 where
  | bc | de | hl | sp
  deriving DecidableEq, Repr

/-- The conditions of `DEF_ALL_COND`. -/
inductive Cond where
  | z | nz | c | nc
  deriving DecidableEq, Repr

/-- The value `gb->R`. -/
def GameBoy.get8 (gb : GameBoy) : Reg8 → Nat
  | .a => gb.a
  | .b => gb.b
  | .c => gb.c
  | .d => gb.d
  | .e => gb.e
  | .h => gb.h
  | .l => gb.l

/-- The assignment `gb->R = v`. -/
def GameBoy.set8 (gb : GameBoy) (r : Reg8) (v : Nat) : GameBoy :=
  match r with
  | .a => { gb with a := v }
  | .b => { gb with b := v }
  | .c => { gb with c := v }
  | .d => { gb with d := v }
  | .e => { gb with e := v }
  | .h => { gb with h := v }
  | .l => { gb with l := v }

/-- The value `gb->RR`. -/
def GameBoy.get16 (gb : GameBoy) : Reg16 → Nat
  | .bc => gb.bc
  | .de => gb.de
  | .hl => gb.hl
  | .sp => gb.sp

/-- The assignment `gb->RR = v`. -/
def GameBoy.set16 (gb : GameBoy) (rr : Reg16) (v : Nat) : GameBoy :=
  match rr with
  | .bc => gb.set_bc v
  | .de => gb.set_de v
  | .hl => gb.set_hl v
  | .sp => { gb with sp := v }

/-- The `COND` expression of `DEF_ALL_COND`. -/
def Cond.holds (gb : GameBoy) : Cond → Bool
  | .z => gb.f_z
  | .nz => !gb.f_z
  | .c => gb.f_c
  | .nc => !gb.f_c

/-- The C expression `x & ~(1 << B)` stored back into a `u8`. -/
def clear_bit (x B : Nat) : Nat := x &&& (0xFF ^^^ (1 <<< B))

/-! ## `cpu.c`: loads -/

/-- Embeds `LD r,r'`: `gb->R1 = gb->R2`. -/
def LD_R_R (r1 r2 : Reg8) (gb : GameBoy) : Option GameBoy :=
  some (gb.set8 r1 (gb.get8 r2))

/-- Embeds `LD r,n`. -/
def LD_R_N (r : Reg8) (gb : GameBoy) : Option GameBoy :=
  match read_imm_cycle gb with
  | none => none
  | some (n, gb) => some (gb.set8 r n)

/-- Embeds `LD r,[HL]`. -/
def LD_R_HL (r : Reg8) (gb : GameBoy) : Option GameBoy :=
  match read_cycle gb gb.hl with
  | none => none
  | some (data, gb) => some (gb.set8 r data)

/-- Embeds `LD [HL],r`. -/
def LD_HL_R (r : Reg8) (gb : GameBoy) : Option GameBoy :=
  write_cycle gb gb.hl (gb.get8 r)

/-- Embeds `LD [HL],n`. -/
def ld_hl_n (gb : GameBoy) : Option GameBoy :=
  match read_imm_cycle gb with
  | none => none
  | some (n, gb) => write_cycle gb gb.hl n

/-- Embeds `LD A,[BC]`. -/
def ld_a_bc (gb : GameBoy) : Option GameBoy :=
  match read_cycle gb gb.bc with
  | none => none
  | some (data, gb) => some { gb with a := data }

/-- Embeds `LD A,[DE]`. -/
def ld_a_de (gb : GameBoy) : Option GameBoy :=
  match read_cycle gb gb.de with
  | none => none
  | some (data, gb) => some { gb with a := data }

/-- Embeds `LD [BC],A`. -/
def ld_bc_a (gb : GameBoy) : Option GameBoy := write_cycle gb gb.bc gb.a

/-- Embeds `LD [DE],A`. -/
def ld_de_a (gb : GameBoy) : Option GameBoy := write_cycle gb gb.de gb.a

/-- Embeds `LD A,[nn]`. -/
def ld_a_nn (gb : GameBoy) : Option GameBoy :=
  match read_imm_cycle16 gb with
  | none => none
  | some (nn, gb) =>
    match read_cycle gb nn with
    | none => none
    | some (data, gb) => some { gb with a := data }

/-- Embeds `LD [nn],A`. -/
def ld_nn_a (gb : GameBoy) : Option GameBoy :=
  match read_imm_cycle16 gb with
  | none => none
  | some (nn, gb) => write_cycle gb nn gb.a

/-- Embeds `LDH A,[C]`. -/
def ldh_a_c (gb : GameBoy) : Option GameBoy :=
  match read_cycle gb ((0xFF00 + gb.c) % 65536) with
  | none => none
  | some (data, gb) => some { gb with a := data }

/-- Embeds `LDH [C],A`. -/
def ldh_c_a (gb : GameBoy) : Option GameBoy :=
  write_cycle gb ((0xFF00 + gb.c) % 65536) gb.a

/-- Embeds `LDH A,[n]`. -/
def ldh_a_n (gb : GameBoy) : Option GameBoy :=
  match read_imm_cycle gb with
  | none => none
  | some (n, gb) =>
    match read_cycle gb ((0xFF00 + n) % 65536) with
    | none => none
    | some (data, gb) => some { gb with a := data }

/-- Embeds `LDH [n],A`. -/
def ldh_n_a (gb : GameBoy) : Option GameBoy :=
  match read_imm_cycle gb with
  | none => none
  | some (n, gb) => write_cycle gb ((0xFF00 + n) % 65536) gb.a

/-- Embeds `LD A,[HL-]`: `gb->a = read_cycle(gb, gb->hl--)`. -/
def ld_a_hld (gb : GameBoy) : Option GameBoy :=
  match read_cycle (gb.set_hl (u16 ((gb.hl : Int) - 1))) gb.hl with
  | none => none
  | some (data, gb) => some { gb with a := data }

/-- Embeds `LD [HL-],A`. -/
def ld_hld_a (gb : GameBoy) : Option GameBoy :=
  write_cycle (gb.set_hl (u16 ((gb.hl : Int) - 1))) gb.hl gb.a

/-- Embeds `LD A,[HL+]`. -/
def ld_a_hli (gb : GameBoy) : Option GameBoy :=
  match read_cycle (gb.set_hl ((gb.hl + 1) % 65536)) gb.hl with
  | none => none
  | some (data, gb) => some { gb with a := data }

/-- Embeds `LD [HL+],A`. -/
def ld_hli_a (gb : GameBoy) : Option GameBoy :=
  write_cycle (gb.set_hl ((gb.hl + 1) % 65536)) gb.hl gb.a

/-- Embeds `LD rr,nn`. -/
def LD_RR_NN (rr : Reg16) (gb : GameBoy) : Option GameBoy :=
  match read_imm_cycle16 gb with
  | none => none
  | some (nn, gb) => some (gb.set16 rr nn)

/-- Embeds `LD [nn],SP`. -/
def ld_nn_sp (gb : GameBoy) : Option GameBoy :=
  match read_imm_cycle16 gb with
  | none => none
  | some (nn, gb) => write_cycle16 gb nn gb.sp

/-- Embeds `LD SP,HL`. -/
def ld_sp_hl (gb : GameBoy) : Option GameBoy :=
  some (cycle { gb with sp := gb.hl })

/-- Embeds `PUSH rr`. -/
def PUSH_RR (rr : Reg16) (gb : GameBoy) : Option GameBoy :=
  push_cycle16 gb (gb.get16 rr)

/-- Embeds `PUSH AF`. -/
def push_af (gb : GameBoy) : Option GameBoy :=
  push_cycle16 gb (get_af gb)

/-- Embeds `POP rr`. -/
def POP_RR (rr : Reg16) (gb : GameBoy) : Option GameBoy :=
  match pop_cycle16 gb with
  | none => none
  | some (v, gb) => some (gb.set16 rr v)

/-- Embeds `POP AF`. -/
def pop_af (gb : GameBoy) : Option GameBoy :=
  match pop_cycle16 gb with
  | none => none
  | some (af, gb) => some (set_af gb af)

/-- Embeds `LD HL,SP+e`.  The local `e` is the immediate; `gb.e` is register E,
which is what the source reads in the two carry lines. -/
def ld_hl_sp_e (gb : GameBoy) : Option GameBoy :=
  match read_imm_cycle gb with
  | none => none
  | some (e, gb) =>
    let gb : GameBoy := { gb with f_h := decide ((gb.sp &&& 0xF) + (gb.e &&& 0xF) > 0xF) }
    let gb : GameBoy := { gb with f_c := decide ((gb.sp &&& 0xFF) + gb.e > 0xFF) }
    let gb : GameBoy := gb.set_hl (u16 ((gb.sp : Int) + s8 e))
    let gb : GameBoy := { gb with f_z := false }
    let gb : GameBoy := { gb with f_n := false }
    some (cycle gb)

/-! ## `cpu.c`: 8-bit ALU -/

/-- Embeds `alu_add` of `cpu.c`. -/
def alu_add (gb : GameBoy) (data : Nat) : GameBoy :=
  let gb : GameBoy := { gb with f_h := decide ((gb.a &&& 0xF) + (data &&& 0xF) > 0xF) }
  let gb : GameBoy := { gb with f_c := decide (gb.a + data > 0xFF) }
  let gb : GameBoy := { gb with a := (gb.a + data) % 256 }
  let gb : GameBoy := { gb with f_z := decide (gb.a = 0) }
  { gb with f_n := false }

/-- Embeds `alu_adc` of `cpu.c`. -/
def alu_adc (gb : GameBoy) (data : Nat) : GameBoy :=
  let gb : GameBoy :=
    { gb with f_h := decide ((gb.a &&& 0xF) + (data &&& 0xF) + gb.f_c.toNat > 0xF) }
  let gb : GameBoy := { gb with f_c := decide (gb.a + data + gb.f_c.toNat > 0xFF) }
  let gb : GameBoy := { gb with a := (gb.a + (data + gb.f_c.toNat)) % 256 }
  let gb : GameBoy := { gb with f_z := decide (gb.a = 0) }
  { gb with f_n := false }

/-- Embeds `alu_sub` of `cpu.c`. -/
def alu_sub (gb : GameBoy) (data : Nat) : GameBoy :=
  let gb : GameBoy := { gb with f_h := decide ((gb.a &&& 0xF) < (data &&& 0xF)) }
  let gb : GameBoy := { gb with f_c := decide (gb.a < data) }
  let gb : GameBoy := { gb with a := u8 ((gb.a : Int) - (data : Int)) }
  let gb : GameBoy := { gb with f_z := decide (gb.a = 0) }
  { gb with f_n := true }

/-- Embeds `alu_sbc` of `cpu.c`. -/
def alu_sbc (gb : GameBoy) (data : Nat) : GameBoy :=
  let gb : GameBoy :=
    { gb with f_h := decide ((gb.a &&& 0xF) < (data &&& 0xF) + gb.f_c.toNat) }
  let gb : GameBoy := { gb with f_c := decide (gb.a < data + gb.f_c.toNat) }
  let gb : GameBoy := { gb with a := u8 ((gb.a : Int) - ((data : Int) + (gb.f_c.toNat : Int))) }
  let gb : GameBoy := { gb with f_z := decide (gb.a = 0) }
  { gb with f_n := true }

/-- Embeds `alu_cp` of `cpu.c`. -/
def alu_cp (gb : GameBoy) (data : Nat) : GameBoy :=
  let gb : GameBoy := { gb with f_z := decide (gb.a = data) }
  let gb : GameBoy := { gb with f_n := true }
  let gb : GameBoy := { gb with f_h := decide ((gb.a &&& 0xF) < (data &&& 0xF)) }
  { gb with f_c := decide (gb.a < data) }

/-- Embeds `alu_and` of `cpu.c`. -/
def alu_and (gb : GameBoy) (data : Nat) : GameBoy :=
  let gb : GameBoy := { gb with a := gb.a &&& data }
  { gb with f_z := decide (gb.a = 0), f_n := false, f_h := true, f_c := false }

/-- Embeds `alu_or` of `cpu.c`. -/
def alu_or (gb : GameBoy) (data : Nat) : GameBoy :=
  let gb : GameBoy := { gb with a := gb.a ||| data }
  { gb with f_z := decide (gb.a = 0), f_n := false, f_h := false, f_c := false }

/-- Embeds `alu_xor` of `cpu.c`. -/
def alu_xor (gb : GameBoy) (data : Nat) : GameBoy :=
  let gb : GameBoy := { gb with a := gb.a ^^^ data }
  { gb with f_z := decide (gb.a = 0), f_n := false, f_h := false, f_c := false }

/-- The `OP` argument of `DEF_ALU_OP`. -/
inductive AluOp where
  | add | adc | sub | sbc | cp | and | or | xor
  deriving DecidableEq, Repr

/-- The helper `alu_##OP`. -/
def AluOp.fn : AluOp → GameBoy → Nat → GameBoy
  | .add => alu_add
  | .adc => alu_adc
  | .sub => alu_sub
  | .sbc => alu_sbc
  | .cp => alu_cp
  | .and => alu_and
  | .or => alu_or
  | .xor => alu_xor

/-- Embeds `ALU_REG_OP(OP, R)`. -/
def ALU_REG_OP (op : AluOp) (r : Reg8) (gb : GameBoy) : Option GameBoy :=
  some (op.fn gb (gb.get8 r))

/-- Embeds `ALU_HL_OP(OP)`. -/
def ALU_HL_OP (op : AluOp) (gb : GameBoy) : Option GameBoy :=
  match read_cycle gb gb.hl with
  | none => none
  | some (data, gb) => some (op.fn gb data)

/-- Embeds `ALU_IMM_OP(OP)`. -/
def ALU_IMM_OP (op : AluOp) (gb : GameBoy) : Option GameBoy :=
  match read_imm_cycle gb with
  | none => none
  | some (data, gb) => some (op.fn gb data)

/-- Embeds `INC r`. -/
def INC_R (r : Reg8) (gb : GameBoy) : Option GameBoy :=
  let gb : GameBoy := gb.set8 r ((gb.get8 r + 1) % 256)
  some { gb with
    f_z := decide (gb.get8 r = 0),
    f_n := false,
    f_h := decide (gb.get8 r &&& 0xF = 0) }

/-- Embeds `INC [HL]`. -/
def inc_ahl (gb : GameBoy) : Option GameBoy :=
  match read_cycle gb gb.hl with
  | none => none
  | some (data, gb) =>
    let data := (data + 1) % 256
    let gb : GameBoy :=
      { gb with f_z := decide (data = 0), f_n := false, f_h := decide (data &&& 0xF = 0) }
    write_cycle gb gb.hl data

/-- Embeds `DEC r`. -/
def DEC_R (r : Reg8) (gb : GameBoy) : Option GameBoy :=
  let gb : GameBoy := gb.set8 r (u8 ((gb.get8 r : Int) - 1))
  some { gb with
    f_z := decide (gb.get8 r = 0),
    f_n := true,
    f_h := decide (gb.get8 r &&& 0xF = 0xF) }

/-- Embeds `DEC [HL]`. -/
def dec_ahl (gb : GameBoy) : Option GameBoy :=
  match read_cycle gb gb.hl with
  | none => none
  | some (data, gb) =>
    let data := u8 ((data : Int) - 1)
    let gb : GameBoy :=
      { gb with f_z := decide (data = 0), f_n := true, f_h := decide (data &&& 0xF = 0xF) }
    write_cycle gb gb.hl data

/-- Embeds `CCF`. -/
def ccf (gb : GameBoy) : Option GameBoy :=
  some { gb with f_n := false, f_h := false, f_c := !gb.f_c }

/-- Embeds `SCF`. -/
def scf (gb : GameBoy) : Option GameBoy :=
  some { gb with f_n := false, f_h := false, f_c := true }

/-- Embeds `DAA`: the source leaves it empty. -/
def daa (gb : GameBoy) : Option GameBoy := some gb

/-- Embeds `CPL`: `gb->a = ~gb->a`. -/
def cpl (gb : GameBoy) : Option GameBoy :=
  some { gb with a := u8 (-(gb.a : Int) - 1), f_n := true, f_h := true }

/-! ## `cpu.c`: 16-bit arithmetic -/

/-- Embeds `INC rr`. -/
def INC_RR (rr : Reg16) (gb : GameBoy) : Option GameBoy :=
  some (cycle (gb.set16 rr ((gb.get16 rr + 1) % 65536)))

/-- Embeds `DEC rr`. -/
def DEC_RR (rr : Reg16) (gb : GameBoy) : Option GameBoy :=
  some (cycle (gb.set16 rr (u16 ((gb.get16 rr : Int) - 1))))

/-- Embeds `ADD HL,rr`. -/
def ADD_HL_RR (rr : Reg16) (gb : GameBoy) : Option GameBoy :=
  let gb : GameBoy :=
    { gb with f_h := decide ((gb.hl &&& 0xFFF) + (gb.get16 rr &&& 0xFFF) > 0xFFF) }
  let gb : GameBoy := { gb with f_c := decide (gb.hl + gb.get16 rr > 0xFFF) }
  let gb : GameBoy := gb.set_hl ((gb.hl + gb.get16 rr) % 65536)
  let gb : GameBoy := { gb with f_n := false }
  some (cycle gb)

/-- Embeds `ADD SP,e`. -/
def add_sp_e (gb : GameBoy) : Option GameBoy :=
  match read_imm_cycle gb with
  | none => none
  | some (e, gb) =>
    let gb : GameBoy := { gb with f_h := decide ((gb.sp &&& 0xF) + (e &&& 0xF) > 0xF) }
    let gb : GameBoy := { gb with f_c := decide ((gb.sp &&& 0xFF) + e > 0xFF) }
    let gb : GameBoy := { gb with sp := u16 ((gb.sp : Int) + s8 e) }
    let gb : GameBoy := { gb with f_z := false }
    let gb : GameBoy := { gb with f_n := false }
    some (cycle (cycle gb))

/-! ## `cpu.c`: rotates and shifts -/

/-- Embeds `RLCA`. -/
def rlca (gb : GameBoy) : Option GameBoy :=
  let gb : GameBoy := { gb with a := ((gb.a <<< 1) + (gb.a >>> 7)) % 256 }
  let gb : GameBoy := { gb with f_z := false, f_n := false, f_h := false }
  some { gb with f_c := decide (gb.a &&& 0x01 ≠ 0) }

/-- Embeds `RRCA`. -/
def rrca (gb : GameBoy) : Option GameBoy :=
  let gb : GameBoy := { gb with a := ((gb.a >>> 1) + (gb.a <<< 7)) % 256 }
  let gb : GameBoy := { gb with f_z := false, f_n := false, f_h := false }
  some { gb with f_c := decide (gb.a &&& 0x80 ≠ 0) }

/-- Embeds `RLA`. -/
def rla (gb : GameBoy) : Option GameBoy :=
  let carry := decide (gb.a &&& 0x80 ≠ 0)
  let gb : GameBoy := { gb with a := ((gb.a <<< 1) + gb.f_c.toNat) % 256 }
  let gb : GameBoy := { gb with f_c := carry }
  some { gb with f_z := false, f_n := false, f_h := false }

/-- Embeds `RRA`. -/
def rra (gb : GameBoy) : Option GameBoy :=
  let carry := decide (gb.a &&& 0x01 ≠ 0)
  let gb : GameBoy := { gb with a := ((gb.a >>> 1) + (gb.f_c.toNat <<< 7)) % 256 }
  let gb : GameBoy := { gb with f_c := carry }
  some { gb with f_z := false, f_n := false, f_h := false }

/-- Embeds `cb_rlc` of `cpu.c`. -/
def cb_rlc (gb : GameBoy) (data : Nat) : Nat × GameBoy :=
  let data := ((data <<< 1) + (data >>> 7)) % 256
  (data, { gb with
    f_z := decide (data = 0), f_n := false, f_h := false, f_c := decide (data &&& 0x01 ≠ 0) })

/-- Embeds `cb_rrc` of `cpu.c`. -/
def cb_rrc (gb : GameBoy) (data : Nat) : Nat × GameBoy :=
  let data := ((data >>> 1) + (data <<< 7)) % 256
  (data, { gb with
    f_z := decide (data = 0), f_n := false, f_h := false, f_c := decide (data &&& 0x80 ≠ 0) })

/-- Embeds `cb_rl` of `cpu.c`. -/
def cb_rl (gb : GameBoy) (data : Nat) : Nat × GameBoy :=
  let carry := decide (data &&& 0x80 ≠ 0)
  let data := ((data <<< 1) + gb.f_c.toNat) % 256
  (data, { gb with f_c := carry, f_z := decide (data = 0), f_n := false, f_h := false })

/-- Embeds `cb_rr` of `cpu.c`. -/
def cb_rr (gb : GameBoy) (data : Nat) : Nat × GameBoy :=
  let carry := decide (data &&& 0x01 ≠ 0)
  let data := ((data >>> 1) + (gb.f_c.toNat <<< 7)) % 256
  (data, { gb with f_c := carry, f_z := decide (data = 0), f_n := false, f_h := false })

/-- Embeds `cb_sla` of `cpu.c`. -/
def cb_sla (gb : GameBoy) (data : Nat) : Nat × GameBoy :=
  let gb : GameBoy := { gb with f_c := decide (data &&& 0x80 ≠ 0) }
  let data := (data <<< 1) % 256
  (data, { gb with f_z := decide (data = 0), f_n := false, f_h := false })

/-- Embeds `cb_sra` of `cpu.c`; the source line is
`data = (data > 1) + (data & 0x80);`, a comparison, not a shift. -/
def cb_sra (gb : GameBoy) (data : Nat) : Nat × GameBoy :=
  let gb : GameBoy := { gb with f_c := decide (data &&& 0x01 ≠ 0) }
  let data := ((decide (data > 1)).toNat + (data &&& 0x80)) % 256
  (data, { gb with f_z := decide (data = 0), f_n := false, f_h := false })

/-- Embeds `cb_swap` of `cpu.c`. -/
def cb_swap (gb : GameBoy) (data : Nat) : Nat × GameBoy :=
  let data := ((data <<< 4) + (data >>> 4)) % 256
  (data, { gb with f_z := decide (data = 0), f_n := false, f_h := false, f_c := false })

/-- Embeds `cb_srl` of `cpu.c`. -/
def cb_srl (gb : GameBoy) (data : Nat) : Nat × GameBoy :=
  let gb : GameBoy := { gb with f_c := decide (data &&& 0x01 ≠ 0) }
  let data := data >>> 1
  (data, { gb with f_z := decide (data = 0), f_n := false, f_h := false })

/-- The `OP` argument of `DEF_CB_OP`. -/
inductive CbOp where
  | rlc | rrc | rl | rr | sla | sra | swap | srl
  deriving DecidableEq, Repr

/-- The helper `cb_##OP`. -/
def CbOp.fn : CbOp → GameBoy → Nat → Nat × GameBoy
  | .rlc => cb_rlc
  | .rrc => cb_rrc
  | .rl => cb_rl
  | .rr => cb_rr
  | .sla => cb_sla
  | .sra => cb_sra
  | .swap => cb_swap
  | .srl => cb_srl

/-- Embeds `CB_REG_OP(OP, R)`: `gb->R = cb_##OP(gb, gb->R)`. -/
def CB_REG_OP (op : CbOp) (r : Reg8) (gb : GameBoy) : Option GameBoy :=
  let (data, gb) := op.fn gb (gb.get8 r)
  some (gb.set8 r data)

/-- Embeds `CB_HL_OP(OP)`. -/
def CB_HL_OP (op : CbOp) (gb : GameBoy) : Option GameBoy :=
  match read_cycle gb gb.hl with
  | none => none
  | some (data, gb) =>
    let (data, gb) := op.fn gb data
    write_cycle gb gb.hl data

/-- Embeds `BIT b,r`. -/
def BIT_B_R (B : Nat) (r : Reg8) (gb : GameBoy) : Option GameBoy :=
  some { gb with f_z := decide (gb.get8 r &&& (1 <<< B) = 0), f_n := false, f_h := true }

/-- Embeds `BIT b,[HL]`. -/
def BIT_B_HL (B : Nat) (gb : GameBoy) : Option GameBoy :=
  match read_cycle gb gb.hl with
  | none => none
  | some (data, gb) =>
    some { gb with f_z := decide (data &&& (1 <<< B) = 0), f_n := false, f_h := true }

/-- Embeds `RES b,r`. -/
def RES_B_R (B : Nat) (r : Reg8) (gb : GameBoy) : Option GameBoy :=
  some (gb.set8 r (clear_bit (gb.get8 r) B))

/-- Embeds `RES b,[HL]`. -/
def RES_B_HL (B : Nat) (gb : GameBoy) : Option GameBoy :=
  match read_cycle gb gb.hl with
  | none => none
  | some (data, gb) => write_cycle gb gb.hl (clear_bit data B)

/-- Embeds `SET b,r`. -/
def SET_B_R (B : Nat) (r : Reg8) (gb : GameBoy) : Option GameBoy :=
  some (gb.set8 r ((gb.get8 r ||| (1 <<< B)) % 256))

/-- Embeds `SET b,[HL]`. -/
def SET_B_HL (B : Nat) (gb : GameBoy) : Option GameBoy :=
  match read_cycle gb gb.hl with
  | none => none
  | some (data, gb) => write_cycle gb gb.hl ((data ||| (1 <<< B)) % 256)

/-! ## `cpu.c`: control transfer -/

/-- Embeds `JP nn`. -/
def jp_nn (gb : GameBoy) : Option GameBoy :=
  match read_imm_cycle16 gb with
  | none => none
  | some (nn, gb) => some (cycle { gb with pc := nn })

/-- Embeds `JP HL`. -/
def jp_hl (gb : GameBoy) : Option GameBoy := some { gb with pc := gb.hl }

/-- Embeds `JP cc,nn`. -/
def JP_CC_NN (cc : Cond) (gb : GameBoy) : Option GameBoy :=
  match read_imm_cycle16 gb with
  | none => none
  | some (nn, gb) => if cc.holds gb then some (cycle { gb with pc := nn }) else some gb

/-- Embeds `JR e`: `gb->pc += (s8)read_imm_cycle(gb)`, with the operand fetched
before `pc` is read for the addition (as in `JR cc,e`). -/
def jr_e (gb : GameBoy) : Option GameBoy :=
  match read_imm_cycle gb with
  | none => none
  | some (e, gb) => some (cycle { gb with pc := u16 ((gb.pc : Int) + s8 e) })

/-- Embeds `JR cc,e`. -/
def JR_CC_E (cc : Cond) (gb : GameBoy) : Option GameBoy :=
  match read_imm_cycle gb with
  | none => none
  | some (e, gb) =>
    if cc.holds gb then some (cycle { gb with pc := u16 ((gb.pc : Int) + s8 e) }) else some gb

/-- Embeds `CALL nn`. -/
def call_nn (gb : GameBoy) : Option GameBoy :=
  match read_imm_cycle16 gb with
  | none => none
  | some (nn, gb) =>
    match push_cycle16 gb gb.pc with
    | none => none
    | some gb => some { gb with pc := nn }

/-- Embeds `CALL cc,nn`. -/
def CALL_CC_NN (cc : Cond) (gb : GameBoy) : Option GameBoy :=
  match read_imm_cycle16 gb with
  | none => none
  | some (nn, gb) =>
    if cc.holds gb then
      match push_cycle16 gb gb.pc with
      | none => none
      | some gb => some { gb with pc := nn }
    else some gb

/-- Embeds `RET`. -/
def ret (gb : GameBoy) : Option GameBoy :=
  match pop_cycle16 gb with
  | none => none
  | some (v, gb) => some (cycle { gb with pc := v })

/-- Embeds `RET cc`. -/
def RET_CC (cc : Cond) (gb : GameBoy) : Option GameBoy :=
  let gb := cycle gb
  if cc.holds gb then
    match pop_cycle16 gb with
    | none => none
    | some (v, gb) => some (cycle { gb with pc := v })
  else some gb

/-- Embeds `RETI`. -/
def reti (gb : GameBoy) : Option GameBoy :=
  match pop_cycle16 gb with
  | none => none
  | some (v, gb) => some (cycle { gb with pc := v, ime := true })

/-- Embeds `RST n`. -/
def RST_N (N : Nat) (gb : GameBoy) : Option GameBoy :=
  match push_cycle16 gb gb.pc with
  | none => none
  | some gb => some { gb with pc := N }

/-- Embeds `HALT`: prints and exits. -/
def halt (_gb : GameBoy) : Option GameBoy := none

/-- Embeds `STOP`: prints and exits. -/
def stop (_gb : GameBoy) : Option GameBoy := none

/-- Embeds `DI`. -/
def di (gb : GameBoy) : Option GameBoy := some { gb with ime := false }

/-- Embeds `EI`. -/
def ei (gb : GameBoy) : Option GameBoy := some { gb with ime := true }

/-- Embeds `NOP`. -/
def nop (gb : GameBoy) : Option GameBoy := some gb

/-- Embeds `op_ill`: prints and exits. -/
def op_ill (_gb : GameBoy) : Option GameBoy := none

/-! ## `cpu.c`: the dispatch tables

A function pointer of the source is a tag; calling the pointer is `exec`. -/

/-- The functions that `cb_ptrs` points to. -/
inductive CbInstr where
  | CB_REG_OP (op : CbOp) (r : Reg8)
  | CB_HL_OP (op : CbOp)
  | BIT_B_R (B : Nat) (r : Reg8)
  | BIT_B_HL (B : Nat)
  | RES_B_R (B : Nat) (r : Reg8)
  | RES_B_HL (B : Nat)
  | SET_B_R (B : Nat) (r : Reg8)
  | SET_B_HL (B : Nat)
  deriving DecidableEq, Repr

/-- Calling a `cb_ptrs` entry. -/
def CbInstr.exec : CbInstr → GameBoy → Option GameBoy
  | .CB_REG_OP op r => Rondo.CB_REG_OP op r
  | .CB_HL_OP op => Rondo.CB_HL_OP op
  | .BIT_B_R B r => Rondo.BIT_B_R B r
  | .BIT_B_HL B => Rondo.BIT_B_HL B
  | .RES_B_R B r => Rondo.RES_B_R B r
  | .RES_B_HL B => Rondo.RES_B_HL B
  | .SET_B_R B r => Rondo.SET_B_R B r
  | .SET_B_HL B => Rondo.SET_B_HL B

/-- The table `cb_ptrs` of `cpu.c`, eight entries to a row as in the source. -/
def cb_ptrs : List CbInstr := [
  /-   0x -/ CbInstr.CB_REG_OP CbOp.rlc Reg8.b, CbInstr.CB_REG_OP CbOp.rlc Reg8.c, CbInstr.CB_REG_OP CbOp.rlc Reg8.d, CbInstr.CB_REG_OP CbOp.rlc Reg8.e, CbInstr.CB_REG_OP CbOp.rlc Reg8.h, CbInstr.CB_REG_OP CbOp.rlc Reg8.l, CbInstr.CB_HL_OP CbOp.rlc, CbInstr.CB_REG_OP CbOp.rlc Reg8.a,
  /-   1x -/ CbInstr.CB_REG_OP CbOp.rrc Reg8.b, CbInstr.CB_REG_OP CbOp.rrc Reg8.c, CbInstr.CB_REG_OP CbOp.rrc Reg8.d, CbInstr.CB_REG_OP CbOp.rrc Reg8.e, CbInstr.CB_REG_OP CbOp.rrc Reg8.h, CbInstr.CB_REG_OP CbOp.rrc Reg8.l, CbInstr.CB_HL_OP CbOp.rrc, CbInstr.CB_REG_OP CbOp.rrc Reg8.a,
  /-   2x -/ CbInstr.CB_REG_OP CbOp.rl Reg8.b, CbInstr.CB_REG_OP CbOp.rl Reg8.c, CbInstr.CB_REG_OP CbOp.rl Reg8.d, CbInstr.CB_REG_OP CbOp.rl Reg8.e, CbInstr.CB_REG_OP CbOp.rl Reg8.h, CbInstr.CB_REG_OP CbOp.rl Reg8.l, CbInstr.CB_HL_OP CbOp.rl, CbInstr.CB_REG_OP CbOp.rl Reg8.a,
  /-   3x -/ CbInstr.CB_REG_OP CbOp.rr Reg8.b, CbInstr.CB_REG_OP CbOp.rr Reg8.c, CbInstr.CB_REG_OP CbOp.rr Reg8.d, CbInstr.CB_REG_OP CbOp.rr Reg8.e, CbInstr.CB_REG_OP CbOp.rr Reg8.h, CbInstr.CB_REG_OP CbOp.rr Reg8.l, CbInstr.CB_HL_OP CbOp.rr, CbInstr.CB_REG_OP CbOp.rr Reg8.a,
  /-   4x -/ CbInstr.CB_REG_OP CbOp.sla Reg8.b, CbInstr.CB_REG_OP CbOp.sla Reg8.c, CbInstr.CB_REG_OP CbOp.sla Reg8.d, CbInstr.CB_REG_OP CbOp.sla Reg8.e, CbInstr.CB_REG_OP CbOp.sla Reg8.h, CbInstr.CB_REG_OP CbOp.sla Reg8.l, CbInstr.CB_HL_OP CbOp.sla, CbInstr.CB_REG_OP CbOp.sla Reg8.a,
  /-   5x -/ CbInstr.CB_REG_OP CbOp.sra Reg8.b, CbInstr.CB_REG_OP CbOp.sra Reg8.c, CbInstr.CB_REG_OP CbOp.sra Reg8.d, CbInstr.CB_REG_OP CbOp.sra Reg8.e, CbInstr.CB_REG_OP CbOp.sra Reg8.h, CbInstr.CB_REG_OP CbOp.sra Reg8.l, CbInstr.CB_HL_OP CbOp.sra, CbInstr.CB_REG_OP CbOp.sra Reg8.a,
  /-   6x -/ CbInstr.CB_REG_OP CbOp.swap Reg8.b, CbInstr.CB_REG_OP CbOp.swap Reg8.c, CbInstr.CB_REG_OP CbOp.swap Reg8.d, CbInstr.CB_REG_OP CbOp.swap Reg8.e, CbInstr.CB_REG_OP CbOp.swap Reg8.h, CbInstr.CB_REG_OP CbOp.swap Reg8.l, CbInstr.CB_HL_OP CbOp.swap, CbInstr.CB_REG_OP CbOp.swap Reg8.a,
  /-   7x -/ CbInstr.CB_REG_OP CbOp.srl Reg8.b, CbInstr.CB_REG_OP CbOp.srl Reg8.c, CbInstr.CB_REG_OP CbOp.srl Reg8.d, CbInstr.CB_REG_OP CbOp.srl Reg8.e, CbInstr.CB_REG_OP CbOp.srl Reg8.h, CbInstr.CB_REG_OP CbOp.srl Reg8.l, CbInstr.CB_HL_OP CbOp.srl, CbInstr.CB_REG_OP CbOp.srl Reg8.a,
  /-  10x -/ CbInstr.BIT_B_R 0 Reg8.b, CbInstr.BIT_B_R 0 Reg8.c, CbInstr.BIT_B_R 0 Reg8.d, CbInstr.BIT_B_R 0 Reg8.e, CbInstr.BIT_B_R 0 Reg8.h, CbInstr.BIT_B_R 0 Reg8.l, CbInstr.BIT_B_HL 0, CbInstr.BIT_B_R 0 Reg8.a,
  /-  11x -/ CbInstr.BIT_B_R 1 Reg8.b, CbInstr.BIT_B_R 1 Reg8.c, CbInstr.BIT_B_R 1 Reg8.d, CbInstr.BIT_B_R 1 Reg8.e, CbInstr.BIT_B_R 1 Reg8.h, CbInstr.BIT_B_R 1 Reg8.l, CbInstr.BIT_B_HL 1, CbInstr.BIT_B_R 1 Reg8.a,
  /-  12x -/ CbInstr.BIT_B_R 2 Reg8.b, CbInstr.BIT_B_R 2 Reg8.c, CbInstr.BIT_B_R 2 Reg8.d, CbInstr.BIT_B_R 2 Reg8.e, CbInstr.BIT_B_R 2 Reg8.h, CbInstr.BIT_B_R 2 Reg8.l, CbInstr.BIT_B_HL 2, CbInstr.BIT_B_R 2 Reg8.a,
  /-  13x -/ CbInstr.BIT_B_R 3 Reg8.b, CbInstr.BIT_B_R 3 Reg8.c, CbInstr.BIT_B_R 3 Reg8.d, CbInstr.BIT_B_R 3 Reg8.e, CbInstr.BIT_B_R 3 Reg8.h, CbInstr.BIT_B_R 3 Reg8.l, CbInstr.BIT_B_HL 3, CbInstr.BIT_B_R 3 Reg8.a,
  /-  14x -/ CbInstr.BIT_B_R 4 Reg8.b, CbInstr.BIT_B_R 4 Reg8.c, CbInstr.BIT_B_R 4 Reg8.d, CbInstr.BIT_B_R 4 Reg8.e, CbInstr.BIT_B_R 4 Reg8.h, CbInstr.BIT_B_R 4 Reg8.l, CbInstr.BIT_B_HL 4, CbInstr.BIT_B_R 4 Reg8.a,
  /-  15x -/ CbInstr.BIT_B_R 5 Reg8.b, CbInstr.BIT_B_R 5 Reg8.c, CbInstr.BIT_B_R 5 Reg8.d, CbInstr.BIT_B_R 5 Reg8.e, CbInstr.BIT_B_R 5 Reg8.h, CbInstr.BIT_B_R 5 Reg8.l, CbInstr.BIT_B_HL 5, CbInstr.BIT_B_R 5 Reg8.a,
  /-  16x -/ CbInstr.BIT_B_R 6 Reg8.b, CbInstr.BIT_B_R 6 Reg8.c, CbInstr.BIT_B_R 6 Reg8.d, CbInstr.BIT_B_R 6 Reg8.e, CbInstr.BIT_B_R 6 Reg8.h, CbInstr.BIT_B_R 6 Reg8.l, CbInstr.BIT_B_HL 6, CbInstr.BIT_B_R 6 Reg8.a,
  /-  17x -/ CbInstr.BIT_B_R 7 Reg8.b, CbInstr.BIT_B_R 7 Reg8.c, CbInstr.BIT_B_R 7 Reg8.d, CbInstr.BIT_B_R 7 Reg8.e, CbInstr.BIT_B_R 7 Reg8.h, CbInstr.BIT_B_R 7 Reg8.l, CbInstr.BIT_B_HL 7, CbInstr.BIT_B_R 7 Reg8.a,
  /-  20x -/ CbInstr.RES_B_R 0 Reg8.b, CbInstr.RES_B_R 0 Reg8.c, CbInstr.RES_B_R 0 Reg8.d, CbInstr.RES_B_R 0 Reg8.e, CbInstr.RES_B_R 0 Reg8.h, CbInstr.RES_B_R 0 Reg8.l, CbInstr.RES_B_HL 0, CbInstr.RES_B_R 0 Reg8.a,
  /-  21x -/ CbInstr.RES_B_R 1 Reg8.b, CbInstr.RES_B_R 1 Reg8.c, CbInstr.RES_B_R 1 Reg8.d, CbInstr.RES_B_R 1 Reg8.e, CbInstr.RES_B_R 1 Reg8.h, CbInstr.RES_B_R 1 Reg8.l, CbInstr.RES_B_HL 1, CbInstr.RES_B_R 1 Reg8.a,
  /-  22x -/ CbInstr.RES_B_R 2 Reg8.b, CbInstr.RES_B_R 2 Reg8.c, CbInstr.RES_B_R 2 Reg8.d, CbInstr.RES_B_R 2 Reg8.e, CbInstr.RES_B_R 2 Reg8.h, CbInstr.RES_B_R 2 Reg8.l, CbInstr.RES_B_HL 2, CbInstr.RES_B_R 2 Reg8.a,
  /-  23x -/ CbInstr.RES_B_R 3 Reg8.b, CbInstr.RES_B_R 3 Reg8.c, CbInstr.RES_B_R 3 Reg8.d, CbInstr.RES_B_R 3 Reg8.e, CbInstr.RES_B_R 3 Reg8.h, CbInstr.RES_B_R 3 Reg8.l, CbInstr.RES_B_HL 3, CbInstr.RES_B_R 3 Reg8.a,
  /-  24x -/ CbInstr.RES_B_R 4 Reg8.b, CbInstr.RES_B_R 4 Reg8.c, CbInstr.RES_B_R 4 Reg8.d, CbInstr.RES_B_R 4 Reg8.e, CbInstr.RES_B_R 4 Reg8.h, CbInstr.RES_B_R 4 Reg8.l, CbInstr.RES_B_HL 4, CbInstr.RES_B_R 4 Reg8.a,
  /-  25x -/ CbInstr.RES_B_R 5 Reg8.b, CbInstr.RES_B_R 5 Reg8.c, CbInstr.RES_B_R 5 Reg8.d, CbInstr.RES_B_R 5 Reg8.e, CbInstr.RES_B_R 5 Reg8.h, CbInstr.RES_B_R 5 Reg8.l, CbInstr.RES_B_HL 5, CbInstr.RES_B_R 5 Reg8.a,
  /-  26x -/ CbInstr.RES_B_R 6 Reg8.b, CbInstr.RES_B_R 6 Reg8.c, CbInstr.RES_B_R 6 Reg8.d, CbInstr.RES_B_R 6 Reg8.e, CbInstr.RES_B_R 6 Reg8.h, CbInstr.RES_B_R 6 Reg8.l, CbInstr.RES_B_HL 6, CbInstr.RES_B_R 6 Reg8.a,
  /-  27x -/ CbInstr.RES_B_R 7 Reg8.b, CbInstr.RES_B_R 7 Reg8.c, CbInstr.RES_B_R 7 Reg8.d, CbInstr.RES_B_R 7 Reg8.e, CbInstr.RES_B_R 7 Reg8.h, CbInstr.RES_B_R 7 Reg8.l, CbInstr.RES_B_HL 7, CbInstr.RES_B_R 7 Reg8.a,
  /-  30x -/ CbInstr.SET_B_R 0 Reg8.b, CbInstr.SET_B_R 0 Reg8.c, CbInstr.SET_B_R 0 Reg8.d, CbInstr.SET_B_R 0 Reg8.e, CbInstr.SET_B_R 0 Reg8.h, CbInstr.SET_B_R 0 Reg8.l, CbInstr.SET_B_HL 0, CbInstr.SET_B_R 0 Reg8.a,
  /-  31x -/ CbInstr.SET_B_R 1 Reg8.b, CbInstr.SET_B_R 1 Reg8.c, CbInstr.SET_B_R 1 Reg8.d, CbInstr.SET_B_R 1 Reg8.e, CbInstr.SET_B_R 1 Reg8.h, CbInstr.SET_B_R 1 Reg8.l, CbInstr.SET_B_HL 1, CbInstr.SET_B_R 1 Reg8.a,
  /-  32x -/ CbInstr.SET_B_R 2 Reg8.b, CbInstr.SET_B_R 2 Reg8.c, CbInstr.SET_B_R 2 Reg8.d, CbInstr.SET_B_R 2 Reg8.e, CbInstr.SET_B_R 2 Reg8.h, CbInstr.SET_B_R 2 Reg8.l, CbInstr.SET_B_HL 2, CbInstr.SET_B_R 2 Reg8.a,
  /-  33x -/ CbInstr.SET_B_R 3 Reg8.b, CbInstr.SET_B_R 3 Reg8.c, CbInstr.SET_B_R 3 Reg8.d, CbInstr.SET_B_R 3 Reg8.e, CbInstr.SET_B_R 3 Reg8.h, CbInstr.SET_B_R 3 Reg8.l, CbInstr.SET_B_HL 3, CbInstr.SET_B_R 3 Reg8.a,
  /-  34x -/ CbInstr.SET_B_R 4 Reg8.b, CbInstr.SET_B_R 4 Reg8.c, CbInstr.SET_B_R 4 Reg8.d, CbInstr.SET_B_R 4 Reg8.e, CbInstr.SET_B_R 4 Reg8.h, CbInstr.SET_B_R 4 Reg8.l, CbInstr.SET_B_HL 4, CbInstr.SET_B_R 4 Reg8.a,
  /-  35x -/ CbInstr.SET_B_R 5 Reg8.b, CbInstr.SET_B_R 5 Reg8.c, CbInstr.SET_B_R 5 Reg8.d, CbInstr.SET_B_R 5 Reg8.e, CbInstr.SET_B_R 5 Reg8.h, CbInstr.SET_B_R 5 Reg8.l, CbInstr.SET_B_HL 5, CbInstr.SET_B_R 5 Reg8.a,
  /-  36x -/ CbInstr.SET_B_R 6 Reg8.b, CbInstr.SET_B_R 6 Reg8.c, CbInstr.SET_B_R 6 Reg8.d, CbInstr.SET_B_R 6 Reg8.e, CbInstr.SET_B_R 6 Reg8.h, CbInstr.SET_B_R 6 Reg8.l, CbInstr.SET_B_HL 6, CbInstr.SET_B_R 6 Reg8.a,
  /-  37x -/ CbInstr.SET_B_R 7 Reg8.b, CbInstr.SET_B_R 7 Reg8.c, CbInstr.SET_B_R 7 Reg8.d, CbInstr.SET_B_R 7 Reg8.e, CbInstr.SET_B_R 7 Reg8.h, CbInstr.SET_B_R 7 Reg8.l, CbInstr.SET_B_HL 7, CbInstr.SET_B_R 7 Reg8.a]


/-- Embeds `op_cb` of `cpu.c`.  The opcode read is a `u8`, so the lookup
`cb_ptrs[opcode]` is in range. -/
def op_cb (gb : GameBoy) : Option GameBoy :=
  match read_imm_cycle gb with
  | none => none
  | some (opcode, gb) =>
    match cb_ptrs[opcode]? with
    | some func => func.exec gb
    | none => none

/-- The functions that `op_ptrs` points to. -/
inductive Instr where
  | nop | stop | halt | daa | cpl | scf | ccf | rlca | rrca | rla | rra | di | ei
  | op_cb | op_ill
  | LD_R_R (r1 r2 : Reg8)
  | LD_R_N (r : Reg8)
  | LD_R_HL (r : Reg8)
  | LD_HL_R (r : Reg8)
  | ld_hl_n | ld_a_bc | ld_a_de | ld_bc_a | ld_de_a | ld_a_nn | ld_nn_a
  | ldh_a_c | ldh_c_a | ldh_a_n | ldh_n_a
  | ld_a_hld | ld_hld_a | ld_a_hli | ld_hli_a
  | LD_RR_NN (rr : Reg16)
  | ld_nn_sp | ld_sp_hl
  | PUSH_RR (rr : Reg16)
  | push_af
  | POP_RR (rr : Reg16)
  | pop_af
  | ld_hl_sp_e
  | ALU_REG_OP (op : AluOp) (r : Reg8)
  | ALU_HL_OP (op : AluOp)
  | ALU_IMM_OP (op : AluOp)
  | INC_R (r : Reg8)
  | inc_ahl
  | DEC_R (r : Reg8)
  | dec_ahl
  | INC_RR (rr : Reg16)
  | DEC_RR (rr : Reg16)
  | ADD_HL_RR (rr : Reg16)
  | add_sp_e
  | jp_nn | jp_hl
  | JP_CC_NN (cc : Cond)
  | jr_e
  | JR_CC_E (cc : Cond)
  | call_nn
  | CALL_CC_NN (cc : Cond)
  | ret
  | RET_CC (cc : Cond)
  | reti
  | RST_N (N : Nat)

/-- Calling an `op_ptrs` entry. -/
def Instr.exec : Instr → GameBoy → Option GameBoy
  | .nop => Rondo.nop
  | .stop => Rondo.stop
  | .halt => Rondo.halt
  | .daa => Rondo.daa
  | .cpl => Rondo.cpl
  | .scf => Rondo.scf
  | .ccf => Rondo.ccf
  | .rlca => Rondo.rlca
  | .rrca => Rondo.rrca
  | .rla => Rondo.rla
  | .rra => Rondo.rra
  | .di => Rondo.di
  | .ei => Rondo.ei
  | .op_cb => Rondo.op_cb
  | .op_ill => Rondo.op_ill
  | .LD_R_R r1 r2 => Rondo.LD_R_R r1 r2
  | .LD_R_N r => Rondo.LD_R_N r
  | .LD_R_HL r => Rondo.LD_R_HL r
  | .LD_HL_R r => Rondo.LD_HL_R r
  | .ld_hl_n => Rondo.ld_hl_n
  | .ld_a_bc => Rondo.ld_a_bc
  | .ld_a_de => Rondo.ld_a_de
  | .ld_bc_a => Rondo.ld_bc_a
  | .ld_de_a => Rondo.ld_de_a
  | .ld_a_nn => Rondo.ld_a_nn
  | .ld_nn_a => Rondo.ld_nn_a
  | .ldh_a_c => Rondo.ldh_a_c
  | .ldh_c_a => Rondo.ldh_c_a
  | .ldh_a_n => Rondo.ldh_a_n
  | .ldh_n_a => Rondo.ldh_n_a
  | .ld_a_hld => Rondo.ld_a_hld
  | .ld_hld_a => Rondo.ld_hld_a
  | .ld_a_hli => Rondo.ld_a_hli
  | .ld_hli_a => Rondo.ld_hli_a
  | .LD_RR_NN rr => Rondo.LD_RR_NN rr
  | .ld_nn_sp => Rondo.ld_nn_sp
  | .ld_sp_hl => Rondo.ld_sp_hl
  | .PUSH_RR rr => Rondo.PUSH_RR rr
  | .push_af => Rondo.push_af
  | .POP_RR rr => Rondo.POP_RR rr
  | .pop_af => Rondo.pop_af
  | .ld_hl_sp_e => Rondo.ld_hl_sp_e
  | .ALU_REG_OP op r => Rondo.ALU_REG_OP op r
  | .ALU_HL_OP op => Rondo.ALU_HL_OP op
  | .ALU_IMM_OP op => Rondo.ALU_IMM_OP op
  | .INC_R r => Rondo.INC_R r
  | .inc_ahl => Rondo.inc_ahl
  | .DEC_R r => Rondo.DEC_R r
  | .dec_ahl => Rondo.dec_ahl
  | .INC_RR rr => Rondo.INC_RR rr
  | .DEC_RR rr => Rondo.DEC_RR rr
  | .ADD_HL_RR rr => Rondo.ADD_HL_RR rr
  | .add_sp_e => Rondo.add_sp_e
  | .jp_nn => Rondo.jp_nn
  | .jp_hl => Rondo.jp_hl
  | .JP_CC_NN cc => Rondo.JP_CC_NN cc
  | .jr_e => Rondo.jr_e
  | .JR_CC_E cc => Rondo.JR_CC_E cc
  | .call_nn => Rondo.call_nn
  | .CALL_CC_NN cc => Rondo.CALL_CC_NN cc
  | .ret => Rondo.ret
  | .RET_CC cc => Rondo.RET_CC cc
  | .reti => Rondo.reti
  | .RST_N N => Rondo.RST_N N

/-- The table `op_ptrs` of `cpu.c`, eight entries to a row as in the source. -/
def op_ptrs : List Instr := [
  /-   0x -/ Instr.nop, Instr.LD_RR_NN Reg16.bc, Instr.ld_bc_a, Instr.INC_RR Reg16.bc, Instr.INC_R Reg8.b, Instr.DEC_R Reg8.b, Instr.LD_R_N Reg8.b, Instr.rlca,
  /-   1x -/ Instr.ld_nn_sp, Instr.ADD_HL_RR Reg16.bc, Instr.ld_a_bc, Instr.DEC_RR Reg16.bc, Instr.INC_R Reg8.c, Instr.DEC_R Reg8.c, Instr.LD_R_N Reg8.c, Instr.rrca,
  /-   2x -/ Instr.stop, Instr.LD_RR_NN Reg16.de, Instr.ld_de_a, Instr.INC_RR Reg16.de, Instr.INC_R Reg8.d, Instr.DEC_R Reg8.d, Instr.LD_R_N Reg8.d, Instr.rla,
  /-   3x -/ Instr.jr_e, Instr.ADD_HL_RR Reg16.de, Instr.ld_a_de, Instr.DEC_RR Reg16.de, Instr.INC_R Reg8.e, Instr.DEC_R Reg8.e, Instr.LD_R_N Reg8.e, Instr.rra,
  /-   4x -/ Instr.JR_CC_E Cond.nz, Instr.LD_RR_NN Reg16.hl, Instr.ld_hli_a, Instr.INC_RR Reg16.hl, Instr.INC_R Reg8.h, Instr.DEC_R Reg8.h, Instr.LD_R_N Reg8.h, Instr.daa,
  /-   5x -/ Instr.JR_CC_E Cond.z, Instr.ADD_HL_RR Reg16.hl, Instr.ld_a_hli, Instr.DEC_RR Reg16.hl, Instr.INC_R Reg8.l, Instr.DEC_R Reg8.l, Instr.LD_R_N Reg8.l, Instr.cpl,
  /-   6x -/ Instr.JR_CC_E Cond.nc, Instr.LD_RR_NN Reg16.sp, Instr.ld_hld_a, Instr.INC_RR Reg16.sp, Instr.inc_ahl, Instr.dec_ahl, Instr.ld_hl_n, Instr.scf,
  /-   7x -/ Instr.JR_CC_E Cond.c, Instr.ADD_HL_RR Reg16.sp, Instr.ld_a_hld, Instr.DEC_RR Reg16.sp, Instr.INC_R Reg8.a, Instr.DEC_R Reg8.a, Instr.LD_R_N Reg8.a, Instr.ccf,
  /-  10x -/ Instr.nop, Instr.LD_R_R Reg8.b Reg8.c, Instr.LD_R_R Reg8.b Reg8.d, Instr.LD_R_R Reg8.b Reg8.e, Instr.LD_R_R Reg8.b Reg8.h, Instr.LD_R_R Reg8.b Reg8.l, Instr.LD_R_HL Reg8.b, Instr.LD_R_R Reg8.b Reg8.a,
  /-  11x -/ Instr.LD_R_R Reg8.c Reg8.b, Instr.nop, Instr.LD_R_R Reg8.c Reg8.d, Instr.LD_R_R Reg8.c Reg8.e, Instr.LD_R_R Reg8.c Reg8.h, Instr.LD_R_R Reg8.c Reg8.l, Instr.LD_R_HL Reg8.c, Instr.LD_R_R Reg8.c Reg8.a,
  /-  12x -/ Instr.LD_R_R Reg8.d Reg8.b, Instr.LD_R_R Reg8.d Reg8.c, Instr.nop, Instr.LD_R_R Reg8.d Reg8.e, Instr.LD_R_R Reg8.d Reg8.h, Instr.LD_R_R Reg8.d Reg8.l, Instr.LD_R_HL Reg8.d, Instr.LD_R_R Reg8.d Reg8.a,
  /-  13x -/ Instr.LD_R_R Reg8.e Reg8.b, Instr.LD_R_R Reg8.e Reg8.c, Instr.LD_R_R Reg8.e Reg8.d, Instr.nop, Instr.LD_R_R Reg8.e Reg8.h, Instr.LD_R_R Reg8.e Reg8.l, Instr.LD_R_HL Reg8.e, Instr.LD_R_R Reg8.e Reg8.a,
  /-  14x -/ Instr.LD_R_R Reg8.h Reg8.b, Instr.LD_R_R Reg8.h Reg8.c, Instr.LD_R_R Reg8.h Reg8.d, Instr.LD_R_R Reg8.h Reg8.e, Instr.nop, Instr.LD_R_R Reg8.h Reg8.l, Instr.LD_R_HL Reg8.h, Instr.LD_R_R Reg8.h Reg8.a,
  /-  15x -/ Instr.LD_R_R Reg8.l Reg8.b, Instr.LD_R_R Reg8.l Reg8.c, Instr.LD_R_R Reg8.l Reg8.d, Instr.LD_R_R Reg8.l Reg8.e, Instr.LD_R_R Reg8.l Reg8.h, Instr.nop, Instr.LD_R_HL Reg8.l, Instr.LD_R_R Reg8.l Reg8.a,
  /-  16x -/ Instr.LD_HL_R Reg8.b, Instr.LD_HL_R Reg8.c, Instr.LD_HL_R Reg8.d, Instr.LD_HL_R Reg8.e, Instr.LD_HL_R Reg8.h, Instr.LD_HL_R Reg8.l, Instr.halt, Instr.LD_HL_R Reg8.a,
  /-  17x -/ Instr.LD_R_R Reg8.a Reg8.b, Instr.LD_R_R Reg8.a Reg8.c, Instr.LD_R_R Reg8.a Reg8.d, Instr.LD_R_R Reg8.a Reg8.e, Instr.LD_R_R Reg8.a Reg8.h, Instr.LD_R_R Reg8.a Reg8.l, Instr.LD_R_HL Reg8.a, Instr.nop,
  /-  20x -/ Instr.ALU_REG_OP AluOp.add Reg8.b, Instr.ALU_REG_OP AluOp.add Reg8.c, Instr.ALU_REG_OP AluOp.add Reg8.d, Instr.ALU_REG_OP AluOp.add Reg8.e, Instr.ALU_REG_OP AluOp.add Reg8.h, Instr.ALU_REG_OP AluOp.add Reg8.l, Instr.ALU_HL_OP AluOp.add, Instr.ALU_REG_OP AluOp.add Reg8.a,
  /-  21x -/ Instr.ALU_REG_OP AluOp.adc Reg8.b, Instr.ALU_REG_OP AluOp.adc Reg8.c, Instr.ALU_REG_OP AluOp.adc Reg8.d, Instr.ALU_REG_OP AluOp.adc Reg8.e, Instr.ALU_REG_OP AluOp.adc Reg8.h, Instr.ALU_REG_OP AluOp.adc Reg8.l, Instr.ALU_HL_OP AluOp.adc, Instr.ALU_REG_OP AluOp.adc Reg8.a,
  /-  22x -/ Instr.ALU_REG_OP AluOp.sub Reg8.b, Instr.ALU_REG_OP AluOp.sub Reg8.c, Instr.ALU_REG_OP AluOp.sub Reg8.d, Instr.ALU_REG_OP AluOp.sub Reg8.e, Instr.ALU_REG_OP AluOp.sub Reg8.h, Instr.ALU_REG_OP AluOp.sub Reg8.l, Instr.ALU_HL_OP AluOp.sub, Instr.ALU_REG_OP AluOp.sub Reg8.a,
  /-  23x -/ Instr.ALU_REG_OP AluOp.sbc Reg8.b, Instr.ALU_REG_OP AluOp.sbc Reg8.c, Instr.ALU_REG_OP AluOp.sbc Reg8.d, Instr.ALU_REG_OP AluOp.sbc Reg8.e, Instr.ALU_REG_OP AluOp.sbc Reg8.h, Instr.ALU_REG_OP AluOp.sbc Reg8.l, Instr.ALU_HL_OP AluOp.sbc, Instr.ALU_REG_OP AluOp.sbc Reg8.a,
  /-  24x -/ Instr.ALU_REG_OP AluOp.and Reg8.b, Instr.ALU_REG_OP AluOp.and Reg8.c, Instr.ALU_REG_OP AluOp.and Reg8.d, Instr.ALU_REG_OP AluOp.and Reg8.e, Instr.ALU_REG_OP AluOp.and Reg8.h, Instr.ALU_REG_OP AluOp.and Reg8.l, Instr.ALU_HL_OP AluOp.and, Instr.ALU_REG_OP AluOp.and Reg8.a,
  /-  25x -/ Instr.ALU_REG_OP AluOp.xor Reg8.b, Instr.ALU_REG_OP AluOp.xor Reg8.c, Instr.ALU_REG_OP AluOp.xor Reg8.d, Instr.ALU_REG_OP AluOp.xor Reg8.e, Instr.ALU_REG_OP AluOp.xor Reg8.h, Instr.ALU_REG_OP AluOp.xor Reg8.l, Instr.ALU_HL_OP AluOp.xor, Instr.ALU_REG_OP AluOp.xor Reg8.a,
  /-  26x -/ Instr.ALU_REG_OP AluOp.or Reg8.b, Instr.ALU_REG_OP AluOp.or Reg8.c, Instr.ALU_REG_OP AluOp.or Reg8.d, Instr.ALU_REG_OP AluOp.or Reg8.e, Instr.ALU_REG_OP AluOp.or Reg8.h, Instr.ALU_REG_OP AluOp.or Reg8.l, Instr.ALU_HL_OP AluOp.or, Instr.ALU_REG_OP AluOp.or Reg8.a,
  /-  27x -/ Instr.ALU_REG_OP AluOp.cp Reg8.b, Instr.ALU_REG_OP AluOp.cp Reg8.c, Instr.ALU_REG_OP AluOp.cp Reg8.d, Instr.ALU_REG_OP AluOp.cp Reg8.e, Instr.ALU_REG_OP AluOp.cp Reg8.h, Instr.ALU_REG_OP AluOp.cp Reg8.l, Instr.ALU_HL_OP AluOp.cp, Instr.ALU_REG_OP AluOp.cp Reg8.a,
  /-  30x -/ Instr.RET_CC Cond.nz, Instr.POP_RR Reg16.bc, Instr.JP_CC_NN Cond.nz, Instr.jp_nn, Instr.CALL_CC_NN Cond.nz, Instr.PUSH_RR Reg16.bc, Instr.ALU_IMM_OP AluOp.add, Instr.RST_N 0x00,
  /-  31x -/ Instr.RET_CC Cond.z, Instr.ret, Instr.JP_CC_NN Cond.z, Instr.op_cb, Instr.CALL_CC_NN Cond.z, Instr.call_nn, Instr.ALU_IMM_OP AluOp.adc, Instr.RST_N 0x08,
  /-  32x -/ Instr.RET_CC Cond.nc, Instr.POP_RR Reg16.de, Instr.JP_CC_NN Cond.nc, Instr.op_ill, Instr.CALL_CC_NN Cond.nc, Instr.PUSH_RR Reg16.de, Instr.ALU_IMM_OP AluOp.sub, Instr.RST_N 0x10,
  /-  33x -/ Instr.RET_CC Cond.c, Instr.reti, Instr.JP_CC_NN Cond.c, Instr.op_ill, Instr.CALL_CC_NN Cond.c, Instr.op_ill, Instr.ALU_IMM_OP AluOp.sbc, Instr.RST_N 0x18,
  /-  34x -/ Instr.ldh_n_a, Instr.POP_RR Reg16.hl, Instr.ldh_c_a, Instr.op_ill, Instr.op_ill, Instr.PUSH_RR Reg16.hl, Instr.ALU_IMM_OP AluOp.and, Instr.RST_N 0x20,
  /-  35x -/ Instr.add_sp_e, Instr.jp_hl, Instr.ld_nn_a, Instr.op_ill, Instr.op_ill, Instr.op_ill, Instr.ALU_IMM_OP AluOp.xor, Instr.RST_N 0x28,
  /-  36x -/ Instr.ldh_a_n, Instr.pop_af, Instr.ldh_a_c, Instr.di, Instr.op_ill, Instr.push_af, Instr.ALU_IMM_OP AluOp.or, Instr.RST_N 0x30,
  /-  37x -/ Instr.ld_hl_sp_e, Instr.ld_sp_hl, Instr.ld_a_nn, Instr.ei, Instr.op_ill, Instr.op_ill, Instr.ALU_IMM_OP AluOp.cp, Instr.RST_N 0x38]


/-- Embeds `run_opcode` of `cpu.c`: the interrupt dispatch, or one
instruction.  The opcode read is a `u8`, so the lookup `op_ptrs[opcode]` is in
range. -/
def run_opcode (gb : GameBoy) : Option GameBoy :=
  if gb.ime ∧ (gb.ie &&& gb.if_) ≠ 0 then
    let gb : GameBoy := { gb with ime := false }
    let gb := cycle gb
    match push_cycle16 gb gb.pc with
    | none => none
    | some gb =>
      let gb : GameBoy :=
        if gb.ie &&& gb.if_ &&& (1 <<< 0) ≠ 0 then
          { gb with if_ := clear_bit gb.if_ 0, pc := 0x40 }
        else if gb.ie &&& gb.if_ &&& (1 <<< 1) ≠ 0 then
          { gb with if_ := clear_bit gb.if_ 1, pc := 0x48 }
        else if gb.ie &&& gb.if_ &&& (1 <<< 2) ≠ 0 then
          { gb with if_ := clear_bit gb.if_ 2, pc := 0x50 }
        else if gb.ie &&& gb.if_ &&& (1 <<< 3) ≠ 0 then
          { gb with if_ := clear_bit gb.if_ 3, pc := 0x58 }
        else if gb.ie &&& gb.if_ &&& (1 <<< 4) ≠ 0 then
          { gb with if_ := clear_bit gb.if_ 4, pc := 0x60 }
        else gb
      some (cycle gb)
  else
    match read_imm_cycle gb with
    | none => none
    | some (opcode, gb) =>
      match op_ptrs[opcode]? with
      | some func => func.exec gb
      | none => none

/-! ## `gb.c`: the frame driver -/

/-- Embeds `run_frame` of `gb.c`: `while (!gb->end_frame) run_opcode(gb);` and
then `gb->end_frame = false`.  The loop body runs at most `fuel` times: the
outer `none` is a loop that is still running when the fuel is spent, and
`some none` is an `exit(1)` inside `run_opcode`. -/
def run_frame : Nat → GameBoy → Option (Option GameBoy)
  | 0, gb => if gb.end_frame then some (some { gb with end_frame := false }) else none
  | fuel + 1, gb =>
    if gb.end_frame then some (some { gb with end_frame := false })
    else
      match run_opcode gb with
      | none => some none
      | some gb => run_frame fuel gb

/-! ## `gb.c`: construction -/

/-- The struct returned by `crit_alloc(sizeof(GameBoy))`: `calloc` fills it
with zero bytes, so every number is `0`, every flag `false` and every pointer
`NULL`.  The regions behind the non-null pointers of the model are all zero,
as freshly `calloc`ed regions are.  The pointer `fbuf` is `NULL` here and
after `make_gb`; the field of the model is the caller's pixel block, which
`set_fbuf` installs. -/
def zeroed : GameBoy where
  type := GBType.DMG
  fbuf := fun _ => 0
  end_frame := false
  rom_lo := none
  rom_hi := none
  vram := fun _ => 0
  cartram := none
  wram_lo := fun _ => 0
  oam := fun _ => 0
  hram := fun _ => 0
  a := 0
  f_z := false
  f_n := false
  f_h := false
  f_c := false
  pc := 0
  sp := 0
  b := 0
  c := 0
  d := 0
  e := 0
  h := 0
  l := 0
  ime := false
  sb := 0
  sc := 0
  div := 0
  tima := 0
  tma := 0
  tac_en := false
  tac_clk := 0
  if_ := 0
  lcd_en := false
  win_map := false
  win_en := false
  tile_sel := false
  bg_map := false
  obj_size := false
  obj_en := false
  bg_en := false
  stat := 0
  scy := 0
  scx := 0
  ly := 0
  lyc := 0
  dma := 0
  bgp := fun _ => 0
  obp0 := fun _ => 0
  obp1 := fun _ => 0
  wy := 0
  wx := 0
  ie := 0
  cycles := 0
  dots := 0

/-- Embeds `make_gb` of `gb.c` on the image `rom` of `size` bytes.  The outer `none`
is `exit(1)`, `some none` is the return value `NULL`.  `rom_hi` is the pointer
`rom + 0x4000`.  `make_gb` does not assign `fbuf`: the pointer is still `NULL`
when it returns, and a machine is run only once the caller has assigned it
(`set_fbuf`). -/
def make_gb (rom : Nat → Nat) (size : Nat) : Option (Option GameBoy) :=
  if size < 0x8000 then some none
  else
    let rom_size := rom 0x0148
    if rom_size > 8 then some none
    else if 0x8000 * (1 <<< rom_size) ≠ size then some none
    else if rom 0x0143 = 0x80 ∨ rom 0x0143 = 0xC0 then none
    else if rom 0x0146 = 0x03 then none
    else
      let gb : GameBoy := { zeroed with type := GBType.DMG }
      if rom 0x147 ≠ 0x00 then none
      else
        some (some { gb with
          rom_lo := some rom,
          rom_hi := some (fun i => rom (0x4000 + i)),
          cartram := none,
          a := 0, f_z := false, f_n := false, f_h := false, f_c := false,
          b := 0, c := 0, d := 0, e := 0, h := 0, l := 0,
          pc := 0x0100, sp := 0xFFFE,
          ime := false,
          lcd_en := true })

/-! ## `main.c`: the caller's frame buffer -/

/-- Embeds the assignment `gb->fbuf = framebuf->pixels` of `load_rom` in
`main.c`, by which the caller installs its pixel block.  `make_gb` of `gb.c`
leaves `gb->fbuf` `NULL` and `render_pixel` stores through it, so a
constructed machine is run only after this assignment; the values that
`pixels` holds are the caller's (`main.c` clears them). -/
def set_fbuf (gb : GameBoy) (pixels : Nat → Nat) : GameBoy :=
  { gb with fbuf := pixels }

/-! ## Address classes of the bus decode -/

/-- The addresses that `read` and `write` route to a byte of VRAM
(`0x8000-0x9FFF`), of work RAM directly or through the echo range
(`0xC000-0xFDFF`), of OAM (`0xFE00-0xFE9F`) or of HRAM (`0xFF80-0xFFFE`). -/
def is_ram (a : Nat) : Prop :=
  (0x8000 ≤ a ∧ a < 0xA000) ∨ (0xC000 ≤ a ∧ a < 0xFE00) ∨
    (0xFE00 ≤ a ∧ a < 0xFEA0) ∨ (0xFF80 ≤ a ∧ a < 0xFFFF)

instance (a : Nat) : Decidable (is_ram a) := by
  unfold is_ram
  infer_instance

/-- The states `g` that differ from `gb` at most in what a tick can touch: the
cycle accumulator, the dot counter, `ly`, `end_frame`, the frame buffer, and
`if_`, which is either unchanged or has gained bit 0. -/
def tick_frame (gb g : GameBoy) : Prop :=
  ∃ cycles dots ly ef fbuf if1,
    g = { gb with cycles := cycles, dots := dots, ly := ly, end_frame := ef, fbuf := fbuf,
                  if_ := if1 } ∧
    (if1 = gb.if_ ∨ if1 = gb.if_ ||| 1)

/-- The addresses at which `write` stores to plain memory or discards the
byte: everything below the I/O page `0xFF00`, and HRAM.  (The remaining
addresses are the I/O registers and `IE`.) -/
def non_io (a : Nat) : Prop := a < 0xFF00 ∨ (0xFF80 ≤ a ∧ a < 0xFFFF)

instance (a : Nat) : Decidable (non_io a) := by
  unfold non_io
  infer_instance

/-- What `write` does at an address outside the I/O page and `IE`, in closed
form (see `write_non_io`): a store to the addressed region, or nothing. -/
def ram_store (gb : GameBoy) (a x : Nat) : GameBoy :=
  { gb with
    vram := if 0x8000 ≤ a ∧ a < 0xA000 then store gb.vram (a % 0x2000) x else gb.vram,
    wram_lo := if 0xC000 ≤ a ∧ a < 0xFE00 then store gb.wram_lo (a % 0x2000) x else gb.wram_lo,
    oam := if 0xFE00 ≤ a ∧ a < 0xFEA0 then store gb.oam (a % 0x100) x else gb.oam,
    hram := if 0xFF80 ≤ a ∧ a < 0xFFFF then store gb.hram (a % 0x80) x else gb.hram }

/-- The state of scenario S4: a fresh machine's stack and LCD, with `IME=1`,
`IE=0x01`, `IF=0x01` and `PC=0x0150`. -/
def s4_state : GameBoy :=
  { zeroed with ime := true, ie := 0x01, if_ := 0x01, pc := 0x0150, sp := 0xFFFE, lcd_en := true }

/-! ## The LCD position -/

/-- The ranges of the dot counter and of `ly` that `lcd_cycle` maintains. -/
def lcd_inv (gb : GameBoy) : Prop := -80 ≤ gb.dots ∧ gb.dots < 376 ∧ gb.ly < 154

/-- The position of the LCD inside the frame, in dots from the start of line
0: a line is the 456 dots `-80 .. 375`, a frame is `154 * 456 = 70224` dots,
and line 144 starts at position `144 * 456 = 65664`. -/
def lcd_pos (gb : GameBoy) : Int := (gb.ly : Int) * 456 + (gb.dots + 80)

/-- Agreement of two states on the scalar LCD fields. -/
def lcd_same (g g' : GameBoy) : Prop :=
  g.dots = g'.dots ∧ g.ly = g'.ly ∧ g.end_frame = g'.end_frame ∧ g.if_ = g'.if_

/-! ## Scenario states -/

/-- The ROM image of scenario S1: `0x8000` bytes, all zero except `0x00, 0xC3,
0x00, 0x01` at `0x0100 .. 0x0103` (`NOP; JP 0x0100`). -/
def bringup_rom : Nat → Nat :=
  fun i => if i = 0x0101 then 0xC3 else if i = 0x0103 then 0x01 else 0x00

/-- The state of scenario S5: VRAM all zero except tile 0 (offsets `0 .. 15`),
which holds eight rows of `(0xFF, 0x00)`; `tile_sel = 1`, `bg_map = 0`. -/
def s5_state : GameBoy :=
  { zeroed with
    vram := fun i => if i < 16 ∧ i % 2 = 0 then 0xFF else 0x00,
    tile_sel := true, bg_map := false, lcd_en := true }

/-- A state in which the LCD, enabled, has just entered line 144. -/
def vblank_state : GameBoy := { zeroed with dots := -80, ly := 144, lcd_en := true }

/-- A state at the fetch of `CALL NZ,0x1234` from work RAM, with `Z` clear and
the stack in HRAM. -/
def call_state : GameBoy :=
  { zeroed with
    pc := 0xC000, sp := 0xFFFE,
    wram_lo := store (store (store (fun _ => 0) 0 0xC4) 1 0x34) 2 0x12 }

/-- A machine with the bring-up image whose `HL` is `0x0100`, a ROM byte that
is `0x00`. -/
def rom_hl_state : GameBoy :=
  { zeroed with
    rom_lo := some bringup_rom, rom_hi := some (fun i => bringup_rom (0x4000 + i)),
    h := 0x01, l := 0x00 }

/-- A state with the LCD on, one tick (four dots) before line 144, and `HL` at `LY`
(`0xFF44`). -/
def ly_hl_state : GameBoy :=
  { zeroed with h := 0xFF, l := 0x44, lcd_en := true, ly := 143, dots := 372 }

/-! ## The tick counts of the control transfers, after the spec -/

/-- Follows the spec's words (section 4.2, timing conventions), not the code:
the number of ticks of one control-transfer instruction, opcode fetch
included.  `JP HL` 1; `JP nn` 4; `JR e` 3; `CALL nn` 6; `RET` 4; `RETI` 4;
`JP cc,nn` 3 or 4 when taken; `JR cc,e` 2 or 3; `CALL cc,nn` 3 or 6;
`RET cc` 2 or 5.  `taken` says whether a condition holds. -/
def spec_control_ticks (taken : Cond → Bool) : Instr → Option Nat
  | .jp_hl => some 1
  | .jp_nn => some 4
  | .jr_e => some 3
  | .call_nn => some 6
  | .ret => some 4
  | .reti => some 4
  | .JP_CC_NN cc => some (if taken cc then 4 else 3)
  | .JR_CC_E cc => some (if taken cc then 3 else 2)
  | .CALL_CC_NN cc => some (if taken cc then 6 else 3)
  | .RET_CC cc => some (if taken cc then 5 else 2)
  | _ => none

/-! ## Relations between states used by the timing proofs -/

/-- The part of the state that a bus store leaves alone: the cycle
accumulator, the LCD position, `end_frame`, the framebuffer and the CPU
registers. -/
def bus_keeps (gb g : GameBoy) : Prop :=
  g.cycles = gb.cycles ∧ g.dots = gb.dots ∧ g.ly = gb.ly ∧ g.end_frame = gb.end_frame ∧
  g.fbuf = gb.fbuf ∧ g.a = gb.a ∧ g.f_z = gb.f_z ∧ g.f_n = gb.f_n ∧ g.f_h = gb.f_h ∧
  g.f_c = gb.f_c ∧ g.b = gb.b ∧ g.c = gb.c ∧ g.d = gb.d ∧ g.e = gb.e ∧ g.h = gb.h ∧
  g.l = gb.l ∧ g.pc = gb.pc ∧ g.sp = gb.sp ∧ g.ime = gb.ime

/-- The state `g'` is `n` ticks after `g` by the cycle accumulator, with the
two flags that the conditions test unchanged. -/
def ticked (n : Nat) (g g' : GameBoy) : Prop :=
  g'.cycles = (g.cycles + 2 * n) % 4294967296 ∧ g'.f_z = g.f_z ∧ g'.f_c = g.f_c

/-- The states of the bring-up run between two instructions, `n` ticks after
construction and before the LCD enters line 144: `pc` is `p`, the image is
`bringup_rom`, interrupts are off, the LCD is on and `4 * n` dots past its
initial position 80, and neither `end_frame` nor a bit of `if_` is set. -/
def bringup_inv (p n : Nat) (g : GameBoy) : Prop :=
  g.pc = p ∧ g.ime = false ∧ g.rom_lo = some bringup_rom ∧ g.lcd_en = true ∧ lcd_inv g ∧
  lcd_pos g = 80 + 4 * (n : Int) ∧ g.cycles = 2 * n ∧ g.if_ = 0 ∧ g.end_frame = false

/-! ## The interrupt registers in reachable states -/

/-- Follows the spec's words (data-model invariant): `IF` and `IE` lie in
`[0, 0x1F]`. -/
def io_inv (g : GameBoy) : Prop := g.if_ ≤ 0x1F ∧ g.ie ≤ 0x1F

/-- Follows the spec's words: the states reachable from a freshly constructed
machine by bus writes, LCD steps and `run_opcode` steps. -/
inductive Reachable : GameBoy → Prop where
  | fresh (rom : Nat → Nat) (size : Nat) (gb : GameBoy) :
      make_gb rom size = some (some gb) → Reachable gb
  | bus_write (g g' : GameBoy) (a x : Nat) : Reachable g → write g a x = some g' → Reachable g'
  | lcd_step (g : GameBoy) : Reachable g → Reachable (lcd_cycle g)
  | opcode_step (g g' : GameBoy) : Reachable g → run_opcode g = some g' → Reachable g'

/-! ## The known I/O offsets, after the spec -/

/-- Follows the spec's words: the I/O offsets of the known set
`{0x00, 0x01, 0x02, 0x04, 0x05, 0x06, 0x07, 0x0F, 0x10..0x3F, 0x40..0x4B}`. -/
def known_io (o : Nat) : Prop :=
  o = 0x00 ∨ o = 0x01 ∨ o = 0x02 ∨ o = 0x04 ∨ o = 0x05 ∨ o = 0x06 ∨ o = 0x07 ∨ o = 0x0F ∨
    (0x10 ≤ o ∧ o ≤ 0x3F) ∨ (0x40 ≤ o ∧ o ≤ 0x4B)

instance (o : Nat) : Decidable (known_io o) := by
  unfold known_io
  infer_instance

/-! ## Executors that exit -/

/-- The executors of `cpu.c` whose body is `exit(1)`: `op_ill`, `halt` and
`stop`. -/
def Instr.fatal : Instr → Bool
  | .op_ill => true
  | .halt => true
  | .stop => true
  | _ => false

/-- The ROM image of scenario S6: `0x8000` bytes, all zero except
`LD SP,0xFFFE` (`31 FE FF`) and `CALL 0x0200` (`CD 00 02`) at `0x0100` and
`POP HL` (`E1`) at `0x0200`. -/
def s6_rom : Nat → Nat :=
  fun i =>
    if i = 0x0100 then 0x31 else if i = 0x0101 then 0xFE else if i = 0x0102 then 0xFF
    else if i = 0x0103 then 0xCD else if i = 0x0104 then 0x00 else if i = 0x0105 then 0x02
    else if i = 0x0200 then 0xE1 else 0x00

/-- The machine that `make_gb` builds for `s6_rom`. -/
def s6_state : GameBoy :=
  { zeroed with
    rom_lo := some s6_rom, rom_hi := some (fun i => s6_rom (0x4000 + i)),
    pc := 0x0100, sp := 0xFFFE, lcd_en := true }

/-! ## States that agree on the inputs of the background -/

/-- Follows the spec's words: two states agree on VRAM, `LCDC.BG_map`,
`LCDC.tile_sel`, LCD enable, `LY` and the dot counter. -/
def bg_agree (g g' : GameBoy) : Prop :=
  g.vram = g'.vram ∧ g.bg_map = g'.bg_map ∧ g.tile_sel = g'.tile_sel ∧
  g.lcd_en = g'.lcd_en ∧ g.ly = g'.ly ∧ g.dots = g'.dots

/-- Two states that differ in `SCX`, `SCY`, `WX`, `WY`, the palettes, `STAT`,
`LYC` and the `LCDC` bits other than `BG_map` and `tile_sel`, at the dot
before pixel `(0, 0)` of scenario S5's video memory. -/
def s5_scrolled : GameBoy :=
  { s5_state with
    ly := 0, dots := -1, scx := 0x55, scy := 0x23, wx := 7, wy := 9, stat := 0x40, lyc := 0x12,
    bgp := fun _ => 3, obp0 := fun _ => 2, obp1 := fun _ => 1,
    bg_en := true, win_en := true, win_map := true, obj_en := true, obj_size := true }

/-! ## The block indices of the bus and of the renderer -/

/-- The memory blocks behind the pointers of the `GameBoy` struct. -/
inductive Region where
  | rom
  | vram
  | wram
  | oam
  | hram
  deriving DecidableEq

/-- Sizes of the blocks: the `crit_alloc` calls of `make_gb` for the DMG
machine it builds (`vram` 0x2000, `wram_lo` 0x2000, `oam` 0xA0, `hram` 0x7F),
and the first 0x8000 bytes of the image, which `make_gb` requires to be
present and into which `rom_lo` and `rom_hi` point. -/
def Region.size : Region → Nat
  | .rom => 0x8000
  | .vram => 0x2000
  | .wram => 0x2000
  | .oam => 0xA0
  | .hram => 0x7F

/-- Offset of the pointer `rom_lo = rom` inside the image. -/
def rom_lo_off : Nat := 0

/-- Offset of the pointer `rom_hi = rom + 0x4000` (set in `make_gb`). -/
def rom_hi_off : Nat := 0x4000

/-- The block and the index in it that `read` of `gb.c` dereferences at `addr`,
branch by branch with the index expressions of the source; `none` where the
branch dereferences no block (the constant `0xFF`, the I/O registers, `ie`).
The ROM entry is the dereference made when the bank pointer is not `NULL`. -/
def read_index (addr : Nat) : Option (Region × Nat) :=
  if addr < 0x8000 then
    let ptr := if addr &&& 0x4000 ≠ 0 then rom_hi_off else rom_lo_off
    some (.rom, ptr + (addr &&& 0x3FFF))
  else if addr < 0xA000 then
    some (.vram, addr % 0x2000)
  else if addr < 0xC000 then
    none
  else if addr < 0xFE00 then
    let ptr := if addr &&& 0x1000 ≠ 0 then wram_hi_off else wram_lo_off
    some (.wram, ptr + (addr &&& 0x0FFF))
  else if addr < 0xFEA0 then
    some (.oam, addr &&& 0xFF)
  else if addr < 0xFF00 then
    none
  else if addr < 0xFF80 then
    none
  else if addr < 0xFFFF then
    some (.hram, addr &&& 0x7F)
  else
    none

/-- The block and the index in it that `write` of `gb.c` assigns at `addr`,
branch by branch with the index expressions of the source; `none` where the
branch assigns no block (ROM, external RAM, unused, the I/O registers, `ie`). -/
def write_index (addr : Nat) : Option (Region × Nat) :=
  if addr < 0x8000 then
    none
  else if addr < 0xA000 then
    some (.vram, addr % 0x2000)
  else if addr < 0xC000 then
    none
  else if addr < 0xFE00 then
    let ptr := if addr &&& 0x1000 ≠ 0 then wram_hi_off else wram_lo_off
    some (.wram, ptr + (addr &&& 0x0FFF))
  else if addr < 0xFEA0 then
    some (.oam, addr &&& 0xFF)
  else if addr < 0xFF00 then
    none
  else if addr < 0xFF80 then
    none
  else if addr < 0xFFFF then
    some (.hram, addr &&& 0x7F)
  else
    none

/-- The byte at index `i` of a block of the state; the ROM image is the one
`rom_lo` points to. -/
def Region.get (gb : GameBoy) : Region → Nat → Option Nat
  | .rom, i => gb.rom_lo.map (fun p => p i)
  | .vram, i => some (gb.vram i)
  | .wram, i => some (gb.wram_lo i)
  | .oam, i => some (gb.oam i)
  | .hram, i => some (gb.hram i)

/-- The assignment `block[i] = v` on a block of the state; the ROM image is
not assigned by any code. -/
def Region.set (gb : GameBoy) : Region → Nat → Nat → GameBoy
  | .rom, _, _ => gb
  | .vram, i, v => { gb with vram := store gb.vram i v }
  | .wram, i, v => { gb with wram_lo := store gb.wram_lo i v }
  | .oam, i, v => { gb with oam := store gb.oam i v }
  | .hram, i, v => { gb with hram := store gb.hram i v }

/-- The tile-map index of `get_bg_tile` for the background at pixel `(x, y)`:
`tile_map + (y / 8) * 32 + x / 8` from the start of VRAM. -/
def bg_map_index (gb : GameBoy) (x y : Nat) : Nat :=
  (if gb.bg_map then 0x1C00 else 0x1800) + ((y / 8) * 32 + x / 8)

/-- The tile id that `render_pixel` passes to `get_tile_pixel` at pixel
`(x, y)`. -/
def bg_tile_id (gb : GameBoy) (x y : Nat) : Nat :=
  let tile_id := get_bg_tile gb (x / 8) (y / 8) false
  if !gb.tile_sel && decide (tile_id < 0x80) then (tile_id + 0x100) % 65536 else tile_id

/-! ## Theorems -/

/-! ### Bit-level facts used by the bus proofs -/

theorem land_two_pow (x k : Nat) : x &&& 2 ^ k = if x.testBit k then 2 ^ k else 0 := by
  apply Nat.eq_of_testBit_eq
  intro i
  by_cases hb : x.testBit k
  · by_cases hk : k = i
    · subst hk; simp [hb, Nat.testBit_two_pow]
    · simp [hb, Nat.testBit_two_pow, hk]
  · by_cases hk : k = i
    · subst hk; simp [hb, Nat.testBit_two_pow]
    · simp [hb, Nat.testBit_two_pow, hk]

theorem land_two_pow_ne_zero (x k : Nat) : x &&& 2 ^ k ≠ 0 ↔ x / 2 ^ k % 2 = 1 := by
  rw [land_two_pow, Nat.testBit_to_div_mod]
  by_cases h : x / 2 ^ k % 2 = 1
  · simp [h]
  · simp [h]

theorem land_0x1000 (x : Nat) : x &&& 0x1000 ≠ 0 ↔ x / 0x1000 % 2 = 1 :=
  land_two_pow_ne_zero x 12

theorem land_0x4000 (x : Nat) : x &&& 0x4000 ≠ 0 ↔ x / 0x4000 % 2 = 1 :=
  land_two_pow_ne_zero x 14

theorem land_0x0FFF (x : Nat) : x &&& 0x0FFF = x % 0x1000 :=
  Nat.and_pow_two_sub_one_eq_mod x 12

theorem land_0x3FFF (x : Nat) : x &&& 0x3FFF = x % 0x4000 :=
  Nat.and_pow_two_sub_one_eq_mod x 14

theorem land_0xFF (x : Nat) : x &&& 0xFF = x % 0x100 :=
  Nat.and_pow_two_sub_one_eq_mod x 8

theorem land_0x7F (x : Nat) : x &&& 0x7F = x % 0x80 :=
  Nat.and_pow_two_sub_one_eq_mod x 7

/-- The work-RAM cell that `read` and `write` reach through `wram_lo` or
`wram_hi` is the low 13 address bits. -/
theorem wram_index (a : Nat) :
    (if a &&& 0x1000 ≠ 0 then wram_hi_off else wram_lo_off) + (a &&& 0x0FFF) = a % 0x2000 := by
  rw [land_0x0FFF]
  by_cases h : a / 0x1000 % 2 = 1
  · rw [if_pos ((land_0x1000 a).mpr h)]; simp only [wram_hi_off]; omega
  · rw [if_neg (fun hc => h ((land_0x1000 a).mp hc))]; simp only [wram_lo_off]; omega

theorem read_wram (gb : GameBoy) (a : Nat) (h1 : 0xC000 ≤ a) (h2 : a < 0xFE00) :
    read gb a = some (gb.wram_lo (a % 0x2000)) := by
  have e1 : ¬ a < 0x8000 := by omega
  have e2 : ¬ a < 0xA000 := by omega
  have e3 : ¬ a < 0xC000 := by omega
  simp only [read, e1, e2, e3, h2, if_true, if_false, wram_index]

theorem write_wram (gb : GameBoy) (a b : Nat) (h1 : 0xC000 ≤ a) (h2 : a < 0xFE00) :
    write gb a b = some { gb with wram_lo := store gb.wram_lo (a % 0x2000) b } := by
  have e1 : ¬ a < 0x8000 := by omega
  have e2 : ¬ a < 0xA000 := by omega
  have e3 : ¬ a < 0xC000 := by omega
  simp only [write, e1, e2, e3, h2, if_true, if_false, wram_index]

/-- C8: for every address `a` in `[0xC000, 0xDE00)` and every byte `b`, a
write of `b` at `a` is read back at the echo address `a + 0x2000`, and a write
of `b` at the echo address `a + 0x2000` is read back at `a`. -/
theorem echo_ram_alias (gb : GameBoy) (a b : Nat) (hlo : 0xC000 ≤ a) (hhi : a < 0xDE00) :
    (write gb a b).bind (fun g => read g (a + 0x2000)) = some b ∧
    (write gb (a + 0x2000) b).bind (fun g => read g a) = some b := by
  have h3 : (a + 0x2000) % 0x2000 = a % 0x2000 := by omega
  constructor
  · rw [write_wram gb a b hlo (by omega)]
    simp only [Option.some_bind]
    rw [read_wram _ _ (by omega) (by omega), h3]
    simp [store]
  · rw [write_wram gb _ b (by omega) (by omega)]
    simp only [Option.some_bind]
    rw [read_wram _ _ hlo (by omega), h3]
    simp [store]

/-- Scenario S3 as an instance of C8: `0x5A` written at `0xC123` is read at
`0xE123`. -/
theorem echo_ram_alias_witness :
    (write zeroed 0xC123 0x5A).bind (fun g => read g (0xC123 + 0x2000)) = some 0x5A ∧
    (write zeroed (0xC123 + 0x2000) 0x5A).bind (fun g => read g 0xC123) = some 0x5A :=
  echo_ram_alias zeroed 0xC123 0x5A (by decide) (by decide)

theorem read_rom (gb : GameBoy) (a : Nat) (h : a < 0x8000) :
    read gb a =
      match (if a / 0x4000 % 2 = 1 then gb.rom_hi else gb.rom_lo) with
      | some p => some (p (a % 0x4000))
      | none => some 0xFF := by
  simp only [read, h, if_true, land_0x3FFF, land_0x4000]

theorem read_vram (gb : GameBoy) (a : Nat) (h1 : 0x8000 ≤ a) (h2 : a < 0xA000) :
    read gb a = some (gb.vram (a % 0x2000)) := by
  have e1 : ¬ a < 0x8000 := by omega
  simp only [read, e1, h2, if_true, if_false]

theorem write_vram (gb : GameBoy) (a b : Nat) (h1 : 0x8000 ≤ a) (h2 : a < 0xA000) :
    write gb a b = some { gb with vram := store gb.vram (a % 0x2000) b } := by
  have e1 : ¬ a < 0x8000 := by omega
  simp only [write, e1, h2, if_true, if_false]

theorem read_oam (gb : GameBoy) (a : Nat) (h1 : 0xFE00 ≤ a) (h2 : a < 0xFEA0) :
    read gb a = some (gb.oam (a % 0x100)) := by
  have e1 : ¬ a < 0x8000 := by omega
  have e2 : ¬ a < 0xA000 := by omega
  have e3 : ¬ a < 0xC000 := by omega
  have e4 : ¬ a < 0xFE00 := by omega
  simp only [read, e1, e2, e3, e4, h2, if_true, if_false, land_0xFF]

theorem write_oam (gb : GameBoy) (a b : Nat) (h1 : 0xFE00 ≤ a) (h2 : a < 0xFEA0) :
    write gb a b = some { gb with oam := store gb.oam (a % 0x100) b } := by
  have e1 : ¬ a < 0x8000 := by omega
  have e2 : ¬ a < 0xA000 := by omega
  have e3 : ¬ a < 0xC000 := by omega
  have e4 : ¬ a < 0xFE00 := by omega
  simp only [write, e1, e2, e3, e4, h2, if_true, if_false, land_0xFF]

theorem read_hram (gb : GameBoy) (a : Nat) (h1 : 0xFF80 ≤ a) (h2 : a < 0xFFFF) :
    read gb a = some (gb.hram (a % 0x80)) := by
  have e1 : ¬ a < 0x8000 := by omega
  have e2 : ¬ a < 0xA000 := by omega
  have e3 : ¬ a < 0xC000 := by omega
  have e4 : ¬ a < 0xFE00 := by omega
  have e5 : ¬ a < 0xFEA0 := by omega
  have e6 : ¬ a < 0xFF00 := by omega
  have e7 : ¬ a < 0xFF80 := by omega
  simp only [read, e1, e2, e3, e4, e5, e6, e7, h2, if_true, if_false, land_0x7F]

theorem write_hram (gb : GameBoy) (a b : Nat) (h1 : 0xFF80 ≤ a) (h2 : a < 0xFFFF) :
    write gb a b = some { gb with hram := store gb.hram (a % 0x80) b } := by
  have e1 : ¬ a < 0x8000 := by omega
  have e2 : ¬ a < 0xA000 := by omega
  have e3 : ¬ a < 0xC000 := by omega
  have e4 : ¬ a < 0xFE00 := by omega
  have e5 : ¬ a < 0xFEA0 := by omega
  have e6 : ¬ a < 0xFF00 := by omega
  have e7 : ¬ a < 0xFF80 := by omega
  simp only [write, e1, e2, e3, e4, e5, e6, e7, h2, if_true, if_false, land_0x7F]

theorem write_rom (gb : GameBoy) (a b : Nat) (h : a < 0x8000) : write gb a b = some gb := by
  simp only [write, h, if_true]

/-- The image pointers that `make_gb` installs: `rom_lo = rom` and
`rom_hi = rom + 0x4000`. -/
theorem make_gb_rom_ptrs (rom : Nat → Nat) (size : Nat) (gb : GameBoy)
    (h : make_gb rom size = some (some gb)) :
    gb.rom_lo = some rom ∧ gb.rom_hi = some (fun i => rom (0x4000 + i)) := by
  simp only [make_gb] at h
  split_ifs at h <;> simp only [Option.some.injEq, reduceCtorEq] at h
  subst h
  exact ⟨rfl, rfl⟩

/-- C9: ROM is immutable.  In a machine whose image pointers are the ones
`make_gb` installs for the image `rom`, a write of any byte `b` at any address
`a < 0x8000` changes no part of the machine state, and the read of `a` that
follows returns `rom a`, the byte at offset `a` of the loaded image. -/
theorem rom_immutable (gb : GameBoy) (rom : Nat → Nat) (a b : Nat)
    (hlo : gb.rom_lo = some rom) (hhi : gb.rom_hi = some (fun i => rom (0x4000 + i)))
    (ha : a < 0x8000) :
    write gb a b = some gb ∧ (write gb a b).bind (fun g => read g a) = some (rom a) := by
  refine ⟨write_rom gb a b ha, ?_⟩
  rw [write_rom gb a b ha, Option.some_bind, read_rom gb a ha]
  by_cases h : a / 0x4000 % 2 = 1
  · rw [if_pos h, hhi]
    have e : 0x4000 + a % 0x4000 = a := by omega
    simp only [e]
  · rw [if_neg h, hlo]
    have e : a % 0x4000 = a := by omega
    simp only [e]

/-- An instance of C9 in the upper ROM bank: the write of `0x77` at `0x4123`
is discarded and the image byte is read back. -/
theorem rom_immutable_witness :
    write { zeroed with rom_lo := some (fun i => i % 251),
                        rom_hi := some (fun i => (0x4000 + i) % 251) } 0x4123 0x77 =
      some { zeroed with rom_lo := some (fun i => i % 251),
                         rom_hi := some (fun i => (0x4000 + i) % 251) } ∧
    (write { zeroed with rom_lo := some (fun i => i % 251),
                         rom_hi := some (fun i => (0x4000 + i) % 251) } 0x4123 0x77).bind
        (fun g => read g 0x4123) = some (0x4123 % 251) :=
  rom_immutable _ (fun i => i % 251) 0x4123 0x77 rfl rfl (by decide)

/-- C10: for every address `a` in VRAM, work RAM or echo RAM, OAM or HRAM and
every byte `b`, the write of `b` at `a` succeeds, the read of `a` that follows
returns `b`, and the read of every other address `a2` of those ranges or of
ROM that is neither `a` nor its echo alias `a + 0x2000`, `a - 0x2000` returns
what it returned before the write. -/
theorem ram_write_read (gb : GameBoy) (a b : Nat) (ha : is_ram a) :
    ∃ g, write gb a b = some g ∧ read g a = some b ∧
      ∀ a2, (is_ram a2 ∨ a2 < 0x8000) → a2 ≠ a → a2 ≠ a + 0x2000 → a2 + 0x2000 ≠ a →
        read g a2 = read gb a2 := by
  rcases ha with ⟨l, u⟩ | ⟨l, u⟩ | ⟨l, u⟩ | ⟨l, u⟩
  · refine ⟨_, write_vram gb a b l u, ?_, ?_⟩
    · rw [read_vram _ a l u]; simp [store]
    · intro a2 h2 n1 n2 n3
      rcases h2 with (⟨l2, u2⟩ | ⟨l2, u2⟩ | ⟨l2, u2⟩ | ⟨l2, u2⟩) | l2
      · rw [read_vram _ a2 l2 u2, read_vram gb a2 l2 u2]
        simp only [store]; rw [if_neg (by omega)]
      · rw [read_wram _ a2 l2 u2, read_wram gb a2 l2 u2]
      · rw [read_oam _ a2 l2 u2, read_oam gb a2 l2 u2]
      · rw [read_hram _ a2 l2 u2, read_hram gb a2 l2 u2]
      · rw [read_rom _ a2 l2, read_rom gb a2 l2]
  · refine ⟨_, write_wram gb a b l u, ?_, ?_⟩
    · rw [read_wram _ a l u]; simp [store]
    · intro a2 h2 n1 n2 n3
      rcases h2 with (⟨l2, u2⟩ | ⟨l2, u2⟩ | ⟨l2, u2⟩ | ⟨l2, u2⟩) | l2
      · rw [read_vram _ a2 l2 u2, read_vram gb a2 l2 u2]
      · rw [read_wram _ a2 l2 u2, read_wram gb a2 l2 u2]
        simp only [store]; rw [if_neg (by omega)]
      · rw [read_oam _ a2 l2 u2, read_oam gb a2 l2 u2]
      · rw [read_hram _ a2 l2 u2, read_hram gb a2 l2 u2]
      · rw [read_rom _ a2 l2, read_rom gb a2 l2]
  · refine ⟨_, write_oam gb a b l u, ?_, ?_⟩
    · rw [read_oam _ a l u]; simp [store]
    · intro a2 h2 n1 n2 n3
      rcases h2 with (⟨l2, u2⟩ | ⟨l2, u2⟩ | ⟨l2, u2⟩ | ⟨l2, u2⟩) | l2
      · rw [read_vram _ a2 l2 u2, read_vram gb a2 l2 u2]
      · rw [read_wram _ a2 l2 u2, read_wram gb a2 l2 u2]
      · rw [read_oam _ a2 l2 u2, read_oam gb a2 l2 u2]
        simp only [store]; rw [if_neg (by omega)]
      · rw [read_hram _ a2 l2 u2, read_hram gb a2 l2 u2]
      · rw [read_rom _ a2 l2, read_rom gb a2 l2]
  · refine ⟨_, write_hram gb a b l u, ?_, ?_⟩
    · rw [read_hram _ a l u]; simp [store]
    · intro a2 h2 n1 n2 n3
      rcases h2 with (⟨l2, u2⟩ | ⟨l2, u2⟩ | ⟨l2, u2⟩ | ⟨l2, u2⟩) | l2
      · rw [read_vram _ a2 l2 u2, read_vram gb a2 l2 u2]
      · rw [read_wram _ a2 l2 u2, read_wram gb a2 l2 u2]
      · rw [read_oam _ a2 l2 u2, read_oam gb a2 l2 u2]
      · rw [read_hram _ a2 l2 u2, read_hram gb a2 l2 u2]
        simp only [store]; rw [if_neg (by omega)]
      · rw [read_rom _ a2 l2, read_rom gb a2 l2]

/-- An instance of C10: a write at the OAM address `0xFE10`. -/
theorem ram_write_read_witness :
    ∃ g, write zeroed 0xFE10 0x5A = some g ∧ read g 0xFE10 = some 0x5A ∧
      ∀ a2, (is_ram a2 ∨ a2 < 0x8000) → a2 ≠ 0xFE10 → a2 ≠ 0xFE10 + 0x2000 →
        a2 + 0x2000 ≠ 0xFE10 → read g a2 = read zeroed a2 :=
  ram_write_read zeroed 0xFE10 0x5A (by decide)

/-! ### What a tick changes -/

/-- One dot changes at most the dot counter, `ly`, `end_frame`, the frame
buffer and `if_`, where it can only set bit 0. -/
theorem lcd_cycle_eq (gb : GameBoy) :
    ∃ dots ly ef fbuf if1,
      lcd_cycle gb = { gb with dots := dots, ly := ly, end_frame := ef, fbuf := fbuf, if_ := if1 } ∧
      (if1 = gb.if_ ∨ if1 = gb.if_ ||| 1) := by
  unfold lcd_cycle
  lift_lets
  extract_lets g1 g2 g3 g4
  have e3 : ∃ d l, g3 = { gb with dots := d, ly := l } := by
    by_cases h : g2.ly ≥ 154
    · exact ⟨_, _, if_pos h⟩
    · exact ⟨_, _, if_neg h⟩
  obtain ⟨d3, l3, e3⟩ := e3
  have e4 : ∃ d l ef if1, g4 = { gb with dots := d, ly := l, end_frame := ef, if_ := if1 } ∧
      (if1 = gb.if_ ∨ if1 = gb.if_ ||| 1) := by
    by_cases h : g1.dots ≥ 376
    · by_cases h' : g3.ly = SCREEN_HEIGHT
      · refine ⟨d3, l3, true, gb.if_ ||| 1, ?_, Or.inr rfl⟩
        have : g4 = { g3 with if_ := g3.if_ ||| (1 <<< 0), end_frame := true } :=
          (if_pos h).trans (if_pos h')
        rw [this, e3]
        rfl
      · refine ⟨d3, l3, gb.end_frame, gb.if_, ?_, Or.inl rfl⟩
        have : g4 = g3 := (if_pos h).trans (if_neg h')
        rw [this, e3]
    · exact ⟨_, _, _, _, if_neg h, Or.inl rfl⟩
  obtain ⟨d4, l4, f4, i4, e4, k4⟩ := e4
  rw [e4]
  unfold render_pixel
  split_ifs
  · exact ⟨_, _, _, _, _, rfl, k4⟩
  · exact ⟨_, _, _, _, _, rfl, k4⟩

theorem lor_one_idem (x : Nat) : (x ||| 1) ||| 1 = x ||| 1 := by
  rw [Nat.or_assoc, Nat.or_self]

theorem tick_frame_refl (gb : GameBoy) : tick_frame gb gb :=
  ⟨_, _, _, _, _, _, rfl, Or.inl rfl⟩

theorem tick_frame_lcd_cycle (gb g : GameBoy) (h : tick_frame gb g) :
    tick_frame gb (lcd_cycle g) := by
  obtain ⟨c, d, l, e, f, i, hg, hi⟩ := h
  subst hg
  obtain ⟨d1, l1, e1, f1, i1, h1, k1⟩ := lcd_cycle_eq
    { gb with cycles := c, dots := d, ly := l, end_frame := e, fbuf := f, if_ := i }
  rw [h1]
  refine ⟨c, d1, l1, e1, f1, i1, rfl, ?_⟩
  have k1' : i1 = i ∨ i1 = i ||| 1 := k1
  rcases hi with hi | hi <;> rcases k1' with k | k <;> subst hi <;> subst k
  · exact Or.inl rfl
  · exact Or.inr rfl
  · exact Or.inr rfl
  · exact Or.inr (lor_one_idem _)

theorem tick_frame_trans (g0 g1 g2 : GameBoy) (h1 : tick_frame g0 g1) (h2 : tick_frame g1 g2) :
    tick_frame g0 g2 := by
  obtain ⟨c, d, l, e, f, i, hg, hi⟩ := h1
  obtain ⟨c', d', l', e', f', i', hg', hi'⟩ := h2
  subst hg
  subst hg'
  refine ⟨c', d', l', e', f', i', rfl, ?_⟩
  have k : i' = i ∨ i' = i ||| 1 := hi'
  rcases hi with hi | hi <;> rcases k with k | k <;> subst hi <;> subst k
  · exact Or.inl rfl
  · exact Or.inr rfl
  · exact Or.inr rfl
  · exact Or.inr (lor_one_idem _)

/-- One tick changes at most the cycle accumulator, the dot counter, `ly`,
`end_frame`, the frame buffer and bit 0 of `if_`. -/
theorem cycle_tick_frame (gb : GameBoy) : tick_frame gb (cycle gb) := by
  unfold cycle
  lift_lets
  extract_lets g1
  have h1 : tick_frame gb g1 := ⟨_, _, _, _, _, _, rfl, Or.inl rfl⟩
  split_ifs
  · exact tick_frame_lcd_cycle _ _ (tick_frame_lcd_cycle _ _
      (tick_frame_lcd_cycle _ _ (tick_frame_lcd_cycle _ _ h1)))
  · exact h1

theorem lcd_cycle_cycles (gb : GameBoy) : (lcd_cycle gb).cycles = gb.cycles := by
  obtain ⟨d, l, e, f, i, h, _⟩ := lcd_cycle_eq gb
  rw [h]

/-- Each tick adds exactly 2 to the cycle accumulator (a `u32`). -/
theorem cycle_cycles (gb : GameBoy) : (cycle gb).cycles = (gb.cycles + 2) % 4294967296 := by
  unfold cycle
  lift_lets
  extract_lets g1
  split_ifs
  · simp only [lcd_cycle_cycles]
  · rfl

theorem cycle_if (gb : GameBoy) :
    (cycle gb).if_ = gb.if_ ∨ (cycle gb).if_ = gb.if_ ||| 1 := by
  obtain ⟨cy, dots, ly, ef, fbuf, if1, h, k⟩ := cycle_tick_frame gb
  rw [h]
  exact k

@[simp] theorem cycle_type (gb : GameBoy) : (cycle gb).type = gb.type := by
  obtain ⟨cy, dots, ly, ef, fbuf, if1, h, _⟩ := cycle_tick_frame gb
  rw [h]

@[simp] theorem cycle_rom_lo (gb : GameBoy) : (cycle gb).rom_lo = gb.rom_lo := by
  obtain ⟨cy, dots, ly, ef, fbuf, if1, h, _⟩ := cycle_tick_frame gb
  rw [h]

@[simp] theorem cycle_rom_hi (gb : GameBoy) : (cycle gb).rom_hi = gb.rom_hi := by
  obtain ⟨cy, dots, ly, ef, fbuf, if1, h, _⟩ := cycle_tick_frame gb
  rw [h]

@[simp] theorem cycle_vram (gb : GameBoy) : (cycle gb).vram = gb.vram := by
  obtain ⟨cy, dots, ly, ef, fbuf, if1, h, _⟩ := cycle_tick_frame gb
  rw [h]

@[simp] theorem cycle_cartram (gb : GameBoy) : (cycle gb).cartram = gb.cartram := by
  obtain ⟨cy, dots, ly, ef, fbuf, if1, h, _⟩ := cycle_tick_frame gb
  rw [h]

@[simp] theorem cycle_wram_lo (gb : GameBoy) : (cycle gb).wram_lo = gb.wram_lo := by
  obtain ⟨cy, dots, ly, ef, fbuf, if1, h, _⟩ := cycle_tick_frame gb
  rw [h]

@[simp] theorem cycle_oam (gb : GameBoy) : (cycle gb).oam = gb.oam := by
  obtain ⟨cy, dots, ly, ef, fbuf, if1, h, _⟩ := cycle_tick_frame gb
  rw [h]

@[simp] theorem cycle_hram (gb : GameBoy) : (cycle gb).hram = gb.hram := by
  obtain ⟨cy, dots, ly, ef, fbuf, if1, h, _⟩ := cycle_tick_frame gb
  rw [h]

@[simp] theorem cycle_a (gb : GameBoy) : (cycle gb).a = gb.a := by
  obtain ⟨cy, dots, ly, ef, fbuf, if1, h, _⟩ := cycle_tick_frame gb
  rw [h]

@[simp] theorem cycle_f_z (gb : GameBoy) : (cycle gb).f_z = gb.f_z := by
  obtain ⟨cy, dots, ly, ef, fbuf, if1, h, _⟩ := cycle_tick_frame gb
  rw [h]

@[simp] theorem cycle_f_n (gb : GameBoy) : (cycle gb).f_n = gb.f_n := by
  obtain ⟨cy, dots, ly, ef, fbuf, if1, h, _⟩ := cycle_tick_frame gb
  rw [h]

@[simp] theorem cycle_f_h (gb : GameBoy) : (cycle gb).f_h = gb.f_h := by
  obtain ⟨cy, dots, ly, ef, fbuf, if1, h, _⟩ := cycle_tick_frame gb
  rw [h]

@[simp] theorem cycle_f_c (gb : GameBoy) : (cycle gb).f_c = gb.f_c := by
  obtain ⟨cy, dots, ly, ef, fbuf, if1, h, _⟩ := cycle_tick_frame gb
  rw [h]

@[simp] theorem cycle_pc (gb : GameBoy) : (cycle gb).pc = gb.pc := by
  obtain ⟨cy, dots, ly, ef, fbuf, if1, h, _⟩ := cycle_tick_frame gb
  rw [h]

@[simp] theorem cycle_sp (gb : GameBoy) : (cycle gb).sp = gb.sp := by
  obtain ⟨cy, dots, ly, ef, fbuf, if1, h, _⟩ := cycle_tick_frame gb
  rw [h]

@[simp] theorem cycle_b (gb : GameBoy) : (cycle gb).b = gb.b := by
  obtain ⟨cy, dots, ly, ef, fbuf, if1, h, _⟩ := cycle_tick_frame gb
  rw [h]

@[simp] theorem cycle_c (gb : GameBoy) : (cycle gb).c = gb.c := by
  obtain ⟨cy, dots, ly, ef, fbuf, if1, h, _⟩ := cycle_tick_frame gb
  rw [h]

@[simp] theorem cycle_d (gb : GameBoy) : (cycle gb).d = gb.d := by
  obtain ⟨cy, dots, ly, ef, fbuf, if1, h, _⟩ := cycle_tick_frame gb
  rw [h]

@[simp] theorem cycle_e (gb : GameBoy) : (cycle gb).e = gb.e := by
  obtain ⟨cy, dots, ly, ef, fbuf, if1, h, _⟩ := cycle_tick_frame gb
  rw [h]

@[simp] theorem cycle_h (gb : GameBoy) : (cycle gb).h = gb.h := by
  obtain ⟨cy, dots, ly, ef, fbuf, if1, h, _⟩ := cycle_tick_frame gb
  rw [h]

@[simp] theorem cycle_l (gb : GameBoy) : (cycle gb).l = gb.l := by
  obtain ⟨cy, dots, ly, ef, fbuf, if1, h, _⟩ := cycle_tick_frame gb
  rw [h]

@[simp] theorem cycle_ime (gb : GameBoy) : (cycle gb).ime = gb.ime := by
  obtain ⟨cy, dots, ly, ef, fbuf, if1, h, _⟩ := cycle_tick_frame gb
  rw [h]

@[simp] theorem cycle_sb (gb : GameBoy) : (cycle gb).sb = gb.sb := by
  obtain ⟨cy, dots, ly, ef, fbuf, if1, h, _⟩ := cycle_tick_frame gb
  rw [h]

@[simp] theorem cycle_sc (gb : GameBoy) : (cycle gb).sc = gb.sc := by
  obtain ⟨cy, dots, ly, ef, fbuf, if1, h, _⟩ := cycle_tick_frame gb
  rw [h]

@[simp] theorem cycle_div (gb : GameBoy) : (cycle gb).div = gb.div := by
  obtain ⟨cy, dots, ly, ef, fbuf, if1, h, _⟩ := cycle_tick_frame gb
  rw [h]

@[simp] theorem cycle_tima (gb : GameBoy) : (cycle gb).tima = gb.tima := by
  obtain ⟨cy, dots, ly, ef, fbuf, if1, h, _⟩ := cycle_tick_frame gb
  rw [h]

@[simp] theorem cycle_tma (gb : GameBoy) : (cycle gb).tma = gb.tma := by
  obtain ⟨cy, dots, ly, ef, fbuf, if1, h, _⟩ := cycle_tick_frame gb
  rw [h]

@[simp] theorem cycle_tac_en (gb : GameBoy) : (cycle gb).tac_en = gb.tac_en := by
  obtain ⟨cy, dots, ly, ef, fbuf, if1, h, _⟩ := cycle_tick_frame gb
  rw [h]

@[simp] theorem cycle_tac_clk (gb : GameBoy) : (cycle gb).tac_clk = gb.tac_clk := by
  obtain ⟨cy, dots, ly, ef, fbuf, if1, h, _⟩ := cycle_tick_frame gb
  rw [h]

@[simp] theorem cycle_lcd_en (gb : GameBoy) : (cycle gb).lcd_en = gb.lcd_en := by
  obtain ⟨cy, dots, ly, ef, fbuf, if1, h, _⟩ := cycle_tick_frame gb
  rw [h]

@[simp] theorem cycle_win_map (gb : GameBoy) : (cycle gb).win_map = gb.win_map := by
  obtain ⟨cy, dots, ly, ef, fbuf, if1, h, _⟩ := cycle_tick_frame gb
  rw [h]

@[simp] theorem cycle_win_en (gb : GameBoy) : (cycle gb).win_en = gb.win_en := by
  obtain ⟨cy, dots, ly, ef, fbuf, if1, h, _⟩ := cycle_tick_frame gb
  rw [h]

@[simp] theorem cycle_tile_sel (gb : GameBoy) : (cycle gb).tile_sel = gb.tile_sel := by
  obtain ⟨cy, dots, ly, ef, fbuf, if1, h, _⟩ := cycle_tick_frame gb
  rw [h]

@[simp] theorem cycle_bg_map (gb : GameBoy) : (cycle gb).bg_map = gb.bg_map := by
  obtain ⟨cy, dots, ly, ef, fbuf, if1, h, _⟩ := cycle_tick_frame gb
  rw [h]

@[simp] theorem cycle_obj_size (gb : GameBoy) : (cycle gb).obj_size = gb.obj_size := by
  obtain ⟨cy, dots, ly, ef, fbuf, if1, h, _⟩ := cycle_tick_frame gb
  rw [h]

@[simp] theorem cycle_obj_en (gb : GameBoy) : (cycle gb).obj_en = gb.obj_en := by
  obtain ⟨cy, dots, ly, ef, fbuf, if1, h, _⟩ := cycle_tick_frame gb
  rw [h]

@[simp] theorem cycle_bg_en (gb : GameBoy) : (cycle gb).bg_en = gb.bg_en := by
  obtain ⟨cy, dots, ly, ef, fbuf, if1, h, _⟩ := cycle_tick_frame gb
  rw [h]

@[simp] theorem cycle_stat (gb : GameBoy) : (cycle gb).stat = gb.stat := by
  obtain ⟨cy, dots, ly, ef, fbuf, if1, h, _⟩ := cycle_tick_frame gb
  rw [h]

@[simp] theorem cycle_scy (gb : GameBoy) : (cycle gb).scy = gb.scy := by
  obtain ⟨cy, dots, ly, ef, fbuf, if1, h, _⟩ := cycle_tick_frame gb
  rw [h]

@[simp] theorem cycle_scx (gb : GameBoy) : (cycle gb).scx = gb.scx := by
  obtain ⟨cy, dots, ly, ef, fbuf, if1, h, _⟩ := cycle_tick_frame gb
  rw [h]

@[simp] theorem cycle_lyc (gb : GameBoy) : (cycle gb).lyc = gb.lyc := by
  obtain ⟨cy, dots, ly, ef, fbuf, if1, h, _⟩ := cycle_tick_frame gb
  rw [h]

@[simp] theorem cycle_dma (gb : GameBoy) : (cycle gb).dma = gb.dma := by
  obtain ⟨cy, dots, ly, ef, fbuf, if1, h, _⟩ := cycle_tick_frame gb
  rw [h]

@[simp] theorem cycle_bgp (gb : GameBoy) : (cycle gb).bgp = gb.bgp := by
  obtain ⟨cy, dots, ly, ef, fbuf, if1, h, _⟩ := cycle_tick_frame gb
  rw [h]

@[simp] theorem cycle_obp0 (gb : GameBoy) : (cycle gb).obp0 = gb.obp0 := by
  obtain ⟨cy, dots, ly, ef, fbuf, if1, h, _⟩ := cycle_tick_frame gb
  rw [h]

@[simp] theorem cycle_obp1 (gb : GameBoy) : (cycle gb).obp1 = gb.obp1 := by
  obtain ⟨cy, dots, ly, ef, fbuf, if1, h, _⟩ := cycle_tick_frame gb
  rw [h]

@[simp] theorem cycle_wy (gb : GameBoy) : (cycle gb).wy = gb.wy := by
  obtain ⟨cy, dots, ly, ef, fbuf, if1, h, _⟩ := cycle_tick_frame gb
  rw [h]

@[simp] theorem cycle_wx (gb : GameBoy) : (cycle gb).wx = gb.wx := by
  obtain ⟨cy, dots, ly, ef, fbuf, if1, h, _⟩ := cycle_tick_frame gb
  rw [h]

@[simp] theorem cycle_ie (gb : GameBoy) : (cycle gb).ie = gb.ie := by
  obtain ⟨cy, dots, ly, ef, fbuf, if1, h, _⟩ := cycle_tick_frame gb
  rw [h]

/-! ### Stores outside the I/O page -/

theorem write_non_io (gb : GameBoy) (a x : Nat) (h : non_io a) :
    write gb a x = some (ram_store gb a x) := by
  unfold ram_store
  by_cases c1 : a < 0x8000
  · rw [write_rom gb a x c1, if_neg (by omega), if_neg (by omega), if_neg (by omega),
      if_neg (by omega)]
  by_cases c2 : a < 0xA000
  · rw [write_vram gb a x (by omega) c2, if_pos (by omega), if_neg (by omega),
      if_neg (by omega), if_neg (by omega)]
  by_cases c3 : a < 0xC000
  · have e : write gb a x = some gb := by
      simp only [write, c1, c2, c3, if_true, if_false]
    rw [e, if_neg (by omega), if_neg (by omega), if_neg (by omega), if_neg (by omega)]
  by_cases c4 : a < 0xFE00
  · rw [write_wram gb a x (by omega) c4, if_neg (by omega), if_pos (by omega),
      if_neg (by omega), if_neg (by omega)]
  by_cases c5 : a < 0xFEA0
  · rw [write_oam gb a x (by omega) c5, if_neg (by omega), if_neg (by omega),
      if_pos (by omega), if_neg (by omega)]
  by_cases c6 : a < 0xFF00
  · have e : write gb a x = some gb := by
      simp only [write, c1, c2, c3, c4, c5, c6, if_true, if_false]
    rw [e, if_neg (by omega), if_neg (by omega), if_neg (by omega), if_neg (by omega)]
  · have c7 : 0xFF80 ≤ a ∧ a < 0xFFFF := by
      rcases h with h | h
      · omega
      · exact h
    rw [write_hram gb a x c7.1 c7.2, if_neg (by omega), if_neg (by omega),
      if_neg (by omega), if_pos c7]

@[simp] theorem ram_store_type (gb : GameBoy) (a x : Nat) :
    (ram_store gb a x).type = gb.type := rfl

@[simp] theorem ram_store_fbuf (gb : GameBoy) (a x : Nat) :
    (ram_store gb a x).fbuf = gb.fbuf := rfl

@[simp] theorem ram_store_end_frame (gb : GameBoy) (a x : Nat) :
    (ram_store gb a x).end_frame = gb.end_frame := rfl

@[simp] theorem ram_store_rom_lo (gb : GameBoy) (a x : Nat) :
    (ram_store gb a x).rom_lo = gb.rom_lo := rfl

@[simp] theorem ram_store_rom_hi (gb : GameBoy) (a x : Nat) :
    (ram_store gb a x).rom_hi = gb.rom_hi := rfl

@[simp] theorem ram_store_cartram (gb : GameBoy) (a x : Nat) :
    (ram_store gb a x).cartram = gb.cartram := rfl

@[simp] theorem ram_store_a (gb : GameBoy) (a x : Nat) :
    (ram_store gb a x).a = gb.a := rfl

@[simp] theorem ram_store_f_z (gb : GameBoy) (a x : Nat) :
    (ram_store gb a x).f_z = gb.f_z := rfl

@[simp] theorem ram_store_f_n (gb : GameBoy) (a x : Nat) :
    (ram_store gb a x).f_n = gb.f_n := rfl

@[simp] theorem ram_store_f_h (gb : GameBoy) (a x : Nat) :
    (ram_store gb a x).f_h = gb.f_h := rfl

@[simp] theorem ram_store_f_c (gb : GameBoy) (a x : Nat) :
    (ram_store gb a x).f_c = gb.f_c := rfl

@[simp] theorem ram_store_pc (gb : GameBoy) (a x : Nat) :
    (ram_store gb a x).pc = gb.pc := rfl

@[simp] theorem ram_store_sp (gb : GameBoy) (a x : Nat) :
    (ram_store gb a x).sp = gb.sp := rfl

@[simp] theorem ram_store_b (gb : GameBoy) (a x : Nat) :
    (ram_store gb a x).b = gb.b := rfl

@[simp] theorem ram_store_c (gb : GameBoy) (a x : Nat) :
    (ram_store gb a x).c = gb.c := rfl

@[simp] theorem ram_store_d (gb : GameBoy) (a x : Nat) :
    (ram_store gb a x).d = gb.d := rfl

@[simp] theorem ram_store_e (gb : GameBoy) (a x : Nat) :
    (ram_store gb a x).e = gb.e := rfl

@[simp] theorem ram_store_h (gb : GameBoy) (a x : Nat) :
    (ram_store gb a x).h = gb.h := rfl

@[simp] theorem ram_store_l (gb : GameBoy) (a x : Nat) :
    (ram_store gb a x).l = gb.l := rfl

@[simp] theorem ram_store_ime (gb : GameBoy) (a x : Nat) :
    (ram_store gb a x).ime = gb.ime := rfl

@[simp] theorem ram_store_sb (gb : GameBoy) (a x : Nat) :
    (ram_store gb a x).sb = gb.sb := rfl

@[simp] theorem ram_store_sc (gb : GameBoy) (a x : Nat) :
    (ram_store gb a x).sc = gb.sc := rfl

@[simp] theorem ram_store_div (gb : GameBoy) (a x : Nat) :
    (ram_store gb a x).div = gb.div := rfl

@[simp] theorem ram_store_tima (gb : GameBoy) (a x : Nat) :
    (ram_store gb a x).tima = gb.tima := rfl

@[simp] theorem ram_store_tma (gb : GameBoy) (a x : Nat) :
    (ram_store gb a x).tma = gb.tma := rfl

@[simp] theorem ram_store_tac_en (gb : GameBoy) (a x : Nat) :
    (ram_store gb a x).tac_en = gb.tac_en := rfl

@[simp] theorem ram_store_tac_clk (gb : GameBoy) (a x : Nat) :
    (ram_store gb a x).tac_clk = gb.tac_clk := rfl

@[simp] theorem ram_store_if_ (gb : GameBoy) (a x : Nat) :
    (ram_store gb a x).if_ = gb.if_ := rfl

@[simp] theorem ram_store_lcd_en (gb : GameBoy) (a x : Nat) :
    (ram_store gb a x).lcd_en = gb.lcd_en := rfl

@[simp] theorem ram_store_win_map (gb : GameBoy) (a x : Nat) :
    (ram_store gb a x).win_map = gb.win_map := rfl

@[simp] theorem ram_store_win_en (gb : GameBoy) (a x : Nat) :
    (ram_store gb a x).win_en = gb.win_en := rfl

@[simp] theorem ram_store_tile_sel (gb : GameBoy) (a x : Nat) :
    (ram_store gb a x).tile_sel = gb.tile_sel := rfl

@[simp] theorem ram_store_bg_map (gb : GameBoy) (a x : Nat) :
    (ram_store gb a x).bg_map = gb.bg_map := rfl

@[simp] theorem ram_store_obj_size (gb : GameBoy) (a x : Nat) :
    (ram_store gb a x).obj_size = gb.obj_size := rfl

@[simp] theorem ram_store_obj_en (gb : GameBoy) (a x : Nat) :
    (ram_store gb a x).obj_en = gb.obj_en := rfl

@[simp] theorem ram_store_bg_en (gb : GameBoy) (a x : Nat) :
    (ram_store gb a x).bg_en = gb.bg_en := rfl

@[simp] theorem ram_store_stat (gb : GameBoy) (a x : Nat) :
    (ram_store gb a x).stat = gb.stat := rfl

@[simp] theorem ram_store_scy (gb : GameBoy) (a x : Nat) :
    (ram_store gb a x).scy = gb.scy := rfl

@[simp] theorem ram_store_scx (gb : GameBoy) (a x : Nat) :
    (ram_store gb a x).scx = gb.scx := rfl

@[simp] theorem ram_store_ly (gb : GameBoy) (a x : Nat) :
    (ram_store gb a x).ly = gb.ly := rfl

@[simp] theorem ram_store_lyc (gb : GameBoy) (a x : Nat) :
    (ram_store gb a x).lyc = gb.lyc := rfl

@[simp] theorem ram_store_dma (gb : GameBoy) (a x : Nat) :
    (ram_store gb a x).dma = gb.dma := rfl

@[simp] theorem ram_store_bgp (gb : GameBoy) (a x : Nat) :
    (ram_store gb a x).bgp = gb.bgp := rfl

@[simp] theorem ram_store_obp0 (gb : GameBoy) (a x : Nat) :
    (ram_store gb a x).obp0 = gb.obp0 := rfl

@[simp] theorem ram_store_obp1 (gb : GameBoy) (a x : Nat) :
    (ram_store gb a x).obp1 = gb.obp1 := rfl

@[simp] theorem ram_store_wy (gb : GameBoy) (a x : Nat) :
    (ram_store gb a x).wy = gb.wy := rfl

@[simp] theorem ram_store_wx (gb : GameBoy) (a x : Nat) :
    (ram_store gb a x).wx = gb.wx := rfl

@[simp] theorem ram_store_ie (gb : GameBoy) (a x : Nat) :
    (ram_store gb a x).ie = gb.ie := rfl

@[simp] theorem ram_store_cycles (gb : GameBoy) (a x : Nat) :
    (ram_store gb a x).cycles = gb.cycles := rfl

@[simp] theorem ram_store_dots (gb : GameBoy) (a x : Nat) :
    (ram_store gb a x).dots = gb.dots := rfl

theorem is_ram_non_io (a : Nat) (h : is_ram a) : non_io a := by
  unfold non_io
  rcases h with ⟨l, u⟩ | ⟨l, u⟩ | ⟨l, u⟩ | ⟨l, u⟩ <;> omega

theorem read_ram_store_same (gb : GameBoy) (a x : Nat) (h : is_ram a) :
    read (ram_store gb a x) a = some x := by
  rcases h with ⟨l, u⟩ | ⟨l, u⟩ | ⟨l, u⟩ | ⟨l, u⟩
  · rw [read_vram _ a l u]; simp only [ram_store, if_pos (And.intro l u)]; simp [store]
  · rw [read_wram _ a l u]; simp only [ram_store, if_pos (And.intro l u)]; simp [store]
  · rw [read_oam _ a l u]; simp only [ram_store, if_pos (And.intro l u)]; simp [store]
  · rw [read_hram _ a l u]; simp only [ram_store, if_pos (And.intro l u)]; simp [store]

/-- A read of RAM or ROM sees only the memory regions. -/
theorem read_congr (g g' : GameBoy) (a : Nat) (ha : is_ram a ∨ a < 0x8000)
    (h1 : g'.vram = g.vram) (h2 : g'.wram_lo = g.wram_lo) (h3 : g'.oam = g.oam)
    (h4 : g'.hram = g.hram) (h5 : g'.rom_lo = g.rom_lo) (h6 : g'.rom_hi = g.rom_hi) :
    read g' a = read g a := by
  rcases ha with (⟨l, u⟩ | ⟨l, u⟩ | ⟨l, u⟩ | ⟨l, u⟩) | l
  · rw [read_vram _ a l u, read_vram g a l u, h1]
  · rw [read_wram _ a l u, read_wram g a l u, h2]
  · rw [read_oam _ a l u, read_oam g a l u, h3]
  · rw [read_hram _ a l u, read_hram g a l u, h4]
  · rw [read_rom _ a l, read_rom g a l, h5, h6]

theorem read_cycle_mem (g : GameBoy) (a : Nat) (ha : is_ram a ∨ a < 0x8000) :
    read (cycle g) a = read g a :=
  read_congr g (cycle g) a ha (cycle_vram g) (cycle_wram_lo g) (cycle_oam g) (cycle_hram g)
    (cycle_rom_lo g) (cycle_rom_hi g)

theorem read_set_sp (g : GameBoy) (s a : Nat) : read { g with sp := s } a = read g a := rfl

theorem read_ram_store_other (gb : GameBoy) (a x a2 : Nat) (h2 : is_ram a2 ∨ a2 < 0x8000)
    (n1 : a2 ≠ a) (n2 : a2 ≠ a + 0x2000) (n3 : a2 + 0x2000 ≠ a) :
    read (ram_store gb a x) a2 = read gb a2 := by
  rcases h2 with (⟨l, u⟩ | ⟨l, u⟩ | ⟨l, u⟩ | ⟨l, u⟩) | l
  · rw [read_vram _ a2 l u, read_vram gb a2 l u]
    simp only [ram_store]
    split_ifs
    · simp only [store]; rw [if_neg (by omega)]
    · rfl
  · rw [read_wram _ a2 l u, read_wram gb a2 l u]
    simp only [ram_store]
    split_ifs
    · simp only [store]; rw [if_neg (by omega)]
    · rfl
  · rw [read_oam _ a2 l u, read_oam gb a2 l u]
    simp only [ram_store]
    split_ifs
    · simp only [store]; rw [if_neg (by omega)]
    · rfl
  · rw [read_hram _ a2 l u, read_hram gb a2 l u]
    simp only [ram_store]
    split_ifs
    · simp only [store]; rw [if_neg (by omega)]
    · rfl
  · rw [read_rom _ a2 l, read_rom gb a2 l]
    rfl

theorem write_cycle_non_io (gb : GameBoy) (a x : Nat) (h : non_io a) :
    write_cycle gb a x = some (cycle (ram_store gb a x)) := by
  unfold write_cycle
  rw [write_non_io gb a x h]

/-- The closed form of a push whose two stack bytes lie outside the I/O page
and `IE`. -/
theorem push_cycle16_eq (gb : GameBoy) (v : Nat)
    (h1 : non_io (u16 ((gb.sp : Int) - 1)))
    (h2 : non_io (u16 ((u16 ((gb.sp : Int) - 1) : Int) - 1))) :
    push_cycle16 gb v =
      some (cycle (ram_store
        { cycle (ram_store { cycle gb with sp := u16 ((gb.sp : Int) - 1) }
            (u16 ((gb.sp : Int) - 1)) ((v >>> 8) % 256)) with
          sp := u16 ((u16 ((gb.sp : Int) - 1) : Int) - 1) }
        (u16 ((u16 ((gb.sp : Int) - 1) : Int) - 1)) (v &&& 0xFF))) := by
  unfold push_cycle16
  simp only [cycle_sp]
  rw [write_cycle_non_io _ _ _ h1]
  simp only [cycle_sp, ram_store_sp]
  rw [write_cycle_non_io _ _ _ h2]

/-- The closed form of a pop whose two bytes are readable. -/
theorem pop_cycle16_eq (g : GameBoy) (lo hi : Nat)
    (hlo : read g g.sp = some lo)
    (hram : is_ram ((g.sp + 1) % 65536) ∨ (g.sp + 1) % 65536 < 0x8000)
    (hhi : read g ((g.sp + 1) % 65536) = some hi) :
    ∃ g2, pop_cycle16 g = some (((hi <<< 8) + lo) % 65536, g2) ∧
      g2.sp = ((g.sp + 1) % 65536 + 1) % 65536 := by
  unfold pop_cycle16 read_cycle
  rw [read_set_sp, hlo]
  simp only [cycle_sp]
  rw [read_set_sp, read_cycle_mem _ _ hram, read_set_sp, hhi]
  exact ⟨_, rfl, by simp only [cycle_sp]⟩

theorem bytes_join (v : Nat) (hv : v < 65536) :
    ((((v >>> 8) % 256) <<< 8) + (v &&& 0xFF)) % 65536 = v := by
  rw [land_0xFF, Nat.shiftRight_eq_div_pow, Nat.shiftLeft_eq]
  omega

/-- C7 (amended): for every 16-bit value `v` and every machine state whose two
stack bytes, at `SP-1` and `SP-2` modulo `2^16`, lie in VRAM, work RAM or echo
RAM, OAM or HRAM, `push_cycle16(v)` succeeds and leaves `SP` lowered by two with
the high byte of `v` at `SP-1` and the low byte at `SP-2`; the `pop_cycle16()`
that follows returns `v`, and `SP` is back at its value before the push. -/
theorem push_pop_roundtrip (gb : GameBoy) (v : Nat) (hv : v < 65536) (hsp : gb.sp < 65536)
    (h1 : is_ram (u16 ((gb.sp : Int) - 1))) (h2 : is_ram (u16 ((gb.sp : Int) - 2))) :
    ∃ g1 g2, push_cycle16 gb v = some g1 ∧
      g1.sp = u16 ((gb.sp : Int) - 2) ∧
      read g1 (u16 ((gb.sp : Int) - 1)) = some ((v >>> 8) % 256) ∧
      read g1 (u16 ((gb.sp : Int) - 2)) = some (v &&& 0xFF) ∧
      pop_cycle16 g1 = some (v, g2) ∧ g2.sp = gb.sp := by
  have ea : u16 ((u16 ((gb.sp : Int) - 1) : Int) - 1) = u16 ((gb.sp : Int) - 2) := by
    unfold u16; omega
  have h2' : is_ram (u16 ((u16 ((gb.sp : Int) - 1) : Int) - 1)) := by rw [ea]; exact h2
  have hp := push_cycle16_eq gb v (is_ram_non_io _ h1) (is_ram_non_io _ h2')
  have eb : (u16 ((gb.sp : Int) - 2) + 1) % 65536 = u16 ((gb.sp : Int) - 1) := by
    unfold u16; omega
  have ec : (u16 ((gb.sp : Int) - 1) + 1) % 65536 = gb.sp := by
    unfold u16; omega
  have n1 : u16 ((gb.sp : Int) - 1) ≠ u16 ((gb.sp : Int) - 2) := by
    unfold u16; omega
  have n2 : u16 ((gb.sp : Int) - 1) ≠ u16 ((gb.sp : Int) - 2) + 0x2000 := by
    unfold u16; omega
  have n3 : u16 ((gb.sp : Int) - 1) + 0x2000 ≠ u16 ((gb.sp : Int) - 2) := by
    unfold u16; omega
  rw [ea] at hp
  obtain ⟨g1, hg1⟩ : ∃ g1, g1 = cycle (ram_store
        { cycle (ram_store { cycle gb with sp := u16 ((gb.sp : Int) - 1) }
            (u16 ((gb.sp : Int) - 1)) ((v >>> 8) % 256)) with
          sp := u16 ((gb.sp : Int) - 2) }
        (u16 ((gb.sp : Int) - 2)) (v &&& 0xFF)) := ⟨_, rfl⟩
  rw [← hg1] at hp
  have hs1 : g1.sp = u16 ((gb.sp : Int) - 2) := by
    rw [hg1]
    simp only [cycle_sp, ram_store_sp]
  have hlo : read g1 (u16 ((gb.sp : Int) - 2)) = some (v &&& 0xFF) := by
    rw [hg1, read_cycle_mem _ _ (Or.inl h2), read_ram_store_same _ _ _ h2]
  have hhi : read g1 (u16 ((gb.sp : Int) - 1)) = some ((v >>> 8) % 256) := by
    rw [hg1, read_cycle_mem _ _ (Or.inl h1),
      read_ram_store_other _ _ _ _ (Or.inl h1) n1 n2 n3, read_set_sp,
      read_cycle_mem _ _ (Or.inl h1), read_ram_store_same _ _ _ h1]
  obtain ⟨g2, hpop, hs⟩ := pop_cycle16_eq g1 (v &&& 0xFF) ((v >>> 8) % 256)
    (by rw [hs1]; exact hlo)
    (by rw [hs1, eb]; exact Or.inl h1)
    (by rw [hs1, eb]; exact hhi)
  refine ⟨g1, g2, hp, hs1, hhi, hlo, ?_, ?_⟩
  · rw [hpop, bytes_join v hv]
  · rw [hs, hs1, eb, ec]

/-- An instance of C7 (amended) on the stack of a fresh machine: `SP = 0xFFFE`,
so the two stack bytes `0xFFFD` and `0xFFFC` are in HRAM. -/
theorem push_pop_roundtrip_witness :
    ∃ g1 g2, push_cycle16 { zeroed with sp := 0xFFFE, lcd_en := true } 0x1234 = some g1 ∧
      g1.sp = 0xFFFC ∧ read g1 0xFFFD = some 0x12 ∧ read g1 0xFFFC = some 0x34 ∧
      pop_cycle16 g1 = some (0x1234, g2) ∧ g2.sp = 0xFFFE :=
  push_pop_roundtrip { zeroed with sp := 0xFFFE, lcd_en := true } 0x1234
    (by decide) (by decide) (by decide) (by decide)

/-- C7 as stated fails when the stack is in ROM: with `SP = 0x4000` the two
stack bytes `0x3FFF` and `0x3FFE` are ROM, `write` discards both stores, and
the pop that follows `push_cycle16(0x1234)` returns the ROM bytes, `0x0000`
here, not `0x1234` (`SP` is back at `0x4000`). -/
theorem push_pop_rom_counterexample :
    (push_cycle16
        { zeroed with rom_lo := some (fun _ => 0), rom_hi := some (fun _ => 0), sp := 0x4000 }
        0x1234).bind (fun g => (pop_cycle16 g).map (fun r => (r.1, r.2.sp))) =
      some (0x0000, 0x4000) := by
  decide

/-! ### The interrupt dispatch of `run_opcode` -/

theorem land_one_shiftLeft (x k : Nat) : x &&& (1 <<< k) ≠ 0 ↔ x.testBit k = true := by
  rw [Nat.one_shiftLeft, land_two_pow]
  have hp : 2 ^ k ≠ 0 := Nat.pos_iff_ne_zero.mp (Nat.two_pow_pos k)
  by_cases h : x.testBit k
  · simp [h, hp]
  · simp [h]

/-- The meaning of `clear_bit` on a byte: bit `B` is cleared and the other
seven bits are kept. -/
theorem clear_bit_testBit (x B j : Nat) (hx : x < 256) (hB : B < 8) :
    (clear_bit x B).testBit j = (x.testBit j && !decide (B = j)) := by
  unfold clear_bit
  have h255 : (0xFF : Nat).testBit j = decide (j < 8) := Nat.testBit_two_pow_sub_one 8 j
  rw [Nat.testBit_and, Nat.testBit_xor, Nat.one_shiftLeft, Nat.testBit_two_pow, h255]
  by_cases h1 : j < 8
  · by_cases h2 : B = j
    · simp [h1, h2]
    · simp [h1, h2]
  · have h8 : (2 : Nat) ^ 8 ≤ 2 ^ j := Nat.pow_le_pow_right (by decide) (by omega)
    have hj : x.testBit j = false := Nat.testBit_lt_two_pow (Nat.lt_of_lt_of_le hx h8)
    have h2 : B ≠ j := by omega
    simp [h1, h2, hj]

theorem cycle_lcd_off (gb : GameBoy) (h : gb.lcd_en = false) :
    cycle gb = { gb with cycles := (gb.cycles + 2) % 4294967296 } := by
  unfold cycle
  simp only [h]
  rfl

theorem if_step (x y z : Nat) (h1 : y = x ∨ y = x ||| 1) (h2 : z = y ∨ z = y ||| 1) :
    z = x ∨ z = x ||| 1 := by
  rcases h1 with h1 | h1 <;> rcases h2 with h2 | h2 <;> subst h1 <;> subst h2
  · exact Or.inl rfl
  · exact Or.inr rfl
  · exact Or.inr rfl
  · exact Or.inr (lor_one_idem _)

/-- What a push leaves behind when its two stack bytes lie outside the I/O
page and `IE`: three ticks, `sp` lowered by two, and the two bytes stored
through the bus. -/
theorem push_cycle16_spec (gb : GameBoy) (v : Nat)
    (h1 : non_io (u16 ((gb.sp : Int) - 1))) (h2 : non_io (u16 ((gb.sp : Int) - 2))) :
    ∃ g1, push_cycle16 gb v = some g1 ∧
      g1.sp = u16 ((gb.sp : Int) - 2) ∧
      g1.vram = (ram_store (ram_store gb (u16 ((gb.sp : Int) - 1)) ((v >>> 8) % 256))
        (u16 ((gb.sp : Int) - 2)) (v &&& 0xFF)).vram ∧
      g1.wram_lo = (ram_store (ram_store gb (u16 ((gb.sp : Int) - 1)) ((v >>> 8) % 256))
        (u16 ((gb.sp : Int) - 2)) (v &&& 0xFF)).wram_lo ∧
      g1.oam = (ram_store (ram_store gb (u16 ((gb.sp : Int) - 1)) ((v >>> 8) % 256))
        (u16 ((gb.sp : Int) - 2)) (v &&& 0xFF)).oam ∧
      g1.hram = (ram_store (ram_store gb (u16 ((gb.sp : Int) - 1)) ((v >>> 8) % 256))
        (u16 ((gb.sp : Int) - 2)) (v &&& 0xFF)).hram ∧
      g1.ie = gb.ie ∧ g1.ime = gb.ime ∧ g1.pc = gb.pc ∧ g1.lcd_en = gb.lcd_en ∧
      (g1.if_ = gb.if_ ∨ g1.if_ = gb.if_ ||| 1) ∧
      (gb.lcd_en = false → g1.if_ = gb.if_) ∧
      g1.cycles = (gb.cycles + 6) % 4294967296 := by
  have ea : u16 ((u16 ((gb.sp : Int) - 1) : Int) - 1) = u16 ((gb.sp : Int) - 2) := by
    unfold u16; omega
  have h2' : non_io (u16 ((u16 ((gb.sp : Int) - 1) : Int) - 1)) := by rw [ea]; exact h2
  refine ⟨_, push_cycle16_eq gb v h1 h2', ?_, ?_, ?_, ?_, ?_, ?_, ?_, ?_, ?_, ?_, ?_, ?_⟩
  · simp only [cycle_sp, ram_store_sp, ea]
  · simp only [cycle_vram, ram_store, ea]
  · simp only [cycle_wram_lo, ram_store, ea]
  · simp only [cycle_oam, ram_store, ea]
  · simp only [cycle_hram, ram_store, ea]
  · simp only [cycle_ie, ram_store_ie]
  · simp only [cycle_ime, ram_store_ime]
  · simp only [cycle_pc, ram_store_pc]
  · simp only [cycle_lcd_en, ram_store_lcd_en]
  · refine if_step _ _ _ (if_step _ _ _ (cycle_if gb) ?_) (cycle_if _)
    have := cycle_if (ram_store { cycle gb with sp := u16 ((gb.sp : Int) - 1) }
            (u16 ((gb.sp : Int) - 1)) ((v >>> 8) % 256))
    simpa only [ram_store_if_] using this
  · intro hoff
    rw [cycle_lcd_off _ (by simp only [ram_store_lcd_en, cycle_lcd_en]; exact hoff)]
    simp only [ram_store_if_]
    rw [cycle_lcd_off _ (by simp only [ram_store_lcd_en, cycle_lcd_en]; exact hoff)]
    simp only [ram_store_if_]
    rw [cycle_lcd_off _ hoff]
  · simp only [cycle_cycles, ram_store_cycles]
    omega

/-- The `if` / `else if` chain of `run_opcode` selects the lowest pending bit,
clears it in `if_` and loads its vector. -/
theorem dispatch_select (g : GameBoy) (hie : g.ie < 32) (hx : g.ie &&& g.if_ ≠ 0) :
    ∃ bit, bit < 5 ∧ (g.ie &&& g.if_).testBit bit = true ∧
      (∀ j, j < bit → (g.ie &&& g.if_).testBit j = false) ∧
      (if g.ie &&& g.if_ &&& (1 <<< 0) ≠ 0 then
          ({ g with if_ := clear_bit g.if_ 0, pc := 0x40 } : GameBoy)
        else if g.ie &&& g.if_ &&& (1 <<< 1) ≠ 0 then
          { g with if_ := clear_bit g.if_ 1, pc := 0x48 }
        else if g.ie &&& g.if_ &&& (1 <<< 2) ≠ 0 then
          { g with if_ := clear_bit g.if_ 2, pc := 0x50 }
        else if g.ie &&& g.if_ &&& (1 <<< 3) ≠ 0 then
          { g with if_ := clear_bit g.if_ 3, pc := 0x58 }
        else if g.ie &&& g.if_ &&& (1 <<< 4) ≠ 0 then
          { g with if_ := clear_bit g.if_ 4, pc := 0x60 }
        else g) = { g with if_ := clear_bit g.if_ bit, pc := 0x40 + 8 * bit } := by
  have hlt : g.ie &&& g.if_ < 32 := Nat.lt_of_le_of_lt Nat.and_le_left hie
  generalize g.ie &&& g.if_ = x at hx hlt ⊢
  have key : ∀ y, y < 32 → y ≠ 0 →
      y.testBit 0 = true ∨ y.testBit 1 = true ∨ y.testBit 2 = true ∨ y.testBit 3 = true ∨
        y.testBit 4 = true := by decide
  by_cases c0 : x &&& (1 <<< 0) ≠ 0
  · refine ⟨0, by decide, (land_one_shiftLeft x 0).mp c0, ?_, ?_⟩
    · intro j hj; omega
    · rw [if_pos c0]
  by_cases c1 : x &&& (1 <<< 1) ≠ 0
  · refine ⟨1, by decide, (land_one_shiftLeft x 1).mp c1, ?_, ?_⟩
    · intro j hj
      have : j = 0 := by omega
      subst this
      simpa using (not_congr (land_one_shiftLeft x 0)).mp c0
    · rw [if_neg c0, if_pos c1]
  by_cases c2 : x &&& (1 <<< 2) ≠ 0
  · refine ⟨2, by decide, (land_one_shiftLeft x 2).mp c2, ?_, ?_⟩
    · intro j hj
      have : j = 0 ∨ j = 1 := by omega
      rcases this with e | e <;> subst e
      · simpa using (not_congr (land_one_shiftLeft x 0)).mp c0
      · simpa using (not_congr (land_one_shiftLeft x 1)).mp c1
    · rw [if_neg c0, if_neg c1, if_pos c2]
  by_cases c3 : x &&& (1 <<< 3) ≠ 0
  · refine ⟨3, by decide, (land_one_shiftLeft x 3).mp c3, ?_, ?_⟩
    · intro j hj
      have : j = 0 ∨ j = 1 ∨ j = 2 := by omega
      rcases this with e | e | e <;> subst e
      · simpa using (not_congr (land_one_shiftLeft x 0)).mp c0
      · simpa using (not_congr (land_one_shiftLeft x 1)).mp c1
      · simpa using (not_congr (land_one_shiftLeft x 2)).mp c2
    · rw [if_neg c0, if_neg c1, if_neg c2, if_pos c3]
  by_cases c4 : x &&& (1 <<< 4) ≠ 0
  · refine ⟨4, by decide, (land_one_shiftLeft x 4).mp c4, ?_, ?_⟩
    · intro j hj
      have : j = 0 ∨ j = 1 ∨ j = 2 ∨ j = 3 := by omega
      rcases this with e | e | e | e <;> subst e
      · simpa using (not_congr (land_one_shiftLeft x 0)).mp c0
      · simpa using (not_congr (land_one_shiftLeft x 1)).mp c1
      · simpa using (not_congr (land_one_shiftLeft x 2)).mp c2
      · simpa using (not_congr (land_one_shiftLeft x 3)).mp c3
    · rw [if_neg c0, if_neg c1, if_neg c2, if_neg c3, if_pos c4]
  · exfalso
    rcases key x hlt hx with k | k | k | k | k
    · exact c0 ((land_one_shiftLeft x 0).mpr k)
    · exact c1 ((land_one_shiftLeft x 1).mpr k)
    · exact c2 ((land_one_shiftLeft x 2).mpr k)
    · exact c3 ((land_one_shiftLeft x 3).mpr k)
    · exact c4 ((land_one_shiftLeft x 4).mpr k)

theorem land_lor_one_ne_zero (x y : Nat) (h : x &&& y ≠ 0) : x &&& (y ||| 1) ≠ 0 := by
  obtain ⟨i, hi⟩ := Nat.ne_zero_implies_bit_true h
  intro hz
  have hf : (x &&& (y ||| 1)).testBit i = false := by rw [hz]; exact Nat.zero_testBit i
  rw [Nat.testBit_and] at hi
  rw [Nat.testBit_and, Nat.testBit_or] at hf
  cases hx : x.testBit i <;> cases hy : y.testBit i <;> simp [hx, hy] at hi hf

/-- Scenario S4 evaluated: with `IME=1`, `IE=0x01`, `IF=0x01`, `PC=0x0150`,
`SP=0xFFFE` and the LCD at the start of a frame, one step ends with `IF` bit 0
clear, `PC=0x0040`, `SP=0xFFFC`, `IME` clear, and `0x0150` on the stack (high
byte at `0xFFFD`, low byte at `0xFFFC`). -/
theorem interrupt_dispatch_S4 :
    (run_opcode s4_state).map (fun g => (g.pc, g.if_, g.sp, g.ime, g.cycles)) =
      some (0x0040, 0x00, 0xFFFC, false, 10) ∧
    (run_opcode s4_state).bind (fun g => read g 0xFFFD) = some 0x01 ∧
    (run_opcode s4_state).bind (fun g => read g 0xFFFC) = some 0x50 := by
  decide

/-- C1 as stated fails in three ways.  (a) With `SP = 0x0000` the push stores
the high byte of `PC = 0x2000` at `0xFFFF`, which is `IE`; `IE` becomes `0`, no
source is selected, and the step ends with `PC` still `0x2000` and `IF` bit 0
still set.  (b) With `IE = 0x03`, `IF = 0x02` and the LCD one dot before line
144, the LCD sets the vblank bit during the push, so the step vectors to
`0x40` (not `0x48`) and leaves `IF = 0x02`.  (c) With `IE = IF = 0x01` and the
LCD seventeen dots before line 144, the vblank bit is cleared at the selection
and set again by the closing tick: the step ends with `PC = 0x40` and `IF`
bit 0 set. -/
theorem interrupt_dispatch_counterexample :
    (run_opcode
        { zeroed with ime := true, ie := 0x01, if_ := 0x01, pc := 0x2000, sp := 0x0000 }).map
        (fun g => (g.pc, g.if_, g.ie, g.sp)) = some (0x2000, 0x01, 0x00, 0xFFFE) ∧
    (run_opcode { zeroed with ime := true, ie := 0x03, if_ := 0x02, pc := 0x0150, sp := 0xFFFE,
                              lcd_en := true, ly := 143, dots := 375 }).map
        (fun g => (g.pc, g.if_, g.sp)) = some (0x0040, 0x02, 0xFFFC) ∧
    (run_opcode { zeroed with ime := true, ie := 0x01, if_ := 0x01, pc := 0x0150, sp := 0xFFFE,
                              lcd_en := true, ly := 143, dots := 359 }).map
        (fun g => (g.pc, g.if_, g.sp)) = some (0x0040, 0x01, 0xFFFC) := by
  decide

/-! ### The ALU helpers at the inputs where they leave the SM83 semantics -/

/-- What `alu_adc` computes for every state and operand: `H`, `C` and `N` are
the SM83 flags with the incoming carry included, but the sum stored in `A`
adds the carry that the operation has just produced, not the incoming one. -/
theorem alu_adc_spec (gb : GameBoy) (d : Nat) :
    (alu_adc gb d).f_h = decide ((gb.a &&& 0xF) + (d &&& 0xF) + gb.f_c.toNat > 0xF) ∧
    (alu_adc gb d).f_c = decide (gb.a + d + gb.f_c.toNat > 0xFF) ∧
    (alu_adc gb d).f_n = false ∧
    (alu_adc gb d).a = (gb.a + (d + (decide (gb.a + d + gb.f_c.toNat > 0xFF)).toNat)) % 256 ∧
    (alu_adc gb d).f_z = decide ((alu_adc gb d).a = 0) :=
  ⟨rfl, rfl, rfl, rfl, rfl⟩

/-- C2 (code bug): `ADC A,d` at `A=0xE1`, `d=0x0F`, carry set.  The claim and
the spec's table give `A=0xF1`; `alu_adc` overwrites `f_c` before the sum and
adds the new carry `0`, leaving `A=0xF0` (with `Z=0`, `N=0`, `H=1`, `C=0`). -/
theorem alu_adc_failing_input :
    (alu_adc { zeroed with a := 0xE1, f_c := true } 0x0F).a = 0xF0 ∧
    (0xE1 + 0x0F + 1) % 256 = 0xF1 ∧
    (alu_adc { zeroed with a := 0xE1, f_c := true } 0x0F).f_z = false ∧
    (alu_adc { zeroed with a := 0xE1, f_c := true } 0x0F).f_n = false ∧
    (alu_adc { zeroed with a := 0xE1, f_c := true } 0x0F).f_h = true ∧
    (alu_adc { zeroed with a := 0xE1, f_c := true } 0x0F).f_c = false := by
  decide

/-- What `alu_sbc` computes for every state and operand: `H`, `C` and `N` are
the SM83 flags with the incoming carry included, but the difference stored in
`A` subtracts the borrow that the operation has just produced, not the
incoming carry. -/
theorem alu_sbc_spec (gb : GameBoy) (d : Nat) :
    (alu_sbc gb d).f_h = decide ((gb.a &&& 0xF) < (d &&& 0xF) + gb.f_c.toNat) ∧
    (alu_sbc gb d).f_c = decide (gb.a < d + gb.f_c.toNat) ∧
    (alu_sbc gb d).f_n = true ∧
    (alu_sbc gb d).a =
      u8 ((gb.a : Int) - ((d : Int) + ((decide (gb.a < d + gb.f_c.toNat)).toNat : Int))) ∧
    (alu_sbc gb d).f_z = decide ((alu_sbc gb d).a = 0) :=
  ⟨rfl, rfl, rfl, rfl, rfl⟩

/-- C3 (code bug): `SBC A,d` at `A=0x10`, `d=0x01`, carry set.  The claim gives
`A = (0x10 - 0x01 - 1) mod 256 = 0x0E`; `alu_sbc` overwrites `f_c` before the
subtraction and subtracts the new borrow `0`, leaving `A=0x0F` (with `Z=0`,
`N=1`, `H=1`, `C=0`). -/
theorem alu_sbc_failing_input :
    (alu_sbc { zeroed with a := 0x10, f_c := true } 0x01).a = 0x0F ∧
    u8 (0x10 - 0x01 - 1) = 0x0E ∧
    (alu_sbc { zeroed with a := 0x10, f_c := true } 0x01).f_z = false ∧
    (alu_sbc { zeroed with a := 0x10, f_c := true } 0x01).f_n = true ∧
    (alu_sbc { zeroed with a := 0x10, f_c := true } 0x01).f_h = true ∧
    (alu_sbc { zeroed with a := 0x10, f_c := true } 0x01).f_c = false := by
  decide

/-- C4 (code bug): `ADD HL,BC` at `HL=0x1000`, `BC=0x0000`.  The claim gives
`C = (HL + BC > 0xFFFF) = 0`; `ADD_HL_RR` compares the sum with `0xFFF` and
sets `C=1` (`HL=0x1000`, `N=0`, `H=0`, and `Z` keeps its value). -/
theorem add_hl_rr_failing_input :
    (ADD_HL_RR Reg16.bc { zeroed with h := 0x10, l := 0x00, b := 0x00, c := 0x00, f_z := true }).map
        (fun g => (g.hl, g.f_z, g.f_n, g.f_h, g.f_c)) =
      some (0x1000, true, false, false, true) ∧
    decide (0x1000 + 0x0000 > 0xFFFF) = false := by
  decide

/-- C5 (code bug): `LD HL,SP+e` at `SP=0x000F`, immediate `e=0x01` (fetched
from `0xC000`), register `E=0x00`.  The claim gives
`H = ((SP AND 0xF) + (e AND 0xF) > 0xF) = 1`; `ld_hl_sp_e` reads register E
where `add_sp_e` reads the immediate, and leaves `H=0` (`HL=0x0010`, `SP`
unchanged, `Z=N=0`, `C=0`). -/
theorem ld_hl_sp_e_failing_input :
    (ld_hl_sp_e { zeroed with sp := 0x000F, e := 0x00, pc := 0xC000,
                              wram_lo := store (fun _ => 0) 0 0x01 }).map
        (fun g => (g.hl, g.sp, g.f_z, g.f_n, g.f_h, g.f_c)) =
      some (0x0010, 0x000F, false, false, false, false) ∧
    decide ((0x000F &&& 0xF) + (0x01 &&& 0xF) > 0xF) = true := by
  decide

/-- C6 (code bug): CB `SRA` at `x=0x04`.  The claim gives
`(x >> 1) OR (x AND 0x80) = 0x02`; `cb_sra` evaluates the comparison
`data > 1` and returns `0x01` (`C=0`, `Z=0`, `N=H=0`). -/
theorem cb_sra_failing_input :
    (cb_sra zeroed 0x04).1 = 0x01 ∧
    (0x04 >>> 1) ||| (0x04 &&& 0x80) = 0x02 ∧
    (cb_sra zeroed 0x04).2.f_c = false ∧ (cb_sra zeroed 0x04).2.f_z = false ∧
    (cb_sra zeroed 0x04).2.f_n = false ∧ (cb_sra zeroed 0x04).2.f_h = false := by
  decide

/-! ### The dot step in closed form -/

/-- One dot in closed form: the new dot counter `D`, line `L`, `end_frame` `E`
and `if_` `I`, and then the pixel when the new position is visible. -/
theorem lcd_cycle_closed (gb : GameBoy) :
    ∃ D L E I,
      D = (if s16 (gb.dots + 1) ≥ 376 then -80 else s16 (gb.dots + 1)) ∧
      L = (if s16 (gb.dots + 1) ≥ 376 then
            (if (gb.ly + 1) % 256 ≥ 154 then 0 else (gb.ly + 1) % 256) else gb.ly) ∧
      E = (if s16 (gb.dots + 1) ≥ 376 ∧ L = 144 then true else gb.end_frame) ∧
      I = (if s16 (gb.dots + 1) ≥ 376 ∧ L = 144 then gb.if_ ||| 1 else gb.if_) ∧
      lcd_cycle gb =
        if L < 144 ∧ D < 160 ∧ D ≥ 0 then
          render_pixel { gb with dots := D, ly := L, end_frame := E, if_ := I } D.toNat L
        else { gb with dots := D, ly := L, end_frame := E, if_ := I } := by
  unfold lcd_cycle
  lift_lets
  extract_lets g1 g2 g3 g4
  by_cases c1 : s16 (gb.dots + 1) ≥ 376
  · have c1' : g1.dots ≥ 376 := c1
    by_cases c2 : (gb.ly + 1) % 256 ≥ 154
    · have c2' : g2.ly ≥ 154 := c2
      have e3 : g3 = { gb with dots := -80, ly := 0 } := if_pos c2'
      have c3 : ¬ g3.ly = SCREEN_HEIGHT := by
        rw [e3]
        show ¬ (0 : Nat) = 144
        decide
      have e4 : g4 = { gb with dots := -80, ly := 0 } :=
        ((if_pos c1').trans (if_neg c3)).trans e3
      refine ⟨-80, 0, gb.end_frame, gb.if_, ?_, ?_, ?_, ?_, ?_⟩
      · rw [if_pos c1]
      · rw [if_pos c1, if_pos c2]
      · rw [if_neg (fun h => absurd h.2 (by decide))]
      · rw [if_neg (fun h => absurd h.2 (by decide))]
      · rw [e4]; rfl
    · have c2' : ¬ g2.ly ≥ 154 := c2
      have e3 : g3 = { gb with dots := -80, ly := (gb.ly + 1) % 256 } := if_neg c2'
      by_cases c3 : (gb.ly + 1) % 256 = 144
      · have c3' : g3.ly = SCREEN_HEIGHT := by rw [e3]; exact c3
        have e4 : g4 = { gb with dots := -80, ly := (gb.ly + 1) % 256, end_frame := true,
                                 if_ := gb.if_ ||| 1 } := by
          have : g4 = { g3 with if_ := g3.if_ ||| (1 <<< 0), end_frame := true } :=
            (if_pos c1').trans (if_pos c3')
          rw [this, e3]; rfl
        refine ⟨-80, (gb.ly + 1) % 256, true, gb.if_ ||| 1, ?_, ?_, ?_, ?_, ?_⟩
        · rw [if_pos c1]
        · rw [if_pos c1, if_neg c2]
        · rw [if_pos ⟨c1, c3⟩]
        · rw [if_pos ⟨c1, c3⟩]
        · rw [e4]; rfl
      · have c3' : ¬ g3.ly = SCREEN_HEIGHT := by rw [e3]; exact c3
        have e4 : g4 = { gb with dots := -80, ly := (gb.ly + 1) % 256 } :=
          ((if_pos c1').trans (if_neg c3')).trans e3
        refine ⟨-80, (gb.ly + 1) % 256, gb.end_frame, gb.if_, ?_, ?_, ?_, ?_, ?_⟩
        · rw [if_pos c1]
        · rw [if_pos c1, if_neg c2]
        · rw [if_neg (fun h => c3 h.2)]
        · rw [if_neg (fun h => c3 h.2)]
        · rw [e4]; rfl
  · have c1' : ¬ g1.dots ≥ 376 := c1
    have e4 : g4 = { gb with dots := s16 (gb.dots + 1) } := if_neg c1'
    refine ⟨s16 (gb.dots + 1), gb.ly, gb.end_frame, gb.if_, ?_, ?_, ?_, ?_, ?_⟩
    · rw [if_neg c1]
    · rw [if_neg c1]
    · rw [if_neg (fun h => c1 h.1)]
    · rw [if_neg (fun h => c1 h.1)]
    · rw [e4]; rfl


/-- The scalar LCD fields after one dot. -/
theorem lcd_cycle_scalars (gb : GameBoy) :
    (lcd_cycle gb).dots = (if s16 (gb.dots + 1) ≥ 376 then -80 else s16 (gb.dots + 1)) ∧
    (lcd_cycle gb).ly = (if s16 (gb.dots + 1) ≥ 376 then
        (if (gb.ly + 1) % 256 ≥ 154 then 0 else (gb.ly + 1) % 256) else gb.ly) ∧
    (lcd_cycle gb).end_frame =
      (if s16 (gb.dots + 1) ≥ 376 ∧ (lcd_cycle gb).ly = 144 then true else gb.end_frame) ∧
    (lcd_cycle gb).if_ =
      (if s16 (gb.dots + 1) ≥ 376 ∧ (lcd_cycle gb).ly = 144 then gb.if_ ||| 1 else gb.if_) := by
  obtain ⟨D, L, E, I, hD, hL, hE, hI, h⟩ := lcd_cycle_closed gb
  have hd : (lcd_cycle gb).dots = D := by
    rw [h]; split_ifs <;> rfl
  have hl : (lcd_cycle gb).ly = L := by
    rw [h]; split_ifs <;> rfl
  have he : (lcd_cycle gb).end_frame = E := by
    rw [h]; split_ifs <;> rfl
  have hi : (lcd_cycle gb).if_ = I := by
    rw [h]; split_ifs <;> rfl
  rw [hd, hl, he, hi]
  exact ⟨hD, hL, hE, hI⟩

/-- One dot from inside the ranges `-80 <= dots < 376`, `LY < 154`. -/
theorem lcd_cycle_step (gb : GameBoy)
    (h1 : -80 ≤ gb.dots) (h2 : gb.dots < 376) (h3 : gb.ly < 154) :
    (-80 ≤ (lcd_cycle gb).dots ∧ (lcd_cycle gb).dots < 376 ∧ (lcd_cycle gb).ly < 154) ∧
    ((lcd_cycle gb).dots = -80 ↔ gb.dots + 1 = 376) ∧
    (gb.dots + 1 = 376 → (lcd_cycle gb).ly = (gb.ly + 1) % 154) ∧
    (gb.dots + 1 ≠ 376 → (lcd_cycle gb).dots = gb.dots + 1 ∧ (lcd_cycle gb).ly = gb.ly) ∧
    (gb.dots + 1 = 376 ∧ (gb.ly + 1) % 154 = 144 →
      (lcd_cycle gb).if_ = gb.if_ ||| 1 ∧ (lcd_cycle gb).end_frame = true) ∧
    (¬ (gb.dots + 1 = 376 ∧ (gb.ly + 1) % 154 = 144) →
      (lcd_cycle gb).if_ = gb.if_ ∧ (lcd_cycle gb).end_frame = gb.end_frame) := by
  obtain ⟨hd, hl, he, hi⟩ := lcd_cycle_scalars gb
  have hs : s16 (gb.dots + 1) = gb.dots + 1 := by unfold s16; omega
  rw [hs] at hd hl he hi
  by_cases c1 : gb.dots + 1 ≥ 376
  · have e1 : gb.dots + 1 = 376 := by omega
    rw [if_pos c1] at hd hl
    by_cases c2 : (gb.ly + 1) % 256 ≥ 154
    · rw [if_pos c2] at hl
      have hne : ¬ (gb.dots + 1 ≥ 376 ∧ (lcd_cycle gb).ly = 144) := by
        rw [hl]; intro h; exact absurd h.2 (by decide)
      rw [if_neg hne] at he hi
      rw [hd, hl, he, hi]
      refine ⟨⟨by omega, by omega, by omega⟩, ⟨fun _ => e1, fun _ => rfl⟩, fun _ => by omega,
        fun h => absurd e1 h, fun h => by omega, fun _ => ⟨rfl, rfl⟩⟩
    · rw [if_neg c2] at hl
      by_cases c3 : (gb.ly + 1) % 256 = 144
      · have hp : gb.dots + 1 ≥ 376 ∧ (lcd_cycle gb).ly = 144 := ⟨c1, by rw [hl]; exact c3⟩
        rw [if_pos hp] at he hi
        rw [hd, hl, he, hi]
        refine ⟨⟨by omega, by omega, by omega⟩, ⟨fun _ => e1, fun _ => rfl⟩, fun _ => by omega,
          fun h => absurd e1 h, fun _ => ⟨rfl, rfl⟩, fun h => absurd ⟨e1, by omega⟩ h⟩
      · have hne : ¬ (gb.dots + 1 ≥ 376 ∧ (lcd_cycle gb).ly = 144) := by
          rw [hl]; intro h; exact c3 h.2
        rw [if_neg hne] at he hi
        rw [hd, hl, he, hi]
        refine ⟨⟨by omega, by omega, by omega⟩, ⟨fun _ => e1, fun _ => rfl⟩, fun _ => by omega,
          fun h => absurd e1 h, fun h => by omega, fun _ => ⟨rfl, rfl⟩⟩
  · rw [if_neg c1] at hd hl
    have hne : ¬ (gb.dots + 1 ≥ 376 ∧ (lcd_cycle gb).ly = 144) := fun h => c1 h.1
    rw [if_neg hne] at he hi
    rw [hd, hl, he, hi]
    refine ⟨⟨by omega, by omega, h3⟩, ⟨fun h => by omega, fun h => by omega⟩, fun h => by omega,
      fun _ => ⟨rfl, rfl⟩, fun h => by omega, fun _ => ⟨rfl, rfl⟩⟩

/-- C14: for every state with `-80 <= dots < 376` and `LY < 154`, one
`lcd_cycle` step keeps both ranges; the dot counter is reset to `-80` exactly
when its increment reaches 376 (otherwise it is the increment and `LY` is
unchanged), `LY` then becomes `(LY + 1) mod 154`, and the step sets the vblank
bit of `IF` and `end_frame` when the newly entered `LY` is 144, and changes
neither `IF` nor `end_frame` when it does not enter `LY = 144`. -/
theorem lcd_scanline_invariant (gb : GameBoy)
    (h1 : -80 ≤ gb.dots) (h2 : gb.dots < 376) (h3 : gb.ly < 154) :
    (-80 ≤ (lcd_cycle gb).dots ∧ (lcd_cycle gb).dots < 376 ∧ (lcd_cycle gb).ly < 154) ∧
    ((lcd_cycle gb).dots = -80 ↔ gb.dots + 1 = 376) ∧
    (gb.dots + 1 = 376 → (lcd_cycle gb).ly = (gb.ly + 1) % 154) ∧
    (gb.dots + 1 ≠ 376 → (lcd_cycle gb).dots = gb.dots + 1 ∧ (lcd_cycle gb).ly = gb.ly) ∧
    (gb.dots + 1 = 376 ∧ (gb.ly + 1) % 154 = 144 →
      (lcd_cycle gb).if_ = gb.if_ ||| 1 ∧ (lcd_cycle gb).end_frame = true) ∧
    (¬ (gb.dots + 1 = 376 ∧ (gb.ly + 1) % 154 = 144) →
      (lcd_cycle gb).if_ = gb.if_ ∧ (lcd_cycle gb).end_frame = gb.end_frame) :=
  lcd_cycle_step gb h1 h2 h3

/-- An instance of C14: the step from the last dot of line 143 enters line 144
and raises vblank. -/
theorem lcd_scanline_invariant_witness :
    (-80 ≤ (lcd_cycle { zeroed with dots := 375, ly := 143 }).dots ∧
      (lcd_cycle { zeroed with dots := 375, ly := 143 }).dots < 376 ∧
      (lcd_cycle { zeroed with dots := 375, ly := 143 }).ly < 154) ∧
    ((lcd_cycle { zeroed with dots := 375, ly := 143 }).dots = -80 ↔ (375 : Int) + 1 = 376) ∧
    ((375 : Int) + 1 = 376 →
      (lcd_cycle { zeroed with dots := 375, ly := 143 }).ly = (143 + 1) % 154) ∧
    ((375 : Int) + 1 ≠ 376 →
      (lcd_cycle { zeroed with dots := 375, ly := 143 }).dots = 375 + 1 ∧
      (lcd_cycle { zeroed with dots := 375, ly := 143 }).ly = 143) ∧
    ((375 : Int) + 1 = 376 ∧ (143 + 1) % 154 = 144 →
      (lcd_cycle { zeroed with dots := 375, ly := 143 }).if_ = 0 ||| 1 ∧
      (lcd_cycle { zeroed with dots := 375, ly := 143 }).end_frame = true) ∧
    (¬ ((375 : Int) + 1 = 376 ∧ (143 + 1) % 154 = 144) →
      (lcd_cycle { zeroed with dots := 375, ly := 143 }).if_ = 0 ∧
      (lcd_cycle { zeroed with dots := 375, ly := 143 }).end_frame = false) :=
  lcd_scanline_invariant { zeroed with dots := 375, ly := 143 } (by decide) (by decide)
    (by decide)


/-! ### The LCD position over many dots -/

theorem lcd_pos_range (g : GameBoy) (h : lcd_inv g) : 0 ≤ lcd_pos g ∧ lcd_pos g < 70224 := by
  obtain ⟨h1, h2, h3⟩ := h
  unfold lcd_pos
  omega

/-- One dot advances the position by one modulo the frame length, and raises
vblank and `end_frame` exactly when the new position is the start of line
144. -/
theorem lcd_cycle_pos (g : GameBoy) (h : lcd_inv g) :
    lcd_inv (lcd_cycle g) ∧ lcd_pos (lcd_cycle g) = (lcd_pos g + 1) % 70224 ∧
    ((lcd_pos g + 1) % 70224 = 65664 →
      (lcd_cycle g).end_frame = true ∧ (lcd_cycle g).if_ = g.if_ ||| 1) ∧
    ((lcd_pos g + 1) % 70224 ≠ 65664 →
      (lcd_cycle g).end_frame = g.end_frame ∧ (lcd_cycle g).if_ = g.if_) := by
  obtain ⟨h1, h2, h3⟩ := h
  obtain ⟨hr, _, hw, hn, hs, hu⟩ := lcd_cycle_step g h1 h2 h3
  unfold lcd_pos
  refine ⟨hr, ?_, ?_, ?_⟩
  · by_cases c : g.dots + 1 = 376
    · have := hw c
      have hd : (lcd_cycle g).dots = -80 := by
        have := (lcd_cycle_step g h1 h2 h3).2.1
        exact this.mpr c
      rw [hd, this]
      omega
    · obtain ⟨e1, e2⟩ := hn c
      rw [e1, e2]
      omega
  · intro hp
    have : g.dots + 1 = 376 ∧ (g.ly + 1) % 154 = 144 := by omega
    obtain ⟨a, b⟩ := hs this
    exact ⟨b, a⟩
  · intro hp
    have : ¬ (g.dots + 1 = 376 ∧ (g.ly + 1) % 154 = 144) := by omega
    obtain ⟨a, b⟩ := hu this
    exact ⟨b, a⟩

/-- After `n` dots the position has advanced by `n` modulo the frame length,
and `end_frame` and `if_` are untouched as long as no dot entered line 144. -/
theorem lcd_iterate (g : GameBoy) (h : lcd_inv g) (n : Nat) :
    lcd_inv (lcd_cycle^[n] g) ∧ lcd_pos (lcd_cycle^[n] g) = (lcd_pos g + n) % 70224 ∧
    ((∀ j : Nat, 1 ≤ j → j ≤ n → (lcd_pos g + j) % 70224 ≠ 65664) →
      (lcd_cycle^[n] g).end_frame = g.end_frame ∧ (lcd_cycle^[n] g).if_ = g.if_) := by
  have hr := lcd_pos_range g h
  induction n with
  | zero =>
    refine ⟨h, ?_, fun _ => ⟨rfl, rfl⟩⟩
    simp only [Function.iterate_zero, id_eq]
    omega
  | succ n ih =>
    obtain ⟨i1, i2, i3⟩ := ih
    rw [Function.iterate_succ_apply']
    obtain ⟨s1, s2, _, s4⟩ := lcd_cycle_pos _ i1
    refine ⟨s1, ?_, ?_⟩
    · rw [s2, i2]
      push_cast
      omega
    · intro hj
      have hn : (lcd_pos (lcd_cycle^[n] g) + 1) % 70224 ≠ 65664 := by
        rw [i2]
        have := hj (n + 1) (by omega) (Nat.le_refl _)
        push_cast at this
        omega
      obtain ⟨a, b⟩ := s4 hn
      obtain ⟨c, d⟩ := i3 (fun j h1 h2 => hj j h1 (by omega))
      exact ⟨a.trans c, b.trans d⟩

/-- The dot that brings the position to the start of line 144 sets
`end_frame` and the vblank bit. -/
theorem lcd_iterate_hit (g : GameBoy) (h : lcd_inv g) (n : Nat)
    (hfree : ∀ j : Nat, 1 ≤ j → j ≤ n → (lcd_pos g + j) % 70224 ≠ 65664)
    (hhit : (lcd_pos g + (n + 1 : Nat)) % 70224 = 65664) :
    (lcd_cycle^[n + 1] g).end_frame = true ∧ (lcd_cycle^[n + 1] g).if_ = g.if_ ||| 1 := by
  obtain ⟨i1, i2, i3⟩ := lcd_iterate g h n
  obtain ⟨_, d⟩ := i3 hfree
  rw [Function.iterate_succ_apply']
  obtain ⟨_, _, s3, _⟩ := lcd_cycle_pos _ i1
  have hp : (lcd_pos (lcd_cycle^[n] g) + 1) % 70224 = 65664 := by
    rw [i2]
    push_cast at hhit
    omega
  obtain ⟨a, b⟩ := s3 hp
  exact ⟨a, by rw [b, d]⟩

/-! ### The frame cadence -/

theorem lcd_cycle_congr (g g' : GameBoy) (h : lcd_same g g') :
    lcd_same (lcd_cycle g) (lcd_cycle g') := by
  obtain ⟨hd, hl, he, hi⟩ := h
  obtain ⟨a1, a2, a3, a4⟩ := lcd_cycle_scalars g
  obtain ⟨b1, b2, b3, b4⟩ := lcd_cycle_scalars g'
  have e2 : (lcd_cycle g).ly = (lcd_cycle g').ly := by rw [a2, b2, hd, hl]
  refine ⟨by rw [a1, b1, hd], e2, ?_, ?_⟩
  · rw [a3, b3, e2, hd, he]
  · rw [a4, b4, e2, hd, hi]

theorem lcd_iterate_congr (n : Nat) (g g' : GameBoy) (h : lcd_same g g') :
    lcd_same (lcd_cycle^[n] g) (lcd_cycle^[n] g') := by
  induction n with
  | zero => exact h
  | succ n ih =>
    rw [Function.iterate_succ_apply', Function.iterate_succ_apply']
    exact lcd_cycle_congr _ _ ih

theorem cycle_lcd_on (gb : GameBoy) (h : gb.lcd_en = true) :
    cycle gb = lcd_cycle^[4] { gb with cycles := (gb.cycles + 2) % 4294967296 } := by
  unfold cycle
  simp only [h]
  rfl

/-- With the LCD on, one tick is four dots. -/
theorem cycle_lcd_same (g : GameBoy) (h : g.lcd_en = true) :
    lcd_same (cycle g) (lcd_cycle^[4] g) := by
  rw [cycle_lcd_on g h]
  exact lcd_iterate_congr 4 _ _ ⟨rfl, rfl, rfl, rfl⟩

theorem cycle_iterate_lcd_en (g : GameBoy) (k : Nat) : (cycle^[k] g).lcd_en = g.lcd_en := by
  induction k with
  | zero => rfl
  | succ k ih => rw [Function.iterate_succ_apply', cycle_lcd_en, ih]

/-- With the LCD on, `k` ticks are `4 * k` dots. -/
theorem cycle_iterate_lcd_same (g : GameBoy) (h : g.lcd_en = true) (k : Nat) :
    lcd_same (cycle^[k] g) (lcd_cycle^[4 * k] g) := by
  induction k with
  | zero => exact ⟨rfl, rfl, rfl, rfl⟩
  | succ k ih =>
    rw [Function.iterate_succ_apply']
    have e : 4 * (k + 1) = 4 + 4 * k := by omega
    rw [e, Function.iterate_add_apply]
    have h1 := cycle_lcd_same (cycle^[k] g) (by rw [cycle_iterate_lcd_en]; exact h)
    have h2 := lcd_iterate_congr 4 _ _ ih
    exact ⟨h1.1.trans h2.1, h1.2.1.trans h2.2.1, h1.2.2.1.trans h2.2.2.1,
      h1.2.2.2.trans h2.2.2.2⟩

/-- C13: with the LCD enabled, from a state in which the LCD has just entered
`LY = 144` (dot counter `-80`), none of the next 70223 `lcd_cycle` steps
changes `end_frame` or `IF`, and the 70224th step sets `end_frame` and the
vblank bit, back at `LY = 144` with the dot counter at `-80`; `k` ticks of
`cycle()` are `4 * k` of these steps, so no tick before the 17556th changes
`end_frame` or `IF` and the 17556th sets both. -/
theorem vblank_cadence (gb : GameBoy) (hd : gb.dots = -80) (hl : gb.ly = 144)
    (hen : gb.lcd_en = true) :
    (∀ n, n < 70224 →
      (lcd_cycle^[n] gb).end_frame = gb.end_frame ∧ (lcd_cycle^[n] gb).if_ = gb.if_) ∧
    ((lcd_cycle^[70224] gb).end_frame = true ∧ (lcd_cycle^[70224] gb).if_ = gb.if_ ||| 1 ∧
      (lcd_cycle^[70224] gb).dots = -80 ∧ (lcd_cycle^[70224] gb).ly = 144) ∧
    (∀ k, (cycle^[k] gb).lcd_en = true ∧
      (cycle^[k] gb).dots = (lcd_cycle^[4 * k] gb).dots ∧
      (cycle^[k] gb).ly = (lcd_cycle^[4 * k] gb).ly ∧
      (cycle^[k] gb).end_frame = (lcd_cycle^[4 * k] gb).end_frame ∧
      (cycle^[k] gb).if_ = (lcd_cycle^[4 * k] gb).if_) ∧
    (∀ k, k < 17556 →
      (cycle^[k] gb).end_frame = gb.end_frame ∧ (cycle^[k] gb).if_ = gb.if_) ∧
    ((cycle^[17556] gb).end_frame = true ∧ (cycle^[17556] gb).if_ = gb.if_ ||| 1) := by
  have hinv : lcd_inv gb := by
    unfold lcd_inv; rw [hd, hl]; exact ⟨by decide, by decide, by decide⟩
  have hpos : lcd_pos gb = 65664 := by
    unfold lcd_pos; rw [hd, hl]; rfl
  have hfree : ∀ n, n < 70224 → ∀ j : Nat, 1 ≤ j → j ≤ n → (lcd_pos gb + j) % 70224 ≠ 65664 := by
    intro n hn j h1 h2
    rw [hpos]
    omega
  have hA : ∀ n, n < 70224 →
      (lcd_cycle^[n] gb).end_frame = gb.end_frame ∧ (lcd_cycle^[n] gb).if_ = gb.if_ :=
    fun n hn => (lcd_iterate gb hinv n).2.2 (hfree n hn)
  have hB := lcd_iterate_hit gb hinv 70223 (hfree 70223 (by decide))
    (by rw [hpos]; decide)
  have hC := lcd_iterate gb hinv 70224
  have hD : (lcd_cycle^[70224] gb).dots = -80 ∧ (lcd_cycle^[70224] gb).ly = 144 := by
    obtain ⟨⟨i1, i2, i3⟩, p, _⟩ := hC
    rw [hpos] at p
    unfold lcd_pos at p
    omega
  refine ⟨hA, ⟨hB.1, hB.2, hD.1, hD.2⟩, ?_, ?_, ?_⟩
  · intro k
    obtain ⟨a, b, c, d⟩ := cycle_iterate_lcd_same gb hen k
    exact ⟨by rw [cycle_iterate_lcd_en]; exact hen, a, b, c, d⟩
  · intro k hk
    obtain ⟨_, _, c, d⟩ := cycle_iterate_lcd_same gb hen k
    obtain ⟨e, f⟩ := hA (4 * k) (by omega)
    exact ⟨c.trans e, d.trans f⟩
  · obtain ⟨_, _, c, d⟩ := cycle_iterate_lcd_same gb hen 17556
    exact ⟨c.trans hB.1, d.trans hB.2⟩

/-- C13 at `vblank_state`. -/
theorem vblank_cadence_witness :
    vblank_state.dots = -80 ∧ vblank_state.ly = 144 ∧ vblank_state.lcd_en = true ∧
    ((∀ n, n < 70224 →
       (lcd_cycle^[n] vblank_state).end_frame = vblank_state.end_frame ∧ (lcd_cycle^[n] vblank_state).if_ = vblank_state.if_) ∧
     ((lcd_cycle^[70224] vblank_state).end_frame = true ∧ (lcd_cycle^[70224] vblank_state).if_ = vblank_state.if_ ||| 1 ∧
       (lcd_cycle^[70224] vblank_state).dots = -80 ∧ (lcd_cycle^[70224] vblank_state).ly = 144) ∧
     (∀ k, (cycle^[k] vblank_state).lcd_en = true ∧
       (cycle^[k] vblank_state).dots = (lcd_cycle^[4 * k] vblank_state).dots ∧
       (cycle^[k] vblank_state).ly = (lcd_cycle^[4 * k] vblank_state).ly ∧
       (cycle^[k] vblank_state).end_frame = (lcd_cycle^[4 * k] vblank_state).end_frame ∧
       (cycle^[k] vblank_state).if_ = (lcd_cycle^[4 * k] vblank_state).if_) ∧
     (∀ k, k < 17556 →
       (cycle^[k] vblank_state).end_frame = vblank_state.end_frame ∧ (cycle^[k] vblank_state).if_ = vblank_state.if_) ∧
     ((cycle^[17556] vblank_state).end_frame = true ∧ (cycle^[17556] vblank_state).if_ = vblank_state.if_ ||| 1)) :=
  ⟨rfl, rfl, rfl, vblank_cadence vblank_state rfl rfl rfl⟩

/-! ### Construction -/

/-- C11: `make_gb(rom, size)` yields a machine if and only if `size >= 0x8000`,
`rom[0x148] <= 8`, `size = 0x8000 * 2^rom[0x148]`, `rom[0x143]` is neither
`0x80` nor `0xC0`, `rom[0x146]` is not `0x03` and `rom[0x147]` is `0`; in every
other case it yields no machine: it returns `NULL` or exits. -/
theorem make_gb_iff (rom : Nat → Nat) (size : Nat) :
    ((∃ gb, make_gb rom size = some (some gb)) ↔
      (size ≥ 0x8000 ∧ rom 0x148 ≤ 8 ∧ size = 0x8000 * 2 ^ rom 0x148 ∧
        rom 0x143 ≠ 0x80 ∧ rom 0x143 ≠ 0xC0 ∧ rom 0x146 ≠ 0x03 ∧ rom 0x147 = 0)) ∧
    (¬ (size ≥ 0x8000 ∧ rom 0x148 ≤ 8 ∧ size = 0x8000 * 2 ^ rom 0x148 ∧
        rom 0x143 ≠ 0x80 ∧ rom 0x143 ≠ 0xC0 ∧ rom 0x146 ≠ 0x03 ∧ rom 0x147 = 0) →
      make_gb rom size = some none ∨ make_gb rom size = none) := by
  simp only [make_gb, Nat.one_shiftLeft]
  by_cases h1 : size < 0x8000
  · simp [h1]
  by_cases h2 : rom 0x148 > 8
  · simp [h1, h2]
  by_cases h3 : 0x8000 * 2 ^ rom 0x148 ≠ size
  · simp [h1, h2, h3]
    intro _ _ h; exact absurd h.symm h3
  by_cases h4 : rom 0x143 = 0x80 ∨ rom 0x143 = 0xC0
  · simp [h1, h2, h3, h4]
    rcases h4 with h | h <;> simp [h]
  by_cases h5 : rom 0x146 = 0x03
  · simp [h1, h2, h3, h4, h5]
  by_cases h6 : rom 0x147 ≠ 0
  · simp [h1, h2, h3, h4, h5, h6]
  · simp only [not_not] at h3 h6
    simp only [not_or] at h4
    simp [h1, h2, h3, h4, h5, h6]
    omega

/-- C11 at the bring-up image of `0x8000` bytes, which `make_gb` accepts, and
at the same image cut to `0x7FFF` bytes, which it refuses. -/
theorem make_gb_iff_witness :
    (∃ gb, make_gb bringup_rom 0x8000 = some (some gb)) ∧
    (make_gb bringup_rom 0x7FFF = some none ∨ make_gb bringup_rom 0x7FFF = none) :=
  ⟨(make_gb_iff bringup_rom 0x8000).1.2 (by decide),
    (make_gb_iff bringup_rom 0x7FFF).2 (by decide)⟩

/-! ### `ADD`, `SUB` and `CP` -/

/-- C19: for every accumulator value `A` and operand byte `d`, `ADD A,d`
(`alu_add`) leaves `A = (A + d) mod 256`, `Z = (result = 0)`, `N = 0`,
`H = ((A AND 0xF) + (d AND 0xF) > 0xF)` and `C = (A + d > 0xFF)`, whatever the
incoming carry is; and `ADD A,B` with `A=0x3A`, `B=0xC6` gives `A=0x00`, `Z=1`,
`H=1`, `C=1`. -/
theorem alu_add_spec (gb : GameBoy) (d : Nat) (c : Bool) :
    (alu_add { gb with f_c := c } d).a = (gb.a + d) % 256 ∧
    (alu_add { gb with f_c := c } d).f_z = decide ((gb.a + d) % 256 = 0) ∧
    (alu_add { gb with f_c := c } d).f_n = false ∧
    (alu_add { gb with f_c := c } d).f_h = decide ((gb.a &&& 0xF) + (d &&& 0xF) > 0xF) ∧
    (alu_add { gb with f_c := c } d).f_c = decide (gb.a + d > 0xFF) ∧
    (ALU_REG_OP AluOp.add Reg8.b { zeroed with a := 0x3A, b := 0xC6 }).map
        (fun g => (g.a, g.f_z, g.f_n, g.f_h, g.f_c)) = some (0x00, true, false, true, true) :=
  ⟨rfl, rfl, rfl, rfl, rfl, by decide⟩

/-- C20: for every accumulator byte `A` and operand byte `d`, `SUB d` (`alu_sub`)
leaves `A = (A - d) mod 256`, `Z = (result = 0)`, `N = 1`,
`H = ((A AND 0xF) < (d AND 0xF))` and `C = (A < d)`; `CP d` (`alu_cp`) produces
the same four flags as `SUB d` and leaves `A` unchanged. -/
theorem alu_sub_cp_spec (gb : GameBoy) (d : Nat) (ha : gb.a < 256) (hd : d < 256) :
    (alu_sub gb d).a = u8 ((gb.a : Int) - (d : Int)) ∧
    (alu_sub gb d).f_z = decide (u8 ((gb.a : Int) - (d : Int)) = 0) ∧
    (alu_sub gb d).f_n = true ∧
    (alu_sub gb d).f_h = decide ((gb.a &&& 0xF) < (d &&& 0xF)) ∧
    (alu_sub gb d).f_c = decide (gb.a < d) ∧
    (alu_cp gb d).f_z = (alu_sub gb d).f_z ∧
    (alu_cp gb d).f_n = (alu_sub gb d).f_n ∧
    (alu_cp gb d).f_h = (alu_sub gb d).f_h ∧
    (alu_cp gb d).f_c = (alu_sub gb d).f_c ∧
    (alu_cp gb d).a = gb.a := by
  refine ⟨rfl, rfl, rfl, rfl, rfl, ?_, rfl, rfl, rfl, rfl⟩
  show decide (gb.a = d) = decide (u8 ((gb.a : Int) - (d : Int)) = 0)
  have : gb.a = d ↔ u8 ((gb.a : Int) - (d : Int)) = 0 := by
    unfold u8
    omega
  simp only [this]

/-- The table row of C20: `SUB B` with `A=0x3E`, `B=0x3E` gives `A=0x00`, `Z=1`,
`N=1`, `H=0`, `C=0`, and `CP B` gives the same flags with `A` still `0x3E`. -/
theorem alu_sub_cp_spec_witness :
    (alu_sub { zeroed with a := 0x3E, b := 0x3E } 0x3E).a = u8 (0x3E - 0x3E) ∧
    (alu_sub { zeroed with a := 0x3E, b := 0x3E } 0x3E).f_z = decide (u8 (0x3E - 0x3E) = 0) ∧
    (alu_sub { zeroed with a := 0x3E, b := 0x3E } 0x3E).f_n = true ∧
    (alu_sub { zeroed with a := 0x3E, b := 0x3E } 0x3E).f_h =
      decide ((0x3E &&& 0xF) < (0x3E &&& 0xF)) ∧
    (alu_sub { zeroed with a := 0x3E, b := 0x3E } 0x3E).f_c = decide (0x3E < 0x3E) ∧
    (alu_cp { zeroed with a := 0x3E, b := 0x3E } 0x3E).f_z =
      (alu_sub { zeroed with a := 0x3E, b := 0x3E } 0x3E).f_z ∧
    (alu_cp { zeroed with a := 0x3E, b := 0x3E } 0x3E).f_n =
      (alu_sub { zeroed with a := 0x3E, b := 0x3E } 0x3E).f_n ∧
    (alu_cp { zeroed with a := 0x3E, b := 0x3E } 0x3E).f_h =
      (alu_sub { zeroed with a := 0x3E, b := 0x3E } 0x3E).f_h ∧
    (alu_cp { zeroed with a := 0x3E, b := 0x3E } 0x3E).f_c =
      (alu_sub { zeroed with a := 0x3E, b := 0x3E } 0x3E).f_c ∧
    (alu_cp { zeroed with a := 0x3E, b := 0x3E } 0x3E).a = 0x3E :=
  alu_sub_cp_spec { zeroed with a := 0x3E, b := 0x3E } 0x3E (by decide) (by decide)

/-- The table row of C20 evaluated through the opcode executors `SUB B` and
`CP B`. -/
theorem alu_sub_cp_table_row :
    (ALU_REG_OP AluOp.sub Reg8.b { zeroed with a := 0x3E, b := 0x3E }).map
        (fun g => (g.a, g.f_z, g.f_n, g.f_h, g.f_c)) = some (0x00, true, true, false, false) ∧
    (ALU_REG_OP AluOp.cp Reg8.b { zeroed with a := 0x3E, b := 0x3E }).map
        (fun g => (g.a, g.f_z, g.f_n, g.f_h, g.f_c)) = some (0x3E, true, true, false, false) := by
  decide

/-! ### Scenario S5 -/

/-- C16 (amended): in the state of scenario S5 the renderer writes colour 1 at
frame-buffer pixels `(0,0)` and `(7,0)`, and colour 1 at pixel `(8,0)` as well:
the tile-map entry `(1,0)` is `0` like every other entry of the zeroed map, so
pixel `(8,0)` decodes tile 0 again.  The same holds for the three `lcd_cycle`
steps that emit these pixels on line 0. -/
theorem s5_pixels :
    (render_pixel s5_state 0 0).fbuf (0 + 160 * 0) = 1 ∧
    (render_pixel s5_state 7 0).fbuf (7 + 160 * 0) = 1 ∧
    (render_pixel s5_state 8 0).fbuf (8 + 160 * 0) = 1 ∧
    (lcd_cycle { s5_state with ly := 0, dots := -1 }).fbuf 0 = 1 ∧
    (lcd_cycle { s5_state with ly := 0, dots := 6 }).fbuf 7 = 1 ∧
    (lcd_cycle { s5_state with ly := 0, dots := 7 }).fbuf 8 = 1 := by
  decide

/-- C16 as stated fails at pixel `(8,0)`: the tile-map entry `(1,0)` at VRAM
offset `0x1801` is `0`, which selects tile 0, and the renderer writes colour 1,
not 0. -/
theorem s5_pixel_8_counterexample :
    get_bg_tile s5_state (8 / 8) (0 / 8) false = 0 ∧
    (render_pixel s5_state 8 0).fbuf (8 + 160 * 0) = 1 ∧
    (render_pixel s5_state 8 0).fbuf (8 + 160 * 0) ≠ 0 := by
  decide

/-! ### The background pixel -/

theorem colour_bits (m l : Nat) :
    (((m &&& 1) <<< 1) + (l &&& 1)) % 256 = ((m &&& 1) <<< 1) ||| (l &&& 1) := by
  rw [Nat.and_one_is_mod, Nat.and_one_is_mod]
  rcases Nat.mod_two_eq_zero_or_one m with h | h <;>
    rcases Nat.mod_two_eq_zero_or_one l with h' | h' <;> rw [h, h'] <;> rfl

theorem lcd_cycle_fbuf (gb : GameBoy) :
    (lcd_cycle gb).fbuf =
      if (lcd_cycle gb).ly < 144 ∧ (lcd_cycle gb).dots < 160 ∧ (lcd_cycle gb).dots ≥ 0 then
        (render_pixel gb (lcd_cycle gb).dots.toNat (lcd_cycle gb).ly).fbuf
      else gb.fbuf := by
  obtain ⟨D, L, E, I, hD, hL, hE, hI, h⟩ := lcd_cycle_closed gb
  have hd : (lcd_cycle gb).dots = D := by
    rw [h]; split_ifs <;> rfl
  have hl : (lcd_cycle gb).ly = L := by
    rw [h]; split_ifs <;> rfl
  rw [hd, hl, h]
  split_ifs <;> rfl

theorem render_pixel_fbuf (gb : GameBoy) (x y : Nat) :
    (render_pixel gb x y).fbuf =
      store gb.fbuf (y * 160 + x)
        ((((gb.vram (16 * (if gb.tile_sel = false ∧
                gb.vram ((if gb.bg_map then 0x1C00 else 0x1800) + (y / 8) * 32 + x / 8) < 0x80
              then gb.vram ((if gb.bg_map then 0x1C00 else 0x1800) + (y / 8) * 32 + x / 8) + 0x100
              else gb.vram ((if gb.bg_map then 0x1C00 else 0x1800) + (y / 8) * 32 + x / 8))
            + 2 * (y % 8) + 1) >>> (7 - x % 8)) &&& 1) <<< 1) |||
         ((gb.vram (16 * (if gb.tile_sel = false ∧
                gb.vram ((if gb.bg_map then 0x1C00 else 0x1800) + (y / 8) * 32 + x / 8) < 0x80
              then gb.vram ((if gb.bg_map then 0x1C00 else 0x1800) + (y / 8) * 32 + x / 8) + 0x100
              else gb.vram ((if gb.bg_map then 0x1C00 else 0x1800) + (y / 8) * 32 + x / 8))
            + 2 * (y % 8)) >>> (7 - x % 8)) &&& 1)) := by
  obtain ⟨t0, ht0⟩ : ∃ t0, t0 = gb.vram ((if gb.bg_map then 0x1C00 else 0x1800) + (y / 8) * 32 + x / 8) :=
    ⟨_, rfl⟩
  rw [← ht0]
  have e1 : get_bg_tile gb (x / 8) (y / 8) false = t0 := by
    rw [ht0]
    show gb.vram ((if gb.bg_map then 0x1C00 else 0x1800) + (y / 8 * 32 + x / 8)) = _
    rw [Nat.add_assoc]
  have e2 : (if !gb.tile_sel && decide (t0 < 0x80) then (t0 + 0x100) % 65536 else t0) =
      (if gb.tile_sel = false ∧ t0 < 0x80 then t0 + 0x100 else t0) := by
    cases hs : gb.tile_sel <;> by_cases hlt : t0 < 0x80
    · simp only [Bool.not_false, Bool.true_and, decide_eq_true_eq, hlt, if_true, true_and]
      omega
    · simp only [Bool.not_false, Bool.true_and, decide_eq_true_eq, hlt, if_false, and_false]
    · simp only [Bool.not_true, Bool.false_and, Bool.false_eq_true, if_false, false_and,
        reduceCtorEq]
    · simp only [Bool.not_true, Bool.false_and, Bool.false_eq_true, if_false, false_and,
        reduceCtorEq]
  unfold render_pixel
  simp only [e1, e2]
  unfold get_tile_pixel
  simp only [colour_bits]
  show store gb.fbuf (x + 160 * y) _ = _
  rw [show x + 160 * y = y * 160 + x by omega]

/-- C15: when, after the dot increment of `lcd_cycle`, `ly = y < 144` and the
dot counter is `x` with `0 <= x < 160`, the step stores at framebuffer index
`y*160 + x` the colour `(((msb >> (7 - xm)) AND 1) << 1) OR ((lsb >> (7 - xm))
AND 1)`, with `xm = x mod 8`, `t0 = VRAM[base + (y/8)*32 + x/8]`, `base`
`0x1C00` if `bg_map` else `0x1800`, `t = t0 + 0x100` when `tile_sel` is false
and `t0 < 0x80` (else `t = t0`), `lsb = VRAM[16t + 2(y mod 8)]` and
`msb = VRAM[16t + 2(y mod 8) + 1]`, and leaves every other framebuffer entry
as it was (the new framebuffer is the old one with that one store); outside
that window the framebuffer is unchanged. -/
theorem background_pixel (gb : GameBoy) :
    (∀ x y : Nat, (lcd_cycle gb).ly = y → (lcd_cycle gb).dots = (x : Int) → y < 144 → x < 160 →
      ∃ t0 t lsb msb : Nat,
        t0 = gb.vram ((if gb.bg_map then 0x1C00 else 0x1800) + (y / 8) * 32 + x / 8) ∧
        t = (if gb.tile_sel = false ∧ t0 < 0x80 then t0 + 0x100 else t0) ∧
        lsb = gb.vram (16 * t + 2 * (y % 8)) ∧
        msb = gb.vram (16 * t + 2 * (y % 8) + 1) ∧
        (lcd_cycle gb).fbuf (y * 160 + x) =
          ((((msb >>> (7 - x % 8)) &&& 1) <<< 1) ||| ((lsb >>> (7 - x % 8)) &&& 1)) ∧
        (∀ i, i ≠ y * 160 + x → (lcd_cycle gb).fbuf i = gb.fbuf i)) ∧
    (¬ ((lcd_cycle gb).ly < 144 ∧ 0 ≤ (lcd_cycle gb).dots ∧ (lcd_cycle gb).dots < 160) →
      (lcd_cycle gb).fbuf = gb.fbuf) := by
  constructor
  · intro x y hy hx hy144 hx160
    refine ⟨_, _, _, _, rfl, rfl, rfl, rfl, ?_⟩
    have hw : (lcd_cycle gb).ly < 144 ∧ (lcd_cycle gb).dots < 160 ∧ (lcd_cycle gb).dots ≥ 0 := by
      rw [hy, hx]; omega
    have hf := lcd_cycle_fbuf gb
    rw [if_pos hw, hy, hx, Int.toNat_ofNat, render_pixel_fbuf] at hf
    rw [hf]
    constructor
    · simp only [store, if_true]
    · intro i hi
      simp only [store, if_neg hi]
  · intro hw
    have hf := lcd_cycle_fbuf gb
    rw [if_neg (fun h => hw ⟨h.1, h.2.2, h.2.1⟩)] at hf
    exact hf

/-- C15 at the first visible dot of line 0 of scenario S5: the step from dot
`-1` of line 0 stores colour 1 at framebuffer index 0. -/
theorem background_pixel_witness :
    (lcd_cycle { s5_state with ly := 0, dots := -1 }).ly = 0 ∧
    (lcd_cycle { s5_state with ly := 0, dots := -1 }).dots = ((0 : Nat) : Int) ∧
    ∃ t0 t lsb msb : Nat,
      t0 = s5_state.vram ((if s5_state.bg_map then 0x1C00 else 0x1800) + (0 / 8) * 32 + 0 / 8) ∧
      t = (if s5_state.tile_sel = false ∧ t0 < 0x80 then t0 + 0x100 else t0) ∧
      lsb = s5_state.vram (16 * t + 2 * (0 % 8)) ∧
      msb = s5_state.vram (16 * t + 2 * (0 % 8) + 1) ∧
      (lcd_cycle { s5_state with ly := 0, dots := -1 }).fbuf (0 * 160 + 0) =
        ((((msb >>> (7 - 0 % 8)) &&& 1) <<< 1) ||| ((lsb >>> (7 - 0 % 8)) &&& 1)) ∧
      (∀ i, i ≠ 0 * 160 + 0 →
        (lcd_cycle { s5_state with ly := 0, dots := -1 }).fbuf i = s5_state.fbuf i) :=
  ⟨by decide, by decide,
    (background_pixel { s5_state with ly := 0, dots := -1 }).1 0 0 (by decide) (by decide)
      (by decide) (by decide)⟩

/-! ### The bus primitives and the tick -/

theorem bus_keeps_refl (gb : GameBoy) : bus_keeps gb gb :=
  ⟨rfl, rfl, rfl, rfl, rfl, rfl, rfl, rfl, rfl, rfl, rfl, rfl, rfl, rfl, rfl, rfl, rfl, rfl, rfl⟩

theorem ite_some_elim {P : Prop} {c : Prop} [Decidable c] {t e : Option GameBoy} {g : GameBoy}
    (ht : t = some g → P) (he : e = some g → P) : (if c then t else e) = some g → P := by
  intro h
  by_cases hc : c
  · rw [if_pos hc] at h; exact ht h
  · rw [if_neg hc] at h; exact he h

theorem io_write_keeps (gb g : GameBoy) (a x : Nat) (h : io_write gb a x = some g) :
    bus_keeps gb g := by
  revert h
  unfold io_write
  lift_lets
  intro ad
  repeat' refine ite_some_elim ?_ ?_
  all_goals
    intro h
    cases h
    try exact bus_keeps_refl _
    try exact ⟨rfl, rfl, rfl, rfl, rfl, rfl, rfl, rfl, rfl, rfl, rfl, rfl, rfl, rfl, rfl, rfl,
      rfl, rfl, rfl⟩

theorem write_keeps (gb g : GameBoy) (a x : Nat) (h : write gb a x = some g) :
    bus_keeps gb g := by
  revert h
  unfold write
  repeat' refine ite_some_elim ?_ ?_
  all_goals
    intro h
    first
      | exact io_write_keeps gb g a x h
      | (cases h
         try exact ⟨rfl, rfl, rfl, rfl, rfl, rfl, rfl, rfl, rfl, rfl, rfl, rfl, rfl, rfl, rfl, rfl,
           rfl, rfl, rfl⟩)

theorem read_cycle_eq (gb : GameBoy) (a : Nat) :
    read_cycle gb a = (read gb a).map (fun v => (v, cycle gb)) := by
  unfold read_cycle
  cases read gb a <;> rfl

theorem write_cycle_eq (gb : GameBoy) (a x : Nat) :
    write_cycle gb a x = (write gb a x).map cycle := by
  unfold write_cycle
  cases write gb a x <;> rfl

/-- C18: `write(addr, b)`, when it returns, leaves the cycle accumulator, the
dot counter, `ly`, `end_frame`, the framebuffer and the CPU registers (A, the
flags, B..L, PC, SP, IME) as they were; `read(addr)` is a value computed from
the state, and `read_cycle` returns that value, read from the pre-tick state,
together with the state after exactly one `cycle`; `write_cycle` is the store
followed by exactly one `cycle`; and one `cycle` adds 2 to the cycle
accumulator. -/
theorem bus_does_not_tick (gb : GameBoy) (addr b : Nat) :
    (∀ g, write gb addr b = some g →
      g.cycles = gb.cycles ∧ g.dots = gb.dots ∧ g.ly = gb.ly ∧ g.end_frame = gb.end_frame ∧
      g.fbuf = gb.fbuf ∧ g.a = gb.a ∧ g.f_z = gb.f_z ∧ g.f_n = gb.f_n ∧ g.f_h = gb.f_h ∧
      g.f_c = gb.f_c ∧ g.b = gb.b ∧ g.c = gb.c ∧ g.d = gb.d ∧ g.e = gb.e ∧ g.h = gb.h ∧
      g.l = gb.l ∧ g.pc = gb.pc ∧ g.sp = gb.sp ∧ g.ime = gb.ime) ∧
    read_cycle gb addr = (read gb addr).map (fun v => (v, cycle gb)) ∧
    write_cycle gb addr b = (write gb addr b).map cycle ∧
    (cycle gb).cycles = (gb.cycles + 2) % 4294967296 :=
  ⟨fun g h => write_keeps gb g addr b h, read_cycle_eq gb addr, write_cycle_eq gb addr b,
    cycle_cycles gb⟩

/-! ### Tick counts of the control transfers -/

theorem ticked_trans (n m : Nat) (g0 g1 g2 : GameBoy) (h1 : ticked n g0 g1)
    (h2 : ticked m g1 g2) : ticked (n + m) g0 g2 := by
  obtain ⟨a1, b1, c1⟩ := h1
  obtain ⟨a2, b2, c2⟩ := h2
  refine ⟨?_, b2.trans b1, c2.trans c1⟩
  rw [a2, a1]
  omega

theorem ticked_cycle (g : GameBoy) : ticked 1 g (cycle g) :=
  ⟨cycle_cycles g, cycle_f_z g, cycle_f_c g⟩

theorem ticked_holds (n : Nat) (g g' : GameBoy) (h : ticked n g g') (cc : Cond) :
    cc.holds g' = cc.holds g := by
  obtain ⟨_, b, c⟩ := h
  cases cc <;> simp only [Cond.holds, b, c]

theorem read_cycle_some (g g' : GameBoy) (a v : Nat) (h : read_cycle g a = some (v, g')) :
    g' = cycle g := by
  rw [read_cycle_eq] at h
  cases hr : read g a with
  | none => rw [hr] at h; exact absurd h (by simp)
  | some w =>
    rw [hr] at h
    simp only [Option.map_some', Option.some.injEq, Prod.mk.injEq] at h
    exact h.2.symm

theorem read_imm_cycle_ticked (g g' : GameBoy) (v : Nat) (h : read_imm_cycle g = some (v, g')) :
    ticked 1 g g' := by
  unfold read_imm_cycle at h
  rw [read_cycle_some _ _ _ _ h]
  exact ⟨cycle_cycles _, cycle_f_z _, cycle_f_c _⟩

theorem read_imm_cycle16_ticked (g g' : GameBoy) (v : Nat)
    (h : read_imm_cycle16 g = some (v, g')) : ticked 2 g g' := by
  unfold read_imm_cycle16 at h
  cases h1 : read_imm_cycle g with
  | none => rw [h1] at h; exact absurd h (by simp)
  | some p1 =>
    obtain ⟨lo, g1⟩ := p1
    rw [h1] at h
    simp only [] at h
    cases h2 : read_imm_cycle g1 with
    | none => rw [h2] at h; exact absurd h (by simp)
    | some p2 =>
      obtain ⟨hi, g2⟩ := p2
      rw [h2] at h
      simp only [Option.some.injEq, Prod.mk.injEq] at h
      rw [← h.2]
      exact ticked_trans 1 1 _ _ _ (read_imm_cycle_ticked _ _ _ h1) (read_imm_cycle_ticked _ _ _ h2)

theorem write_cycle_ticked (g g' : GameBoy) (a x : Nat) (h : write_cycle g a x = some g') :
    ticked 1 g g' := by
  rw [write_cycle_eq] at h
  cases hw : write g a x with
  | none => rw [hw] at h; exact absurd h (by simp)
  | some w =>
    rw [hw] at h
    simp only [Option.map_some', Option.some.injEq] at h
    have k := write_keeps g w a x hw
    rw [← h]
    exact ⟨by rw [cycle_cycles, k.1], by rw [cycle_f_z, k.2.2.2.2.2.2.1],
      by rw [cycle_f_c, k.2.2.2.2.2.2.2.2.2.1]⟩

theorem push_cycle16_ticked (g g' : GameBoy) (v : Nat) (h : push_cycle16 g v = some g') :
    ticked 3 g g' := by
  unfold push_cycle16 at h
  lift_lets at h
  extract_lets g1 g2 at h
  have t2 : ticked 1 g g2 := ⟨cycle_cycles g, cycle_f_z g, cycle_f_c g⟩
  cases h1 : write_cycle g2 g2.sp ((v >>> 8) % 256) with
  | none => rw [h1] at h; exact absurd h (by simp)
  | some g3 =>
    rw [h1] at h
    simp only [] at h
    have t3 := write_cycle_ticked _ _ _ _ h1
    have t4 := write_cycle_ticked _ _ _ _ h
    have t3' : ticked 1 g2 { g3 with sp := u16 ((g3.sp : Int) - 1) } := t3
    exact ticked_trans 2 1 _ _ _ (ticked_trans 1 1 _ _ _ t2 t3') t4

theorem pop_cycle16_ticked (g g' : GameBoy) (v : Nat) (h : pop_cycle16 g = some (v, g')) :
    ticked 2 g g' := by
  unfold pop_cycle16 at h
  cases h1 : read_cycle { g with sp := (g.sp + 1) % 65536 } g.sp with
  | none => rw [h1] at h; exact absurd h (by simp)
  | some p1 =>
    obtain ⟨lo, g1⟩ := p1
    rw [h1] at h
    simp only [] at h
    cases h2 : read_cycle { g1 with sp := (g1.sp + 1) % 65536 } g1.sp with
    | none => rw [h2] at h; exact absurd h (by simp)
    | some p2 =>
      obtain ⟨hi, g2⟩ := p2
      rw [h2] at h
      simp only [Option.some.injEq, Prod.mk.injEq] at h
      rw [← h.2]
      have e1 := read_cycle_some _ _ _ _ h1
      have e2 := read_cycle_some _ _ _ _ h2
      have t1 : ticked 1 g g1 := by
        rw [e1]; exact ⟨cycle_cycles _, cycle_f_z _, cycle_f_c _⟩
      have t2 : ticked 1 g1 g2 := by
        rw [e2]; exact ⟨cycle_cycles _, cycle_f_z _, cycle_f_c _⟩
      exact ticked_trans 1 1 _ _ _ t1 t2

theorem ticked_set_pc_cycle (g : GameBoy) (v : Nat) : ticked 1 g (cycle { g with pc := v }) :=
  ⟨cycle_cycles _, cycle_f_z _, cycle_f_c _⟩

theorem jp_nn_ticked (g g' : GameBoy) (h : jp_nn g = some g') : ticked 3 g g' := by
  unfold jp_nn at h
  cases h1 : read_imm_cycle16 g with
  | none => rw [h1] at h; exact absurd h (by simp)
  | some p =>
    obtain ⟨nn, g1⟩ := p
    rw [h1] at h
    simp only [Option.some.injEq] at h
    rw [← h]
    exact ticked_trans 2 1 _ _ _ (read_imm_cycle16_ticked _ _ _ h1) (ticked_set_pc_cycle _ _)

theorem JP_CC_NN_ticked (cc : Cond) (g g' : GameBoy) (h : JP_CC_NN cc g = some g') :
    ticked (if cc.holds g then 3 else 2) g g' := by
  unfold JP_CC_NN at h
  cases h1 : read_imm_cycle16 g with
  | none => rw [h1] at h; exact absurd h (by simp)
  | some p =>
    obtain ⟨nn, g1⟩ := p
    rw [h1] at h
    simp only [] at h
    have t := read_imm_cycle16_ticked _ _ _ h1
    rw [ticked_holds _ _ _ t] at h
    cases hc : cc.holds g with
    | true =>
      rw [hc] at h
      simp only [if_true, Option.some.injEq] at h
      rw [← h]
      exact ticked_trans 2 1 _ _ _ t (ticked_set_pc_cycle _ _)
    | false =>
      rw [hc] at h
      simp only [Bool.false_eq_true, if_false, Option.some.injEq] at h
      rw [← h]
      exact t

theorem jr_e_ticked (g g' : GameBoy) (h : jr_e g = some g') : ticked 2 g g' := by
  unfold jr_e at h
  cases h1 : read_imm_cycle g with
  | none => rw [h1] at h; exact absurd h (by simp)
  | some p =>
    obtain ⟨e, g1⟩ := p
    rw [h1] at h
    simp only [Option.some.injEq] at h
    rw [← h]
    exact ticked_trans 1 1 _ _ _ (read_imm_cycle_ticked _ _ _ h1) (ticked_set_pc_cycle _ _)

theorem JR_CC_E_ticked (cc : Cond) (g g' : GameBoy) (h : JR_CC_E cc g = some g') :
    ticked (if cc.holds g then 2 else 1) g g' := by
  unfold JR_CC_E at h
  cases h1 : read_imm_cycle g with
  | none => rw [h1] at h; exact absurd h (by simp)
  | some p =>
    obtain ⟨e, g1⟩ := p
    rw [h1] at h
    simp only [] at h
    have t := read_imm_cycle_ticked _ _ _ h1
    rw [ticked_holds _ _ _ t] at h
    cases hc : cc.holds g with
    | true =>
      rw [hc] at h
      simp only [if_true, Option.some.injEq] at h
      rw [← h]
      exact ticked_trans 1 1 _ _ _ t (ticked_set_pc_cycle _ _)
    | false =>
      rw [hc] at h
      simp only [Bool.false_eq_true, if_false, Option.some.injEq] at h
      rw [← h]
      exact t

theorem push_set_pc_ticked (g g' : GameBoy) (nn : Nat)
    (h : (match push_cycle16 g g.pc with
          | none => none
          | some gb => some { gb with pc := nn }) = some g') : ticked 3 g g' := by
  cases h2 : push_cycle16 g g.pc with
  | none => rw [h2] at h; exact absurd h (by simp)
  | some g2 =>
    rw [h2] at h
    simp only [Option.some.injEq] at h
    rw [← h]
    obtain ⟨a, b, c⟩ := push_cycle16_ticked _ _ _ h2
    exact ⟨a, b, c⟩

theorem call_nn_ticked (g g' : GameBoy) (h : call_nn g = some g') : ticked 5 g g' := by
  unfold call_nn at h
  cases h1 : read_imm_cycle16 g with
  | none => rw [h1] at h; exact absurd h (by simp)
  | some p =>
    obtain ⟨nn, g1⟩ := p
    rw [h1] at h
    simp only [] at h
    exact ticked_trans 2 3 _ _ _ (read_imm_cycle16_ticked _ _ _ h1) (push_set_pc_ticked _ _ _ h)

theorem CALL_CC_NN_ticked (cc : Cond) (g g' : GameBoy) (h : CALL_CC_NN cc g = some g') :
    ticked (if cc.holds g then 5 else 2) g g' := by
  unfold CALL_CC_NN at h
  cases h1 : read_imm_cycle16 g with
  | none => rw [h1] at h; exact absurd h (by simp)
  | some p =>
    obtain ⟨nn, g1⟩ := p
    rw [h1] at h
    simp only [] at h
    have t := read_imm_cycle16_ticked _ _ _ h1
    rw [ticked_holds _ _ _ t] at h
    cases hc : cc.holds g with
    | true =>
      rw [hc] at h
      simp only [if_true] at h
      exact ticked_trans 2 3 _ _ _ t (push_set_pc_ticked _ _ _ h)
    | false =>
      rw [hc] at h
      simp only [Bool.false_eq_true, if_false, Option.some.injEq] at h
      rw [← h]
      exact t

theorem ret_ticked (g g' : GameBoy) (h : ret g = some g') : ticked 3 g g' := by
  unfold ret at h
  cases h1 : pop_cycle16 g with
  | none => rw [h1] at h; exact absurd h (by simp)
  | some p =>
    obtain ⟨v, g1⟩ := p
    rw [h1] at h
    simp only [Option.some.injEq] at h
    rw [← h]
    exact ticked_trans 2 1 _ _ _ (pop_cycle16_ticked _ _ _ h1) (ticked_set_pc_cycle _ _)

theorem reti_ticked (g g' : GameBoy) (h : reti g = some g') : ticked 3 g g' := by
  unfold reti at h
  cases h1 : pop_cycle16 g with
  | none => rw [h1] at h; exact absurd h (by simp)
  | some p =>
    obtain ⟨v, g1⟩ := p
    rw [h1] at h
    simp only [Option.some.injEq] at h
    rw [← h]
    exact ticked_trans 2 1 _ _ _ (pop_cycle16_ticked _ _ _ h1)
      ⟨cycle_cycles _, cycle_f_z _, cycle_f_c _⟩

theorem RET_CC_ticked (cc : Cond) (g g' : GameBoy) (h : RET_CC cc g = some g') :
    ticked (if cc.holds g then 4 else 1) g g' := by
  unfold RET_CC at h
  lift_lets at h
  extract_lets g0 at h
  have t : ticked 1 g g0 := ticked_cycle g
  rw [ticked_holds _ _ _ t] at h
  cases hc : cc.holds g with
  | true =>
    rw [hc] at h
    simp only [if_true] at h
    cases h1 : pop_cycle16 g0 with
    | none => rw [h1] at h; exact absurd h (by simp)
    | some p =>
      obtain ⟨v, g1⟩ := p
      rw [h1] at h
      simp only [Option.some.injEq] at h
      rw [← h]
      exact ticked_trans 1 3 _ _ _ t
        (ticked_trans 2 1 _ _ _ (pop_cycle16_ticked _ _ _ h1) (ticked_set_pc_cycle _ _))
  | false =>
    rw [hc] at h
    simp only [Bool.false_eq_true, if_false, Option.some.injEq] at h
    rw [← h]
    exact t

theorem control_exec_ticked (instr : Instr) (g g' : GameBoy) (n : Nat) (taken : Cond → Bool)
    (htk : ∀ cc, taken cc = cc.holds g) (hc : g.cycles < 4294967296)
    (ht : spec_control_ticks taken instr = some n) (he : instr.exec g = some g') :
    ∃ m, n = m + 1 ∧ ticked m g g' := by
  cases instr <;> simp only [spec_control_ticks, Option.some.injEq, reduceCtorEq, htk] at ht
  case jp_hl =>
    refine ⟨0, ht.symm, ?_⟩
    have e : g' = { g with pc := g.hl } := (Option.some.inj he).symm
    rw [e]
    exact ⟨(Nat.mod_eq_of_lt hc).symm, rfl, rfl⟩
  case jp_nn => exact ⟨3, ht.symm, jp_nn_ticked g g' he⟩
  case jr_e => exact ⟨2, ht.symm, jr_e_ticked g g' he⟩
  case call_nn => exact ⟨5, ht.symm, call_nn_ticked g g' he⟩
  case ret => exact ⟨3, ht.symm, ret_ticked g g' he⟩
  case reti => exact ⟨3, ht.symm, reti_ticked g g' he⟩
  case JP_CC_NN cc =>
    refine ⟨if cc.holds g then 3 else 2, ?_, JP_CC_NN_ticked cc g g' he⟩
    rw [← ht]; cases cc.holds g <;> rfl
  case JR_CC_E cc =>
    refine ⟨if cc.holds g then 2 else 1, ?_, JR_CC_E_ticked cc g g' he⟩
    rw [← ht]; cases cc.holds g <;> rfl
  case CALL_CC_NN cc =>
    refine ⟨if cc.holds g then 5 else 2, ?_, CALL_CC_NN_ticked cc g g' he⟩
    rw [← ht]; cases cc.holds g <;> rfl
  case RET_CC cc =>
    refine ⟨if cc.holds g then 4 else 1, ?_, RET_CC_ticked cc g g' he⟩
    rw [← ht]; cases cc.holds g <;> rfl

theorem read_set_pc (g : GameBoy) (p a : Nat) : read { g with pc := p } a = read g a := rfl

theorem run_opcode_fetch (gb : GameBoy) (opcode : Nat) (instr : Instr)
    (hint : ¬ (gb.ime = true ∧ gb.ie &&& gb.if_ ≠ 0))
    (hfetch : read gb gb.pc = some opcode)
    (hop : op_ptrs[opcode]? = some instr) :
    run_opcode gb = instr.exec (cycle { gb with pc := (gb.pc + 1) % 65536 }) := by
  unfold run_opcode
  rw [if_neg hint]
  have e : read_imm_cycle gb = some (opcode, cycle { gb with pc := (gb.pc + 1) % 65536 }) := by
    unfold read_imm_cycle
    rw [read_cycle_eq, read_set_pc, hfetch]
    rfl
  rw [e]
  simp only [hop]

/-- C17: when no interrupt is dispatched, the opcode fetched at `pc` selects a
control transfer and the step returns (no access is fatal), one `run_opcode`
adds to the cycle accumulator twice the number of ticks that the timing
conventions give for that instruction, opcode fetch included: 1 for `JP HL`,
4 for `JP nn`, 3 for `JR e`, 6 for `CALL nn`, 4 for `RET` and `RETI`, and
3/4 for `JP cc,nn`, 2/3 for `JR cc,e`, 3/6 for `CALL cc,nn`, 2/5 for
`RET cc`, not taken/taken by the flags of the state before the step (the
accumulator is a `u32`, so the sum is modulo `2^32`). -/
theorem control_transfer_ticks (gb g : GameBoy) (opcode : Nat) (instr : Instr) (n : Nat)
    (hint : ¬ (gb.ime = true ∧ gb.ie &&& gb.if_ ≠ 0))
    (hfetch : read gb gb.pc = some opcode)
    (hop : op_ptrs[opcode]? = some instr)
    (hticks : spec_control_ticks (fun cc => cc.holds gb) instr = some n)
    (hrun : run_opcode gb = some g) :
    g.cycles = (gb.cycles + 2 * n) % 4294967296 := by
  rw [run_opcode_fetch gb opcode instr hint hfetch hop] at hrun
  have t1 : ticked 1 gb (cycle { gb with pc := (gb.pc + 1) % 65536 }) :=
    ticked_set_pc_cycle gb _
  obtain ⟨m, hn, t2⟩ := control_exec_ticked instr _ g n (fun cc => cc.holds gb)
    (fun cc => (ticked_holds 1 _ _ t1 cc).symm) (by rw [cycle_cycles]; exact Nat.mod_lt _ (by decide))
    hticks hrun
  have t := ticked_trans 1 m _ _ _ t1 t2
  rw [t.1, hn, Nat.add_comm 1 m]

set_option maxRecDepth 8192 in
/-- The opcodes of the control transfers in `op_ptrs`. -/
theorem control_opcodes :
    op_ptrs[0xE9]? = some Instr.jp_hl ∧ op_ptrs[0xC3]? = some Instr.jp_nn ∧
    op_ptrs[0x18]? = some Instr.jr_e ∧ op_ptrs[0xCD]? = some Instr.call_nn ∧
    op_ptrs[0xC9]? = some Instr.ret ∧ op_ptrs[0xD9]? = some Instr.reti ∧
    op_ptrs[0xC2]? = some (Instr.JP_CC_NN Cond.nz) ∧ op_ptrs[0xCA]? = some (Instr.JP_CC_NN Cond.z) ∧
    op_ptrs[0xD2]? = some (Instr.JP_CC_NN Cond.nc) ∧ op_ptrs[0xDA]? = some (Instr.JP_CC_NN Cond.c) ∧
    op_ptrs[0x20]? = some (Instr.JR_CC_E Cond.nz) ∧ op_ptrs[0x28]? = some (Instr.JR_CC_E Cond.z) ∧
    op_ptrs[0x30]? = some (Instr.JR_CC_E Cond.nc) ∧ op_ptrs[0x38]? = some (Instr.JR_CC_E Cond.c) ∧
    op_ptrs[0xC4]? = some (Instr.CALL_CC_NN Cond.nz) ∧
    op_ptrs[0xCC]? = some (Instr.CALL_CC_NN Cond.z) ∧
    op_ptrs[0xD4]? = some (Instr.CALL_CC_NN Cond.nc) ∧
    op_ptrs[0xDC]? = some (Instr.CALL_CC_NN Cond.c) ∧
    op_ptrs[0xC0]? = some (Instr.RET_CC Cond.nz) ∧ op_ptrs[0xC8]? = some (Instr.RET_CC Cond.z) ∧
    op_ptrs[0xD0]? = some (Instr.RET_CC Cond.nc) ∧ op_ptrs[0xD8]? = some (Instr.RET_CC Cond.c) :=
  ⟨rfl, rfl, rfl, rfl, rfl, rfl, rfl, rfl, rfl, rfl, rfl, rfl, rfl, rfl, rfl, rfl, rfl, rfl,
    rfl, rfl, rfl, rfl⟩

theorem opcode_call_nz : op_ptrs[0xC4]? = some (Instr.CALL_CC_NN Cond.nz) :=
  control_opcodes.2.2.2.2.2.2.2.2.2.2.2.2.2.2.1

/-- C17 at a taken `CALL NZ,0x1234`: the step returns and has made 6 ticks. -/
theorem control_transfer_ticks_witness :
    ¬ (call_state.ime = true ∧ call_state.ie &&& call_state.if_ ≠ 0) ∧
    read call_state call_state.pc = some 0xC4 ∧
    op_ptrs[0xC4]? = some (Instr.CALL_CC_NN Cond.nz) ∧
    spec_control_ticks (fun cc => cc.holds call_state) (Instr.CALL_CC_NN Cond.nz) = some 6 ∧
    ∃ g, run_opcode call_state = some g ∧
      g.cycles = (call_state.cycles + 2 * 6) % 4294967296 := by
  have hs : (run_opcode call_state).isSome = true := by
    rw [run_opcode_fetch call_state 0xC4 _ (by decide) (by decide) opcode_call_nz]
    decide
  obtain ⟨g, hg⟩ := Option.isSome_iff_exists.1 hs
  exact ⟨by decide, by decide, opcode_call_nz, rfl, g, hg,
    control_transfer_ticks call_state g 0xC4 (Instr.CALL_CC_NN Cond.nz) 6 (by decide) (by decide)
      opcode_call_nz rfl hg⟩

/-- C18 at a store to the palette register `0xFF47` and at a store to work
RAM. -/
theorem bus_does_not_tick_witness :
    (∃ g, write s4_state 0xFF47 0xE4 = some g) ∧
    ((∀ g, write s4_state 0xFF47 0xE4 = some g →
      g.cycles = s4_state.cycles ∧ g.dots = s4_state.dots ∧ g.ly = s4_state.ly ∧
      g.end_frame = s4_state.end_frame ∧
      g.fbuf = s4_state.fbuf ∧ g.a = s4_state.a ∧ g.f_z = s4_state.f_z ∧ g.f_n = s4_state.f_n ∧
      g.f_h = s4_state.f_h ∧
      g.f_c = s4_state.f_c ∧ g.b = s4_state.b ∧ g.c = s4_state.c ∧ g.d = s4_state.d ∧
      g.e = s4_state.e ∧ g.h = s4_state.h ∧
      g.l = s4_state.l ∧ g.pc = s4_state.pc ∧ g.sp = s4_state.sp ∧ g.ime = s4_state.ime) ∧
    read_cycle s4_state 0xFF47 = (read s4_state 0xFF47).map (fun v => (v, cycle s4_state)) ∧
    write_cycle s4_state 0xFF47 0xE4 = (write s4_state 0xFF47 0xE4).map cycle ∧
    (cycle s4_state).cycles = (s4_state.cycles + 2) % 4294967296) :=
  ⟨⟨_, rfl⟩, bus_does_not_tick s4_state 0xFF47 0xE4⟩

/-! ### The frame driver -/

theorem run_frame_done (fuel : Nat) (gb : GameBoy) (h : gb.end_frame = true) :
    run_frame fuel gb = some (some { gb with end_frame := false }) := by
  cases fuel <;> simp only [run_frame, h, if_true]

theorem run_frame_zero (gb : GameBoy) (h : gb.end_frame = false) : run_frame 0 gb = none := by
  simp only [run_frame, h, Bool.false_eq_true, if_false]

theorem run_frame_exit (fuel : Nat) (gb : GameBoy) (h : gb.end_frame = false)
    (hr : run_opcode gb = none) : run_frame (fuel + 1) gb = some none := by
  simp only [run_frame, h, hr, Bool.false_eq_true, if_false]

theorem run_frame_step (fuel : Nat) (gb g : GameBoy) (h : gb.end_frame = false)
    (hr : run_opcode gb = some g) : run_frame (fuel + 1) gb = run_frame fuel g := by
  simp only [run_frame, h, hr, Bool.false_eq_true, if_false]

theorem run_frame_mono (fuel : Nat) :
    ∀ (gb : GameBoy) (r : Option GameBoy), run_frame fuel gb = some r →
      run_frame (fuel + 1) gb = some r := by
  induction fuel with
  | zero =>
    intro gb r h
    cases hef : gb.end_frame with
    | false => rw [run_frame_zero gb hef] at h; exact absurd h (by simp)
    | true => rw [run_frame_done _ gb hef] at h ⊢; exact h
  | succ k ih =>
    intro gb r h
    cases hef : gb.end_frame with
    | false =>
      cases hr : run_opcode gb with
      | none => rw [run_frame_exit _ gb hef hr] at h ⊢; exact h
      | some g =>
        rw [run_frame_step _ gb g hef hr] at h ⊢
        exact ih g r h
    | true => rw [run_frame_done _ gb hef] at h ⊢; exact h

theorem run_frame_mono_add (fuel m : Nat) (gb : GameBoy) (r : Option GameBoy)
    (h : run_frame fuel gb = some r) : run_frame (fuel + m) gb = some r := by
  induction m with
  | zero => exact h
  | succ k ih => exact run_frame_mono (fuel + k) gb r ih

theorem run_frame_unique (f1 f2 : Nat) (gb : GameBoy) (r1 r2 : Option GameBoy)
    (h1 : run_frame f1 gb = some r1) (h2 : run_frame f2 gb = some r2) : r1 = r2 := by
  have a := run_frame_mono_add f1 f2 gb r1 h1
  have b := run_frame_mono_add f2 f1 gb r2 h2
  rw [Nat.add_comm f2 f1, a] at b
  exact Option.some.inj b

/-! ### The bring-up run -/

theorem bringup_set_pc (p q n : Nat) (g : GameBoy) (h : bringup_inv p n g) :
    bringup_inv q n { g with pc := q } := by
  obtain ⟨_, hime, hrom, hen, hinv, hpos, hcyc, hif, hef⟩ := h
  exact ⟨rfl, hime, hrom, hen, hinv, hpos, hcyc, hif, hef⟩

theorem bringup_tick (p n : Nat) (g : GameBoy) (h : bringup_inv p n g) (hn : n + 1 < 16396) :
    bringup_inv p (n + 1) (cycle g) := by
  obtain ⟨hpc, hime, hrom, hen, hinv, hpos, hcyc, hif, hef⟩ := h
  obtain ⟨sd, sl, se, si⟩ := cycle_lcd_same g hen
  obtain ⟨i1, i2, i3⟩ := lcd_iterate g hinv 4
  have hfree : ∀ j : Nat, 1 ≤ j → j ≤ 4 → (lcd_pos g + j) % 70224 ≠ 65664 := by
    intro j h1 h2
    rw [hpos]
    omega
  obtain ⟨e1, e2⟩ := i3 hfree
  refine ⟨by rw [cycle_pc]; exact hpc, by rw [cycle_ime]; exact hime,
    by rw [cycle_rom_lo]; exact hrom, by rw [cycle_lcd_en]; exact hen, ?_, ?_, ?_,
    by rw [si, e2]; exact hif, by rw [se, e1]; exact hef⟩
  · unfold lcd_inv at i1 ⊢
    rw [sd, sl]
    exact i1
  · rw [hpos] at i2
    unfold lcd_pos at i2 ⊢
    rw [sd, sl, i2]
    push_cast
    omega
  · rw [cycle_cycles, hcyc]
    omega

theorem bringup_tick_hit (p : Nat) (g : GameBoy) (h : bringup_inv p 16395 g) :
    (cycle g).pc = p ∧ (cycle g).end_frame = true ∧ (cycle g).if_ = 1 ∧
    (cycle g).cycles = 32792 := by
  obtain ⟨hpc, hime, hrom, hen, hinv, hpos, hcyc, hif, hef⟩ := h
  obtain ⟨sd, sl, se, si⟩ := cycle_lcd_same g hen
  have hfree : ∀ j : Nat, 1 ≤ j → j ≤ 3 → (lcd_pos g + j) % 70224 ≠ 65664 := by
    intro j h1 h2
    rw [hpos]
    omega
  have hhit : (lcd_pos g + (3 + 1 : Nat)) % 70224 = 65664 := by
    rw [hpos]
    decide
  obtain ⟨a, b⟩ := lcd_iterate_hit g hinv 3 hfree hhit
  refine ⟨by rw [cycle_pc]; exact hpc, se.trans a, ?_, ?_⟩
  · rw [si]
    refine b.trans ?_
    rw [hif]
    rfl
  · rw [cycle_cycles, hcyc]

theorem bringup_read (p n : Nat) (g : GameBoy) (h : bringup_inv p n g) (a : Nat)
    (ha : a < 0x4000) : read g a = some (bringup_rom a) := by
  obtain ⟨_, _, hrom, _⟩ := h
  have hb : ¬ (a / 0x4000 % 2 = 1) := by omega
  rw [read_rom g a (by omega), if_neg hb, hrom, Nat.mod_eq_of_lt ha]

theorem bringup_fetch_eq (p n : Nat) (g : GameBoy) (h : bringup_inv p n g) (hp : p + 1 < 0x4000) :
    read_imm_cycle g = some (bringup_rom p, cycle { g with pc := p + 1 }) := by
  have hpc : g.pc = p := h.1
  unfold read_imm_cycle
  rw [read_cycle_eq, read_set_pc, hpc, bringup_read p n g h p (by omega),
    Nat.mod_eq_of_lt (show p + 1 < 65536 by omega)]
  rfl

theorem bringup_run_opcode (p n : Nat) (g : GameBoy) (instr : Instr) (h : bringup_inv p n g)
    (hp : p + 1 < 0x4000) (hop : op_ptrs[bringup_rom p]? = some instr) :
    run_opcode g = instr.exec (cycle { g with pc := p + 1 }) := by
  have hpc : g.pc = p := h.1
  have hime : g.ime = false := h.2.1
  have hint : ¬ (g.ime = true ∧ g.ie &&& g.if_ ≠ 0) := by
    rw [hime]
    exact fun k => absurd k.1 (by decide)
  have hf : read g g.pc = some (bringup_rom p) := by
    rw [hpc]; exact bringup_read p n g h p (by omega)
  rw [run_opcode_fetch g _ instr hint hf hop, hpc,
    Nat.mod_eq_of_lt (show p + 1 < 65536 by omega)]

set_option maxRecDepth 8192 in
theorem opcode_nop : op_ptrs[0x00]? = some Instr.nop := rfl

theorem bringup_nop (n : Nat) (g : GameBoy) (h : bringup_inv 0x100 n g) :
    run_opcode g = some (cycle { g with pc := 0x101 }) :=
  bringup_run_opcode 0x100 n g Instr.nop h (by decide) opcode_nop

theorem bringup_jp (n : Nat) (g : GameBoy) (h : bringup_inv 0x101 n g) (hn : n + 4 < 16396) :
    ∃ g', run_opcode g = some g' ∧ bringup_inv 0x100 (n + 4) g' := by
  have e0 := bringup_run_opcode 0x101 n g Instr.jp_nn h (by decide) control_opcodes.2.1
  obtain ⟨g1, hg1⟩ : ∃ g1, g1 = cycle { g with pc := 0x101 + 1 } := ⟨_, rfl⟩
  have i1 : bringup_inv 0x102 (n + 1) g1 := by
    rw [hg1]; exact bringup_tick _ _ _ (bringup_set_pc _ _ _ _ h) (by omega)
  rw [← hg1] at e0
  have f1 := bringup_fetch_eq 0x102 (n + 1) g1 i1 (by decide)
  obtain ⟨g2, hg2⟩ : ∃ g2, g2 = cycle { g1 with pc := 0x102 + 1 } := ⟨_, rfl⟩
  have i2 : bringup_inv 0x103 (n + 1 + 1) g2 := by
    rw [hg2]; exact bringup_tick _ _ _ (bringup_set_pc _ _ _ _ i1) (by omega)
  rw [← hg2] at f1
  have f2 := bringup_fetch_eq 0x103 (n + 1 + 1) g2 i2 (by decide)
  obtain ⟨g3, hg3⟩ : ∃ g3, g3 = cycle { g2 with pc := 0x103 + 1 } := ⟨_, rfl⟩
  have i3 : bringup_inv 0x104 (n + 1 + 1 + 1) g3 := by
    rw [hg3]; exact bringup_tick _ _ _ (bringup_set_pc _ _ _ _ i2) (by omega)
  rw [← hg3] at f2
  have e1 : jp_nn g1 = some (cycle { g3 with pc := 0x100 }) := by
    unfold jp_nn read_imm_cycle16
    rw [f1]
    simp only []
    rw [f2]
    rfl
  refine ⟨_, e0.trans e1, ?_⟩
  exact bringup_tick _ _ _ (bringup_set_pc _ 0x100 _ _ i3) (by omega)

theorem bringup_loop (n : Nat) (g : GameBoy) (h : bringup_inv 0x100 n g) (hn : n + 5 < 16396) :
    ∃ g', bringup_inv 0x100 (n + 5) g' ∧
      ∀ fuel, run_frame (fuel + 2) g = run_frame fuel g' := by
  have e1 := bringup_nop n g h
  have i1 : bringup_inv 0x101 (n + 1) (cycle { g with pc := 0x101 }) :=
    bringup_tick _ _ _ (bringup_set_pc _ _ _ _ h) (by omega)
  obtain ⟨g', e2, i2⟩ := bringup_jp (n + 1) _ i1 (by omega)
  refine ⟨g', i2, fun fuel => ?_⟩
  rw [run_frame_step (fuel + 1) g _ h.2.2.2.2.2.2.2.2 e1,
    run_frame_step fuel _ g' i1.2.2.2.2.2.2.2.2 e2]

theorem bringup_iterate (gb0 : GameBoy) (h0 : bringup_inv 0x100 0 gb0) (k : Nat)
    (hk : 5 * k < 16396) :
    ∃ g, bringup_inv 0x100 (5 * k) g ∧
      ∀ fuel, run_frame (fuel + 2 * k) gb0 = run_frame fuel g := by
  induction k with
  | zero => exact ⟨gb0, h0, fun _ => rfl⟩
  | succ j ih =>
    obtain ⟨g, i, e⟩ := ih (by omega)
    obtain ⟨g', i', e'⟩ := bringup_loop (5 * j) g i (by omega)
    refine ⟨g', i', fun fuel => ?_⟩
    rw [show fuel + 2 * (j + 1) = (fuel + 2) + 2 * j by omega, e (fuel + 2), e' fuel]

theorem make_gb_bringup :
    ∃ gb0, make_gb bringup_rom 0x8000 = some (some gb0) ∧ bringup_inv 0x100 0 gb0 := by
  refine ⟨_, rfl, rfl, rfl, rfl, rfl, ?_, rfl, rfl, rfl, rfl⟩
  exact ⟨by decide, by decide, by decide⟩

theorem bringup_inv_fbuf (p n : Nat) (g : GameBoy) (pixels : Nat → Nat)
    (h : bringup_inv p n g) : bringup_inv p n (set_fbuf g pixels) := h

theorem bringup_run_fbuf (gb0 : GameBoy) (h : make_gb bringup_rom 0x8000 = some (some gb0))
    (pixels : Nat → Nat) :
    run_frame 6558 (set_fbuf gb0 pixels) = none ∧
    ∃ g, run_frame 6559 (set_fbuf gb0 pixels) = some (some g) ∧ g.pc = 0x0101 ∧ g.if_ = 1 ∧
      g.end_frame = false ∧ g.cycles = 32792 := by
  obtain ⟨gb1, h1, h0⟩ := make_gb_bringup
  rw [h] at h1
  have hgb : gb0 = gb1 := Option.some.inj (Option.some.inj h1)
  rw [← hgb] at h0
  obtain ⟨g, i, e⟩ := bringup_iterate (set_fbuf gb0 pixels) (bringup_inv_fbuf _ _ _ pixels h0)
    3279 (by decide)
  have e1 := bringup_nop _ g i
  obtain ⟨a, b, c, d⟩ := bringup_tick_hit 0x101 _ (bringup_set_pc _ 0x101 _ _ i)
  obtain ⟨gF, hgF⟩ : ∃ gF, gF = cycle { g with pc := 0x101 } := ⟨_, rfl⟩
  rw [← hgF] at e1 a b c d
  constructor
  · exact (e 0).trans (run_frame_zero g i.2.2.2.2.2.2.2.2)
  · refine ⟨{ gF with end_frame := false }, ?_, a, c, rfl, d⟩
    exact (e 1).trans ((run_frame_step 0 g gF i.2.2.2.2.2.2.2.2 e1).trans (run_frame_done 0 gF b))

/-- C12 (amended): for the 0x8000-byte image that is zero except `0x00, 0xC3,
0x00, 0x01` at `0x0100..0x0103` (`NOP; JP 0x0100`), `make_gb` yields a
machine, and once the caller has installed its frame buffer (`set_fbuf`,
whatever the pixel block holds) the first `run_frame` on it terminates: the
loop is still running after 6558 instructions and returns after the 6559th,
with `pc = 0x0101` (the `NOP` at `0x0100` has just run), `if_ = 0x01` (the
vblank bit, and no other, set), `end_frame` cleared and `2 * 16396` on the
cycle accumulator. -/
theorem bringup_frame :
    ∃ gb0, make_gb bringup_rom 0x8000 = some (some gb0) ∧
      ∀ pixels : Nat → Nat,
        run_frame 6558 (set_fbuf gb0 pixels) = none ∧
        ∃ g, run_frame 6559 (set_fbuf gb0 pixels) = some (some g) ∧
          g.pc = 0x0101 ∧ g.if_ = 0x01 ∧ g.if_ &&& 1 = 1 ∧ g.end_frame = false ∧
          g.cycles = 2 * 16396 := by
  obtain ⟨gb0, h, _⟩ := make_gb_bringup
  refine ⟨gb0, h, fun pixels => ?_⟩
  obtain ⟨hn, g, hr, a, b, c, d⟩ := bringup_run_fbuf gb0 h pixels
  exact ⟨hn, g, hr, a, b, by rw [b]; rfl, c, d⟩

/-- C12 (counterexample): on the machine that `make_gb` builds for the
bring-up image, with the caller's frame buffer installed, no run of
`run_frame`, whatever the fuel and the pixel block, returns with
`pc = 0x0100`: the frame ends during the `NOP`, and `run_frame` returns with
`pc = 0x0101`. -/
theorem bringup_pc_counterexample :
    ¬ ∃ gb0 pixels fuel g, make_gb bringup_rom 0x8000 = some (some gb0) ∧
      run_frame fuel (set_fbuf gb0 pixels) = some (some g) ∧ g.pc = 0x0100 := by
  rintro ⟨gb0, pixels, fuel, g, h, hr, hpc⟩
  obtain ⟨_, g', hr', a, _⟩ := bringup_run_fbuf gb0 h pixels
  have e := run_frame_unique _ _ _ _ _ hr hr'
  have e' : g = g' := Option.some.inj e
  rw [e', a] at hpc
  exact absurd hpc (by decide)

/-! ### `INC` and `DEC` -/

theorem cycle_hl (g : GameBoy) : (cycle g).hl = g.hl := by
  unfold GameBoy.hl
  rw [cycle_h, cycle_l]

theorem read_is_ram (g : GameBoy) (a : Nat) (h : is_ram a) : ∃ v, read g a = some v := by
  rcases h with ⟨l, u⟩ | ⟨l, u⟩ | ⟨l, u⟩ | ⟨l, u⟩
  · exact ⟨_, read_vram g a l u⟩
  · exact ⟨_, read_wram g a l u⟩
  · exact ⟨_, read_oam g a l u⟩
  · exact ⟨_, read_hram g a l u⟩

/-- A store through `write_cycle`, when it returns, keeps the flags, and at a
RAM address the byte is read back. -/
theorem write_cycle_flags (g g' : GameBoy) (a x : Nat) (h : write_cycle g a x = some g') :
    g'.f_z = g.f_z ∧ g'.f_n = g.f_n ∧ g'.f_h = g.f_h ∧ g'.f_c = g.f_c := by
  rw [write_cycle_eq] at h
  cases hw : write g a x with
  | none => rw [hw] at h; exact absurd h (by simp)
  | some w =>
    rw [hw] at h
    simp only [Option.map_some', Option.some.injEq] at h
    have k := write_keeps g w a x hw
    rw [← h]
    exact ⟨by rw [cycle_f_z, k.2.2.2.2.2.2.1], by rw [cycle_f_n, k.2.2.2.2.2.2.2.1],
      by rw [cycle_f_h, k.2.2.2.2.2.2.2.2.1], by rw [cycle_f_c, k.2.2.2.2.2.2.2.2.2.1]⟩

theorem write_cycle_ram_read (g : GameBoy) (a x : Nat) (h : is_ram a) :
    ∃ g', write_cycle g a x = some g' ∧ read g' a = some x := by
  refine ⟨_, write_cycle_non_io g a x (is_ram_non_io a h), ?_⟩
  rw [read_cycle_mem _ a (Or.inl h)]
  exact read_ram_store_same g a x h

theorem inc_ahl_eq (gb : GameBoy) (v : Nat) (hv : read gb gb.hl = some v) :
    inc_ahl gb =
      write_cycle { cycle gb with
          f_z := decide ((v + 1) % 256 = 0), f_n := false,
          f_h := decide ((v + 1) % 256 &&& 0xF = 0) }
        gb.hl ((v + 1) % 256) := by
  unfold inc_ahl
  rw [read_cycle_eq, hv]
  show write_cycle _ (cycle gb).hl _ = _
  rw [cycle_hl]

theorem dec_ahl_eq (gb : GameBoy) (v : Nat) (hv : read gb gb.hl = some v) :
    dec_ahl gb =
      write_cycle { cycle gb with
          f_z := decide (u8 ((v : Int) - 1) = 0), f_n := true,
          f_h := decide (u8 ((v : Int) - 1) &&& 0xF = 0xF) }
        gb.hl (u8 ((v : Int) - 1)) := by
  unfold dec_ahl
  rw [read_cycle_eq, hv]
  show write_cycle _ (cycle gb).hl _ = _
  rw [cycle_hl]

theorem write_cycle_rom_read (g : GameBoy) (a x : Nat) (h : a < 0x8000) :
    ∃ g', write_cycle g a x = some g' ∧ read g' a = read g a := by
  refine ⟨cycle g, ?_, read_cycle_mem g a (Or.inr h)⟩
  rw [write_cycle_eq, write_rom g a x h]
  rfl

theorem read_set_flags (g : GameBoy) (z n h : Bool) (a : Nat) :
    read { g with f_z := z, f_n := n, f_h := h } a = read g a := rfl

/-- C21 (amended): for every register `r`, `INC r` leaves `(r + 1) mod 256` in
it with `Z = (result = 0)`, `N = 0`, `H = (result AND 0xF = 0)`, and `DEC r`
leaves `(r - 1) mod 256` with `Z = (result = 0)`, `N = 1`, `H = (result AND
0xF = 0xF)`; both keep `C`.  For the byte `v` read at `[HL]`, `INC [HL]` and
`DEC [HL]` are the tick of the read followed by `write_cycle` of the same
result at `HL`, and when they return the flags are the same functions of the
result and `C` is kept; at an `HL` in VRAM, work or echo RAM, OAM or HRAM they
return and the byte read back at `HL` is the result, and at an `HL` in ROM
they return and the byte read back is still `v`.  `B=0x0F` increments to
`0x10` with `Z=0, N=0, H=1`; `H=0x00` decrements to `0xFF` with `Z=0, N=1,
H=1`. -/
theorem inc_dec_spec (gb : GameBoy) (r : Reg8) :
    (∃ g, INC_R r gb = some g ∧ g.get8 r = (gb.get8 r + 1) % 256 ∧
      g.f_z = decide ((gb.get8 r + 1) % 256 = 0) ∧ g.f_n = false ∧
      g.f_h = decide ((gb.get8 r + 1) % 256 &&& 0xF = 0) ∧ g.f_c = gb.f_c) ∧
    (∃ g, DEC_R r gb = some g ∧ g.get8 r = u8 ((gb.get8 r : Int) - 1) ∧
      g.f_z = decide (u8 ((gb.get8 r : Int) - 1) = 0) ∧ g.f_n = true ∧
      g.f_h = decide (u8 ((gb.get8 r : Int) - 1) &&& 0xF = 0xF) ∧ g.f_c = gb.f_c) ∧
    (∀ v, read gb gb.hl = some v →
      inc_ahl gb =
        write_cycle { cycle gb with
            f_z := decide ((v + 1) % 256 = 0), f_n := false,
            f_h := decide ((v + 1) % 256 &&& 0xF = 0) }
          gb.hl ((v + 1) % 256) ∧
      (∀ g, inc_ahl gb = some g →
        g.f_z = decide ((v + 1) % 256 = 0) ∧ g.f_n = false ∧
        g.f_h = decide ((v + 1) % 256 &&& 0xF = 0) ∧ g.f_c = gb.f_c) ∧
      (is_ram gb.hl → ∃ g, inc_ahl gb = some g ∧ read g gb.hl = some ((v + 1) % 256)) ∧
      (gb.hl < 0x8000 → ∃ g, inc_ahl gb = some g ∧ read g gb.hl = some v)) ∧
    (∀ v, read gb gb.hl = some v →
      dec_ahl gb =
        write_cycle { cycle gb with
            f_z := decide (u8 ((v : Int) - 1) = 0), f_n := true,
            f_h := decide (u8 ((v : Int) - 1) &&& 0xF = 0xF) }
          gb.hl (u8 ((v : Int) - 1)) ∧
      (∀ g, dec_ahl gb = some g →
        g.f_z = decide (u8 ((v : Int) - 1) = 0) ∧ g.f_n = true ∧
        g.f_h = decide (u8 ((v : Int) - 1) &&& 0xF = 0xF) ∧ g.f_c = gb.f_c) ∧
      (is_ram gb.hl → ∃ g, dec_ahl gb = some g ∧ read g gb.hl = some (u8 ((v : Int) - 1))) ∧
      (gb.hl < 0x8000 → ∃ g, dec_ahl gb = some g ∧ read g gb.hl = some v)) ∧
    (INC_R Reg8.b { zeroed with b := 0x0F }).map (fun g => (g.b, g.f_z, g.f_n, g.f_h)) =
      some (0x10, false, false, true) ∧
    (DEC_R Reg8.h { zeroed with h := 0x00 }).map (fun g => (g.h, g.f_z, g.f_n, g.f_h)) =
      some (0xFF, false, true, true) := by
  refine ⟨?_, ?_, ?_, ?_, by decide, by decide⟩
  · cases r <;> exact ⟨_, rfl, rfl, rfl, rfl, rfl, rfl⟩
  · cases r <;> exact ⟨_, rfl, rfl, rfl, rfl, rfl, rfl⟩
  · intro v hv
    have e := inc_ahl_eq gb v hv
    refine ⟨e, ?_, ?_, ?_⟩
    · intro g hg
      rw [e] at hg
      obtain ⟨a, b, c, d⟩ := write_cycle_flags _ _ _ _ hg
      exact ⟨a, b, c, d.trans (cycle_f_c gb)⟩
    · intro hr
      rw [e]
      exact write_cycle_ram_read _ _ _ hr
    · intro hr
      rw [e]
      obtain ⟨g, w1, w2⟩ := write_cycle_rom_read { cycle gb with
          f_z := decide ((v + 1) % 256 = 0), f_n := false,
          f_h := decide ((v + 1) % 256 &&& 0xF = 0) } gb.hl ((v + 1) % 256) hr
      refine ⟨g, w1, ?_⟩
      rw [w2, read_set_flags, read_cycle_mem gb gb.hl (Or.inr hr)]
      exact hv
  · intro v hv
    have e := dec_ahl_eq gb v hv
    refine ⟨e, ?_, ?_, ?_⟩
    · intro g hg
      rw [e] at hg
      obtain ⟨a, b, c, d⟩ := write_cycle_flags _ _ _ _ hg
      exact ⟨a, b, c, d.trans (cycle_f_c gb)⟩
    · intro hr
      rw [e]
      exact write_cycle_ram_read _ _ _ hr
    · intro hr
      rw [e]
      obtain ⟨g, w1, w2⟩ := write_cycle_rom_read { cycle gb with
          f_z := decide (u8 ((v : Int) - 1) = 0), f_n := true,
          f_h := decide (u8 ((v : Int) - 1) &&& 0xF = 0xF) } gb.hl (u8 ((v : Int) - 1)) hr
      refine ⟨g, w1, ?_⟩
      rw [w2, read_set_flags, read_cycle_mem gb gb.hl (Or.inr hr)]
      exact hv

/-- C21 at `INC [HL]` on the work-RAM byte `0xC000`, which holds `0x0F`. -/
theorem inc_dec_spec_witness :
    read { zeroed with h := 0xC0, l := 0x00, wram_lo := store (fun _ => 0) 0 0x0F }
        ({ zeroed with h := 0xC0, l := 0x00,
                       wram_lo := store (fun _ => 0) 0 0x0F } : GameBoy).hl = some 0x0F ∧
    is_ram ({ zeroed with h := 0xC0, l := 0x00,
                          wram_lo := store (fun _ => 0) 0 0x0F } : GameBoy).hl ∧
    ∃ g, inc_ahl { zeroed with h := 0xC0, l := 0x00, wram_lo := store (fun _ => 0) 0 0x0F }
          = some g ∧
      read g ({ zeroed with h := 0xC0, l := 0x00,
                            wram_lo := store (fun _ => 0) 0 0x0F } : GameBoy).hl
        = some ((0x0F + 1) % 256) :=
  ⟨by decide, by decide,
    ((inc_dec_spec { zeroed with h := 0xC0, l := 0x00, wram_lo := store (fun _ => 0) 0 0x0F }
      Reg8.b).2.2.1 0x0F (by decide)).2.2.1 (by decide)⟩

/-- C21 (counterexample): with `HL = 0x0100`, a ROM byte that is `0x00`,
`INC [HL]` computes `0x01` (`Z = 0`, `H = 0`) and `DEC [HL]` computes `0xFF`
(`Z = 0`, `H = 1`), but the bus discards both stores and the byte at `[HL]`
still reads `0x00`; with `HL = 0x0101`, a ROM byte that is `0xC3`, the byte
still reads `0xC3` after `INC [HL]`. -/
theorem inc_hl_rom_counterexample :
    read rom_hl_state rom_hl_state.hl = some 0x00 ∧
    (inc_ahl rom_hl_state).bind (fun g => read g g.hl) = some 0x00 ∧
    (inc_ahl rom_hl_state).map (fun g => (g.f_z, g.f_n, g.f_h)) = some (false, false, false) ∧
    (dec_ahl rom_hl_state).bind (fun g => read g g.hl) = some 0x00 ∧
    (dec_ahl rom_hl_state).map (fun g => (g.f_z, g.f_n, g.f_h)) = some (false, true, true) ∧
    read { rom_hl_state with l := 0x01 } ({ rom_hl_state with l := 0x01 } : GameBoy).hl =
      some 0xC3 ∧
    (inc_ahl { rom_hl_state with l := 0x01 }).bind (fun g => read g g.hl) = some 0xC3 := by
  decide

/-! ### `ADD SP,e` -/

theorem read_imm_cycle_eq (gb : GameBoy) (e : Nat) (h : read gb gb.pc = some e) :
    read_imm_cycle gb = some (e, cycle { gb with pc := (gb.pc + 1) % 65536 }) := by
  unfold read_imm_cycle
  rw [read_cycle_eq, read_set_pc, h]
  rfl

/-- C22: when the operand byte `e` is read at `pc`, `ADD SP,e` returns with
`SP = (SP + sign_extend(e)) mod 2^16`, `Z = N = 0`,
`H = ((SP AND 0xF) + (e AND 0xF) > 0xF)` and `C = ((SP AND 0xFF) + e > 0xFF)`,
`e` unsigned in the two carries, and the state returned is two `cycle()`s
after a state `x` that has the cycle count of the operand read: two ticks
after the read, three in all. -/
theorem add_sp_e_spec (gb : GameBoy) (e : Nat) (he : read gb gb.pc = some e) :
    ∃ g1 x g, read_imm_cycle gb = some (e, g1) ∧ x.cycles = g1.cycles ∧
      g = cycle (cycle x) ∧ add_sp_e gb = some g ∧
      g.sp = u16 ((gb.sp : Int) + (if e < 128 then (e : Int) else (e : Int) - 256)) ∧
      g.f_z = false ∧ g.f_n = false ∧
      g.f_h = decide ((gb.sp &&& 0xF) + (e &&& 0xF) > 0xF) ∧
      g.f_c = decide ((gb.sp &&& 0xFF) + e > 0xFF) ∧
      g.cycles = (g1.cycles + 2 * 2) % 4294967296 ∧
      g.cycles = (gb.cycles + 2 * 3) % 4294967296 := by
  have e1 := read_imm_cycle_eq gb e he
  obtain ⟨g1, hg1⟩ : ∃ g1, g1 = cycle { gb with pc := (gb.pc + 1) % 65536 } := ⟨_, rfl⟩
  rw [← hg1] at e1
  have hsp : g1.sp = gb.sp := by rw [hg1, cycle_sp]
  have hcy : g1.cycles = (gb.cycles + 2) % 4294967296 := by rw [hg1, cycle_cycles]
  obtain ⟨x, hx⟩ : ∃ x : GameBoy, x =
      { g1 with
        f_h := decide ((g1.sp &&& 0xF) + (e &&& 0xF) > 0xF),
        f_c := decide ((g1.sp &&& 0xFF) + e > 0xFF),
        sp := u16 ((g1.sp : Int) + s8 e), f_z := false, f_n := false } := ⟨_, rfl⟩
  have ha : add_sp_e gb = some (cycle (cycle x)) := by
    unfold add_sp_e
    rw [e1, hx]
  have hxc : x.cycles = g1.cycles := by rw [hx]
  refine ⟨g1, x, cycle (cycle x), e1, hxc, rfl, ha, ?_, ?_, ?_, ?_, ?_, ?_, ?_⟩
  · rw [cycle_sp, cycle_sp, hx, ← hsp]; rfl
  · rw [cycle_f_z, cycle_f_z, hx]
  · rw [cycle_f_n, cycle_f_n, hx]
  · rw [cycle_f_h, cycle_f_h, hx, ← hsp]
  · rw [cycle_f_c, cycle_f_c, hx, ← hsp]
  · rw [cycle_cycles, cycle_cycles, hxc]; omega
  · rw [cycle_cycles, cycle_cycles, hxc, hcy]; omega

/-- C22 at `SP=0xFFF8`, `e=0xF8` (`-8`), the operand fetched from work RAM. -/
theorem add_sp_e_spec_witness :
    read { zeroed with sp := 0xFFF8, pc := 0xC000, wram_lo := store (fun _ => 0) 0 0xF8 } 0xC000 =
      some 0xF8 ∧
    (add_sp_e { zeroed with sp := 0xFFF8, pc := 0xC000,
                            wram_lo := store (fun _ => 0) 0 0xF8 }).map
        (fun g => (g.sp, g.f_z, g.f_n, g.f_h, g.f_c, g.cycles)) =
      some (0xFFF0, false, false, true, true, 6) := by
  obtain ⟨g1, x, g, _, _, _, ha, h1, h2, h3, h4, h5, _, h7⟩ :=
    add_sp_e_spec { zeroed with sp := 0xFFF8, pc := 0xC000,
                                wram_lo := store (fun _ => 0) 0 0xF8 } 0xF8 (by decide)
  refine ⟨by decide, ?_⟩
  rw [ha, Option.map_some', h1, h2, h3, h4, h5, h7]
  decide

/-! ### Rotates of the accumulator -/

set_option maxRecDepth 100000 in
theorem rot_left_byte : ∀ a, a < 256 →
    (((a <<< 1) + (a >>> 7)) % 256 = ((a <<< 1) ||| (a >>> 7)) % 256 ∧
     decide ((((a <<< 1) + (a >>> 7)) % 256) &&& 0x01 ≠ 0) = a.testBit 7 ∧
     (∀ i, i < 8 → (((a <<< 1) + (a >>> 7)) % 256).testBit i = a.testBit ((i + 7) % 8))) := by
  decide

set_option maxRecDepth 100000 in
theorem rot_right_byte : ∀ a, a < 256 →
    (((a >>> 1) + (a <<< 7)) % 256 = ((a >>> 1) ||| (a <<< 7)) % 256 ∧
     decide ((((a >>> 1) + (a <<< 7)) % 256) &&& 0x80 ≠ 0) = a.testBit 0 ∧
     (∀ i, i < 8 → (((a >>> 1) + (a <<< 7)) % 256).testBit i = a.testBit ((i + 1) % 8))) := by
  decide

set_option maxRecDepth 100000 in
theorem rot_carry_byte : ∀ a, a < 256 → ∀ c : Bool,
    (((a <<< 1) + c.toNat) % 256 = ((a <<< 1) ||| c.toNat) % 256 ∧
     decide (a &&& 0x80 ≠ 0) = a.testBit 7 ∧
     ((a >>> 1) + (c.toNat <<< 7)) % 256 = (a >>> 1) ||| (c.toNat <<< 7) ∧
     decide (a &&& 0x01 ≠ 0) = a.testBit 0) := by
  decide

theorem rotate_a (gb : GameBoy) (ha : gb.a < 256) :
    (∃ g, rlca gb = some g ∧ g.a = ((gb.a <<< 1) ||| (gb.a >>> 7)) % 256 ∧
      (∀ i, i < 8 → g.a.testBit i = gb.a.testBit ((i + 7) % 8)) ∧
      g.f_c = gb.a.testBit 7 ∧ g.f_z = false ∧ g.f_n = false ∧ g.f_h = false) ∧
    (∃ g, rrca gb = some g ∧ g.a = ((gb.a >>> 1) ||| (gb.a <<< 7)) % 256 ∧
      (∀ i, i < 8 → g.a.testBit i = gb.a.testBit ((i + 1) % 8)) ∧
      g.f_c = gb.a.testBit 0 ∧ g.f_z = false ∧ g.f_n = false ∧ g.f_h = false) ∧
    (∃ g, rla gb = some g ∧ g.a = ((gb.a <<< 1) ||| gb.f_c.toNat) % 256 ∧
      g.f_c = gb.a.testBit 7 ∧ g.f_z = false ∧ g.f_n = false ∧ g.f_h = false) ∧
    (∃ g, rra gb = some g ∧ g.a = (gb.a >>> 1) ||| (gb.f_c.toNat <<< 7) ∧
      g.f_c = gb.a.testBit 0 ∧ g.f_z = false ∧ g.f_n = false ∧ g.f_h = false) := by
  obtain ⟨l1, l2, l3⟩ := rot_left_byte gb.a ha
  obtain ⟨r1, r2, r3⟩ := rot_right_byte gb.a ha
  obtain ⟨c1, c2, c3, c4⟩ := rot_carry_byte gb.a ha gb.f_c
  exact ⟨⟨_, rfl, l1, l3, l2, rfl, rfl, rfl⟩, ⟨_, rfl, r1, r3, r2, rfl, rfl, rfl⟩,
    ⟨_, rfl, c1, c2, rfl, rfl, rfl⟩, ⟨_, rfl, c3, c4, rfl, rfl, rfl⟩⟩

/-- C23: for every accumulator byte `A` and carry `c`, `RLCA` rotates `A` left
by one (bit `i` of the result is bit `i-1 mod 8` of `A`) with `C` = old bit 7;
`RRCA` rotates `A` right by one with `C` = old bit 0; `RLA` leaves
`((A << 1) OR c) mod 256` with `C` = old bit 7; `RRA` leaves
`(A >> 1) OR (c << 7)` with `C` = old bit 0; all four leave `Z = N = H = 0`.
`RLCA` on `A=0x85` gives `A=0x0B`, `C=1`, `Z=0`. -/
theorem rotate_a_spec (gb : GameBoy) (ha : gb.a < 256) :
    ((∃ g, rlca gb = some g ∧ g.a = ((gb.a <<< 1) ||| (gb.a >>> 7)) % 256 ∧
        (∀ i, i < 8 → g.a.testBit i = gb.a.testBit ((i + 7) % 8)) ∧
        g.f_c = gb.a.testBit 7 ∧ g.f_z = false ∧ g.f_n = false ∧ g.f_h = false) ∧
      (∃ g, rrca gb = some g ∧ g.a = ((gb.a >>> 1) ||| (gb.a <<< 7)) % 256 ∧
        (∀ i, i < 8 → g.a.testBit i = gb.a.testBit ((i + 1) % 8)) ∧
        g.f_c = gb.a.testBit 0 ∧ g.f_z = false ∧ g.f_n = false ∧ g.f_h = false) ∧
      (∃ g, rla gb = some g ∧ g.a = ((gb.a <<< 1) ||| gb.f_c.toNat) % 256 ∧
        g.f_c = gb.a.testBit 7 ∧ g.f_z = false ∧ g.f_n = false ∧ g.f_h = false) ∧
      (∃ g, rra gb = some g ∧ g.a = (gb.a >>> 1) ||| (gb.f_c.toNat <<< 7) ∧
        g.f_c = gb.a.testBit 0 ∧ g.f_z = false ∧ g.f_n = false ∧ g.f_h = false)) ∧
    (rlca { zeroed with a := 0x85 }).map (fun g => (g.a, g.f_c, g.f_z)) =
      some (0x0B, true, false) :=
  ⟨rotate_a gb ha, by decide⟩

/-- C23 at `A=0x85` with the carry set. -/
theorem rotate_a_spec_witness :
    (rla { zeroed with a := 0x85, f_c := true }).map (fun g => (g.a, g.f_c)) =
      some (0x0B, true) ∧
    (rra { zeroed with a := 0x85, f_c := true }).map (fun g => (g.a, g.f_c)) =
      some (0xC2, true) := by
  obtain ⟨⟨_, _, ⟨g, h1, h2, h3, _⟩, ⟨g', k1, k2, k3, _⟩⟩, _⟩ :=
    rotate_a_spec { zeroed with a := 0x85, f_c := true } (by decide)
  rw [h1, k1, Option.map_some', Option.map_some', h2, h3, k2, k3]
  decide

/-! ### CB `SWAP` -/

set_option maxRecDepth 100000 in
theorem swap_byte : ∀ r, r < 256 →
    (((r <<< 4) + (r >>> 4)) % 256 = ((r &&& 0xF) <<< 4) ||| (r >>> 4) ∧
     ((r <<< 4) + (r >>> 4)) % 256 < 256 ∧
     (((((r <<< 4) + (r >>> 4)) % 256) <<< 4) + ((((r <<< 4) + (r >>> 4)) % 256) >>> 4)) % 256
       = r) := by
  decide

/-- C24: for every byte `r`, CB `SWAP` returns the byte with its two nibbles
exchanged, sets `Z = (result = 0)` and clears `N`, `H` and `C`, in every
state; `SWAP` of the result returns `r`; and `SWAP r` on a register is this
operation on the register's value.  `r=0xF0` gives `0x0F` with `Z=0`, `C=0`. -/
theorem cb_swap_spec (gb gb2 : GameBoy) (r : Nat) (hr : r < 256) :
    (cb_swap gb r).1 = ((r &&& 0xF) <<< 4) ||| (r >>> 4) ∧
    (cb_swap gb r).2.f_z = decide ((cb_swap gb r).1 = 0) ∧
    (cb_swap gb r).2.f_n = false ∧ (cb_swap gb r).2.f_h = false ∧
    (cb_swap gb r).2.f_c = false ∧
    (cb_swap gb2 (cb_swap gb r).1).1 = r ∧
    (∀ reg, CB_REG_OP CbOp.swap reg gb =
      some ((cb_swap gb (gb.get8 reg)).2.set8 reg (cb_swap gb (gb.get8 reg)).1)) ∧
    (cb_swap gb 0xF0).1 = 0x0F ∧ (cb_swap gb 0xF0).2.f_z = false ∧
    (cb_swap gb 0xF0).2.f_c = false := by
  obtain ⟨s1, _, s3⟩ := swap_byte r hr
  exact ⟨s1, rfl, rfl, rfl, rfl, s3, fun _ => rfl, rfl, rfl, rfl⟩

/-- C24 at `r=0xA5`. -/
theorem cb_swap_spec_witness :
    (cb_swap zeroed 0xA5).1 = 0x5A ∧ (cb_swap zeroed (cb_swap zeroed 0xA5).1).1 = 0xA5 := by
  obtain ⟨h1, _, _, _, _, h2, _⟩ := cb_swap_spec zeroed zeroed 0xA5 (by decide)
  exact ⟨h1.trans (by decide), h2⟩

/-! ### `BIT`, `SET` and `RES` -/

theorem bit_test_eq (x b : Nat) : decide (x &&& (1 <<< b) = 0) = !x.testBit b := by
  have h := land_one_shiftLeft x b
  by_cases k : x.testBit b = true
  · rw [k]
    simp only [Bool.not_true, decide_eq_false_iff_not]
    exact h.2 k
  · have k' : x.testBit b = false := by simpa using k
    rw [k']
    simp only [Bool.not_false, decide_eq_true_eq]
    by_contra hne
    exact k (h.1 hne)

theorem set_then_test (x b : Nat) (hb : b < 8) : ((x ||| (1 <<< b)) % 256).testBit b = true := by
  rw [show (256 : Nat) = 2 ^ 8 from rfl, Nat.testBit_mod_two_pow, Nat.testBit_or,
    Nat.one_shiftLeft, Nat.testBit_two_pow_self]
  simp [hb]

theorem res_then_test (x b : Nat) (hb : b < 8) : (clear_bit x b).testBit b = false := by
  unfold clear_bit
  have h255 : (0xFF : Nat).testBit b = decide (b < 8) := Nat.testBit_two_pow_sub_one 8 b
  rw [Nat.testBit_and, Nat.testBit_xor, Nat.one_shiftLeft, Nat.testBit_two_pow_self, h255]
  simp [hb]

theorem get8_set8 (g : GameBoy) (r : Reg8) (v : Nat) : (g.set8 r v).get8 r = v := by
  cases r <;> rfl

theorem bit_b_r_eq (gb : GameBoy) (b : Nat) (r : Reg8) :
    BIT_B_R b r gb =
      some { gb with f_z := !(gb.get8 r).testBit b, f_n := false, f_h := true } := by
  unfold BIT_B_R
  rw [bit_test_eq]

theorem bit_b_hl_eq (gb : GameBoy) (b v : Nat) (hv : read gb gb.hl = some v) :
    BIT_B_HL b gb = some { cycle gb with f_z := !v.testBit b, f_n := false, f_h := true } := by
  unfold BIT_B_HL
  rw [read_cycle_eq, hv, ← bit_test_eq]
  rfl

theorem set_b_hl_eq (gb : GameBoy) (b v : Nat) (hv : read gb gb.hl = some v) :
    SET_B_HL b gb = write_cycle (cycle gb) gb.hl ((v ||| (1 <<< b)) % 256) := by
  unfold SET_B_HL
  rw [read_cycle_eq, hv]
  show write_cycle _ (cycle gb).hl _ = _
  rw [cycle_hl]

theorem res_b_hl_eq (gb : GameBoy) (b v : Nat) (hv : read gb gb.hl = some v) :
    RES_B_HL b gb = write_cycle (cycle gb) gb.hl (clear_bit v b) := by
  unfold RES_B_HL
  rw [read_cycle_eq, hv]
  show write_cycle _ (cycle gb).hl _ = _
  rw [cycle_hl]

theorem write_cycle_ram_hl (g : GameBoy) (a x : Nat) (h : is_ram a) :
    ∃ g', write_cycle g a x = some g' ∧ read g' a = some x ∧ g'.hl = g.hl := by
  refine ⟨_, write_cycle_non_io g a x (is_ram_non_io a h), ?_, ?_⟩
  · rw [read_cycle_mem _ a (Or.inl h)]
    exact read_ram_store_same g a x h
  · rw [cycle_hl]
    unfold GameBoy.hl
    rw [ram_store_h, ram_store_l]

/-- The registers of the I/O page other than `IF` and `LY` read the same
after a tick. -/
theorem io_read_tick (gb g : GameBoy) (h : tick_frame gb g) (o : Nat) (ho : o < 0x80)
    (h1 : o ≠ 0x44) (h2 : o ≠ 0x0F) : io_read g (0xFF00 + o) = io_read gb (0xFF00 + o) := by
  obtain ⟨cy, dots, ly, ef, fbuf, if1, e, _⟩ := h
  rw [e]
  interval_cases o <;> first | rfl | exact absurd rfl h1 | exact absurd rfl h2

/-- A tick changes what `read` returns at no address other than `IF`
(`0xFF0F`) and `LY` (`0xFF44`). -/
theorem read_tick (gb g : GameBoy) (h : tick_frame gb g) (a : Nat)
    (h1 : a ≠ 0xFF44) (h2 : a ≠ 0xFF0F) : read g a = read gb a := by
  by_cases c : 0xFF00 ≤ a ∧ a < 0xFF80
  · have e1 : ¬ a < 0x8000 := by omega
    have e2 : ¬ a < 0xA000 := by omega
    have e3 : ¬ a < 0xC000 := by omega
    have e4 : ¬ a < 0xFE00 := by omega
    have e5 : ¬ a < 0xFEA0 := by omega
    have e6 : ¬ a < 0xFF00 := by omega
    have ea : a = 0xFF00 + (a - 0xFF00) := by omega
    simp only [read, e1, e2, e3, e4, e5, e6, c.2, if_true, if_false]
    rw [ea]
    exact io_read_tick gb g h (a - 0xFF00) (by omega) (by omega) (by omega)
  · obtain ⟨cy, dots, ly, ef, fbuf, if1, e, _⟩ := h
    rw [e]
    unfold read
    by_cases e1 : a < 0x8000
    · rw [if_pos e1, if_pos e1]
    by_cases e2 : a < 0xA000
    · rw [if_neg e1, if_pos e2, if_neg e1, if_pos e2]
    by_cases e3 : a < 0xC000
    · rw [if_neg e1, if_neg e2, if_pos e3, if_neg e1, if_neg e2, if_pos e3]
    by_cases e4 : a < 0xFE00
    · simp only [e1, e2, e3, e4, if_true, if_false]
    by_cases e5 : a < 0xFEA0
    · simp only [e1, e2, e3, e4, e5, if_true, if_false]
    by_cases e6 : a < 0xFF00
    · simp only [e1, e2, e3, e4, e5, e6, if_true, if_false]
    have e7 : ¬ a < 0xFF80 := by omega
    by_cases e8 : a < 0xFFFF
    · simp only [e1, e2, e3, e4, e5, e6, e7, e8, if_true, if_false]
    · simp only [e1, e2, e3, e4, e5, e6, e7, e8, if_true, if_false]

theorem read_after_cycle (gb : GameBoy) (a : Nat) (h1 : a ≠ 0xFF44) (h2 : a ≠ 0xFF0F) :
    read (cycle gb) a = read gb a :=
  read_tick gb (cycle gb) (cycle_tick_frame gb) a h1 h2

theorem read_after_cycle_off (gb : GameBoy) (hoff : gb.lcd_en = false) (a : Nat) :
    read (cycle gb) a = read gb a := by
  rw [cycle_lcd_off gb hoff]
  rfl

/-- What `BIT` does, and what it sees after `SET` and `RES` of the same bit. -/
theorem bit_ops (gb : GameBoy) (b : Nat) (hb : b < 8) :
    (∀ r, BIT_B_R b r gb =
      some { gb with f_z := !(gb.get8 r).testBit b, f_n := false, f_h := true }) ∧
    (∀ v, read gb gb.hl = some v →
      ∃ g, BIT_B_HL b gb = some g ∧
        g = { cycle gb with f_z := !v.testBit b, f_n := false, f_h := true } ∧
        g.f_z = !v.testBit b ∧ g.f_n = false ∧ g.f_h = true ∧ g.f_c = gb.f_c ∧
        g.a = gb.a ∧ g.b = gb.b ∧ g.c = gb.c ∧ g.d = gb.d ∧ g.e = gb.e ∧ g.h = gb.h ∧
        g.l = gb.l ∧ g.sp = gb.sp ∧ g.pc = gb.pc ∧
        g.vram = gb.vram ∧ g.wram_lo = gb.wram_lo ∧ g.oam = gb.oam ∧ g.hram = gb.hram ∧
        (∀ a, a ≠ 0xFF44 → a ≠ 0xFF0F → read g a = read gb a) ∧
        (gb.lcd_en = false → ∀ a, read g a = read gb a) ∧
        (gb.hl ≠ 0xFF44 → gb.hl ≠ 0xFF0F → read g g.hl = some v)) ∧
    (∀ r, ∃ g1 g2, SET_B_R b r gb = some g1 ∧ BIT_B_R b r g1 = some g2 ∧ g2.f_z = false) ∧
    (∀ r, ∃ g1 g2, RES_B_R b r gb = some g1 ∧ BIT_B_R b r g1 = some g2 ∧ g2.f_z = true) ∧
    (is_ram gb.hl →
      (∃ g1 g2, SET_B_HL b gb = some g1 ∧ BIT_B_HL b g1 = some g2 ∧ g2.f_z = false) ∧
      (∃ g1 g2, RES_B_HL b gb = some g1 ∧ BIT_B_HL b g1 = some g2 ∧ g2.f_z = true)) := by
  refine ⟨fun r => bit_b_r_eq gb b r, ?_, ?_, ?_, ?_⟩
  · intro v hv
    refine ⟨_, bit_b_hl_eq gb b v hv, rfl, rfl, rfl, rfl, cycle_f_c gb, cycle_a gb, cycle_b gb,
      cycle_c gb, cycle_d gb, cycle_e gb, cycle_h gb, cycle_l gb, cycle_sp gb, cycle_pc gb,
      cycle_vram gb, cycle_wram_lo gb, cycle_oam gb, cycle_hram gb, ?_, ?_, ?_⟩
    · intro a h1 h2
      rw [read_set_flags]
      exact read_after_cycle gb a h1 h2
    · intro hoff a
      rw [read_set_flags]
      exact read_after_cycle_off gb hoff a
    · intro h1 h2
      rw [read_set_flags]
      show read (cycle gb) (cycle gb).hl = some v
      rw [cycle_hl, read_after_cycle gb gb.hl h1 h2]
      exact hv
  · intro r
    refine ⟨_, _, rfl, bit_b_r_eq _ b r, ?_⟩
    show (!((gb.set8 r ((gb.get8 r ||| (1 <<< b)) % 256)).get8 r).testBit b) = false
    rw [get8_set8, set_then_test _ b hb]
    rfl
  · intro r
    refine ⟨_, _, rfl, bit_b_r_eq _ b r, ?_⟩
    show (!((gb.set8 r (clear_bit (gb.get8 r) b)).get8 r).testBit b) = true
    rw [get8_set8, res_then_test _ b hb]
    rfl
  · intro hr
    obtain ⟨v, hv⟩ := read_is_ram gb gb.hl hr
    constructor
    · obtain ⟨g1, w1, w2, w3⟩ := write_cycle_ram_hl (cycle gb) gb.hl ((v ||| (1 <<< b)) % 256) hr
      rw [cycle_hl] at w3
      rw [← w3] at w2
      refine ⟨g1, _, (set_b_hl_eq gb b v hv).trans w1, bit_b_hl_eq g1 b _ w2, ?_⟩
      show (!((v ||| (1 <<< b)) % 256).testBit b) = false
      rw [set_then_test _ b hb]
      rfl
    · obtain ⟨g1, w1, w2, w3⟩ := write_cycle_ram_hl (cycle gb) gb.hl (clear_bit v b) hr
      rw [cycle_hl] at w3
      rw [← w3] at w2
      refine ⟨g1, _, (res_b_hl_eq gb b v hv).trans w1, bit_b_hl_eq g1 b _ w2, ?_⟩
      show (!(clear_bit v b).testBit b) = true
      rw [res_then_test _ b hb]
      rfl

/-- C25 (amended): for every bit index `b` in `0..7`, `BIT b,r` on a register
sets `Z = NOT (bit b of r)`, `N = 0`, `H = 1` and changes nothing else;
`BIT b,[HL]` on the byte `v` read at `HL` does the same after the tick of the
read, leaves `C`, the registers and the memory regions unchanged, and stores
nothing: every address other than `LY` (`0xFF44`) and `IF` (`0xFF0F`), which
the LCD may advance during that tick, reads afterwards as before (every
address when the LCD is off), so the operand is still `v` unless `HL` is one
of these two; `BIT b` after `SET b` on the same register gives `Z = 0` and
after `RES b` gives `Z = 1`; and for `[HL]` the same holds when `HL` addresses
VRAM, work or echo RAM, OAM or HRAM.  `BIT 7,H` with `H=0xFF` gives `Z=0`,
`N=0`, `H=1`. -/
theorem bit_spec (gb : GameBoy) (b : Nat) (hb : b < 8) :
    ((∀ r, BIT_B_R b r gb =
        some { gb with f_z := !(gb.get8 r).testBit b, f_n := false, f_h := true }) ∧
      (∀ v, read gb gb.hl = some v →
        ∃ g, BIT_B_HL b gb = some g ∧
          g = { cycle gb with f_z := !v.testBit b, f_n := false, f_h := true } ∧
          g.f_z = !v.testBit b ∧ g.f_n = false ∧ g.f_h = true ∧ g.f_c = gb.f_c ∧
          g.a = gb.a ∧ g.b = gb.b ∧ g.c = gb.c ∧ g.d = gb.d ∧ g.e = gb.e ∧ g.h = gb.h ∧
          g.l = gb.l ∧ g.sp = gb.sp ∧ g.pc = gb.pc ∧
          g.vram = gb.vram ∧ g.wram_lo = gb.wram_lo ∧ g.oam = gb.oam ∧ g.hram = gb.hram ∧
          (∀ a, a ≠ 0xFF44 → a ≠ 0xFF0F → read g a = read gb a) ∧
          (gb.lcd_en = false → ∀ a, read g a = read gb a) ∧
          (gb.hl ≠ 0xFF44 → gb.hl ≠ 0xFF0F → read g g.hl = some v)) ∧
      (∀ r, ∃ g1 g2, SET_B_R b r gb = some g1 ∧ BIT_B_R b r g1 = some g2 ∧ g2.f_z = false) ∧
      (∀ r, ∃ g1 g2, RES_B_R b r gb = some g1 ∧ BIT_B_R b r g1 = some g2 ∧ g2.f_z = true) ∧
      (is_ram gb.hl →
        (∃ g1 g2, SET_B_HL b gb = some g1 ∧ BIT_B_HL b g1 = some g2 ∧ g2.f_z = false) ∧
        (∃ g1 g2, RES_B_HL b gb = some g1 ∧ BIT_B_HL b g1 = some g2 ∧ g2.f_z = true))) ∧
    (BIT_B_R 7 Reg8.h { zeroed with h := 0xFF }).map (fun g => (g.f_z, g.f_n, g.f_h)) =
      some (false, false, true) :=
  ⟨bit_ops gb b hb, by decide⟩

/-- C25 at bit 3 of the work-RAM byte `0xC000`. -/
theorem bit_spec_witness :
    is_ram ({ zeroed with h := 0xC0, l := 0x00 } : GameBoy).hl ∧
    (∃ g1 g2, SET_B_HL 3 { zeroed with h := 0xC0, l := 0x00 } = some g1 ∧
      BIT_B_HL 3 g1 = some g2 ∧ g2.f_z = false) ∧
    (∃ g1 g2, RES_B_HL 3 { zeroed with h := 0xC0, l := 0x00 } = some g1 ∧
      BIT_B_HL 3 g1 = some g2 ∧ g2.f_z = true) :=
  ⟨by decide,
    (bit_spec { zeroed with h := 0xC0, l := 0x00 } 3 (by decide)).1.2.2.2.2 (by decide)⟩

/-- C25 (counterexample): with `HL = 0x0100`, a ROM byte that is `0x00`,
`SET 0,[HL]` is discarded by the bus and the `BIT 0,[HL]` that follows gives
`Z = 1`; with `HL = 0x0101`, a ROM byte that is `0xC3`, `BIT 0,[HL]` after
`RES 0,[HL]` gives `Z = 0`; and with `HL = 0xFF44` and the LCD four dots
before line 144, the operand `LY` reads 143 before `BIT 0,[HL]` and 144 after
it. -/
theorem bit_after_set_rom_counterexample :
    ((SET_B_HL 0 rom_hl_state).bind (BIT_B_HL 0)).map (fun g => g.f_z) = some true ∧
    ((RES_B_HL 0 { rom_hl_state with l := 0x01 }).bind (BIT_B_HL 0)).map (fun g => g.f_z) =
      some false ∧
    read ly_hl_state ly_hl_state.hl = some 143 ∧
    (BIT_B_HL 0 ly_hl_state).bind (fun g => read g g.hl) = some 144 := by
  decide

/-! ### The AF pair -/

theorem toNat_bit (x k : Nat) : (decide (x &&& (1 <<< k) ≠ 0)).toNat = x / 2 ^ k % 2 := by
  rw [Nat.one_shiftLeft]
  by_cases h : x / 2 ^ k % 2 = 1
  · rw [decide_eq_true ((land_two_pow_ne_zero x k).2 h), h]
    rfl
  · have h0 : x / 2 ^ k % 2 = 0 := by omega
    rw [decide_eq_false (fun hne => h ((land_two_pow_ne_zero x k).1 hne)), h0]
    rfl

theorem land_0xFFF0 (v : Nat) : v &&& 0xFFF0 = v / 16 % 4096 * 16 := by
  have h1 : (v &&& 0xFFF0) % 16 = 0 := by
    rw [show (16 : Nat) = 2 ^ 4 from rfl, ← Nat.and_pow_two_sub_one_eq_mod, Nat.and_assoc]
    rw [show (0xFFF0 : Nat) &&& (2 ^ 4 - 1) = 0 by decide]
    exact Nat.and_zero v
  have h2 : (v &&& 0xFFF0) / 16 = v / 16 % 4096 := by
    rw [show (16 : Nat) = 2 * 2 * 2 * 2 from rfl, ← Nat.div_div_eq_div_mul,
      ← Nat.div_div_eq_div_mul, ← Nat.div_div_eq_div_mul, Nat.and_div_two, Nat.and_div_two,
      Nat.and_div_two, Nat.and_div_two, ← Nat.div_div_eq_div_mul, ← Nat.div_div_eq_div_mul,
      ← Nat.div_div_eq_div_mul]
    exact Nat.and_pow_two_sub_one_eq_mod _ 12
  omega

theorem get_af_low (gb : GameBoy) : get_af gb &&& 0xF = 0 := by
  rw [show (0xF : Nat) = 2 ^ 4 - 1 from rfl, Nat.and_pow_two_sub_one_eq_mod]
  unfold get_af
  simp only [Nat.shiftLeft_eq]
  omega

theorem get_set_af (gb : GameBoy) (v : Nat) (hv : v < 65536) :
    get_af (set_af gb v) = v &&& 0xFFF0 := by
  rw [land_0xFFF0]
  show ((((v >>> 8) % 256) <<< 8) + ((decide (v &&& (1 <<< 7) ≠ 0)).toNat <<< 7) +
    ((decide (v &&& (1 <<< 6) ≠ 0)).toNat <<< 6) + ((decide (v &&& (1 <<< 5) ≠ 0)).toNat <<< 5) +
    ((decide (v &&& (1 <<< 4) ≠ 0)).toNat <<< 4)) % 65536 = _
  rw [toNat_bit, toNat_bit, toNat_bit, toNat_bit]
  simp only [Nat.shiftLeft_eq, Nat.shiftRight_eq_div_pow]
  omega

theorem pop_cycle16_lt (g g' : GameBoy) (v : Nat) (h : pop_cycle16 g = some (v, g')) :
    v < 65536 := by
  unfold pop_cycle16 at h
  cases h1 : read_cycle { g with sp := (g.sp + 1) % 65536 } g.sp with
  | none => rw [h1] at h; exact absurd h (by simp)
  | some p1 =>
    obtain ⟨lo, g1⟩ := p1
    rw [h1] at h
    simp only [] at h
    cases h2 : read_cycle { g1 with sp := (g1.sp + 1) % 65536 } g1.sp with
    | none => rw [h2] at h; exact absurd h (by simp)
    | some p2 =>
      obtain ⟨hi, g2⟩ := p2
      rw [h2] at h
      simp only [Option.some.injEq, Prod.mk.injEq] at h
      rw [← h.1]
      exact Nat.mod_lt _ (by decide)

/-- C26: in every state the value `get_af` produces for `PUSH AF` has its low
four bits zero; for every 16-bit `v`, `set_af` of `v` followed by `get_af`
gives `v AND 0xFFF0`, with `A` the high byte of `v` and `Z, N, H, C` its bits
7, 6, 5, 4; and a `POP AF` that returns has popped some 16-bit `v` into
`set_af`, after which `PUSH AF` is the push of `v AND 0xFFF0`. -/
theorem af_low_nibble (gb : GameBoy) (v : Nat) (hv : v < 65536) :
    get_af gb &&& 0xF = 0 ∧
    get_af (set_af gb v) = v &&& 0xFFF0 ∧
    (set_af gb v).a = v / 256 ∧
    (set_af gb v).f_z = v.testBit 7 ∧ (set_af gb v).f_n = v.testBit 6 ∧
    (set_af gb v).f_h = v.testBit 5 ∧ (set_af gb v).f_c = v.testBit 4 ∧
    (∀ g, pop_af gb = some g →
      ∃ w g1, pop_cycle16 gb = some (w, g1) ∧ w < 65536 ∧ g = set_af g1 w ∧
        push_af g = push_cycle16 g (w &&& 0xFFF0)) := by
  have hb : ∀ k, decide (v &&& (1 <<< k) ≠ 0) = v.testBit k := by
    intro k
    by_cases h : v.testBit k = true
    · rw [h]; exact decide_eq_true ((land_one_shiftLeft v k).2 h)
    · have h' : v.testBit k = false := by simpa using h
      rw [h']
      exact decide_eq_false (fun hne => h ((land_one_shiftLeft v k).1 hne))
  refine ⟨get_af_low gb, get_set_af gb v hv, ?_, hb 7, hb 6, hb 5, hb 4, ?_⟩
  · show (v >>> 8) % 256 = v / 256
    rw [Nat.shiftRight_eq_div_pow]
    omega
  · intro g hg
    unfold pop_af at hg
    cases h1 : pop_cycle16 gb with
    | none => rw [h1] at hg; exact absurd hg (by simp)
    | some p =>
      obtain ⟨w, g1⟩ := p
      rw [h1] at hg
      simp only [Option.some.injEq] at hg
      have hw := pop_cycle16_lt gb g1 w h1
      refine ⟨w, g1, rfl, hw, hg.symm, ?_⟩
      unfold push_af
      rw [← hg, get_set_af g1 w hw]

/-- C26 at `v = 0x12FF`, popped from HRAM. -/
theorem af_low_nibble_witness :
    get_af (set_af zeroed 0x12FF) = 0x12F0 ∧
    ∃ g w g1, pop_af { zeroed with sp := 0xFF80, hram := fun _ => 0xFF } = some g ∧
      pop_cycle16 { zeroed with sp := 0xFF80, hram := fun _ => 0xFF } = some (w, g1) ∧
      push_af g = push_cycle16 g (w &&& 0xFFF0) := by
  have h := af_low_nibble { zeroed with sp := 0xFF80, hram := fun _ => 0xFF } 0x12FF (by decide)
  have hs : (pop_af { zeroed with sp := 0xFF80, hram := fun _ => 0xFF }).isSome = true := by
    decide
  obtain ⟨g, hg⟩ := Option.isSome_iff_exists.1 hs
  obtain ⟨w, g1, a, _, _, d⟩ := h.2.2.2.2.2.2.2 g hg
  exact ⟨(af_low_nibble zeroed 0x12FF (by decide)).2.1.trans (by decide), g, w, g1, hg, a, d⟩

/-! ### Round trips through the I/O page -/

theorem tac_pack_small : ∀ y, y < 8 → ((y / 4 % 2) <<< 2) ||| (y % 4) = y := by
  decide

theorem tac_pack (x : Nat) :
    ((decide (x &&& (1 <<< 2) ≠ 0)).toNat <<< 2) ||| (x &&& 0x3) = x &&& 0x07 := by
  rw [toNat_bit, show (0x3 : Nat) = 2 ^ 2 - 1 from rfl, show (0x07 : Nat) = 2 ^ 3 - 1 from rfl,
    Nat.and_pow_two_sub_one_eq_mod, Nat.and_pow_two_sub_one_eq_mod]
  have h := tac_pack_small (x % 2 ^ 3) (Nat.mod_lt _ (by decide))
  have e1 : x / 2 ^ 2 % 2 = x % 2 ^ 3 / 4 % 2 := by omega
  have e2 : x % 2 ^ 2 = x % 2 ^ 3 % 4 := by omega
  rw [e1, e2]
  exact h

/-- C28: for every byte `x` (indeed every value), `Write(0xFF07, x)` returns
and the `Read(0xFF07)` that follows returns `(x AND 0x07) OR 0xF8`. -/
theorem tac_roundtrip (gb : GameBoy) (x : Nat) :
    ∃ g, write gb 0xFF07 x = some g ∧ read g 0xFF07 = some ((x &&& 0x07) ||| 0xF8) := by
  refine ⟨{ gb with tac_en := decide (x &&& (1 <<< 2) ≠ 0), tac_clk := x &&& 0x3 }, rfl, ?_⟩
  rw [← tac_pack x]
  rfl

set_option maxRecDepth 100000 in
theorem palette_byte : ∀ x, x < 256 →
    (((((x >>> 0) &&& 0x3) <<< 0) ||| (((x >>> 2) &&& 0x3) <<< 2) |||
      (((x >>> 4) &&& 0x3) <<< 4) ||| (((x >>> 6) &&& 0x3) <<< 6)) % 256 = x) := by
  decide

set_option maxRecDepth 100000 in
theorem lcdc_byte : ∀ x, x < 256 →
    (((decide (x &&& (1 <<< 7) ≠ 0)).toNat <<< 7) |||
      ((decide (x &&& (1 <<< 6) ≠ 0)).toNat <<< 6) |||
      ((decide (x &&& (1 <<< 5) ≠ 0)).toNat <<< 5) |||
      ((decide (x &&& (1 <<< 4) ≠ 0)).toNat <<< 4) |||
      ((decide (x &&& (1 <<< 3) ≠ 0)).toNat <<< 3) |||
      ((decide (x &&& (1 <<< 2) ≠ 0)).toNat <<< 2) |||
      ((decide (x &&& (1 <<< 1) ≠ 0)).toNat <<< 1) |||
      ((decide (x &&& (1 <<< 0) ≠ 0)).toNat <<< 0) = x) := by
  decide

theorem land_3_le (y : Nat) : y &&& 0x3 ≤ 3 := Nat.and_le_right

theorem palette_entries (x : Nat) (p : Nat → Nat) (i : Nat) (hi : i < 4) :
    store (store (store (store p 0 ((x >>> 0) &&& 0x3)) 1 ((x >>> 2) &&& 0x3))
      2 ((x >>> 4) &&& 0x3)) 3 ((x >>> 6) &&& 0x3) i ≤ 3 := by
  have h : i = 0 ∨ i = 1 ∨ i = 2 ∨ i = 3 := by omega
  rcases h with h | h | h | h <;> subst h <;> exact land_3_le _

/-- C29: for every byte `x`, a write of `x` to BGP (`0xFF47`), OBP0
(`0xFF48`), OBP1 (`0xFF49`) or LCDC (`0xFF40`) returns and the read of the
same register that follows returns `x`; after a palette write the four stored
entries of that palette lie in `[0, 3]` and the other two palettes are
unchanged. -/
theorem packed_roundtrip (gb : GameBoy) (x : Nat) (hx : x < 256) :
    (∃ g, write gb 0xFF47 x = some g ∧ read g 0xFF47 = some x ∧
      (∀ i, i < 4 → g.bgp i ≤ 3) ∧ g.obp0 = gb.obp0 ∧ g.obp1 = gb.obp1) ∧
    (∃ g, write gb 0xFF48 x = some g ∧ read g 0xFF48 = some x ∧
      (∀ i, i < 4 → g.obp0 i ≤ 3) ∧ g.bgp = gb.bgp ∧ g.obp1 = gb.obp1) ∧
    (∃ g, write gb 0xFF49 x = some g ∧ read g 0xFF49 = some x ∧
      (∀ i, i < 4 → g.obp1 i ≤ 3) ∧ g.bgp = gb.bgp ∧ g.obp0 = gb.obp0) ∧
    (∃ g, write gb 0xFF40 x = some g ∧ read g 0xFF40 = some x) := by
  have hp := palette_byte x hx
  have hl := lcdc_byte x hx
  refine ⟨⟨_, rfl, ?_, fun i hi => palette_entries x gb.bgp i hi, rfl, rfl⟩,
    ⟨_, rfl, ?_, fun i hi => palette_entries x gb.obp0 i hi, rfl, rfl⟩,
    ⟨_, rfl, ?_, fun i hi => palette_entries x gb.obp1 i hi, rfl, rfl⟩,
    ⟨_, rfl, ?_⟩⟩
  · exact congrArg some hp
  · exact congrArg some hp
  · exact congrArg some hp
  · exact congrArg some hl

/-- C29 at `x = 0xE4`, the identity palette, and `x = 0x91`. -/
theorem packed_roundtrip_witness :
    (∃ g, write zeroed 0xFF47 0xE4 = some g ∧ read g 0xFF47 = some 0xE4 ∧
      (∀ i, i < 4 → g.bgp i ≤ 3) ∧ g.obp0 = zeroed.obp0 ∧ g.obp1 = zeroed.obp1) ∧
    (∃ g, write zeroed 0xFF40 0xE4 = some g ∧ read g 0xFF40 = some 0xE4) :=
  ⟨(packed_roundtrip zeroed 0xE4 (by decide)).1, (packed_roundtrip zeroed 0xE4 (by decide)).2.2.2⟩

/-- C30: for every state and every `x`, `Write(0xFF04, x)` returns with the
internal `div` counter zero and nothing else changed; `Read(0xFF04)` returns
`div >> 8`, so in every state whose `div` is below 256, in particular right
after the write, it returns 0, and in no state whose 16-bit `div` is at least
256; a tick does not change `div`. -/
theorem div_reset (gb : GameBoy) (x : Nat) :
    write gb 0xFF04 x = some { gb with div := 0 } ∧
    read { gb with div := 0 } 0xFF04 = some 0 ∧
    (∀ g : GameBoy, read g 0xFF04 = some (g.div >>> 8)) ∧
    (∀ g : GameBoy, g.div < 256 → read g 0xFF04 = some 0) ∧
    (∀ g : GameBoy, 256 ≤ g.div → read g 0xFF04 ≠ some 0) ∧
    (cycle { gb with div := 0 }).div = 0 ∧
    read (cycle { gb with div := 0 }) 0xFF04 = some 0 := by
  have hr : ∀ g : GameBoy, read g 0xFF04 = some (g.div >>> 8) := fun _ => rfl
  have hz : ∀ g : GameBoy, g.div = 0 → read g 0xFF04 = some 0 := by
    intro g h
    rw [hr, h]
    rfl
  refine ⟨rfl, hz _ rfl, hr, ?_, ?_, cycle_div _, hz _ (cycle_div _)⟩
  · intro g hg
    rw [hr, Nat.shiftRight_eq_div_pow]
    congr 1
    omega
  · intro g hg h
    rw [hr, Nat.shiftRight_eq_div_pow] at h
    have := Option.some.inj h
    omega

/-- C30 at a state whose `div` is `0x1234`. -/
theorem div_reset_witness :
    read { zeroed with div := 0x1234 } 0xFF04 = some 0x12 ∧
    read { zeroed with div := 0x1234 } 0xFF04 ≠ some 0 ∧
    (∃ g, write { zeroed with div := 0x1234 } 0xFF04 0xAB = some g ∧ read g 0xFF04 = some 0) :=
  ⟨by decide,
    (div_reset zeroed 0).2.2.2.2.1 { zeroed with div := 0x1234 } (by decide),
    ⟨_, (div_reset { zeroed with div := 0x1234 } 0xAB).1,
      (div_reset { zeroed with div := 0x1234 } 0xAB).2.1⟩⟩

/-! ### `IF` and `IE` stay masked -/

theorem inv_tick_frame (g g' : GameBoy) (h : tick_frame g g') (hi : io_inv g) : io_inv g' := by
  obtain ⟨cy, dots, ly, ef, fbuf, if1, e, k⟩ := h
  rw [e]
  refine ⟨?_, hi.2⟩
  show if1 ≤ 0x1F
  rcases k with k | k
  · rw [k]; exact hi.1
  · rw [k]
    have := Nat.or_lt_two_pow (show g.if_ < 2 ^ 5 from Nat.lt_succ_of_le hi.1)
      (show 1 < 2 ^ 5 by decide)
    exact Nat.le_of_lt_succ this

theorem inv_cycle (g : GameBoy) (hi : io_inv g) : io_inv (cycle g) :=
  inv_tick_frame g _ (cycle_tick_frame g) hi

theorem inv_lcd_cycle (g : GameBoy) (hi : io_inv g) : io_inv (lcd_cycle g) :=
  inv_tick_frame g _ (tick_frame_lcd_cycle g g (tick_frame_refl g)) hi

theorem inv_write (g g' : GameBoy) (a x : Nat) (h : write g a x = some g') (hi : io_inv g) :
    io_inv g' := by
  revert h
  unfold write
  repeat' refine ite_some_elim ?_ ?_
  all_goals
    intro h
    cases h <;> first
      | exact hi
      | exact ⟨Nat.and_le_right, hi.2⟩
      | exact ⟨hi.1, Nat.and_le_right⟩

theorem inv_read_cycle (g g' : GameBoy) (a v : Nat) (h : read_cycle g a = some (v, g'))
    (hi : io_inv g) : io_inv g' := by
  rw [read_cycle_some g g' a v h]
  exact inv_cycle g hi

theorem inv_write_cycle (g g' : GameBoy) (a x : Nat) (h : write_cycle g a x = some g')
    (hi : io_inv g) : io_inv g' := by
  rw [write_cycle_eq] at h
  cases hw : write g a x with
  | none => rw [hw] at h; exact absurd h (by simp)
  | some w =>
    rw [hw] at h
    simp only [Option.map_some', Option.some.injEq] at h
    rw [← h]
    exact inv_cycle w (inv_write g w a x hw hi)

theorem inv_read_imm_cycle (g g' : GameBoy) (v : Nat) (h : read_imm_cycle g = some (v, g'))
    (hi : io_inv g) : io_inv g' :=
  inv_read_cycle _ g' _ v h hi

theorem inv_read_imm_cycle16 (g g' : GameBoy) (v : Nat)
    (h : read_imm_cycle16 g = some (v, g')) (hi : io_inv g) : io_inv g' := by
  unfold read_imm_cycle16 at h
  split at h
  · exact absurd h (by simp)
  · rename_i lo g1 h1
    split at h
    · exact absurd h (by simp)
    · rename_i hi2 g2 h2
      simp only [Option.some.injEq, Prod.mk.injEq] at h
      rw [← h.2]
      have i1 : io_inv g1 := inv_read_imm_cycle _ _ _ h1 hi
      exact inv_read_imm_cycle _ _ _ h2 i1

theorem inv_pop_cycle16 (g g' : GameBoy) (v : Nat)
    (h : pop_cycle16 g = some (v, g')) (hi : io_inv g) : io_inv g' := by
  unfold pop_cycle16 at h
  split at h
  · exact absurd h (by simp)
  · rename_i lo g1 h1
    split at h
    · exact absurd h (by simp)
    · rename_i hi2 g2 h2
      simp only [Option.some.injEq, Prod.mk.injEq] at h
      rw [← h.2]
      have i1 : io_inv g1 := inv_read_cycle _ _ _ _ h1 hi
      exact inv_read_cycle _ _ _ _ h2 i1

theorem inv_write_cycle16 (g g' : GameBoy) (a x : Nat)
    (h : write_cycle16 g a x = some g') (hi : io_inv g) : io_inv g' := by
  unfold write_cycle16 at h
  split at h
  · exact absurd h (by simp)
  · rename_i g1 h1
    have i1 : io_inv g1 := inv_write_cycle _ _ _ _ h1 hi
    exact inv_write_cycle _ _ _ _ h i1

theorem inv_push_cycle16 (g g' : GameBoy) (v : Nat)
    (h : push_cycle16 g v = some g') (hi : io_inv g) : io_inv g' := by
  unfold push_cycle16 at h
  lift_lets at h
  extract_lets g1 g2 at h
  have i2 : io_inv g2 := inv_cycle g hi
  split at h
  · exact absurd h (by simp)
  · rename_i g3 h3
    have i3 : io_inv g3 := inv_write_cycle _ _ _ _ h3 i2
    exact inv_write_cycle _ _ _ _ h i3

theorem set8_if_ (g : GameBoy) (r : Reg8) (v : Nat) : (g.set8 r v).if_ = g.if_ := by
  cases r <;> rfl

theorem set8_ie (g : GameBoy) (r : Reg8) (v : Nat) : (g.set8 r v).ie = g.ie := by
  cases r <;> rfl

theorem set16_if_ (g : GameBoy) (r : Reg16) (v : Nat) : (g.set16 r v).if_ = g.if_ := by
  cases r <;> rfl

theorem set16_ie (g : GameBoy) (r : Reg16) (v : Nat) : (g.set16 r v).ie = g.ie := by
  cases r <;> rfl

theorem alu_fn_if_ (op : AluOp) (g : GameBoy) (v : Nat) : (op.fn g v).if_ = g.if_ := by
  cases op <;> rfl

theorem alu_fn_ie (op : AluOp) (g : GameBoy) (v : Nat) : (op.fn g v).ie = g.ie := by
  cases op <;> rfl

theorem cb_fn_if_ (op : CbOp) (g : GameBoy) (v : Nat) : (op.fn g v).2.if_ = g.if_ := by
  cases op <;> rfl

theorem cb_fn_ie (op : CbOp) (g : GameBoy) (v : Nat) : (op.fn g v).2.ie = g.ie := by
  cases op <;> rfl

theorem inv_same (g g' : GameBoy) (h1 : g'.if_ = g.if_) (h2 : g'.ie = g.ie) (hi : io_inv g) :
    io_inv g' := by
  unfold io_inv
  rw [h1, h2]
  exact hi

theorem nop_inv (g g' : GameBoy) (h : nop g = some g') (hi : io_inv g) :
    io_inv g' := by
  unfold nop at h
  rw [← Option.some.inj h]
  exact hi

theorem daa_inv (g g' : GameBoy) (h : daa g = some g') (hi : io_inv g) :
    io_inv g' := by
  unfold daa at h
  rw [← Option.some.inj h]
  exact hi

theorem cpl_inv (g g' : GameBoy) (h : cpl g = some g') (hi : io_inv g) :
    io_inv g' := by
  unfold cpl at h
  rw [← Option.some.inj h]
  exact hi

theorem scf_inv (g g' : GameBoy) (h : scf g = some g') (hi : io_inv g) :
    io_inv g' := by
  unfold scf at h
  rw [← Option.some.inj h]
  exact hi

theorem ccf_inv (g g' : GameBoy) (h : ccf g = some g') (hi : io_inv g) :
    io_inv g' := by
  unfold ccf at h
  rw [← Option.some.inj h]
  exact hi

theorem rlca_inv (g g' : GameBoy) (h : rlca g = some g') (hi : io_inv g) :
    io_inv g' := by
  unfold rlca at h
  rw [← Option.some.inj h]
  exact hi

theorem rrca_inv (g g' : GameBoy) (h : rrca g = some g') (hi : io_inv g) :
    io_inv g' := by
  unfold rrca at h
  rw [← Option.some.inj h]
  exact hi

theorem rla_inv (g g' : GameBoy) (h : rla g = some g') (hi : io_inv g) :
    io_inv g' := by
  unfold rla at h
  rw [← Option.some.inj h]
  exact hi

theorem rra_inv (g g' : GameBoy) (h : rra g = some g') (hi : io_inv g) :
    io_inv g' := by
  unfold rra at h
  rw [← Option.some.inj h]
  exact hi

theorem di_inv (g g' : GameBoy) (h : di g = some g') (hi : io_inv g) :
    io_inv g' := by
  unfold di at h
  rw [← Option.some.inj h]
  exact hi

theorem ei_inv (g g' : GameBoy) (h : ei g = some g') (hi : io_inv g) :
    io_inv g' := by
  unfold ei at h
  rw [← Option.some.inj h]
  exact hi

theorem LD_R_R_inv (r1 : Reg8) (r2 : Reg8) (g g' : GameBoy) (h : LD_R_R r1 r2 g = some g')
    (hi : io_inv g) : io_inv g' := by
  unfold LD_R_R at h
  rw [← Option.some.inj h]
  exact inv_same g _ (set8_if_ _ _ _) (set8_ie _ _ _) hi

theorem LD_R_N_inv (r : Reg8) (g g' : GameBoy) (h : LD_R_N r g = some g') (hi : io_inv g) :
    io_inv g' := by
  unfold LD_R_N at h
  split at h
  · exact absurd h (by simp)
  · rename_i v1 g1 h1
    have i1 : io_inv g1 := inv_read_imm_cycle _ _ _ h1 hi
    rw [← Option.some.inj h]
    exact inv_same g1 _ (set8_if_ _ _ _) (set8_ie _ _ _) i1

theorem LD_R_HL_inv (r : Reg8) (g g' : GameBoy) (h : LD_R_HL r g = some g') (hi : io_inv g) :
    io_inv g' := by
  unfold LD_R_HL at h
  split at h
  · exact absurd h (by simp)
  · rename_i v1 g1 h1
    have i1 : io_inv g1 := inv_read_cycle _ _ _ _ h1 hi
    rw [← Option.some.inj h]
    exact inv_same g1 _ (set8_if_ _ _ _) (set8_ie _ _ _) i1

theorem LD_HL_R_inv (r : Reg8) (g g' : GameBoy) (h : LD_HL_R r g = some g') (hi : io_inv g) :
    io_inv g' := by
  unfold LD_HL_R at h
  exact inv_write_cycle _ _ _ _ h hi

theorem ld_hl_n_inv (g g' : GameBoy) (h : ld_hl_n g = some g') (hi : io_inv g) :
    io_inv g' := by
  unfold ld_hl_n at h
  split at h
  · exact absurd h (by simp)
  · rename_i v1 g1 h1
    have i1 : io_inv g1 := inv_read_imm_cycle _ _ _ h1 hi
    exact inv_write_cycle _ _ _ _ h i1

theorem ld_a_bc_inv (g g' : GameBoy) (h : ld_a_bc g = some g') (hi : io_inv g) :
    io_inv g' := by
  unfold ld_a_bc at h
  split at h
  · exact absurd h (by simp)
  · rename_i v1 g1 h1
    have i1 : io_inv g1 := inv_read_cycle _ _ _ _ h1 hi
    rw [← Option.some.inj h]
    exact i1

theorem ld_a_de_inv (g g' : GameBoy) (h : ld_a_de g = some g') (hi : io_inv g) :
    io_inv g' := by
  unfold ld_a_de at h
  split at h
  · exact absurd h (by simp)
  · rename_i v1 g1 h1
    have i1 : io_inv g1 := inv_read_cycle _ _ _ _ h1 hi
    rw [← Option.some.inj h]
    exact i1

theorem ld_bc_a_inv (g g' : GameBoy) (h : ld_bc_a g = some g') (hi : io_inv g) :
    io_inv g' := by
  unfold ld_bc_a at h
  exact inv_write_cycle _ _ _ _ h hi

theorem ld_de_a_inv (g g' : GameBoy) (h : ld_de_a g = some g') (hi : io_inv g) :
    io_inv g' := by
  unfold ld_de_a at h
  exact inv_write_cycle _ _ _ _ h hi

theorem ld_a_nn_inv (g g' : GameBoy) (h : ld_a_nn g = some g') (hi : io_inv g) :
    io_inv g' := by
  unfold ld_a_nn at h
  split at h
  · exact absurd h (by simp)
  · rename_i v1 g1 h1
    have i1 : io_inv g1 := inv_read_imm_cycle16 _ _ _ h1 hi
    split at h
    · exact absurd h (by simp)
    · rename_i v2 g2 h2
      have i2 : io_inv g2 := inv_read_cycle _ _ _ _ h2 i1
      rw [← Option.some.inj h]
      exact i2

theorem ld_nn_a_inv (g g' : GameBoy) (h : ld_nn_a g = some g') (hi : io_inv g) :
    io_inv g' := by
  unfold ld_nn_a at h
  split at h
  · exact absurd h (by simp)
  · rename_i v1 g1 h1
    have i1 : io_inv g1 := inv_read_imm_cycle16 _ _ _ h1 hi
    exact inv_write_cycle _ _ _ _ h i1

theorem ldh_a_c_inv (g g' : GameBoy) (h : ldh_a_c g = some g') (hi : io_inv g) :
    io_inv g' := by
  unfold ldh_a_c at h
  split at h
  · exact absurd h (by simp)
  · rename_i v1 g1 h1
    have i1 : io_inv g1 := inv_read_cycle _ _ _ _ h1 hi
    rw [← Option.some.inj h]
    exact i1

theorem ldh_c_a_inv (g g' : GameBoy) (h : ldh_c_a g = some g') (hi : io_inv g) :
    io_inv g' := by
  unfold ldh_c_a at h
  exact inv_write_cycle _ _ _ _ h hi

theorem ldh_a_n_inv (g g' : GameBoy) (h : ldh_a_n g = some g') (hi : io_inv g) :
    io_inv g' := by
  unfold ldh_a_n at h
  split at h
  · exact absurd h (by simp)
  · rename_i v1 g1 h1
    have i1 : io_inv g1 := inv_read_imm_cycle _ _ _ h1 hi
    split at h
    · exact absurd h (by simp)
    · rename_i v2 g2 h2
      have i2 : io_inv g2 := inv_read_cycle _ _ _ _ h2 i1
      rw [← Option.some.inj h]
      exact i2

theorem ldh_n_a_inv (g g' : GameBoy) (h : ldh_n_a g = some g') (hi : io_inv g) :
    io_inv g' := by
  unfold ldh_n_a at h
  split at h
  · exact absurd h (by simp)
  · rename_i v1 g1 h1
    have i1 : io_inv g1 := inv_read_imm_cycle _ _ _ h1 hi
    exact inv_write_cycle _ _ _ _ h i1

theorem ld_a_hld_inv (g g' : GameBoy) (h : ld_a_hld g = some g') (hi : io_inv g) :
    io_inv g' := by
  unfold ld_a_hld at h
  split at h
  · exact absurd h (by simp)
  · rename_i v1 g1 h1
    have i1 : io_inv g1 := inv_read_cycle _ _ _ _ h1 hi
    rw [← Option.some.inj h]
    exact i1

theorem ld_hld_a_inv (g g' : GameBoy) (h : ld_hld_a g = some g') (hi : io_inv g) :
    io_inv g' := by
  unfold ld_hld_a at h
  exact inv_write_cycle _ _ _ _ h hi

theorem ld_a_hli_inv (g g' : GameBoy) (h : ld_a_hli g = some g') (hi : io_inv g) :
    io_inv g' := by
  unfold ld_a_hli at h
  split at h
  · exact absurd h (by simp)
  · rename_i v1 g1 h1
    have i1 : io_inv g1 := inv_read_cycle _ _ _ _ h1 hi
    rw [← Option.some.inj h]
    exact i1

theorem ld_hli_a_inv (g g' : GameBoy) (h : ld_hli_a g = some g') (hi : io_inv g) :
    io_inv g' := by
  unfold ld_hli_a at h
  exact inv_write_cycle _ _ _ _ h hi

theorem LD_RR_NN_inv (rr : Reg16) (g g' : GameBoy) (h : LD_RR_NN rr g = some g') (hi : io_inv g) :
    io_inv g' := by
  unfold LD_RR_NN at h
  split at h
  · exact absurd h (by simp)
  · rename_i v1 g1 h1
    have i1 : io_inv g1 := inv_read_imm_cycle16 _ _ _ h1 hi
    rw [← Option.some.inj h]
    exact inv_same g1 _ (set16_if_ _ _ _) (set16_ie _ _ _) i1

theorem ld_nn_sp_inv (g g' : GameBoy) (h : ld_nn_sp g = some g') (hi : io_inv g) :
    io_inv g' := by
  unfold ld_nn_sp at h
  split at h
  · exact absurd h (by simp)
  · rename_i v1 g1 h1
    have i1 : io_inv g1 := inv_read_imm_cycle16 _ _ _ h1 hi
    exact inv_write_cycle16 _ _ _ _ h i1

theorem ld_sp_hl_inv (g g' : GameBoy) (h : ld_sp_hl g = some g') (hi : io_inv g) :
    io_inv g' := by
  unfold ld_sp_hl at h
  rw [← Option.some.inj h]
  exact inv_cycle _ hi

theorem PUSH_RR_inv (rr : Reg16) (g g' : GameBoy) (h : PUSH_RR rr g = some g') (hi : io_inv g) :
    io_inv g' := by
  unfold PUSH_RR at h
  exact inv_push_cycle16 _ _ _ h hi

theorem push_af_inv (g g' : GameBoy) (h : push_af g = some g') (hi : io_inv g) :
    io_inv g' := by
  unfold push_af at h
  exact inv_push_cycle16 _ _ _ h hi

theorem POP_RR_inv (rr : Reg16) (g g' : GameBoy) (h : POP_RR rr g = some g') (hi : io_inv g) :
    io_inv g' := by
  unfold POP_RR at h
  split at h
  · exact absurd h (by simp)
  · rename_i v1 g1 h1
    have i1 : io_inv g1 := inv_pop_cycle16 _ _ _ h1 hi
    rw [← Option.some.inj h]
    exact inv_same g1 _ (set16_if_ _ _ _) (set16_ie _ _ _) i1

theorem pop_af_inv (g g' : GameBoy) (h : pop_af g = some g') (hi : io_inv g) :
    io_inv g' := by
  unfold pop_af at h
  split at h
  · exact absurd h (by simp)
  · rename_i v1 g1 h1
    have i1 : io_inv g1 := inv_pop_cycle16 _ _ _ h1 hi
    rw [← Option.some.inj h]
    exact i1

theorem ld_hl_sp_e_inv (g g' : GameBoy) (h : ld_hl_sp_e g = some g') (hi : io_inv g) :
    io_inv g' := by
  unfold ld_hl_sp_e at h
  split at h
  · exact absurd h (by simp)
  · rename_i v1 g1 h1
    have i1 : io_inv g1 := inv_read_imm_cycle _ _ _ h1 hi
    rw [← Option.some.inj h]
    exact inv_cycle _ i1

theorem ALU_REG_OP_inv (op : AluOp) (r : Reg8) (g g' : GameBoy) (h : ALU_REG_OP op r g = some g')
    (hi : io_inv g) : io_inv g' := by
  unfold ALU_REG_OP at h
  rw [← Option.some.inj h]
  exact inv_same g _ (alu_fn_if_ _ _ _) (alu_fn_ie _ _ _) hi

theorem ALU_HL_OP_inv (op : AluOp) (g g' : GameBoy) (h : ALU_HL_OP op g = some g')
    (hi : io_inv g) : io_inv g' := by
  unfold ALU_HL_OP at h
  split at h
  · exact absurd h (by simp)
  · rename_i v1 g1 h1
    have i1 : io_inv g1 := inv_read_cycle _ _ _ _ h1 hi
    rw [← Option.some.inj h]
    exact inv_same g1 _ (alu_fn_if_ _ _ _) (alu_fn_ie _ _ _) i1

theorem ALU_IMM_OP_inv (op : AluOp) (g g' : GameBoy) (h : ALU_IMM_OP op g = some g')
    (hi : io_inv g) : io_inv g' := by
  unfold ALU_IMM_OP at h
  split at h
  · exact absurd h (by simp)
  · rename_i v1 g1 h1
    have i1 : io_inv g1 := inv_read_imm_cycle _ _ _ h1 hi
    rw [← Option.some.inj h]
    exact inv_same g1 _ (alu_fn_if_ _ _ _) (alu_fn_ie _ _ _) i1

theorem INC_R_inv (r : Reg8) (g g' : GameBoy) (h : INC_R r g = some g') (hi : io_inv g) :
    io_inv g' := by
  unfold INC_R at h
  rw [← Option.some.inj h]
  exact inv_same g _ (set8_if_ _ _ _) (set8_ie _ _ _) hi

theorem inc_ahl_inv (g g' : GameBoy) (h : inc_ahl g = some g') (hi : io_inv g) :
    io_inv g' := by
  unfold inc_ahl at h
  split at h
  · exact absurd h (by simp)
  · rename_i v1 g1 h1
    have i1 : io_inv g1 := inv_read_cycle _ _ _ _ h1 hi
    exact inv_write_cycle _ _ _ _ h i1

theorem DEC_R_inv (r : Reg8) (g g' : GameBoy) (h : DEC_R r g = some g') (hi : io_inv g) :
    io_inv g' := by
  unfold DEC_R at h
  rw [← Option.some.inj h]
  exact inv_same g _ (set8_if_ _ _ _) (set8_ie _ _ _) hi

theorem dec_ahl_inv (g g' : GameBoy) (h : dec_ahl g = some g') (hi : io_inv g) :
    io_inv g' := by
  unfold dec_ahl at h
  split at h
  · exact absurd h (by simp)
  · rename_i v1 g1 h1
    have i1 : io_inv g1 := inv_read_cycle _ _ _ _ h1 hi
    exact inv_write_cycle _ _ _ _ h i1

theorem INC_RR_inv (rr : Reg16) (g g' : GameBoy) (h : INC_RR rr g = some g') (hi : io_inv g) :
    io_inv g' := by
  unfold INC_RR at h
  rw [← Option.some.inj h]
  refine inv_cycle _ ?_
  exact inv_same g _ (set16_if_ _ _ _) (set16_ie _ _ _) hi

theorem DEC_RR_inv (rr : Reg16) (g g' : GameBoy) (h : DEC_RR rr g = some g') (hi : io_inv g) :
    io_inv g' := by
  unfold DEC_RR at h
  rw [← Option.some.inj h]
  refine inv_cycle _ ?_
  exact inv_same g _ (set16_if_ _ _ _) (set16_ie _ _ _) hi

theorem ADD_HL_RR_inv (rr : Reg16) (g g' : GameBoy) (h : ADD_HL_RR rr g = some g')
    (hi : io_inv g) : io_inv g' := by
  unfold ADD_HL_RR at h
  rw [← Option.some.inj h]
  exact inv_cycle _ hi

theorem add_sp_e_inv (g g' : GameBoy) (h : add_sp_e g = some g') (hi : io_inv g) :
    io_inv g' := by
  unfold add_sp_e at h
  split at h
  · exact absurd h (by simp)
  · rename_i v1 g1 h1
    have i1 : io_inv g1 := inv_read_imm_cycle _ _ _ h1 hi
    rw [← Option.some.inj h]
    exact inv_cycle _ (inv_cycle _ i1)

theorem jp_nn_inv (g g' : GameBoy) (h : jp_nn g = some g') (hi : io_inv g) :
    io_inv g' := by
  unfold jp_nn at h
  split at h
  · exact absurd h (by simp)
  · rename_i v1 g1 h1
    have i1 : io_inv g1 := inv_read_imm_cycle16 _ _ _ h1 hi
    rw [← Option.some.inj h]
    exact inv_cycle _ i1

theorem jp_hl_inv (g g' : GameBoy) (h : jp_hl g = some g') (hi : io_inv g) :
    io_inv g' := by
  unfold jp_hl at h
  rw [← Option.some.inj h]
  exact hi

theorem JP_CC_NN_inv (cc : Cond) (g g' : GameBoy) (h : JP_CC_NN cc g = some g') (hi : io_inv g) :
    io_inv g' := by
  unfold JP_CC_NN at h
  split at h
  · exact absurd h (by simp)
  · rename_i v1 g1 h1
    have i1 : io_inv g1 := inv_read_imm_cycle16 _ _ _ h1 hi
    split at h
    · rw [← Option.some.inj h]
      exact inv_cycle _ i1
    · rw [← Option.some.inj h]
      exact i1

theorem jr_e_inv (g g' : GameBoy) (h : jr_e g = some g') (hi : io_inv g) :
    io_inv g' := by
  unfold jr_e at h
  split at h
  · exact absurd h (by simp)
  · rename_i v1 g1 h1
    have i1 : io_inv g1 := inv_read_imm_cycle _ _ _ h1 hi
    rw [← Option.some.inj h]
    exact inv_cycle _ i1

theorem JR_CC_E_inv (cc : Cond) (g g' : GameBoy) (h : JR_CC_E cc g = some g') (hi : io_inv g) :
    io_inv g' := by
  unfold JR_CC_E at h
  split at h
  · exact absurd h (by simp)
  · rename_i v1 g1 h1
    have i1 : io_inv g1 := inv_read_imm_cycle _ _ _ h1 hi
    split at h
    · rw [← Option.some.inj h]
      exact inv_cycle _ i1
    · rw [← Option.some.inj h]
      exact i1

theorem call_nn_inv (g g' : GameBoy) (h : call_nn g = some g') (hi : io_inv g) :
    io_inv g' := by
  unfold call_nn at h
  split at h
  · exact absurd h (by simp)
  · rename_i v1 g1 h1
    have i1 : io_inv g1 := inv_read_imm_cycle16 _ _ _ h1 hi
    split at h
    · exact absurd h (by simp)
    · rename_i g2 h2
      have i2 : io_inv g2 := inv_push_cycle16 _ _ _ h2 i1
      rw [← Option.some.inj h]
      exact i2

theorem CALL_CC_NN_inv (cc : Cond) (g g' : GameBoy) (h : CALL_CC_NN cc g = some g')
    (hi : io_inv g) : io_inv g' := by
  unfold CALL_CC_NN at h
  split at h
  · exact absurd h (by simp)
  · rename_i v1 g1 h1
    have i1 : io_inv g1 := inv_read_imm_cycle16 _ _ _ h1 hi
    split at h
    · split at h
      · exact absurd h (by simp)
      · rename_i g2 h2
        have i2 : io_inv g2 := inv_push_cycle16 _ _ _ h2 i1
        rw [← Option.some.inj h]
        exact i2
    · rw [← Option.some.inj h]
      exact i1

theorem ret_inv (g g' : GameBoy) (h : ret g = some g') (hi : io_inv g) :
    io_inv g' := by
  unfold ret at h
  split at h
  · exact absurd h (by simp)
  · rename_i v1 g1 h1
    have i1 : io_inv g1 := inv_pop_cycle16 _ _ _ h1 hi
    rw [← Option.some.inj h]
    exact inv_cycle _ i1

theorem reti_inv (g g' : GameBoy) (h : reti g = some g') (hi : io_inv g) :
    io_inv g' := by
  unfold reti at h
  split at h
  · exact absurd h (by simp)
  · rename_i v1 g1 h1
    have i1 : io_inv g1 := inv_pop_cycle16 _ _ _ h1 hi
    rw [← Option.some.inj h]
    exact inv_cycle _ i1

theorem RST_N_inv (N : Nat) (g g' : GameBoy) (h : RST_N N g = some g') (hi : io_inv g) :
    io_inv g' := by
  unfold RST_N at h
  split at h
  · exact absurd h (by simp)
  · rename_i g1 h1
    have i1 : io_inv g1 := inv_push_cycle16 _ _ _ h1 hi
    rw [← Option.some.inj h]
    exact i1

theorem BIT_B_R_inv (B : Nat) (r : Reg8) (g g' : GameBoy) (h : BIT_B_R B r g = some g')
    (hi : io_inv g) : io_inv g' := by
  unfold BIT_B_R at h
  rw [← Option.some.inj h]
  exact hi

theorem BIT_B_HL_inv (B : Nat) (g g' : GameBoy) (h : BIT_B_HL B g = some g') (hi : io_inv g) :
    io_inv g' := by
  unfold BIT_B_HL at h
  split at h
  · exact absurd h (by simp)
  · rename_i v1 g1 h1
    have i1 : io_inv g1 := inv_read_cycle _ _ _ _ h1 hi
    rw [← Option.some.inj h]
    exact i1

theorem RES_B_R_inv (B : Nat) (r : Reg8) (g g' : GameBoy) (h : RES_B_R B r g = some g')
    (hi : io_inv g) : io_inv g' := by
  unfold RES_B_R at h
  rw [← Option.some.inj h]
  exact inv_same g _ (set8_if_ _ _ _) (set8_ie _ _ _) hi

theorem RES_B_HL_inv (B : Nat) (g g' : GameBoy) (h : RES_B_HL B g = some g') (hi : io_inv g) :
    io_inv g' := by
  unfold RES_B_HL at h
  split at h
  · exact absurd h (by simp)
  · rename_i v1 g1 h1
    have i1 : io_inv g1 := inv_read_cycle _ _ _ _ h1 hi
    exact inv_write_cycle _ _ _ _ h i1

theorem SET_B_R_inv (B : Nat) (r : Reg8) (g g' : GameBoy) (h : SET_B_R B r g = some g')
    (hi : io_inv g) : io_inv g' := by
  unfold SET_B_R at h
  rw [← Option.some.inj h]
  exact inv_same g _ (set8_if_ _ _ _) (set8_ie _ _ _) hi

theorem SET_B_HL_inv (B : Nat) (g g' : GameBoy) (h : SET_B_HL B g = some g') (hi : io_inv g) :
    io_inv g' := by
  unfold SET_B_HL at h
  split at h
  · exact absurd h (by simp)
  · rename_i v1 g1 h1
    have i1 : io_inv g1 := inv_read_cycle _ _ _ _ h1 hi
    exact inv_write_cycle _ _ _ _ h i1

theorem CB_REG_OP_inv (op : CbOp) (r : Reg8) (g g' : GameBoy) (h : CB_REG_OP op r g = some g')
    (hi : io_inv g) : io_inv g' := by
  have e : CB_REG_OP op r g =
      some ((op.fn g (g.get8 r)).2.set8 r (op.fn g (g.get8 r)).1) := rfl
  rw [e] at h
  rw [← Option.some.inj h]
  have i1 : io_inv (op.fn g (g.get8 r)).2 := inv_same g _ (cb_fn_if_ _ _ _) (cb_fn_ie _ _ _) hi
  exact inv_same _ _ (set8_if_ _ _ _) (set8_ie _ _ _) i1

theorem CB_HL_OP_inv (op : CbOp) (g g' : GameBoy) (h : CB_HL_OP op g = some g') (hi : io_inv g) :
    io_inv g' := by
  unfold CB_HL_OP at h
  split at h
  · exact absurd h (by simp)
  · rename_i d g1 h1
    have i1 : io_inv g1 := inv_read_cycle _ _ _ _ h1 hi
    have i2 : io_inv (op.fn g1 d).2 := inv_same g1 _ (cb_fn_if_ _ _ _) (cb_fn_ie _ _ _) i1
    exact inv_write_cycle _ _ _ _ h i2

theorem RET_CC_inv (cc : Cond) (g g' : GameBoy) (h : RET_CC cc g = some g') (hi : io_inv g) :
    io_inv g' := by
  unfold RET_CC at h
  lift_lets at h
  extract_lets g0 at h
  have i0 : io_inv g0 := inv_cycle g hi
  split at h
  · split at h
    · exact absurd h (by simp)
    · rename_i v g1 h1
      have i1 : io_inv g1 := inv_pop_cycle16 _ _ _ h1 i0
      rw [← Option.some.inj h]
      exact inv_cycle _ i1
  · rw [← Option.some.inj h]
    exact i0

theorem cb_exec_inv (i : CbInstr) (g g' : GameBoy) (h : i.exec g = some g') (hi : io_inv g) :
    io_inv g' := by
  cases i with
  | CB_REG_OP op r => exact CB_REG_OP_inv op r g g' h hi
  | CB_HL_OP op => exact CB_HL_OP_inv op g g' h hi
  | BIT_B_R B r => exact BIT_B_R_inv B r g g' h hi
  | BIT_B_HL B => exact BIT_B_HL_inv B g g' h hi
  | RES_B_R B r => exact RES_B_R_inv B r g g' h hi
  | RES_B_HL B => exact RES_B_HL_inv B g g' h hi
  | SET_B_R B r => exact SET_B_R_inv B r g g' h hi
  | SET_B_HL B => exact SET_B_HL_inv B g g' h hi

theorem op_cb_inv (g g' : GameBoy) (h : op_cb g = some g') (hi : io_inv g) : io_inv g' := by
  unfold op_cb at h
  split at h
  · exact absurd h (by simp)
  · rename_i v1 g1 h1
    have i1 : io_inv g1 := inv_read_imm_cycle _ _ _ h1 hi
    split at h
    · rename_i func hf
      exact cb_exec_inv func g1 g' h i1
    · exact absurd h (by simp)

theorem exec_inv (i : Instr) (g g' : GameBoy) (h : i.exec g = some g') (hi : io_inv g) :
    io_inv g' := by
  cases i with
  | nop => exact nop_inv g g' h hi
  | stop => exact absurd (show (none : Option GameBoy) = some g' from h) (by simp)
  | halt => exact absurd (show (none : Option GameBoy) = some g' from h) (by simp)
  | daa => exact daa_inv g g' h hi
  | cpl => exact cpl_inv g g' h hi
  | scf => exact scf_inv g g' h hi
  | ccf => exact ccf_inv g g' h hi
  | rlca => exact rlca_inv g g' h hi
  | rrca => exact rrca_inv g g' h hi
  | rla => exact rla_inv g g' h hi
  | rra => exact rra_inv g g' h hi
  | di => exact di_inv g g' h hi
  | ei => exact ei_inv g g' h hi
  | op_cb => exact op_cb_inv g g' h hi
  | op_ill => exact absurd (show (none : Option GameBoy) = some g' from h) (by simp)
  | LD_R_R r1 r2 => exact LD_R_R_inv r1 r2 g g' h hi
  | LD_R_N r => exact LD_R_N_inv r g g' h hi
  | LD_R_HL r => exact LD_R_HL_inv r g g' h hi
  | LD_HL_R r => exact LD_HL_R_inv r g g' h hi
  | ld_hl_n => exact ld_hl_n_inv g g' h hi
  | ld_a_bc => exact ld_a_bc_inv g g' h hi
  | ld_a_de => exact ld_a_de_inv g g' h hi
  | ld_bc_a => exact ld_bc_a_inv g g' h hi
  | ld_de_a => exact ld_de_a_inv g g' h hi
  | ld_a_nn => exact ld_a_nn_inv g g' h hi
  | ld_nn_a => exact ld_nn_a_inv g g' h hi
  | ldh_a_c => exact ldh_a_c_inv g g' h hi
  | ldh_c_a => exact ldh_c_a_inv g g' h hi
  | ldh_a_n => exact ldh_a_n_inv g g' h hi
  | ldh_n_a => exact ldh_n_a_inv g g' h hi
  | ld_a_hld => exact ld_a_hld_inv g g' h hi
  | ld_hld_a => exact ld_hld_a_inv g g' h hi
  | ld_a_hli => exact ld_a_hli_inv g g' h hi
  | ld_hli_a => exact ld_hli_a_inv g g' h hi
  | LD_RR_NN rr => exact LD_RR_NN_inv rr g g' h hi
  | ld_nn_sp => exact ld_nn_sp_inv g g' h hi
  | ld_sp_hl => exact ld_sp_hl_inv g g' h hi
  | PUSH_RR rr => exact PUSH_RR_inv rr g g' h hi
  | push_af => exact push_af_inv g g' h hi
  | POP_RR rr => exact POP_RR_inv rr g g' h hi
  | pop_af => exact pop_af_inv g g' h hi
  | ld_hl_sp_e => exact ld_hl_sp_e_inv g g' h hi
  | ALU_REG_OP op r => exact ALU_REG_OP_inv op r g g' h hi
  | ALU_HL_OP op => exact ALU_HL_OP_inv op g g' h hi
  | ALU_IMM_OP op => exact ALU_IMM_OP_inv op g g' h hi
  | INC_R r => exact INC_R_inv r g g' h hi
  | inc_ahl => exact inc_ahl_inv g g' h hi
  | DEC_R r => exact DEC_R_inv r g g' h hi
  | dec_ahl => exact dec_ahl_inv g g' h hi
  | INC_RR rr => exact INC_RR_inv rr g g' h hi
  | DEC_RR rr => exact DEC_RR_inv rr g g' h hi
  | ADD_HL_RR rr => exact ADD_HL_RR_inv rr g g' h hi
  | add_sp_e => exact add_sp_e_inv g g' h hi
  | jp_nn => exact jp_nn_inv g g' h hi
  | jp_hl => exact jp_hl_inv g g' h hi
  | JP_CC_NN cc => exact JP_CC_NN_inv cc g g' h hi
  | jr_e => exact jr_e_inv g g' h hi
  | JR_CC_E cc => exact JR_CC_E_inv cc g g' h hi
  | call_nn => exact call_nn_inv g g' h hi
  | CALL_CC_NN cc => exact CALL_CC_NN_inv cc g g' h hi
  | ret => exact ret_inv g g' h hi
  | RET_CC cc => exact RET_CC_inv cc g g' h hi
  | reti => exact reti_inv g g' h hi
  | RST_N N => exact RST_N_inv N g g' h hi

theorem clear_bit_le (x B : Nat) (h : x ≤ 0x1F) : clear_bit x B ≤ 0x1F :=
  Nat.le_trans Nat.and_le_left h

theorem run_opcode_inv (g g' : GameBoy) (h : run_opcode g = some g') (hi : io_inv g) :
    io_inv g' := by
  unfold run_opcode at h
  by_cases hc : g.ime = true ∧ g.ie &&& g.if_ ≠ 0
  · rw [if_pos hc] at h
    lift_lets at h
    extract_lets g1 g2 at h
    have i2 : io_inv g2 := inv_cycle _ hi
    split at h
    · exact absurd h (by simp)
    · rename_i g3 h3
      have i3 : io_inv g3 := inv_push_cycle16 _ _ _ h3 i2
      rw [← Option.some.inj h]
      refine inv_cycle _ ?_
      repeat' split
      all_goals first
        | exact i3
        | exact ⟨clear_bit_le _ _ i3.1, i3.2⟩
  · rw [if_neg hc] at h
    split at h
    · exact absurd h (by simp)
    · rename_i v1 g1 h1
      have i1 : io_inv g1 := inv_read_imm_cycle _ _ _ h1 hi
      split at h
      · rename_i func hf
        exact exec_inv func g1 g' h i1
      · exact absurd h (by simp)

theorem make_gb_inv (rom : Nat → Nat) (size : Nat) (gb : GameBoy)
    (h : make_gb rom size = some (some gb)) : io_inv gb := by
  simp only [make_gb] at h
  split_ifs at h <;> simp only [Option.some.injEq, reduceCtorEq] at h
  subst h
  exact ⟨Nat.zero_le _, Nat.zero_le _⟩

theorem reachable_inv (g : GameBoy) (h : Reachable g) : io_inv g := by
  induction h with
  | fresh rom size gb hm => exact make_gb_inv rom size gb hm
  | bus_write g g' a x _ hw ih => exact inv_write g g' a x hw ih
  | lcd_step g _ ih => exact inv_lcd_cycle g ih
  | opcode_step g g' _ hr ih => exact run_opcode_inv g g' hr ih

/-- C27: for every `x`, after `Write(0xFF0F, x)` `Read(0xFF0F)` returns
`x AND 0x1F` and after `Write(0xFFFF, x)` `Read(0xFFFF)` returns
`x AND 0x1F`; and in every state reachable from a freshly constructed machine
by bus writes, LCD steps and `run_opcode` steps, `IF` and `IE` lie in
`[0, 0x1F]`. -/
theorem if_ie_masked (gb : GameBoy) (x : Nat) :
    (∃ g, write gb 0xFF0F x = some g ∧ read g 0xFF0F = some (x &&& 0x1F)) ∧
    (∃ g, write gb 0xFFFF x = some g ∧ read g 0xFFFF = some (x &&& 0x1F)) ∧
    (∀ g, Reachable g → g.if_ ≤ 0x1F ∧ g.ie ≤ 0x1F) :=
  ⟨⟨_, rfl, rfl⟩, ⟨_, rfl, rfl⟩, fun g h => reachable_inv g h⟩

/-- C27 at the bring-up machine after its first instruction and one LCD
step, and at a write of `0xFF` to `IF` and to `IE`. -/
theorem if_ie_masked_witness :
    ∃ g0 g1, make_gb bringup_rom 0x8000 = some (some g0) ∧
      run_opcode g0 = some g1 ∧ (lcd_cycle g1).if_ ≤ 0x1F ∧ (lcd_cycle g1).ie ≤ 0x1F ∧
      (∃ g, write g1 0xFF0F 0xFF = some g ∧ read g 0xFF0F = some (0xFF &&& 0x1F)) ∧
      (∃ g, write g1 0xFFFF 0xFF = some g ∧ read g 0xFFFF = some (0xFF &&& 0x1F)) := by
  obtain ⟨g0, h0, hinv⟩ := make_gb_bringup
  have h1 := bringup_nop 0 g0 hinv
  have hr : Reachable (lcd_cycle (cycle { g0 with pc := 0x101 })) :=
    Reachable.lcd_step _ (Reachable.opcode_step g0 _ (Reachable.fresh _ _ g0 h0) h1)
  have k := if_ie_masked (cycle { g0 with pc := 0x101 }) 0xFF
  exact ⟨g0, _, h0, h1, (k.2.2 _ hr).1, (k.2.2 _ hr).2, k.1, k.2.1⟩

/-! ### Fatal accesses to the I/O page -/

theorem io_read_isNone (gb : GameBoy) (o : Nat) (ho : o < 0x80) :
    (read gb (0xFF00 + o)).isNone = decide (¬ known_io o) := by
  interval_cases o <;> rfl

theorem io_write_isNone (gb : GameBoy) (b o : Nat) (ho : o < 0x80) :
    (write gb (0xFF00 + o) b).isNone = decide (¬ known_io o ∧ o ≠ 0x7F) := by
  interval_cases o <;> rfl

theorem io_audio (gb : GameBoy) (b o : Nat) (h1 : 0x10 ≤ o) (h2 : o ≤ 0x3F) :
    read gb (0xFF00 + o) = some 0 ∧ write gb (0xFF00 + o) b = some gb := by
  interval_cases o <;> exact ⟨rfl, rfl⟩

/-- C31: for every offset `o` in `0..0x7F`, `Read(0xFF00 + o)` exits if and
only if `o` is outside the known set, and `Write(0xFF00 + o, b)` exits if and
only if `o` is outside that set and is not `0x7F`; offsets `0x10..0x3F` read
as 0 and a write to them returns the state unchanged; P1 (`0x00`) reads
`0xFF`; writes to P1, LY (`0x44`) and `0x7F` return the state unchanged. -/
theorem io_fatals (gb : GameBoy) (b o : Nat) (ho : o < 0x80) :
    (read gb (0xFF00 + o) = none ↔ ¬ known_io o) ∧
    (write gb (0xFF00 + o) b = none ↔ ¬ known_io o ∧ o ≠ 0x7F) ∧
    (0x10 ≤ o ∧ o ≤ 0x3F →
      read gb (0xFF00 + o) = some 0 ∧ write gb (0xFF00 + o) b = some gb) ∧
    read gb 0xFF00 = some 0xFF ∧
    write gb 0xFF00 b = some gb ∧ write gb 0xFF44 b = some gb ∧
    write gb 0xFF7F b = some gb := by
  refine ⟨?_, ?_, fun h => io_audio gb b o h.1 h.2, rfl, rfl, rfl, rfl⟩
  · rw [← Option.isNone_iff_eq_none, io_read_isNone gb o ho, decide_eq_true_eq]
  · rw [← Option.isNone_iff_eq_none, io_write_isNone gb b o ho, decide_eq_true_eq]

/-- C31 at the unimplemented offset `0x03`, at the audio offset `0x26` and at
`0x7F`, which exits on a read and not on a write. -/
theorem io_fatals_witness :
    read zeroed (0xFF00 + 0x03) = none ∧ write zeroed (0xFF00 + 0x03) 0xAB = none ∧
    read zeroed (0xFF00 + 0x26) = some 0 ∧ write zeroed (0xFF00 + 0x26) 0xAB = some zeroed ∧
    read zeroed (0xFF00 + 0x7F) = none ∧ write zeroed (0xFF00 + 0x7F) 0xAB ≠ none :=
  ⟨(io_fatals zeroed 0xAB 0x03 (by decide)).1.2 (by decide),
    (io_fatals zeroed 0xAB 0x03 (by decide)).2.1.2 (by decide),
    ((io_fatals zeroed 0xAB 0x26 (by decide)).2.2.1 (by decide)).1,
    ((io_fatals zeroed 0xAB 0x26 (by decide)).2.2.1 (by decide)).2,
    (io_fatals zeroed 0xAB 0x7F (by decide)).1.2 (by decide),
    fun h => ((io_fatals zeroed 0xAB 0x7F (by decide)).2.1.1 h).2 rfl⟩

/-! ### Fatal opcodes -/

set_option maxRecDepth 100000 in
theorem fatal_opcodes : ∀ n, n < 256 →
    ((op_ptrs[n]?).map Instr.fatal = some true ↔
      n ∈ [0xD3, 0xDB, 0xDD, 0xE3, 0xE4, 0xEB, 0xEC, 0xED, 0xF4, 0xFC, 0xFD, 0x76, 0x10]) := by
  decide

theorem make_gb_s6 : make_gb s6_rom 0x8000 = some (some s6_state) := rfl

theorem rom_read (g : GameBoy) (rom : Nat → Nat) (a : Nat) (h : g.rom_lo = some rom)
    (ha : a < 0x4000) : read g a = some (rom a) := by
  have hb : ¬ (a / 0x4000 % 2 = 1) := by omega
  rw [read_rom g a (by omega), if_neg hb, h, Nat.mod_eq_of_lt ha]

theorem rom_fetch (g : GameBoy) (rom : Nat → Nat) (p : Nat) (h : g.rom_lo = some rom)
    (hp : g.pc = p) (hlt : p + 1 < 0x4000) :
    read_imm_cycle g = some (rom p, cycle { g with pc := p + 1 }) := by
  unfold read_imm_cycle
  rw [read_cycle_eq, read_set_pc, hp, rom_read g rom p h (by omega),
    Nat.mod_eq_of_lt (show p + 1 < 65536 by omega)]
  rfl

theorem rom_fetch16 (g : GameBoy) (rom : Nat → Nat) (p : Nat) (h : g.rom_lo = some rom)
    (hp : g.pc = p) (hlt : p + 2 < 0x4000) :
    read_imm_cycle16 g =
      some (((rom (p + 1) <<< 8) + rom p) % 65536,
        cycle { cycle { g with pc := p + 1 } with pc := p + 1 + 1 }) := by
  unfold read_imm_cycle16
  rw [rom_fetch g rom p h hp (by omega)]
  simp only []
  rw [rom_fetch (cycle { g with pc := p + 1 }) rom (p + 1) (by rw [cycle_rom_lo]; exact h)
    (by rw [cycle_pc]) (by omega)]

theorem rom_run_opcode (g : GameBoy) (rom : Nat → Nat) (p : Nat) (instr : Instr)
    (hime : g.ime = false) (h : g.rom_lo = some rom) (hp : g.pc = p) (hlt : p + 1 < 0x4000)
    (hop : op_ptrs[rom p]? = some instr) :
    run_opcode g = instr.exec (cycle { g with pc := p + 1 }) := by
  have hint : ¬ (g.ime = true ∧ g.ie &&& g.if_ ≠ 0) := by
    rw [hime]
    exact fun k => absurd k.1 (by decide)
  have hf : read g g.pc = some (rom p) := by
    rw [hp]; exact rom_read g rom p h (by omega)
  rw [run_opcode_fetch g _ instr hint hf hop, hp,
    Nat.mod_eq_of_lt (show p + 1 < 65536 by omega)]

set_option maxRecDepth 8192 in
theorem s6_opcodes :
    op_ptrs[0x31]? = some (Instr.LD_RR_NN Reg16.sp) ∧
    op_ptrs[0xE1]? = some (Instr.POP_RR Reg16.hl) :=
  ⟨rfl, rfl⟩

theorem pop_cycle16_frame (g : GameBoy) (lo hi : Nat)
    (hlo : read g g.sp = some lo)
    (hram : is_ram ((g.sp + 1) % 65536) ∨ (g.sp + 1) % 65536 < 0x8000)
    (hhi : read g ((g.sp + 1) % 65536) = some hi) :
    ∃ g2, pop_cycle16 g = some (((hi <<< 8) + lo) % 65536, g2) ∧
      g2.sp = ((g.sp + 1) % 65536 + 1) % 65536 ∧ g2.pc = g.pc ∧ g2.ime = g.ime ∧
      g2.rom_lo = g.rom_lo := by
  unfold pop_cycle16 read_cycle
  rw [read_set_sp, hlo]
  simp only [cycle_sp]
  rw [read_set_sp, read_cycle_mem _ _ hram, read_set_sp, hhi]
  exact ⟨_, rfl, by simp only [cycle_sp], by simp only [cycle_pc], by simp only [cycle_ime],
    by simp only [cycle_rom_lo]⟩

theorem push_cycle16_rom_lo (gb g1 : GameBoy) (v : Nat)
    (h1 : non_io (u16 ((gb.sp : Int) - 1))) (h2 : non_io (u16 ((gb.sp : Int) - 2)))
    (h : push_cycle16 gb v = some g1) : g1.rom_lo = gb.rom_lo := by
  have ea : u16 ((u16 ((gb.sp : Int) - 1) : Int) - 1) = u16 ((gb.sp : Int) - 2) := by
    unfold u16; omega
  have h2' : non_io (u16 ((u16 ((gb.sp : Int) - 1) : Int) - 1)) := by rw [ea]; exact h2
  rw [push_cycle16_eq gb v h1 h2'] at h
  rw [← Option.some.inj h]
  simp only [cycle_rom_lo, ram_store_rom_lo]

/-- `LD SP,0xFFFE` at `0x0100` of `s6_rom`. -/
theorem s6_step1 (g : GameBoy) (hime : g.ime = false) (hrom : g.rom_lo = some s6_rom)
    (hpc : g.pc = 0x0100) :
    ∃ g1, run_opcode g = some g1 ∧ g1.ime = false ∧ g1.rom_lo = some s6_rom ∧
      g1.pc = 0x0103 ∧ g1.sp = 0xFFFE := by
  have e := rom_run_opcode g s6_rom 0x0100 _ hime hrom hpc (by decide) s6_opcodes.1
  obtain ⟨X, hX⟩ : ∃ X, X = cycle { g with pc := 0x0100 + 1 } := ⟨_, rfl⟩
  rw [← hX] at e
  have xrom : X.rom_lo = some s6_rom := by rw [hX, cycle_rom_lo]; exact hrom
  have xpc : X.pc = 0x0101 := by rw [hX, cycle_pc]
  have xime : X.ime = false := by rw [hX, cycle_ime]; exact hime
  have f := rom_fetch16 X s6_rom 0x0101 xrom xpc (by decide)
  have e2 : run_opcode g = LD_RR_NN Reg16.sp X := e
  unfold LD_RR_NN at e2
  rw [f] at e2
  refine ⟨_, e2, ?_, ?_, ?_, ?_⟩
  · show (cycle { cycle { X with pc := 0x0101 + 1 } with pc := 0x0101 + 1 + 1 }).ime = false
    rw [cycle_ime]
    show (cycle { X with pc := 0x0101 + 1 }).ime = false
    rw [cycle_ime]
    exact xime
  · show (cycle { cycle { X with pc := 0x0101 + 1 } with pc := 0x0101 + 1 + 1 }).rom_lo = _
    rw [cycle_rom_lo]
    show (cycle { X with pc := 0x0101 + 1 }).rom_lo = _
    rw [cycle_rom_lo]
    exact xrom
  · show (cycle { cycle { X with pc := 0x0101 + 1 } with pc := 0x0101 + 1 + 1 }).pc = _
    rw [cycle_pc]
  · rfl

/-- `CALL 0x0200` at `0x0103` of `s6_rom`, with the stack at `0xFFFE`. -/
theorem s6_step2 (g : GameBoy) (hime : g.ime = false) (hrom : g.rom_lo = some s6_rom)
    (hpc : g.pc = 0x0103) (hsp : g.sp = 0xFFFE) :
    ∃ g2, run_opcode g = some g2 ∧ g2.ime = false ∧ g2.rom_lo = some s6_rom ∧
      g2.pc = 0x0200 ∧ g2.sp = 0xFFFC ∧ g2.hram 0x7C = 0x06 ∧ g2.hram 0x7D = 0x01 := by
  have e := rom_run_opcode g s6_rom 0x0103 _ hime hrom hpc (by decide) control_opcodes.2.2.2.1
  obtain ⟨X, hX⟩ : ∃ X, X = cycle { g with pc := 0x0103 + 1 } := ⟨_, rfl⟩
  rw [← hX] at e
  have xrom : X.rom_lo = some s6_rom := by rw [hX, cycle_rom_lo]; exact hrom
  have xpc : X.pc = 0x0104 := by rw [hX, cycle_pc]
  have xime : X.ime = false := by rw [hX, cycle_ime]; exact hime
  have xsp : X.sp = 0xFFFE := by rw [hX, cycle_sp]; exact hsp
  have f := rom_fetch16 X s6_rom 0x0104 xrom xpc (by decide)
  obtain ⟨Y, hY⟩ : ∃ Y, Y = cycle { cycle { X with pc := 0x0104 + 1 } with pc := 0x0104 + 1 + 1 } :=
    ⟨_, rfl⟩
  rw [← hY] at f
  have yrom : Y.rom_lo = some s6_rom := by
    rw [hY, cycle_rom_lo]
    show (cycle { X with pc := 0x0104 + 1 }).rom_lo = _
    rw [cycle_rom_lo]
    exact xrom
  have ypc : Y.pc = 0x0106 := by rw [hY, cycle_pc]
  have yime : Y.ime = false := by
    rw [hY, cycle_ime]
    show (cycle { X with pc := 0x0104 + 1 }).ime = _
    rw [cycle_ime]
    exact xime
  have ysp : Y.sp = 0xFFFE := by
    rw [hY, cycle_sp]
    show (cycle { X with pc := 0x0104 + 1 }).sp = _
    rw [cycle_sp]
    exact xsp
  have n1 : non_io (u16 ((Y.sp : Int) - 1)) := by rw [ysp]; decide
  have n2 : non_io (u16 ((Y.sp : Int) - 2)) := by rw [ysp]; decide
  obtain ⟨Z, hp, zsp, _, _, _, zh, _, zime, _, _, _, _, _⟩ := push_cycle16_spec Y Y.pc n1 n2
  have zrom := push_cycle16_rom_lo Y Z Y.pc n1 n2 hp
  have e2 : run_opcode g = call_nn X := e
  unfold call_nn at e2
  rw [f] at e2
  simp only [] at e2
  rw [hp] at e2
  simp only [] at e2
  rw [ysp, ypc] at zh
  rw [ysp] at zsp
  refine ⟨_, e2, zime.trans yime, zrom.trans yrom, rfl, zsp, ?_, ?_⟩
  · show Z.hram 0x7C = 0x06
    rw [zh]
    rfl
  · show Z.hram 0x7D = 0x01
    rw [zh]
    rfl

/-- `POP HL` at `0x0200` of `s6_rom`, with the two bytes of the return
address on the stack at `0xFFFC`. -/
theorem s6_step3 (g : GameBoy) (hime : g.ime = false) (hrom : g.rom_lo = some s6_rom)
    (hpc : g.pc = 0x0200) (hsp : g.sp = 0xFFFC) (hlo : g.hram 0x7C = 0x06)
    (hhi : g.hram 0x7D = 0x01) :
    ∃ g3, run_opcode g = some g3 ∧ g3.hl = 0x0106 ∧ g3.sp = 0xFFFE ∧ g3.pc = 0x0201 := by
  have e := rom_run_opcode g s6_rom 0x0200 _ hime hrom hpc (by decide) s6_opcodes.2
  obtain ⟨X, hX⟩ : ∃ X, X = cycle { g with pc := 0x0200 + 1 } := ⟨_, rfl⟩
  rw [← hX] at e
  have xpc : X.pc = 0x0201 := by rw [hX, cycle_pc]
  have xsp : X.sp = 0xFFFC := by rw [hX, cycle_sp]; exact hsp
  have xh : X.hram = g.hram := by rw [hX, cycle_hram]
  have r1 : read X X.sp = some 0x06 := by
    rw [xsp, read_hram X 0xFFFC (by decide) (by decide), xh]
    exact congrArg some hlo
  have r2 : read X ((X.sp + 1) % 65536) = some 0x01 := by
    rw [xsp, read_hram X _ (by decide) (by decide), xh]
    exact congrArg some hhi
  obtain ⟨W, hp, wsp, wpc, _, _⟩ :=
    pop_cycle16_frame X 0x06 0x01 r1 (by rw [xsp]; exact Or.inl (by decide)) r2
  have hv : ((0x01 <<< 8) + 0x06) % 65536 = 0x0106 := by decide
  rw [hv] at hp
  have e2 : run_opcode g = POP_RR Reg16.hl X := e
  unfold POP_RR at e2
  rw [hp] at e2
  refine ⟨_, e2, ?_, ?_, ?_⟩
  · show 0x0106 / 256 % 256 * 256 + 0x0106 % 256 = 0x0106
    decide
  · show W.sp = 0xFFFE
    rw [wsp, xsp]
  · show W.pc = 0x0201
    rw [wpc, xpc]

theorem s6_run_fbuf (gb0 : GameBoy) (h : make_gb s6_rom 0x8000 = some (some gb0))
    (pixels : Nat → Nat) :
    ∃ g1 g2 g3, (set_fbuf gb0 pixels).pc = 0x0100 ∧
      run_opcode (set_fbuf gb0 pixels) = some g1 ∧
      run_opcode g1 = some g2 ∧ run_opcode g2 = some g3 ∧
      g1.sp = 0xFFFE ∧ g1.pc = 0x0103 ∧ g2.sp = 0xFFFC ∧ g2.pc = 0x0200 ∧
      g3.hl = 0x0106 ∧ g3.sp = 0xFFFE ∧ g3.pc = 0x0201 := by
  have e : gb0 = s6_state := Option.some.inj (Option.some.inj (h.symm.trans make_gb_s6))
  rw [e]
  obtain ⟨g1, r1, a1, b1, c1, d1⟩ := s6_step1 (set_fbuf s6_state pixels) rfl rfl rfl
  obtain ⟨g2, r2, a2, b2, c2, d2, l2, h2⟩ := s6_step2 g1 a1 b1 c1 d1
  obtain ⟨g3, r3, a3, b3, c3⟩ := s6_step3 g2 a2 b2 c2 d2 l2 h2
  exact ⟨g1, g2, g3, rfl, r1, r2, r3, d1, c1, d2, c2, a3, b3, c3⟩

/-- C33 (amended): on the machine that `make_gb` builds for `s6_rom`
(`LD SP,0xFFFE; CALL 0x0200` at `0x0100`, `POP HL` at `0x0200`), once the
caller has installed its frame buffer (`set_fbuf`, whatever the pixel block
holds), three calls of `run_opcode` return: after the first `SP = 0xFFFE` and
`PC = 0x0103`, after the second `SP = 0xFFFC` and `PC = 0x0200`, and after the
third `HL = 0x0106`, the address after the three-byte `CALL` at `0x0103`,
with `SP` back at `0xFFFE`. -/
theorem s6_call_pop :
    ∃ gb0, make_gb s6_rom 0x8000 = some (some gb0) ∧
      ∀ pixels : Nat → Nat, ∃ g1 g2 g3, (set_fbuf gb0 pixels).pc = 0x0100 ∧
        run_opcode (set_fbuf gb0 pixels) = some g1 ∧
        run_opcode g1 = some g2 ∧ run_opcode g2 = some g3 ∧
        g1.sp = 0xFFFE ∧ g1.pc = 0x0103 ∧ g2.sp = 0xFFFC ∧ g2.pc = 0x0200 ∧
        g3.hl = 0x0106 ∧ g3.sp = 0xFFFE ∧ g3.pc = 0x0201 :=
  ⟨s6_state, make_gb_s6, fun pixels => s6_run_fbuf s6_state make_gb_s6 pixels⟩

/-- C33 (counterexample): on that machine, with the caller's frame buffer
installed, no three calls of `run_opcode` end with `HL = 0x0104`. -/
theorem s6_hl_counterexample :
    ¬ ∃ gb0 pixels g1 g2 g3, make_gb s6_rom 0x8000 = some (some gb0) ∧
      run_opcode (set_fbuf gb0 pixels) = some g1 ∧ run_opcode g1 = some g2 ∧
      run_opcode g2 = some g3 ∧ g3.hl = 0x0104 := by
  rintro ⟨gb0, pixels, g1, g2, g3, h0, h1, h2, h3, hh⟩
  obtain ⟨g1', g2', g3', _, k1, k2, k3, _, _, _, _, kh, _⟩ := s6_run_fbuf gb0 h0 pixels
  have e1 : g1 = g1' := Option.some.inj (h1.symm.trans k1)
  rw [e1] at h2
  have e2 : g2 = g2' := Option.some.inj (h2.symm.trans k2)
  rw [e2] at h3
  have e3 : g3 = g3' := Option.some.inj (h3.symm.trans k3)
  rw [e3, kh] at hh
  exact absurd hh (by decide)

/-! ### The background ignores scrolling, window and palettes -/

theorem lcd_cycle_keeps (g : GameBoy) :
    (lcd_cycle g).vram = g.vram ∧ (lcd_cycle g).bg_map = g.bg_map ∧
    (lcd_cycle g).tile_sel = g.tile_sel ∧ (lcd_cycle g).lcd_en = g.lcd_en := by
  obtain ⟨d, l, e, f, i, h, _⟩ := lcd_cycle_eq g
  rw [h]
  exact ⟨rfl, rfl, rfl, rfl⟩

theorem lcd_cycle_agree (g g' : GameBoy) (h : bg_agree g g') :
    bg_agree (lcd_cycle g) (lcd_cycle g') ∧
    (((lcd_cycle g).ly < 144 ∧ 0 ≤ (lcd_cycle g).dots ∧ (lcd_cycle g).dots < 160) →
      ∃ i c, (lcd_cycle g).fbuf = store g.fbuf i c ∧ (lcd_cycle g').fbuf = store g'.fbuf i c) ∧
    (¬ ((lcd_cycle g).ly < 144 ∧ 0 ≤ (lcd_cycle g).dots ∧ (lcd_cycle g).dots < 160) →
      (lcd_cycle g).fbuf = g.fbuf ∧ (lcd_cycle g').fbuf = g'.fbuf) ∧
    (g.fbuf = g'.fbuf → (lcd_cycle g).fbuf = (lcd_cycle g').fbuf) := by
  obtain ⟨hv, hm, hs, hen, hl, hd⟩ := h
  obtain ⟨k1, k2, k3, k4⟩ := lcd_cycle_keeps g
  obtain ⟨k1', k2', k3', k4'⟩ := lcd_cycle_keeps g'
  obtain ⟨sd, sl, _, _⟩ := lcd_cycle_scalars g
  obtain ⟨sd', sl', _, _⟩ := lcd_cycle_scalars g'
  have ed : (lcd_cycle g).dots = (lcd_cycle g').dots := by rw [sd, sd', hd]
  have el : (lcd_cycle g).ly = (lcd_cycle g').ly := by rw [sl, sl', hd, hl]
  have f := lcd_cycle_fbuf g
  have f' := lcd_cycle_fbuf g'
  rw [← ed, ← el] at f'
  have r := render_pixel_fbuf g (lcd_cycle g).dots.toNat (lcd_cycle g).ly
  have r' := render_pixel_fbuf g' (lcd_cycle g).dots.toNat (lcd_cycle g).ly
  rw [← hv, ← hm, ← hs] at r'
  refine ⟨⟨by rw [k1, k1', hv], by rw [k2, k2', hm], by rw [k3, k3', hs], by rw [k4, k4', hen],
    el, ed⟩, ?_, ?_, ?_⟩
  · intro hw
    have hw' : (lcd_cycle g).ly < 144 ∧ (lcd_cycle g).dots < 160 ∧ (lcd_cycle g).dots ≥ 0 :=
      ⟨hw.1, hw.2.2, hw.2.1⟩
    rw [if_pos hw'] at f f'
    exact ⟨_, _, f.trans r, f'.trans r'⟩
  · intro hw
    have hw' : ¬ ((lcd_cycle g).ly < 144 ∧ (lcd_cycle g).dots < 160 ∧ (lcd_cycle g).dots ≥ 0) :=
      fun k => hw ⟨k.1, k.2.2, k.2.1⟩
    rw [if_neg hw'] at f f'
    exact ⟨f, f'⟩
  · intro hf
    by_cases hw : (lcd_cycle g).ly < 144 ∧ (lcd_cycle g).dots < 160 ∧ (lcd_cycle g).dots ≥ 0
    · rw [if_pos hw] at f f'
      rw [f, f', r, r', hf]
    · rw [if_neg hw] at f f'
      rw [f, f', hf]

theorem lcd_iterate_agree (n : Nat) (g g' : GameBoy) (h : bg_agree g g') (hf : g.fbuf = g'.fbuf) :
    bg_agree (lcd_cycle^[n] g) (lcd_cycle^[n] g') ∧
    (lcd_cycle^[n] g).fbuf = (lcd_cycle^[n] g').fbuf := by
  induction n with
  | zero => exact ⟨h, hf⟩
  | succ k ih =>
    rw [Function.iterate_succ_apply', Function.iterate_succ_apply']
    obtain ⟨a, _, _, d⟩ := lcd_cycle_agree _ _ ih.1
    exact ⟨a, d ih.2⟩

theorem cycle_agree (g g' : GameBoy) (h : bg_agree g g') (hf : g.fbuf = g'.fbuf) :
    (cycle g).fbuf = (cycle g').fbuf := by
  have hen : g.lcd_en = g'.lcd_en := h.2.2.2.1
  cases he : g.lcd_en with
  | false =>
    rw [cycle_lcd_off g he, cycle_lcd_off g' (hen ▸ he)]
    exact hf
  | true =>
    rw [cycle_lcd_on g he, cycle_lcd_on g' (hen ▸ he)]
    have h2 : bg_agree { g with cycles := (g.cycles + 2) % 4294967296 }
        { g' with cycles := (g'.cycles + 2) % 4294967296 } := h
    have hf2 : ({ g with cycles := (g.cycles + 2) % 4294967296 } : GameBoy).fbuf =
        ({ g' with cycles := (g'.cycles + 2) % 4294967296 } : GameBoy).fbuf := hf
    exact (lcd_iterate_agree 4 _ _ h2 hf2).2

/-- C34: for any two states that agree on VRAM, `LCDC.BG_map`,
`LCDC.tile_sel`, LCD enable, `LY` and the dot counter, whatever their `SCX`,
`SCY`, `WX`, `WY`, palettes, `STAT`, `LYC` and other `LCDC` bits, one
`lcd_cycle` step leaves them agreeing on these, and inside the visible window
it stores the same value at the same framebuffer index in both, and outside
it stores nothing in either; so equal framebuffers stay equal over the step,
and over a tick of `cycle`. -/
theorem background_noninterference (g g' : GameBoy)
    (hv : g.vram = g'.vram) (hm : g.bg_map = g'.bg_map) (hs : g.tile_sel = g'.tile_sel)
    (hen : g.lcd_en = g'.lcd_en) (hl : g.ly = g'.ly) (hd : g.dots = g'.dots) :
    (lcd_cycle g).ly = (lcd_cycle g').ly ∧ (lcd_cycle g).dots = (lcd_cycle g').dots ∧
    (lcd_cycle g).vram = (lcd_cycle g').vram ∧
    (((lcd_cycle g).ly < 144 ∧ 0 ≤ (lcd_cycle g).dots ∧ (lcd_cycle g).dots < 160) →
      ∃ i c, (lcd_cycle g).fbuf = store g.fbuf i c ∧ (lcd_cycle g').fbuf = store g'.fbuf i c) ∧
    (¬ ((lcd_cycle g).ly < 144 ∧ 0 ≤ (lcd_cycle g).dots ∧ (lcd_cycle g).dots < 160) →
      (lcd_cycle g).fbuf = g.fbuf ∧ (lcd_cycle g').fbuf = g'.fbuf) ∧
    (g.fbuf = g'.fbuf → (lcd_cycle g).fbuf = (lcd_cycle g').fbuf) ∧
    (g.fbuf = g'.fbuf → (cycle g).fbuf = (cycle g').fbuf) := by
  have h : bg_agree g g' := ⟨hv, hm, hs, hen, hl, hd⟩
  obtain ⟨a, b, c, d⟩ := lcd_cycle_agree g g' h
  exact ⟨a.2.2.2.2.1, a.2.2.2.2.2, a.1, b, c, d, cycle_agree g g' h⟩

/-- C34 at scenario S5's state one dot before pixel `(0, 0)` and the same
state with scrolling, window, palettes, `STAT`, `LYC` and the other `LCDC`
bits changed: both steps store colour 1 at index 0. -/
theorem background_noninterference_witness :
    s5_scrolled.scx ≠ ({ s5_state with ly := 0, dots := -1 } : GameBoy).scx ∧
    (lcd_cycle s5_scrolled).fbuf = (lcd_cycle { s5_state with ly := 0, dots := -1 }).fbuf ∧
    (lcd_cycle s5_scrolled).fbuf 0 = 1 := by
  have h := background_noninterference s5_scrolled { s5_state with ly := 0, dots := -1 }
    rfl rfl rfl rfl rfl rfl
  exact ⟨by decide, h.2.2.2.2.2.1 rfl, by decide⟩

/-! ### Index bounds -/

theorem read_index_cases (a : Nat) :
    (a < 0x8000 ∧ read_index a =
      some (.rom, (if a &&& 0x4000 ≠ 0 then rom_hi_off else rom_lo_off) + (a &&& 0x3FFF))) ∨
    (0x8000 ≤ a ∧ a < 0xA000 ∧ read_index a = some (.vram, a % 0x2000)) ∨
    (0xC000 ≤ a ∧ a < 0xFE00 ∧ read_index a =
      some (.wram, (if a &&& 0x1000 ≠ 0 then wram_hi_off else wram_lo_off) + (a &&& 0x0FFF))) ∨
    (0xFE00 ≤ a ∧ a < 0xFEA0 ∧ read_index a = some (.oam, a &&& 0xFF)) ∨
    (0xFF80 ≤ a ∧ a < 0xFFFF ∧ read_index a = some (.hram, a &&& 0x7F)) ∨
    (((0xA000 ≤ a ∧ a < 0xC000) ∨ (0xFEA0 ≤ a ∧ a < 0xFF80) ∨ 0xFFFF ≤ a) ∧
      read_index a = none) := by
  unfold read_index
  by_cases c1 : a < 0x8000
  · exact Or.inl ⟨c1, by rw [if_pos c1]⟩
  by_cases c2 : a < 0xA000
  · exact Or.inr (Or.inl ⟨by omega, c2, by rw [if_neg c1, if_pos c2]⟩)
  by_cases c3 : a < 0xC000
  · exact Or.inr (Or.inr (Or.inr (Or.inr (Or.inr
      ⟨Or.inl ⟨by omega, c3⟩, by rw [if_neg c1, if_neg c2, if_pos c3]⟩))))
  by_cases c4 : a < 0xFE00
  · exact Or.inr (Or.inr (Or.inl ⟨by omega, c4, by rw [if_neg c1, if_neg c2, if_neg c3, if_pos c4]⟩))
  by_cases c5 : a < 0xFEA0
  · exact Or.inr (Or.inr (Or.inr (Or.inl
      ⟨by omega, c5, by rw [if_neg c1, if_neg c2, if_neg c3, if_neg c4, if_pos c5]⟩)))
  by_cases c6 : a < 0xFF00
  · exact Or.inr (Or.inr (Or.inr (Or.inr (Or.inr
      ⟨Or.inr (Or.inl ⟨by omega, by omega⟩),
        by rw [if_neg c1, if_neg c2, if_neg c3, if_neg c4, if_neg c5, if_pos c6]⟩))))
  by_cases c7 : a < 0xFF80
  · exact Or.inr (Or.inr (Or.inr (Or.inr (Or.inr
      ⟨Or.inr (Or.inl ⟨by omega, c7⟩),
        by rw [if_neg c1, if_neg c2, if_neg c3, if_neg c4, if_neg c5, if_neg c6, if_pos c7]⟩))))
  by_cases c8 : a < 0xFFFF
  · exact Or.inr (Or.inr (Or.inr (Or.inr (Or.inl
      ⟨by omega, c8, by rw [if_neg c1, if_neg c2, if_neg c3, if_neg c4, if_neg c5, if_neg c6,
        if_neg c7, if_pos c8]⟩))))
  · exact Or.inr (Or.inr (Or.inr (Or.inr (Or.inr
      ⟨Or.inr (Or.inr (by omega)),
        by rw [if_neg c1, if_neg c2, if_neg c3, if_neg c4, if_neg c5, if_neg c6, if_neg c7,
          if_neg c8]⟩))))

theorem write_index_cases (a : Nat) :
    (0x8000 ≤ a ∧ a < 0xA000 ∧ write_index a = some (.vram, a % 0x2000)) ∨
    (0xC000 ≤ a ∧ a < 0xFE00 ∧ write_index a =
      some (.wram, (if a &&& 0x1000 ≠ 0 then wram_hi_off else wram_lo_off) + (a &&& 0x0FFF))) ∨
    (0xFE00 ≤ a ∧ a < 0xFEA0 ∧ write_index a = some (.oam, a &&& 0xFF)) ∨
    (0xFF80 ≤ a ∧ a < 0xFFFF ∧ write_index a = some (.hram, a &&& 0x7F)) ∨
    ((a < 0x8000 ∨ (0xA000 ≤ a ∧ a < 0xC000) ∨ (0xFEA0 ≤ a ∧ a < 0xFF80) ∨ 0xFFFF ≤ a) ∧
      write_index a = none) := by
  unfold write_index
  by_cases c1 : a < 0x8000
  · exact Or.inr (Or.inr (Or.inr (Or.inr ⟨Or.inl c1, by rw [if_pos c1]⟩)))
  by_cases c2 : a < 0xA000
  · exact Or.inl ⟨by omega, c2, by rw [if_neg c1, if_pos c2]⟩
  by_cases c3 : a < 0xC000
  · exact Or.inr (Or.inr (Or.inr (Or.inr
      ⟨Or.inr (Or.inl ⟨by omega, c3⟩), by rw [if_neg c1, if_neg c2, if_pos c3]⟩)))
  by_cases c4 : a < 0xFE00
  · exact Or.inr (Or.inl ⟨by omega, c4, by rw [if_neg c1, if_neg c2, if_neg c3, if_pos c4]⟩)
  by_cases c5 : a < 0xFEA0
  · exact Or.inr (Or.inr (Or.inl
      ⟨by omega, c5, by rw [if_neg c1, if_neg c2, if_neg c3, if_neg c4, if_pos c5]⟩))
  by_cases c6 : a < 0xFF00
  · exact Or.inr (Or.inr (Or.inr (Or.inr
      ⟨Or.inr (Or.inr (Or.inl ⟨by omega, by omega⟩)),
        by rw [if_neg c1, if_neg c2, if_neg c3, if_neg c4, if_neg c5, if_pos c6]⟩)))
  by_cases c7 : a < 0xFF80
  · exact Or.inr (Or.inr (Or.inr (Or.inr
      ⟨Or.inr (Or.inr (Or.inl ⟨by omega, c7⟩)),
        by rw [if_neg c1, if_neg c2, if_neg c3, if_neg c4, if_neg c5, if_neg c6, if_pos c7]⟩)))
  by_cases c8 : a < 0xFFFF
  · exact Or.inr (Or.inr (Or.inr (Or.inl
      ⟨by omega, c8, by rw [if_neg c1, if_neg c2, if_neg c3, if_neg c4, if_neg c5, if_neg c6,
        if_neg c7, if_pos c8]⟩)))
  · exact Or.inr (Or.inr (Or.inr (Or.inr
      ⟨Or.inr (Or.inr (Or.inr (by omega))),
        by rw [if_neg c1, if_neg c2, if_neg c3, if_neg c4, if_neg c5, if_neg c6, if_neg c7,
          if_neg c8]⟩)))

theorem rom_index (a : Nat) :
    (if a &&& 0x4000 ≠ 0 then rom_hi_off else rom_lo_off) + (a &&& 0x3FFF) =
      (if a / 0x4000 % 2 = 1 then 0x4000 else 0) + a % 0x4000 := by
  rw [land_0x3FFF]
  by_cases h : a / 0x4000 % 2 = 1
  · rw [if_pos ((land_0x4000 a).mpr h), if_pos h]; rfl
  · rw [if_neg (fun hc => h ((land_0x4000 a).mp hc)), if_neg h]; rfl

theorem read_index_bound (a : Nat) (r : Region) (i : Nat) (h : read_index a = some (r, i)) :
    i < r.size := by
  rcases read_index_cases a with ⟨c, e⟩ | ⟨c, c', e⟩ | ⟨c, c', e⟩ | ⟨c, c', e⟩ | ⟨c, c', e⟩ | ⟨_, e⟩ <;>
    rw [e] at h <;> cases h
  · rw [rom_index]; show _ < 0x8000; split_ifs <;> omega
  · show _ < 0x2000; omega
  · rw [wram_index]; show _ < 0x2000; omega
  · rw [land_0xFF]; show _ < 0xA0; omega
  · rw [land_0x7F]; show _ < 0x7F; omega

theorem write_index_bound (a : Nat) (r : Region) (i : Nat) (h : write_index a = some (r, i)) :
    i < r.size := by
  rcases write_index_cases a with ⟨c, c', e⟩ | ⟨c, c', e⟩ | ⟨c, c', e⟩ | ⟨c, c', e⟩ | ⟨_, e⟩ <;>
    rw [e] at h <;> cases h
  · show _ < 0x2000; omega
  · rw [wram_index]; show _ < 0x2000; omega
  · rw [land_0xFF]; show _ < 0xA0; omega
  · rw [land_0x7F]; show _ < 0x7F; omega

/-- The function `read` returns the byte at `read_index`, for an image installed
as `make_gb` does. -/
theorem read_at_index (gb : GameBoy) (a : Nat) (r : Region) (i : Nat)
    (hrom : gb.rom_hi = gb.rom_lo.map (fun p j => p (0x4000 + j))) (hlo : gb.rom_lo ≠ none)
    (h : read_index a = some (r, i)) : read gb a = r.get gb i := by
  obtain ⟨rom, hr⟩ := Option.ne_none_iff_exists'.mp hlo
  rw [hr] at hrom
  rcases read_index_cases a with ⟨c, e⟩ | ⟨c, c', e⟩ | ⟨c, c', e⟩ | ⟨c, c', e⟩ | ⟨c, c', e⟩ | ⟨_, e⟩ <;>
    rw [e] at h <;> cases h
  · rw [read_rom gb a c, rom_index]
    show _ = gb.rom_lo.map _
    rw [hr]
    by_cases k : a / 0x4000 % 2 = 1
    · rw [if_pos k, if_pos k, hrom]; rfl
    · rw [if_neg k, if_neg k, Nat.zero_add]; rfl
  · exact read_vram gb a c c'
  · rw [wram_index]; exact read_wram gb a c c'
  · rw [land_0xFF]; exact read_oam gb a c c'
  · rw [land_0x7F]; exact read_hram gb a c c'

theorem read_no_index (gb : GameBoy) (a : Nat) (h : read_index a = none) :
    (a < 0xFF00 ∧ read gb a = some 0xFF) ∨ (0xFF00 ≤ a ∧ a < 0xFF80 ∧ read gb a = io_read gb a) ∨
      (0xFFFF ≤ a ∧ read gb a = some gb.ie) := by
  rcases read_index_cases a with ⟨c, e⟩ | ⟨c, c', e⟩ | ⟨c, c', e⟩ | ⟨c, c', e⟩ | ⟨c, c', e⟩ | ⟨c, _⟩
  · rw [e] at h; cases h
  · rw [e] at h; cases h
  · rw [e] at h; cases h
  · rw [e] at h; cases h
  · rw [e] at h; cases h
  · by_cases e1 : a < 0x8000
    · omega
    by_cases e2 : a < 0xA000
    · omega
    by_cases e3 : a < 0xC000
    · exact Or.inl ⟨by omega, by simp only [read, e1, e2, e3, if_true, if_false]⟩
    by_cases e4 : a < 0xFE00
    · omega
    by_cases e5 : a < 0xFEA0
    · omega
    by_cases e6 : a < 0xFF00
    · exact Or.inl ⟨e6, by simp only [read, e1, e2, e3, e4, e5, e6, if_true, if_false]⟩
    by_cases e7 : a < 0xFF80
    · exact Or.inr (Or.inl ⟨by omega, e7, by
        simp only [read, e1, e2, e3, e4, e5, e6, e7, if_true, if_false]⟩)
    by_cases e8 : a < 0xFFFF
    · omega
    · exact Or.inr (Or.inr ⟨by omega, by
        simp only [read, e1, e2, e3, e4, e5, e6, e7, e8, if_true, if_false]⟩)

theorem write_at_index (gb : GameBoy) (a b : Nat) (r : Region) (i : Nat)
    (h : write_index a = some (r, i)) : write gb a b = some (r.set gb i b) := by
  rcases write_index_cases a with ⟨c, c', e⟩ | ⟨c, c', e⟩ | ⟨c, c', e⟩ | ⟨c, c', e⟩ | ⟨_, e⟩ <;>
    rw [e] at h <;> cases h
  · exact write_vram gb a b c c'
  · rw [wram_index]; exact write_wram gb a b c c'
  · rw [land_0xFF]; exact write_oam gb a b c c'
  · rw [land_0x7F]; exact write_hram gb a b c c'

theorem write_no_index (gb : GameBoy) (a b : Nat) (h : write_index a = none) :
    (a < 0xFF00 ∧ write gb a b = some gb) ∨
      (0xFF00 ≤ a ∧ a < 0xFF80 ∧ write gb a b = io_write gb a b) ∨
      (0xFFFF ≤ a ∧ write gb a b = some { gb with ie := b &&& 0x1F }) := by
  rcases write_index_cases a with ⟨c, c', e⟩ | ⟨c, c', e⟩ | ⟨c, c', e⟩ | ⟨c, c', e⟩ | ⟨c, _⟩
  · rw [e] at h; cases h
  · rw [e] at h; cases h
  · rw [e] at h; cases h
  · rw [e] at h; cases h
  · by_cases e1 : a < 0x8000
    · exact Or.inl ⟨by omega, write_rom gb a b e1⟩
    by_cases e2 : a < 0xA000
    · omega
    by_cases e3 : a < 0xC000
    · exact Or.inl ⟨by omega, by simp only [write, e1, e2, e3, if_true, if_false]⟩
    by_cases e4 : a < 0xFE00
    · omega
    by_cases e5 : a < 0xFEA0
    · omega
    by_cases e6 : a < 0xFF00
    · exact Or.inl ⟨e6, by simp only [write, e1, e2, e3, e4, e5, e6, if_true, if_false]⟩
    by_cases e7 : a < 0xFF80
    · exact Or.inr (Or.inl ⟨by omega, e7, by
        simp only [write, e1, e2, e3, e4, e5, e6, e7, if_true, if_false]⟩)
    by_cases e8 : a < 0xFFFF
    · omega
    · exact Or.inr (Or.inr ⟨by omega, by
        simp only [write, e1, e2, e3, e4, e5, e6, e7, e8, if_true, if_false]⟩)

theorem io_write_regions (gb g : GameBoy) (a x : Nat) (h : io_write gb a x = some g) :
    g.vram = gb.vram ∧ g.wram_lo = gb.wram_lo ∧ g.oam = gb.oam ∧ g.hram = gb.hram ∧
      g.rom_lo = gb.rom_lo ∧ g.rom_hi = gb.rom_hi := by
  revert h
  unfold io_write
  lift_lets
  intro ad
  repeat' refine ite_some_elim ?_ ?_
  all_goals
    intro h
    cases h
    try exact ⟨rfl, rfl, rfl, rfl, rfl, rfl⟩

theorem bg_map_index_bound (gb : GameBoy) (x y : Nat) (hx : x < 160) (hy : y < 144) :
    bg_map_index gb x y < 0x2000 := by
  unfold bg_map_index
  split_ifs <;> omega

theorem bg_tile_id_bound (gb : GameBoy) (x y : Nat) (hv : gb.vram (bg_map_index gb x y) < 256) :
    bg_tile_id gb x y < 0x180 := by
  have e : get_bg_tile gb (x / 8) (y / 8) false = gb.vram (bg_map_index gb x y) := rfl
  unfold bg_tile_id
  lift_lets
  intro t
  have ht : t < 256 := by
    show get_bg_tile gb (x / 8) (y / 8) false < 256
    rw [e]; exact hv
  split_ifs with hc
  · simp only [Bool.and_eq_true, decide_eq_true_eq] at hc
    omega
  · omega

theorem get_tile_pixel_le (gb : GameBoy) (t x y : Nat) : get_tile_pixel gb t x y ≤ 3 := by
  unfold get_tile_pixel
  lift_lets
  intro l m l1 m1
  have hl : l1 ≤ 1 := by
    show (l >>> (7 - x)) &&& 1 ≤ 1
    rw [Nat.and_one_is_mod]; omega
  have hm : m1 ≤ 1 := by
    show (m >>> (7 - x)) &&& 1 ≤ 1
    rw [Nat.and_one_is_mod]; omega
  have e : m1 <<< 1 = m1 * 2 := by rw [Nat.shiftLeft_eq]
  rw [e]
  omega

theorem render_pixel_eq (gb : GameBoy) (x y : Nat) :
    render_pixel gb x y =
      { gb with
        fbuf := store gb.fbuf (x + SCREEN_WIDTH * y)
          (get_tile_pixel gb (bg_tile_id gb x y) (x % 8) (y % 8)) } := rfl

theorem get_tile_pixel_eq (gb : GameBoy) (t x y : Nat) :
    get_tile_pixel gb t x y =
      ((((gb.vram (16 * t + 2 * y + 1) >>> (7 - x)) &&& 1) <<< 1) +
        ((gb.vram (16 * t + 2 * y) >>> (7 - x)) &&& 1)) % 256 := rfl

theorem fbuf_index_bound (x y : Nat) (hx : x < 160) (hy : y < 144) :
    x + SCREEN_WIDTH * y < SCREEN_WIDTH * SCREEN_HEIGHT := by
  simp only [SCREEN_WIDTH, SCREEN_HEIGHT]
  omega

theorem lcd_cycle_store (gb : GameBoy) (h1 : (lcd_cycle gb).ly < 144)
    (h2 : 0 ≤ (lcd_cycle gb).dots) (h3 : (lcd_cycle gb).dots < 160) :
    (lcd_cycle gb).fbuf =
      store gb.fbuf ((lcd_cycle gb).dots.toNat + SCREEN_WIDTH * (lcd_cycle gb).ly)
        (get_tile_pixel gb (bg_tile_id gb (lcd_cycle gb).dots.toNat (lcd_cycle gb).ly)
          ((lcd_cycle gb).dots.toNat % 8) ((lcd_cycle gb).ly % 8)) := by
  have f := lcd_cycle_fbuf gb
  rw [if_pos ⟨h1, h3, h2⟩, render_pixel_eq] at f
  exact f

/-- C35: every block index computed by the bus and by the renderer is in
bounds.  For every address, the index at which `read` dereferences and the
index at which `write` assigns a block is below the size of that block (VRAM
0x2000, the WRAM block 0x2000, OAM 0xA0, HRAM 0x7F, the ROM image 0x8000),
`read` returns and `write` stores the byte at exactly that index, and where
there is no such index the access touches no block.  For every state whose
VRAM holds bytes and every pixel `(x, y)` with `x < 160` and `y < 144`, the
tile-map index and both tile-data indices of `render_pixel` are below 0x2000,
the framebuffer index is below `160 * 144` and the colour stored is at most
3; and a step of `lcd_cycle` that ends inside the visible window stores that
colour at that index. -/
theorem index_bounds (gb : GameBoy) (a b x y : Nat) (hx : x < 160) (hy : y < 144)
    (hv : ∀ i, gb.vram i < 256) :
    (∀ r i, read_index a = some (r, i) →
      i < r.size ∧
      (gb.rom_hi = gb.rom_lo.map (fun p j => p (0x4000 + j)) → gb.rom_lo ≠ none →
        read gb a = r.get gb i)) ∧
    (read_index a = none →
      (a < 0xFF00 ∧ read gb a = some 0xFF) ∨
      (0xFF00 ≤ a ∧ a < 0xFF80 ∧ read gb a = io_read gb a) ∨
      (0xFFFF ≤ a ∧ read gb a = some gb.ie)) ∧
    (∀ r i, write_index a = some (r, i) →
      i < r.size ∧ write gb a b = some (r.set gb i b)) ∧
    (write_index a = none → ∀ g, write gb a b = some g →
      g.vram = gb.vram ∧ g.wram_lo = gb.wram_lo ∧ g.oam = gb.oam ∧ g.hram = gb.hram ∧
      g.rom_lo = gb.rom_lo ∧ g.rom_hi = gb.rom_hi) ∧
    bg_map_index gb x y < Region.vram.size ∧
    get_bg_tile gb (x / 8) (y / 8) false = gb.vram (bg_map_index gb x y) ∧
    16 * bg_tile_id gb x y + 2 * (y % 8) < Region.vram.size ∧
    16 * bg_tile_id gb x y + 2 * (y % 8) + 1 < Region.vram.size ∧
    get_tile_pixel gb (bg_tile_id gb x y) (x % 8) (y % 8) =
      ((((gb.vram (16 * bg_tile_id gb x y + 2 * (y % 8) + 1) >>> (7 - x % 8)) &&& 1) <<< 1) +
        ((gb.vram (16 * bg_tile_id gb x y + 2 * (y % 8)) >>> (7 - x % 8)) &&& 1)) % 256 ∧
    render_pixel gb x y =
      { gb with
        fbuf := store gb.fbuf (x + SCREEN_WIDTH * y)
          (get_tile_pixel gb (bg_tile_id gb x y) (x % 8) (y % 8)) } ∧
    x + SCREEN_WIDTH * y < SCREEN_WIDTH * SCREEN_HEIGHT ∧
    get_tile_pixel gb (bg_tile_id gb x y) (x % 8) (y % 8) ≤ 3 ∧
    ((lcd_cycle gb).ly < 144 → 0 ≤ (lcd_cycle gb).dots → (lcd_cycle gb).dots < 160 →
      ∃ i c, i < 160 * 144 ∧ c ≤ 3 ∧ (lcd_cycle gb).fbuf = store gb.fbuf i c) := by
  have ht := bg_tile_id_bound gb x y (hv _)
  have hs : Region.vram.size = 0x2000 := rfl
  refine ⟨fun r i h => ⟨read_index_bound a r i h, fun h1 h2 => read_at_index gb a r i h1 h2 h⟩,
    read_no_index gb a,
    fun r i h => ⟨write_index_bound a r i h, write_at_index gb a b r i h⟩,
    ?_, bg_map_index_bound gb x y hx hy, rfl, by rw [hs]; omega, by rw [hs]; omega,
    get_tile_pixel_eq _ _ _ _, render_pixel_eq gb x y, fbuf_index_bound x y hx hy,
    get_tile_pixel_le _ _ _ _, ?_⟩
  · intro h g hw
    rcases write_no_index gb a b h with ⟨_, e⟩ | ⟨_, _, e⟩ | ⟨_, e⟩
    · rw [e] at hw
      rw [← Option.some.inj hw]
      exact ⟨rfl, rfl, rfl, rfl, rfl, rfl⟩
    · rw [e] at hw
      exact io_write_regions gb g a b hw
    · rw [e] at hw
      rw [← Option.some.inj hw]
      exact ⟨rfl, rfl, rfl, rfl, rfl, rfl⟩
  · intro h1 h2 h3
    refine ⟨_, _, ?_, get_tile_pixel_le _ _ _ _, lcd_cycle_store gb h1 h2 h3⟩
    have := fbuf_index_bound (lcd_cycle gb).dots.toNat (lcd_cycle gb).ly (by omega) h1
    simp only [SCREEN_WIDTH, SCREEN_HEIGHT] at this ⊢
    exact this

theorem s5_vram_bytes : ∀ i, s5_state.vram i < 256 := by
  intro i
  show (if i < 16 ∧ i % 2 = 0 then 0xFF else 0x00) < 256
  split_ifs <;> decide

/-- C35 at scenario S5's state, the echo address `0xFDFF` and the last pixel
`(159, 143)`: the work-RAM index is `0x1DFF`, the tile-map index `0x1A33`,
and the framebuffer index `23039`. -/
theorem index_bounds_witness :
    read_index 0xFDFF = some (Region.wram, 0x1DFF) ∧
    bg_map_index s5_state 159 143 = 0x1A33 ∧
    159 + SCREEN_WIDTH * 143 = 23039 ∧
    16 * bg_tile_id s5_state 159 143 + 2 * (143 % 8) + 1 < Region.vram.size := by
  have h := index_bounds s5_state 0xFDFF 0 159 143 (by decide) (by decide) s5_vram_bytes
  exact ⟨by decide, by decide, by decide, h.2.2.2.2.2.2.2.1⟩

/-! ### Interrupt dispatch and the LCD -/

theorem lcd_same_symm {g g' : GameBoy} (h : lcd_same g g') : lcd_same g' g :=
  ⟨h.1.symm, h.2.1.symm, h.2.2.1.symm, h.2.2.2.symm⟩

theorem lcd_same_trans {g g' g'' : GameBoy} (h : lcd_same g g') (k : lcd_same g' g'') :
    lcd_same g g'' :=
  ⟨h.1.trans k.1, h.2.1.trans k.2.1, h.2.2.1.trans k.2.2.1, h.2.2.2.trans k.2.2.2⟩

/-- A tick acts on the scalar LCD fields as a function of these fields and of
`lcd_en` alone. -/
theorem cycle_congr (g g' : GameBoy) (h : lcd_same g g') (he : g.lcd_en = g'.lcd_en) :
    lcd_same (cycle g) (cycle g') := by
  cases hen : g.lcd_en with
  | false =>
    rw [cycle_lcd_off g hen, cycle_lcd_off g' (he ▸ hen)]
    exact h
  | true =>
    exact lcd_same_trans (cycle_lcd_same g hen)
      (lcd_same_trans (lcd_iterate_congr 4 g g' h) (lcd_same_symm (cycle_lcd_same g' (he ▸ hen))))

theorem cycle_iterate_congr (n : Nat) (g g' : GameBoy) (h : lcd_same g g')
    (he : g.lcd_en = g'.lcd_en) : lcd_same (cycle^[n] g) (cycle^[n] g') := by
  induction n with
  | zero => exact h
  | succ n ih =>
    rw [Function.iterate_succ_apply', Function.iterate_succ_apply']
    exact cycle_congr _ _ ih (by rw [cycle_iterate_lcd_en, cycle_iterate_lcd_en, he])

/-- A push whose two stack bytes lie outside the I/O page and `IE` moves the
LCD as its three ticks do. -/
theorem push_cycle16_lcd (gb : GameBoy) (v : Nat)
    (h1 : non_io (u16 ((gb.sp : Int) - 1))) (h2 : non_io (u16 ((gb.sp : Int) - 2))) :
    ∃ g1, push_cycle16 gb v = some g1 ∧ lcd_same g1 (cycle^[3] gb) := by
  have ea : u16 ((u16 ((gb.sp : Int) - 1) : Int) - 1) = u16 ((gb.sp : Int) - 2) := by
    unfold u16; omega
  have h2' : non_io (u16 ((u16 ((gb.sp : Int) - 1) : Int) - 1)) := by rw [ea]; exact h2
  refine ⟨_, push_cycle16_eq gb v h1 h2', ?_⟩
  obtain ⟨A, hA⟩ : ∃ A, A = cycle gb := ⟨_, rfl⟩
  rw [← hA]
  obtain ⟨B0, hB0⟩ : ∃ B0, B0 = ram_store { A with sp := u16 ((gb.sp : Int) - 1) }
      (u16 ((gb.sp : Int) - 1)) ((v >>> 8) % 256) := ⟨_, rfl⟩
  rw [← hB0]
  have sB0 : lcd_same B0 A := by rw [hB0]; exact ⟨rfl, rfl, rfl, rfl⟩
  have eB0 : B0.lcd_en = A.lcd_en := by rw [hB0]; rfl
  have sB : lcd_same (cycle B0) (cycle A) := cycle_congr _ _ sB0 eB0
  obtain ⟨B, hB⟩ : ∃ B, B = cycle B0 := ⟨_, rfl⟩
  rw [← hB] at sB ⊢
  have eB : B.lcd_en = (cycle A).lcd_en := by rw [hB, cycle_lcd_en, cycle_lcd_en, eB0]
  obtain ⟨C0, hC0⟩ : ∃ C0, C0 = ram_store
      { B with sp := u16 ((u16 ((gb.sp : Int) - 1) : Int) - 1) }
      (u16 ((u16 ((gb.sp : Int) - 1) : Int) - 1)) (v &&& 0xFF) := ⟨_, rfl⟩
  rw [← hC0]
  have sC0 : lcd_same C0 B := by rw [hC0]; exact ⟨rfl, rfl, rfl, rfl⟩
  have eC0 : C0.lcd_en = B.lcd_en := by rw [hC0]; rfl
  have sC : lcd_same (cycle C0) (cycle (cycle A)) :=
    lcd_same_trans (cycle_congr _ _ sC0 eC0) (cycle_congr _ _ sB eB)
  rw [hA] at sC
  exact sC

/-- Over `n` dots the vblank bit of `if_` is set exactly when one of the dots
enters line 144. -/
theorem lcd_iterate_if (g : GameBoy) (h : lcd_inv g) (n : Nat) :
    ((∀ j : Nat, 1 ≤ j → j ≤ n → (lcd_pos g + j) % 70224 ≠ 65664) →
      (lcd_cycle^[n] g).if_ = g.if_) ∧
    ((∃ j : Nat, 1 ≤ j ∧ j ≤ n ∧ (lcd_pos g + j) % 70224 = 65664) →
      (lcd_cycle^[n] g).if_ = g.if_ ||| 1) := by
  refine ⟨fun hf => ((lcd_iterate g h n).2.2 hf).2, ?_⟩
  induction n with
  | zero =>
    rintro ⟨j, a, b, _⟩
    omega
  | succ n ih =>
    rintro ⟨j, a, b, c⟩
    obtain ⟨i1, i2, i3⟩ := lcd_iterate g h n
    rw [Function.iterate_succ_apply']
    obtain ⟨_, _, s3, s4⟩ := lcd_cycle_pos _ i1
    have hprev : (lcd_cycle^[n] g).if_ = g.if_ ∨ (lcd_cycle^[n] g).if_ = g.if_ ||| 1 := by
      by_cases k : ∃ j : Nat, 1 ≤ j ∧ j ≤ n ∧ (lcd_pos g + j) % 70224 = 65664
      · exact Or.inr (ih k)
      · refine Or.inl (i3 ?_).2
        intro j' a' b' c'
        exact k ⟨j', a', b', c'⟩
    by_cases hit : (lcd_pos (lcd_cycle^[n] g) + 1) % 70224 = 65664
    · rw [(s3 hit).2]
      rcases hprev with e | e <;> rw [e]
      exact lor_one_idem _
    · rw [(s4 hit).2]
      have hj : j ≤ n := by
        by_contra hc
        have : j = n + 1 := by omega
        rw [this] at c
        rw [i2] at hit
        push_cast at c
        omega
      exact ih ⟨j, a, hj, c⟩

/-- The interrupt branch of `run_opcode` with the stack outside the I/O page
and `IE`: the state after the push has the LCD fields of four ticks, and the
closing tick runs on it with the selected bit cleared. -/
theorem dispatch_run (gb : GameBoy)
    (hime : gb.ime = true) (hpend : gb.ie &&& gb.if_ ≠ 0) (hie : gb.ie < 32)
    (h1 : non_io (u16 ((gb.sp : Int) - 1))) (h2 : non_io (u16 ((gb.sp : Int) - 2))) :
    ∃ g1 bit,
      push_cycle16 (cycle { gb with ime := false }) gb.pc = some g1 ∧
      run_opcode gb = some (cycle { g1 with if_ := clear_bit g1.if_ bit, pc := 0x40 + 8 * bit }) ∧
      lcd_same g1 (cycle^[4] gb) ∧ g1.lcd_en = gb.lcd_en ∧ g1.ie = gb.ie ∧
      bit < 5 ∧ (gb.ie &&& g1.if_).testBit bit = true ∧
      (∀ j, j < bit → (gb.ie &&& g1.if_).testBit j = false) := by
  obtain ⟨g1, hp, hsp1, hv, hw, ho, hh, hie1, hime1, hpc1, hlcd1, hif1, hoff1, hcy1⟩ :=
    push_cycle16_spec (cycle { gb with ime := false }) (cycle { gb with ime := false }).pc
      (by simpa only [cycle_sp] using h1) (by simpa only [cycle_sp] using h2)
  obtain ⟨g1', hp', hs⟩ :=
    push_cycle16_lcd (cycle { gb with ime := false }) (cycle { gb with ime := false }).pc
      (by simpa only [cycle_sp] using h1) (by simpa only [cycle_sp] using h2)
  have eg : g1' = g1 := Option.some.inj (hp'.symm.trans hp)
  rw [eg] at hs
  simp only [cycle_ie] at hie1
  simp only [cycle_lcd_en] at hlcd1
  have hp2 := hp
  simp only [cycle_pc] at hp2
  have hs0 : lcd_same (cycle { gb with ime := false }) (cycle gb) :=
    cycle_congr _ _ ⟨rfl, rfl, rfl, rfl⟩ rfl
  have hs1 : lcd_same (cycle^[3] (cycle { gb with ime := false })) (cycle^[3] (cycle gb)) :=
    cycle_iterate_congr 3 _ _ hs0 (by rw [cycle_lcd_en, cycle_lcd_en])
  have hs4 : lcd_same g1 (cycle^[4] gb) := lcd_same_trans hs hs1
  have hifa : g1.if_ = gb.if_ ∨ g1.if_ = gb.if_ ||| 1 :=
    if_step _ _ _ (cycle_if { gb with ime := false }) hif1
  have hx1 : g1.ie &&& g1.if_ ≠ 0 := by
    rw [hie1]
    rcases hifa with e | e <;> rw [e]
    · exact hpend
    · exact land_lor_one_ne_zero _ _ hpend
  obtain ⟨bit, hb, ht, hl, hsel⟩ := dispatch_select g1 (by rw [hie1]; exact hie) hx1
  have hrun : run_opcode gb =
      some (cycle { g1 with if_ := clear_bit g1.if_ bit, pc := 0x40 + 8 * bit }) := by
    unfold run_opcode
    rw [if_pos ⟨hime, hpend⟩]
    simp only []
    rw [hp]
    simp only []
    rw [hsel]
  rw [hie1] at ht hl
  exact ⟨g1, bit, hp2, hrun, hs4, hlcd1, hie1, hb, ht, hl⟩

/-- The vblank bit over the five ticks of a dispatch, by the LCD position:
`if_` after four ticks, and after a fifth tick that starts from `if_ = c`. -/
theorem dispatch_lcd (gb : GameBoy) (c : Nat) (hen : gb.lcd_en = true) (hinv : lcd_inv gb) :
    ((∀ j : Nat, 1 ≤ j → j ≤ 16 → (lcd_pos gb + j) % 70224 ≠ 65664) →
      (cycle^[4] gb).if_ = gb.if_) ∧
    ((∃ j : Nat, 1 ≤ j ∧ j ≤ 16 ∧ (lcd_pos gb + j) % 70224 = 65664) →
      (cycle^[4] gb).if_ = gb.if_ ||| 1) ∧
    ((∀ j : Nat, 17 ≤ j → j ≤ 20 → (lcd_pos gb + j) % 70224 ≠ 65664) →
      (cycle { cycle^[4] gb with if_ := c }).if_ = c) ∧
    ((∃ j : Nat, 17 ≤ j ∧ j ≤ 20 ∧ (lcd_pos gb + j) % 70224 = 65664) →
      (cycle { cycle^[4] gb with if_ := c }).if_ = c ||| 1) := by
  have s16 : lcd_same (cycle^[4] gb) (lcd_cycle^[16] gb) := cycle_iterate_lcd_same gb hen 4
  obtain ⟨f1, f2⟩ := lcd_iterate_if gb hinv 16
  obtain ⟨i1, i2, _⟩ := lcd_iterate gb hinv 16
  obtain ⟨X, hX⟩ : ∃ X : GameBoy, X = { cycle^[4] gb with if_ := c } := ⟨_, rfl⟩
  have hXd : X.dots = (lcd_cycle^[16] gb).dots := by rw [hX]; exact s16.1
  have hXl : X.ly = (lcd_cycle^[16] gb).ly := by rw [hX]; exact s16.2.1
  have hXi : X.if_ = c := by rw [hX]
  have hXe : X.lcd_en = true := by
    rw [hX]
    show (cycle^[4] gb).lcd_en = true
    rw [cycle_iterate_lcd_en, hen]
  have hXinv : lcd_inv X := by
    unfold lcd_inv
    rw [hXd, hXl]
    exact i1
  have hXp : lcd_pos X = (lcd_pos gb + 16) % 70224 := by
    have : lcd_pos X = lcd_pos (lcd_cycle^[16] gb) := by
      unfold lcd_pos
      rw [hXd, hXl]
    rw [this, i2]
    rfl
  have s4 : lcd_same (cycle X) (lcd_cycle^[4] X) := cycle_lcd_same X hXe
  obtain ⟨k1, k2⟩ := lcd_iterate_if X hXinv 4
  rw [← hX]
  refine ⟨fun hf => s16.2.2.2.trans (f1 hf), fun hh => s16.2.2.2.trans (f2 hh), ?_, ?_⟩
  · intro hf
    rw [s4.2.2.2, ← hXi]
    apply k1
    intro j a b
    have := hf (16 + j) (by omega) (by omega)
    rw [hXp]
    push_cast at this
    omega
  · rintro ⟨j, a, b, e⟩
    rw [s4.2.2.2, ← hXi]
    apply k2
    refine ⟨j - 16, by omega, by omega, ?_⟩
    rw [hXp]
    have hj : ((j - 16 : Nat) : Int) = (j : Int) - 16 := by omega
    rw [hj]
    omega

/-- C1 (amended): in every machine state with `IME` set, `IE AND IF` nonzero,
`IE` a 5-bit value and the two stack bytes at `SP-1`, `SP-2` outside the I/O
page and `IE` (so that the push is neither fatal nor a write to `IF` or `IE`),
one call of `run_opcode` fetches no opcode (it makes exactly five ticks and
`PC` ends at the vector); it clears `IME`, pushes `PC` through the bus with
`SP` lowered by two, and selects the lowest-numbered bit set in `IE AND if1`,
where `if1` is `IF` as it stands after the push, which is `IF` after four
ticks of `cycle`: `IF` itself when the LCD is off or enters line 144 in none
of the next 16 dots, and `IF` with the vblank bit when it does.  That bit is
cleared in `if1`, `PC` becomes `0x40 + 8*bit`, and `IF` on return is what the
closing tick makes of that value: the value itself when the LCD is off or
enters line 144 in none of the dots 17 to 20, and the value with the vblank
bit set again when it does. -/
theorem interrupt_dispatch (gb : GameBoy)
    (hime : gb.ime = true) (hpend : gb.ie &&& gb.if_ ≠ 0) (hie : gb.ie < 32)
    (h1 : non_io (u16 ((gb.sp : Int) - 1))) (h2 : non_io (u16 ((gb.sp : Int) - 2))) :
    ∃ g w if1 bit,
      run_opcode gb = some g ∧
      (write gb (u16 ((gb.sp : Int) - 1)) ((gb.pc >>> 8) % 256)).bind
          (fun w1 => write w1 (u16 ((gb.sp : Int) - 2)) (gb.pc &&& 0xFF)) = some w ∧
      g.vram = w.vram ∧ g.wram_lo = w.wram_lo ∧ g.oam = w.oam ∧ g.hram = w.hram ∧
      g.sp = u16 ((gb.sp : Int) - 2) ∧
      (if1 = gb.if_ ∨ if1 = gb.if_ ||| 1) ∧ (gb.lcd_en = false → if1 = gb.if_) ∧
      bit < 5 ∧ (gb.ie &&& if1).testBit bit = true ∧
      (∀ j, j < bit → (gb.ie &&& if1).testBit j = false) ∧
      g.pc = 0x40 + 8 * bit ∧
      (g.if_ = clear_bit if1 bit ∨ g.if_ = clear_bit if1 bit ||| 1) ∧
      (gb.lcd_en = false → g.if_ = clear_bit if1 bit) ∧
      g.ime = false ∧ g.ie = gb.ie ∧
      g.cycles = (gb.cycles + 10) % 4294967296 ∧
      if1 = (cycle^[4] gb).if_ ∧
      g.if_ = (cycle { cycle^[4] gb with if_ := clear_bit if1 bit }).if_ ∧
      (gb.lcd_en = true → lcd_inv gb →
        ((∀ j : Nat, 1 ≤ j → j ≤ 16 → (lcd_pos gb + j) % 70224 ≠ 65664) → if1 = gb.if_) ∧
        ((∃ j : Nat, 1 ≤ j ∧ j ≤ 16 ∧ (lcd_pos gb + j) % 70224 = 65664) →
          if1 = gb.if_ ||| 1) ∧
        ((∀ j : Nat, 17 ≤ j → j ≤ 20 → (lcd_pos gb + j) % 70224 ≠ 65664) →
          g.if_ = clear_bit if1 bit) ∧
        ((∃ j : Nat, 17 ≤ j ∧ j ≤ 20 ∧ (lcd_pos gb + j) % 70224 = 65664) →
          g.if_ = clear_bit if1 bit ||| 1)) := by
  obtain ⟨g1, bit, hp0, hrun, hs4, hlcd1, hie1, hb, ht, hl⟩ := dispatch_run gb hime hpend hie h1 h2
  obtain ⟨g1', hp, hsp1, hv, hw, ho, hh, _, hime1, hpc1, _, hif1, hoff1, hcy1⟩ :=
    push_cycle16_spec (cycle { gb with ime := false }) (cycle { gb with ime := false }).pc
      (by simpa only [cycle_sp] using h1) (by simpa only [cycle_sp] using h2)
  simp only [cycle_pc] at hp
  have eg : g1' = g1 := Option.some.inj (hp.symm.trans hp0)
  rw [eg] at hsp1 hv hw ho hh hime1 hpc1 hif1 hoff1 hcy1
  simp only [cycle_sp, cycle_pc] at hsp1
  simp only [ram_store, cycle_vram, cycle_sp, cycle_pc] at hv
  simp only [ram_store, cycle_wram_lo, cycle_sp, cycle_pc] at hw
  simp only [ram_store, cycle_oam, cycle_sp, cycle_pc] at ho
  simp only [ram_store, cycle_hram, cycle_sp, cycle_pc] at hh
  simp only [cycle_ime] at hime1
  simp only [cycle_lcd_en] at hoff1
  simp only [cycle_cycles] at hcy1
  have hifa : g1.if_ = gb.if_ ∨ g1.if_ = gb.if_ ||| 1 :=
    if_step _ _ _ (cycle_if { gb with ime := false }) hif1
  have hifoff : gb.lcd_en = false → g1.if_ = gb.if_ := by
    intro hoff
    rw [hoff1 hoff, cycle_lcd_off { gb with ime := false } hoff]
  have hfin : lcd_same (cycle { g1 with if_ := clear_bit g1.if_ bit, pc := 0x40 + 8 * bit })
      (cycle { cycle^[4] gb with if_ := clear_bit g1.if_ bit }) := by
    refine cycle_congr _ _ ⟨hs4.1, hs4.2.1, hs4.2.2.1, rfl⟩ ?_
    show g1.lcd_en = (cycle^[4] gb).lcd_en
    rw [hlcd1, cycle_iterate_lcd_en]
  refine ⟨_, ram_store (ram_store gb (u16 ((gb.sp : Int) - 1)) ((gb.pc >>> 8) % 256))
      (u16 ((gb.sp : Int) - 2)) (gb.pc &&& 0xFF), g1.if_, bit, hrun, ?_, ?_, ?_, ?_, ?_, ?_,
      hifa, hifoff, hb, ht, hl, ?_, ?_, ?_, ?_, ?_, ?_, hs4.2.2.2, hfin.2.2.2, ?_⟩
  · rw [write_non_io _ _ _ h1, Option.some_bind, write_non_io _ _ _ h2]
  · simp only [cycle_vram, ram_store]
    exact hv
  · simp only [cycle_wram_lo, ram_store]
    exact hw
  · simp only [cycle_oam, ram_store]
    exact ho
  · simp only [cycle_hram, ram_store]
    exact hh
  · simp only [cycle_sp]
    exact hsp1
  · simp only [cycle_pc]
  · exact cycle_if { g1 with if_ := clear_bit g1.if_ bit, pc := 0x40 + 8 * bit }
  · intro hoff
    rw [cycle_lcd_off _ (by rw [← hoff, ← hlcd1])]
  · simp only [cycle_ime]
    exact hime1
  · simp only [cycle_ie]
    exact hie1
  · simp only [cycle_cycles]
    rw [hcy1]
    omega
  · intro hen hinv
    obtain ⟨d1, d2, d3, d4⟩ := dispatch_lcd gb (clear_bit g1.if_ bit) hen hinv
    exact ⟨fun hf => hs4.2.2.2.trans (d1 hf), fun hh => hs4.2.2.2.trans (d2 hh),
      fun hf => hfin.2.2.2.trans (d3 hf), fun hh => hfin.2.2.2.trans (d4 hh)⟩

/-- An instance of C1 (amended): scenario S4 on the stack of a fresh machine,
with the LCD at the start of a frame. -/
theorem interrupt_dispatch_witness :
    ∃ g w if1 bit,
      run_opcode s4_state = some g ∧
      (write s4_state (u16 ((s4_state.sp : Int) - 1)) ((s4_state.pc >>> 8) % 256)).bind
          (fun w1 => write w1 (u16 ((s4_state.sp : Int) - 2)) (s4_state.pc &&& 0xFF)) = some w ∧
      g.vram = w.vram ∧ g.wram_lo = w.wram_lo ∧ g.oam = w.oam ∧ g.hram = w.hram ∧
      g.sp = u16 ((s4_state.sp : Int) - 2) ∧
      (if1 = s4_state.if_ ∨ if1 = s4_state.if_ ||| 1) ∧ (s4_state.lcd_en = false → if1 = s4_state.if_) ∧
      bit < 5 ∧ (s4_state.ie &&& if1).testBit bit = true ∧
      (∀ j, j < bit → (s4_state.ie &&& if1).testBit j = false) ∧
      g.pc = 0x40 + 8 * bit ∧
      (g.if_ = clear_bit if1 bit ∨ g.if_ = clear_bit if1 bit ||| 1) ∧
      (s4_state.lcd_en = false → g.if_ = clear_bit if1 bit) ∧
      g.ime = false ∧ g.ie = s4_state.ie ∧
      g.cycles = (s4_state.cycles + 10) % 4294967296 ∧
      if1 = (cycle^[4] s4_state).if_ ∧
      g.if_ = (cycle { cycle^[4] s4_state with if_ := clear_bit if1 bit }).if_ ∧
      (s4_state.lcd_en = true → lcd_inv s4_state →
        ((∀ j : Nat, 1 ≤ j → j ≤ 16 → (lcd_pos s4_state + j) % 70224 ≠ 65664) → if1 = s4_state.if_) ∧
        ((∃ j : Nat, 1 ≤ j ∧ j ≤ 16 ∧ (lcd_pos s4_state + j) % 70224 = 65664) →
          if1 = s4_state.if_ ||| 1) ∧
        ((∀ j : Nat, 17 ≤ j → j ≤ 20 → (lcd_pos s4_state + j) % 70224 ≠ 65664) →
          g.if_ = clear_bit if1 bit) ∧
        ((∃ j : Nat, 17 ≤ j ∧ j ≤ 20 ∧ (lcd_pos s4_state + j) % 70224 = 65664) →
          g.if_ = clear_bit if1 bit ||| 1)) :=
  interrupt_dispatch s4_state rfl (by decide) (by decide) (by decide) (by decide)

end Rondo
